import Mathlib

/-!
# Block-preconditioned Stokes solver of ASPECT: embedding and verified properties

Source files embedded here:
* `source/simulator/solver.cc` (`StokesBlock`, `BlockSchurPreconditioner`,
  `Simulator::solve_stokes`),
* `source/simulator/stokes_matrix_free.cc` (the matrix-free
  `BlockSchurPreconditioner`, the `Assert`s of the constructor of
  `StokesMatrixFreeHandler`, `StokesMatrixFreeHandler::solve` and
  `StokesMatrixFreeHandler::get_workload_imbalance`),
* `source/simulator/helper_functions.cc` (`Simulator::normalize_pressure`,
  `denormalize_pressure`, `make_pressure_rhs_compatible` and
  `convert_pressure_blocks`),
* `source/mesh_refinement/composition_gradient.cc` and
  `source/mesh_refinement/composition_threshold.cc` (the two `execute`
  functions).

Conventions of the embedding.
* `double` is an arbitrary linearly ordered field `R` (exact arithmetic); all
  definitions are computable and can be run at `R = ℚ`.
* A distributed vector with `n` entries is a function `Fin n → R`; a sparse
  matrix is a `Matrix`; the deal.II operations on them (`vmult`, `vmult_add`,
  `sadd`, `l2_norm`, ...) are modelled by their documented meaning.
* The square root, the Krylov solvers and the preconditioner objects belong to
  deal.II / Trilinos and are parameters.
* Mutable members and reference arguments are passed and returned explicitly;
  an exception is a value in the result. The inner iteration counters are
  natural numbers.
* Calls into the library that matter for the properties are recorded in a
  list kept next to the result (`calls`, `events`).
* Block 0 is the velocity block and block 1 the pressure block, as asserted in
  the source; the entry of the two solvers up to these `Assert`s is given for
  any block layout (`solve_stokes_with_layout`, `solve_with_layout`).
* For `normalize_pressure` and the other functions of helper_functions.cc the
  vector with all solution variables is given by its block sizes and its
  entries by global index, and the work of all processes is taken together:
  every process handles the cells it owns and `Utilities::MPI::sum` adds the
  contributions.
* `AssertThrow` throws in every build. `Assert` is compiled only into a debug
  build, where a violated condition ends the program; the functions in which
  an `Assert` matters take the kind of build as the argument `debug`.
-/

namespace aspect

/-! ## Vectors and matrices (deal.II linear algebra) -/

/-- A (distributed) vector with `n` entries. -/
abbrev Vector (R : Type) (n : ℕ) := Fin n → R

/-- Library call `Vector::norm_sqr`: the sum of the squares of the entries. -/
def Vector.norm_sqr {R : Type} [LinearOrderedField R] {n : ℕ} (v : Vector R n) : R :=
  ∑ i, v i * v i

/-- Library call `Vector::l2_norm`: the square root of `norm_sqr`; the square
root function itself is a parameter. -/
def Vector.l2_norm {R : Type} [LinearOrderedField R] {n : ℕ} (sqrt : R → R)
    (v : Vector R n) : R :=
  sqrt (Vector.norm_sqr v)

/-- Library call `Vector::sadd(s, a, V)`: `*this = s * (*this) + a * V`. -/
def Vector.sadd {R : Type} [LinearOrderedField R] {n : ℕ} (this : Vector R n) (s a : R)
    (V : Vector R n) : Vector R n :=
  s • this + a • V

/-- A block vector with exactly two blocks: `block0` is the velocity block
(`nu` entries) and `block1` the pressure block (`np` entries). -/
@[ext]
structure BlockVector (R : Type) (nu np : ℕ) where
  /-- The velocity block, `block(0)`. -/
  block0 : Vector R nu
  /-- The pressure block, `block(1)`. -/
  block1 : Vector R np

/-- Library call `BlockVector::l2_norm`: the square root of the sum of the
`norm_sqr` of the blocks. -/
def BlockVector.l2_norm {R : Type} [LinearOrderedField R] {nu np : ℕ} (sqrt : R → R)
    (v : BlockVector R nu np) : R :=
  sqrt (Vector.norm_sqr v.block0 + Vector.norm_sqr v.block1)

/-- A sparse matrix with `m` rows and `n` columns. -/
abbrev SparseMatrix (R : Type) (m n : ℕ) := Matrix (Fin m) (Fin n) R

/-- Library call `SparseMatrix::vmult(dst, src)`: `dst = M * src`; the value
returned is the new content of `dst`. -/
def SparseMatrix.vmult {R : Type} [LinearOrderedField R] {m n : ℕ} (M : SparseMatrix R m n)
    (src : Vector R n) : Vector R m :=
  Matrix.mulVec M src

/-- Library call `SparseMatrix::vmult_add(dst, src)`: `dst += M * src`; the
value returned is the new content of `dst`. -/
def SparseMatrix.vmult_add {R : Type} [LinearOrderedField R] {m n : ℕ} (M : SparseMatrix R m n)
    (dst : Vector R m) (src : Vector R n) : Vector R m :=
  dst + Matrix.mulVec M src

/-- Library call `SparseMatrix::residual(dst, x, b)`: `dst = b - M * x`, and the
l2 norm of `dst` is returned. The pair is (new `dst`, returned number). -/
def SparseMatrix.residual {R : Type} [LinearOrderedField R] {m n : ℕ} (sqrt : R → R)
    (M : SparseMatrix R m n) (x : Vector R n) (b : Vector R m) : Vector R m × R :=
  (b - Matrix.mulVec M x, Vector.l2_norm sqrt (b - Matrix.mulVec M x))

/-- The Stokes part of `LinearAlgebra::BlockSparseMatrix`: the four blocks
`block(i,j)` with `i, j < 2`. -/
structure BlockSparseMatrix (R : Type) (nu np : ℕ) where
  /-- The velocity-velocity block `block(0,0)`. -/
  block00 : SparseMatrix R nu nu
  /-- The velocity-pressure block `block(0,1)` (B^T). -/
  block01 : SparseMatrix R nu np
  /-- The pressure-velocity block `block(1,0)` (B). -/
  block10 : SparseMatrix R np nu
  /-- The pressure-pressure block `block(1,1)`. -/
  block11 : SparseMatrix R np np

namespace internal

/-! ## `StokesBlock` (solver.cc) -/

/-- Class `StokesBlock`: a reference to the system matrix. -/
structure StokesBlock (R : Type) (nu np : ℕ) where
  /-- Reference to the system matrix object. -/
  system_matrix : BlockSparseMatrix R nu np

/-- `StokesBlock::vmult(dst, src)`. The argument `dst` is the content of the
destination on entry, the value is its content on exit. -/
def StokesBlock.vmult {R : Type} [LinearOrderedField R] {nu np : ℕ} (self : StokesBlock R nu np)
    (dst src : BlockVector R nu np) : BlockVector R nu np :=
  let dst : BlockVector R nu np :=
    { dst with block0 := SparseMatrix.vmult self.system_matrix.block00 src.block0 }
  let dst : BlockVector R nu np :=
    { dst with block0 := SparseMatrix.vmult_add self.system_matrix.block01 dst.block0 src.block1 }
  let dst : BlockVector R nu np :=
    { dst with block1 := SparseMatrix.vmult self.system_matrix.block10 src.block0 }
  let dst : BlockVector R nu np :=
    { dst with block1 := SparseMatrix.vmult_add self.system_matrix.block11 dst.block1 src.block1 }
  dst

/-- `StokesBlock::residual(dst, x, b)`. Only blocks 0 and 1 of `b` are read, so
`b` is given by these two blocks; `dst` has exactly two blocks (asserted in the
source), so the loop clearing the blocks from index 2 on has no iterations.
The pair is (content of `dst` on exit, returned number). -/
def StokesBlock.residual {R : Type} [LinearOrderedField R] {nu np : ℕ} (sqrt : R → R)
    (self : StokesBlock R nu np) (dst x b : BlockVector R nu np) : BlockVector R nu np × R :=
  -- compute b-Ax where A is only the top left 2x2 block
  let dst := self.vmult dst x
  let dst : BlockVector R nu np := { dst with block0 := Vector.sadd dst.block0 (-1) 1 b.block0 }
  let dst : BlockVector R nu np := { dst with block1 := Vector.sadd dst.block1 (-1) 1 b.block1 }
  (dst, BlockVector.l2_norm sqrt dst)

end internal

/-! ## Library objects used by the preconditioners and solvers -/

/-- Class `SolverControl` as constructed in the source: the iteration cap, the
absolute tolerance, the `log_history` constructor flag and whether
`enable_history_data()` was called. -/
structure SolverControl (R : Type) where
  /-- Maximal number of iterations. -/
  max_steps : ℕ
  /-- Absolute tolerance on the residual. -/
  tolerance : R
  /-- The constructor argument `log_history`. -/
  log_history : Bool
  /-- Whether `enable_history_data()` was called on the object. -/
  history_data_enabled : Bool

/-- The exceptions that occur in the solver code. -/
inductive Exception (R : Type) where
  /-- `SolverControl::NoConvergence(last_step, last_residual)`. -/
  | NoConvergence (last_step : ℕ) (last_residual : R)
  /-- An `ExcMessage` raised through `AssertThrow (false, ExcMessage (text))`. -/
  | ExcMessage (text : String)
  /-- `aspect::QuietException`, which is not derived from `std::exception`. -/
  | QuietException

/-- Whether a handler `catch (const std::exception &)` catches the exception. -/
def Exception.is_std_exception {R : Type} : Exception R → Bool
  | Exception.NoConvergence _ _ => true
  | Exception.ExcMessage _ => true
  | Exception.QuietException => false

/-- Whether a handler `catch (SolverControl::NoConvergence)` catches the
exception. -/
def Exception.is_NoConvergence {R : Type} : Exception R → Bool
  | Exception.NoConvergence _ _ => true
  | Exception.ExcMessage _ => false
  | Exception.QuietException => false

/-- What a call `solver.solve(A, x, b, preconditioner)` of a Krylov solver on
plain vectors leaves behind. -/
structure SolverOutcome (R : Type) (n : ℕ) where
  /-- Content of the solution vector `x` when `solve` exits. -/
  x : Vector R n
  /-- The value of `solver_control.last_step()` afterwards. -/
  last_step : ℕ
  /-- The value of `solver_control.get_history_data()` afterwards. -/
  history_data : List R
  /-- The exception thrown by `solve`, `none` when it returned normally (the
  solver converged). -/
  exc : Option (Exception R)

/-- A preconditioner object for vectors with `n` entries, given by the action
of its `vmult(dst, src)` on `src`. -/
abbrev Preconditioner (R : Type) (n : ℕ) := Vector R n → Vector R n

/-- The deal.II / Trilinos / MPI functionality the code relies on. A solver is
called as `solve control A x0 b preconditioner`, where `x0` is the content of
the solution vector on entry. -/
structure Library (R : Type) where
  /-- The square root `std::sqrt`. -/
  sqrt : R → R
  /-- The rank `Utilities::MPI::this_mpi_process (communicator)`. -/
  this_mpi_process : ℕ
  /-- The conversion `Utilities::to_string`. -/
  to_string : R → String
  /-- The text `exc.what()` of an exception. -/
  what : Exception R → String
  /-- `SolverFGMRES<LinearAlgebra::Vector>` with `AdditionalData(max_basis_size)`. -/
  SolverFGMRES_solve : (max_basis_size : ℕ) → SolverControl R → (n : ℕ) → SparseMatrix R n n →
    Vector R n → Vector R n → Preconditioner R n → SolverOutcome R n
  /-- `TrilinosWrappers::SolverCG`. -/
  TrilinosSolverCG_solve : SolverControl R → (n : ℕ) → SparseMatrix R n n →
    Vector R n → Vector R n → Preconditioner R n → SolverOutcome R n
  /-- `SolverCG<dealii::LinearAlgebra::distributed::Vector<double>>`. -/
  SolverCG_solve : SolverControl R → (n : ℕ) → SparseMatrix R n n →
    Vector R n → Vector R n → Preconditioner R n → SolverOutcome R n

/-- Record of a call into the library, or of a file written, made by
`BlockSchurPreconditioner::vmult`. The records are kept in the order of the
calls. -/
inductive Call (R : Type) (nu np : ℕ) where
  /-- The Schur (mass matrix) solver was started: `solver.solve` on the
  pressure block with this control, initial guess and right-hand side. -/
  | S_solve (control : SolverControl R) (x0 rhs : Vector R np)
  /-- The velocity (top left) solver was started with this control, initial
  guess and right-hand side. -/
  | A_solve (control : SolverControl R) (x0 rhs : Vector R nu)
  /-- The call `a_preconditioner.vmult (dst.block(0), src)` was made. -/
  | a_preconditioner_vmult (src : Vector R nu)
  /-- A file with this name was written from the history data (console output
  is not recorded). -/
  | write_file (name : String) (history_data : List R)

/-- Whether the record is a start of the Schur solver. -/
def Call.is_S_solve {R : Type} {nu np : ℕ} : Call R nu np → Bool
  | Call.S_solve _ _ _ => true
  | _ => false

/-- Whether the record is a start of the velocity solver. -/
def Call.is_A_solve {R : Type} {nu np : ℕ} : Call R nu np → Bool
  | Call.A_solve _ _ _ => true
  | _ => false

/-- Whether the record is an application of the velocity preconditioner. -/
def Call.is_a_preconditioner_vmult {R : Type} {nu np : ℕ} : Call R nu np → Bool
  | Call.a_preconditioner_vmult _ => true
  | _ => false

/-- State at an exit point of `BlockSchurPreconditioner::vmult`, for the
preconditioner class `P`. -/
structure VmultResult (P : Type) (R : Type) (nu np : ℕ) where
  /-- The preconditioner object (only its counters can have changed). -/
  precond : P
  /-- The library calls made so far, in order. -/
  calls : List (Call R nu np)
  /-- The content of the argument `dst`. -/
  dst : BlockVector R nu np
  /-- The exception with which the function exits, `none` on normal return. -/
  raised : Option (Exception R)

namespace internal

/-! ## `BlockSchurPreconditioner` (solver.cc) -/

/-- Class `BlockSchurPreconditioner` of solver.cc. The two counters are the
`mutable` members; they are `unsigned int` in the source and count from zero
for every solve, far below the range of the type, so they are natural
numbers here. -/
structure BlockSchurPreconditioner (R : Type) (nu np : ℕ) where
  /-- Reference to the Stokes system matrix. -/
  stokes_matrix : BlockSparseMatrix R nu np
  /-- Reference to the matrix holding the preconditioner blocks. -/
  stokes_preconditioner_matrix : BlockSparseMatrix R nu np
  /-- Preconditioner of the Schur complement (mass matrix). -/
  mp_preconditioner : Preconditioner R np
  /-- Preconditioner of the velocity block. -/
  a_preconditioner : Preconditioner R nu
  /-- Whether to solve with the velocity block or to apply one
  preconditioner step only. -/
  do_solve_A : Bool
  /-- The mutable counter returned by `n_iterations_A()`. -/
  n_iterations_A_ : ℕ
  /-- The mutable counter returned by `n_iterations_S()`. -/
  n_iterations_S_ : ℕ
  /-- Relative tolerance of the velocity solve. -/
  A_block_tolerance : R
  /-- Relative tolerance of the Schur solve. -/
  S_block_tolerance : R

/-- The constructor of `BlockSchurPreconditioner`: both counters start at 0. -/
def BlockSchurPreconditioner.new {R : Type} {nu np : ℕ} (S Spre : BlockSparseMatrix R nu np)
    (Mppreconditioner : Preconditioner R np) (Apreconditioner : Preconditioner R nu)
    (do_solve_A : Bool) (A_block_tolerance S_block_tolerance : R) :
    BlockSchurPreconditioner R nu np :=
  { stokes_matrix := S
    stokes_preconditioner_matrix := Spre
    mp_preconditioner := Mppreconditioner
    a_preconditioner := Apreconditioner
    do_solve_A := do_solve_A
    n_iterations_A_ := 0
    n_iterations_S_ := 0
    A_block_tolerance := A_block_tolerance
    S_block_tolerance := S_block_tolerance }

/-- `BlockSchurPreconditioner::n_iterations_A()`. -/
def BlockSchurPreconditioner.n_iterations_A {R : Type} {nu np : ℕ}
    (self : BlockSchurPreconditioner R nu np) : ℕ :=
  self.n_iterations_A_

/-- `BlockSchurPreconditioner::n_iterations_S()`. -/
def BlockSchurPreconditioner.n_iterations_S {R : Type} {nu np : ℕ}
    (self : BlockSchurPreconditioner R nu np) : ℕ :=
  self.n_iterations_S_

/-- First block of `BlockSchurPreconditioner::vmult` (solver.cc): the solve with
the bottom right block, up to and including `dst.block(1) *= -1.0`, in the
configuration without PETSc (the solver is `SolverFGMRES` with basis size
100). -/
def BlockSchurPreconditioner.pressure_step {R : Type} [LinearOrderedField R] {nu np : ℕ}
    (lib : Library R) (self : BlockSchurPreconditioner R nu np)
    (dst src : BlockVector R nu np) : VmultResult (BlockSchurPreconditioner R nu np) R nu np :=
  let solver_control : SolverControl R :=
    ⟨1000, Vector.l2_norm lib.sqrt src.block1 * self.S_block_tolerance, true, true⟩
  if Vector.l2_norm lib.sqrt src.block1 > 1e-50 then
    let dst : BlockVector R nu np := { dst with block1 := 0 }
    let out := lib.SolverFGMRES_solve 100 solver_control np
      self.stokes_preconditioner_matrix.block11 dst.block1 src.block1 self.mp_preconditioner
    let calls : List (Call R nu np) := [Call.S_solve solver_control dst.block1 src.block1]
    let dst : BlockVector R nu np := { dst with block1 := out.x }
    match out.exc with
    | none =>
      let self : BlockSchurPreconditioner R nu np :=
        { self with n_iterations_S_ := self.n_iterations_S_ + out.last_step }
      ⟨self, calls, { dst with block1 := (-1 : R) • dst.block1 }, none⟩
    | some exc =>
      if exc.is_std_exception then
        if lib.this_mpi_process = 0 then
          ⟨self, calls ++ [Call.write_file "solver_history_S.txt" out.history_data], dst,
            some (Exception.ExcMessage
              ("The iterative (bottom right) solver in BlockSchurPreconditioner::vmult "
                ++ "did not converge to a tolerance of "
                ++ lib.to_string solver_control.tolerance
                ++ ". It reported the following error:\n\n"
                ++ lib.what exc))⟩
        else
          ⟨self, calls, dst, some Exception.QuietException⟩
      else
        ⟨self, calls, dst, some exc⟩
  else
    ⟨self, [], { dst with block1 := (-1 : R) • dst.block1 }, none⟩

/-- Second block of `BlockSchurPreconditioner::vmult` (solver.cc), "apply the
top right block": the content of `utmp` afterwards. -/
def BlockSchurPreconditioner.top_right_step {R : Type} [LinearOrderedField R] {nu np : ℕ}
    (self : BlockSchurPreconditioner R nu np) (dst src : BlockVector R nu np) : Vector R nu :=
  let utmp : Vector R nu := SparseMatrix.vmult self.stokes_matrix.block01 dst.block1 -- B^T
  let utmp : Vector R nu := (-1 : R) • utmp
  let utmp : Vector R nu := utmp + src.block0
  utmp

/-- Third block of `BlockSchurPreconditioner::vmult` (solver.cc): solve with
the top left block (`do_solve_A == true`, with `TrilinosWrappers::SolverCG` in
the configuration without PETSc) or apply one preconditioner sweep. The
arguments `calls` and `dst` are the state reached after the first two
blocks. -/
def BlockSchurPreconditioner.velocity_step {R : Type} [LinearOrderedField R] {nu np : ℕ}
    (lib : Library R) (self : BlockSchurPreconditioner R nu np) (calls : List (Call R nu np))
    (dst : BlockVector R nu np) (utmp : Vector R nu) :
    VmultResult (BlockSchurPreconditioner R nu np) R nu np :=
  if self.do_solve_A = true then
    let solver_control : SolverControl R :=
      ⟨10000, Vector.l2_norm lib.sqrt utmp * self.A_block_tolerance, false, false⟩
    let dst : BlockVector R nu np := { dst with block0 := 0 }
    let out := lib.TrilinosSolverCG_solve solver_control nu
      self.stokes_matrix.block00 dst.block0 utmp self.a_preconditioner
    let calls : List (Call R nu np) := calls ++ [Call.A_solve solver_control dst.block0 utmp]
    let dst : BlockVector R nu np := { dst with block0 := out.x }
    match out.exc with
    | none =>
      let self : BlockSchurPreconditioner R nu np :=
        { self with n_iterations_A_ := self.n_iterations_A_ + out.last_step }
      ⟨self, calls, dst, none⟩
    | some exc =>
      if exc.is_std_exception then
        if lib.this_mpi_process = 0 then
          ⟨self, calls, dst,
            some (Exception.ExcMessage
              ("The iterative (top left) solver in BlockSchurPreconditioner::vmult "
                ++ "did not converge to a tolerance of "
                ++ lib.to_string solver_control.tolerance
                ++ ". It reported the following error:\n\n"
                ++ lib.what exc))⟩
        else
          ⟨self, calls, dst, some Exception.QuietException⟩
      else
        ⟨self, calls, dst, some exc⟩
  else
    let dst : BlockVector R nu np := { dst with block0 := self.a_preconditioner utmp }
    let self : BlockSchurPreconditioner R nu np :=
      { self with n_iterations_A_ := self.n_iterations_A_ + 1 }
    ⟨self, calls ++ [Call.a_preconditioner_vmult utmp], dst, none⟩

/-- `BlockSchurPreconditioner::vmult(dst, src)` of solver.cc: the three blocks
in sequence; an exception leaving the first block ends the call. -/
def BlockSchurPreconditioner.vmult {R : Type} [LinearOrderedField R] {nu np : ℕ}
    (lib : Library R) (self : BlockSchurPreconditioner R nu np)
    (dst src : BlockVector R nu np) : VmultResult (BlockSchurPreconditioner R nu np) R nu np :=
  let p := self.pressure_step lib dst src
  match p.raised with
  | some _ => p
  | none =>
    let utmp := p.precond.top_right_step p.dst src
    p.precond.velocity_step lib p.calls p.dst utmp


namespace MatrixFree

/-! ## The matrix-free `BlockSchurPreconditioner` (stokes_matrix_free.cc) -/

/-- Modelled from the spec: the matrix-free Stokes operator (template argument
`StokesMatrixType`), whose class is declared in the header
`aspect/stokes_matrix_free.h`, which is not among the sources. By the spec it is
a 2x2 block operator (velocity-velocity, velocity-pressure, pressure-velocity,
pressure-pressure-or-zero) that is never stored; it is given here by the blocks
of the operator it represents. -/
structure StokesOperator (R : Type) (nu np : ℕ) where
  /-- The blocks of the represented operator. -/
  blocks : BlockSparseMatrix R nu np

/-- Modelled from the spec: `apply(dst, src)` of the matrix-free Stokes operator
(`StokesMatrixType::vmult`, declared in the missing header) "computes
`dst = A·src` for the full 2-block operator". The argument `_dst` is the
content of the destination on entry, the value is its content on exit. -/
def StokesOperator.vmult {R : Type} [LinearOrderedField R] {nu np : ℕ}
    (self : StokesOperator R nu np) (_dst src : BlockVector R nu np) : BlockVector R nu np :=
  { block0 := Matrix.mulVec self.blocks.block00 src.block0
              + Matrix.mulVec self.blocks.block01 src.block1
    block1 := Matrix.mulVec self.blocks.block10 src.block0
              + Matrix.mulVec self.blocks.block11 src.block1 }

/-- Class `BlockSchurPreconditioner` of stokes_matrix_free.cc. The velocity
operator (`ABlockMatrixType`) and the mass operator (`MassMatrixType`) are given
by the matrices they represent. The counters are natural numbers, as for the
class of solver.cc. -/
structure BlockSchurPreconditioner (R : Type) (nu np : ℕ) where
  /-- Reference to the Stokes operator. -/
  stokes_matrix : StokesOperator R nu np
  /-- Reference to the velocity block operator. -/
  velocity_matrix : SparseMatrix R nu nu
  /-- Reference to the pressure mass matrix operator. -/
  mass_matrix : SparseMatrix R np np
  /-- Preconditioner of the Schur complement (mass matrix). -/
  mp_preconditioner : Preconditioner R np
  /-- Preconditioner of the velocity block. -/
  a_preconditioner : Preconditioner R nu
  /-- Whether to solve with the velocity block or to apply one
  preconditioner step only. -/
  do_solve_A : Bool
  /-- The mutable counter returned by `n_iterations_A()`. -/
  n_iterations_A_ : ℕ
  /-- The mutable counter returned by `n_iterations_S()`. -/
  n_iterations_S_ : ℕ
  /-- Relative tolerance of the velocity solve. -/
  A_block_tolerance : R
  /-- Relative tolerance of the Schur solve. -/
  S_block_tolerance : R

/-- The constructor of the matrix-free `BlockSchurPreconditioner`: both counters
start at 0. -/
def BlockSchurPreconditioner.new {R : Type} {nu np : ℕ} (S : StokesOperator R nu np)
    (A : SparseMatrix R nu nu) (Mass : SparseMatrix R np np)
    (Mppreconditioner : Preconditioner R np) (Apreconditioner : Preconditioner R nu)
    (do_solve_A : Bool) (A_block_tolerance S_block_tolerance : R) :
    BlockSchurPreconditioner R nu np :=
  { stokes_matrix := S
    velocity_matrix := A
    mass_matrix := Mass
    mp_preconditioner := Mppreconditioner
    a_preconditioner := Apreconditioner
    do_solve_A := do_solve_A
    n_iterations_A_ := 0
    n_iterations_S_ := 0
    A_block_tolerance := A_block_tolerance
    S_block_tolerance := S_block_tolerance }

/-- The matrix-free `BlockSchurPreconditioner::n_iterations_A()`. -/
def BlockSchurPreconditioner.n_iterations_A {R : Type} {nu np : ℕ}
    (self : BlockSchurPreconditioner R nu np) : ℕ :=
  self.n_iterations_A_

/-- The matrix-free `BlockSchurPreconditioner::n_iterations_S()`. -/
def BlockSchurPreconditioner.n_iterations_S {R : Type} {nu np : ℕ}
    (self : BlockSchurPreconditioner R nu np) : ℕ :=
  self.n_iterations_S_

/-- First block of the matrix-free `BlockSchurPreconditioner::vmult`: the solve
with the mass matrix, up to and including `dst.block(1) *= -1.0`. -/
def BlockSchurPreconditioner.pressure_step {R : Type} [LinearOrderedField R] {nu np : ℕ}
    (lib : Library R) (self : BlockSchurPreconditioner R nu np)
    (dst src : BlockVector R nu np) : VmultResult (BlockSchurPreconditioner R nu np) R nu np :=
  let solver_control : SolverControl R :=
    ⟨1000, Vector.l2_norm lib.sqrt src.block1 * self.S_block_tolerance, true, false⟩
  if Vector.l2_norm lib.sqrt src.block1 > 1e-50 then
    let dst : BlockVector R nu np := { dst with block1 := 0 }
    let out := lib.SolverCG_solve solver_control np
      self.mass_matrix dst.block1 src.block1 self.mp_preconditioner
    let calls : List (Call R nu np) := [Call.S_solve solver_control dst.block1 src.block1]
    let dst : BlockVector R nu np := { dst with block1 := out.x }
    match out.exc with
    | none =>
      let self : BlockSchurPreconditioner R nu np :=
        { self with n_iterations_S_ := self.n_iterations_S_ + out.last_step }
      ⟨self, calls, { dst with block1 := (-1 : R) • dst.block1 }, none⟩
    | some exc =>
      if exc.is_std_exception then
        if lib.this_mpi_process = 0 then
          ⟨self, calls, dst,
            some (Exception.ExcMessage
              ("The iterative (bottom right) solver in BlockSchurPreconditioner::vmult "
                ++ "did not converge to a tolerance of "
                ++ lib.to_string solver_control.tolerance
                ++ ". It reported the following error:\n\n"
                ++ lib.what exc))⟩
        else
          ⟨self, calls, dst, some Exception.QuietException⟩
      else
        ⟨self, calls, dst, some exc⟩
  else
    ⟨self, [], { dst with block1 := (-1 : R) • dst.block1 }, none⟩

/-- Second block of the matrix-free `BlockSchurPreconditioner::vmult`: the
content of the block vector `utmp` (a copy of `src` on entry) afterwards. -/
def BlockSchurPreconditioner.top_right_step {R : Type} [LinearOrderedField R] {nu np : ℕ}
    (self : BlockSchurPreconditioner R nu np) (dst src : BlockVector R nu np) :
    BlockVector R nu np :=
  let utmp : BlockVector R nu np := src
  -- TODO: figure out how to just multiply the top right block
  let dst_tmp : BlockVector R nu np := dst
  let dst_tmp : BlockVector R nu np := { dst_tmp with block0 := 0 }
  let utmp : BlockVector R nu np := self.stokes_matrix.vmult utmp dst_tmp -- B^T
  let utmp : BlockVector R nu np := { utmp with block0 := (-1 : R) • utmp.block0 }
  let utmp : BlockVector R nu np := { utmp with block0 := utmp.block0 + src.block0 }
  utmp

/-- Third block of the matrix-free `BlockSchurPreconditioner::vmult`: solve
with the velocity operator (`do_solve_A == true`) or apply one preconditioner
sweep. The arguments `calls` and `dst` are the state reached after the first
two blocks. -/
def BlockSchurPreconditioner.velocity_step {R : Type} [LinearOrderedField R] {nu np : ℕ}
    (lib : Library R) (self : BlockSchurPreconditioner R nu np) (calls : List (Call R nu np))
    (dst utmp : BlockVector R nu np) : VmultResult (BlockSchurPreconditioner R nu np) R nu np :=
  if self.do_solve_A = true then
    let solver_control : SolverControl R :=
      ⟨10000, Vector.l2_norm lib.sqrt utmp.block0 * self.A_block_tolerance, false, false⟩
    let dst : BlockVector R nu np := { dst with block0 := 0 }
    let out := lib.SolverCG_solve solver_control nu
      self.velocity_matrix dst.block0 utmp.block0 self.a_preconditioner
    let calls : List (Call R nu np) :=
      calls ++ [Call.A_solve solver_control dst.block0 utmp.block0]
    let dst : BlockVector R nu np := { dst with block0 := out.x }
    match out.exc with
    | none =>
      let self : BlockSchurPreconditioner R nu np :=
        { self with n_iterations_A_ := self.n_iterations_A_ + out.last_step }
      ⟨self, calls, dst, none⟩
    | some exc =>
      if exc.is_std_exception then
        if lib.this_mpi_process = 0 then
          ⟨self, calls, dst,
            some (Exception.ExcMessage
              ("The iterative (top left) solver in BlockSchurPreconditioner::vmult "
                ++ "did not converge to a tolerance of "
                ++ lib.to_string solver_control.tolerance
                ++ ". It reported the following error:\n\n"
                ++ lib.what exc))⟩
        else
          ⟨self, calls, dst, some Exception.QuietException⟩
      else
        ⟨self, calls, dst, some exc⟩
  else
    let dst : BlockVector R nu np := { dst with block0 := self.a_preconditioner utmp.block0 }
    let self : BlockSchurPreconditioner R nu np :=
      { self with n_iterations_A_ := self.n_iterations_A_ + 1 }
    ⟨self, calls ++ [Call.a_preconditioner_vmult utmp.block0], dst, none⟩

/-- The matrix-free `BlockSchurPreconditioner::vmult(dst, src)`: the three
blocks in sequence; an exception leaving the first block ends the call. -/
def BlockSchurPreconditioner.vmult {R : Type} [LinearOrderedField R] {nu np : ℕ}
    (lib : Library R) (self : BlockSchurPreconditioner R nu np)
    (dst src : BlockVector R nu np) : VmultResult (BlockSchurPreconditioner R nu np) R nu np :=
  let p := self.pressure_step lib dst src
  match p.raised with
  | some _ => p
  | none =>
    let utmp := p.precond.top_right_step p.dst src
    p.precond.velocity_step lib p.calls p.dst utmp

end MatrixFree

end internal

/-! ## The outer solver and the simulator state -/

/-- The constant `numbers::invalid_unsigned_int`, the largest `unsigned int`;
it is the value of `last_step()` of a `SolverControl` that was never used. -/
def numbers.invalid_unsigned_int : ℕ := 4294967295

/-- The mutable part of a `SolverControl` object of an outer solve. -/
structure SolverControlState (R : Type) where
  /-- The value of `last_step()`. -/
  last_step : ℕ
  /-- The value of `last_value()`; `none` stands for the signalling NaN of an
  object that was never used. -/
  last_value : Option R
  /-- The value of `get_history_data()`. -/
  history_data : List R

/-- The mutable part of a freshly constructed `SolverControl`. -/
def SolverControlState.fresh {R : Type} : SolverControlState R :=
  ⟨numbers.invalid_unsigned_int, none, []⟩

/-- What a call `solver.solve (A, x, b, preconditioner)` of the outer
`SolverFGMRES` on block vectors leaves behind. -/
structure OuterOutcome (P : Type) (R : Type) (nu np : ℕ) where
  /-- Content of the solution vector `x` when `solve` exits. -/
  x : BlockVector R nu np
  /-- The value of `solver_control.last_step()` afterwards. -/
  last_step : ℕ
  /-- The value of `solver_control.last_value()` afterwards. -/
  last_value : R
  /-- The value of `solver_control.get_history_data()` afterwards. -/
  history_data : List R
  /-- The preconditioner object afterwards (its counters are mutable). -/
  precond : P
  /-- The exception thrown by `solve`, `none` when it returned normally (the
  solver converged). -/
  exc : Option (Exception R)

/-- The mutable part of the `SolverControl` of an outer solve afterwards. -/
def OuterOutcome.control_state {P : Type} {R : Type} {nu np : ℕ}
    (out : OuterOutcome P R nu np) : SolverControlState R :=
  ⟨out.last_step, some out.last_value, out.history_data⟩

/-- The outer solver `SolverFGMRES` on block vectors, a library function:
`solve control max_basis_size A x b preconditioner vmult`, where `A` is the
`vmult` of the operator, `x` the content of the solution vector on entry,
`preconditioner` the preconditioner object on entry and `vmult` its `vmult`. -/
abbrev OuterSolver (P : Type) (R : Type) (nu np : ℕ) :=
  SolverControl R → ℕ →
    (BlockVector R nu np → BlockVector R nu np → BlockVector R nu np) →
    BlockVector R nu np → BlockVector R nu np → P →
    (P → BlockVector R nu np → BlockVector R nu np → VmultResult P R nu np) →
    OuterOutcome P R nu np

/-- The two phases of the Stokes solve. -/
inductive Phase where
  /-- The phase using `preconditioner_cheap` and `solver_control_cheap`. -/
  | cheap
  /-- The phase using `preconditioner_expensive` and `solver_control_expensive`. -/
  | expensive
  deriving DecidableEq

/-- Record of an action of `Simulator::solve_stokes` or of
`StokesMatrixFreeHandler::solve`; the records are kept in the order of the
actions. Console output is not recorded. -/
inductive SolveEvent (R : Type) (nu np : ℕ) where
  /-- The function itself called `vmult (dst, src)` of the preconditioner of
  this phase. -/
  | preconditioner_vmult (phase : Phase) (dst src : BlockVector R nu np)
  /-- The outer solver of this phase was started: `solver.solve` with this
  control, basis size, initial content of the solution vector and
  right-hand side. -/
  | solver_solve (phase : Phase) (control : SolverControl R) (max_basis_size : ℕ)
      (x b : BlockVector R nu np)
  /-- The signal `post_stokes_solver` was sent with these inner iteration
  counts for S and A. -/
  | post_stokes_solver (n_iterations_S n_iterations_A : ℕ)
  /-- The convergence history file with this name was written: the history of
  the cheap phase, if requested, and that of the expensive phase. -/
  | write_file (name : String) (cheap_history : Option (List R)) (expensive_history : List R)

/-- Whether the record is a start of the outer solver of the given phase. -/
def SolveEvent.is_solver_solve {R : Type} {nu np : ℕ} (phase : Phase) :
    SolveEvent R nu np → Bool
  | SolveEvent.solver_solve ph _ _ _ _ => decide (ph = phase)
  | _ => false

/-- Whether the record is a direct application of the preconditioner of the
given phase. -/
def SolveEvent.is_preconditioner_vmult {R : Type} {nu np : ℕ} (phase : Phase) :
    SolveEvent R nu np → Bool
  | SolveEvent.preconditioner_vmult ph _ _ => decide (ph = phase)
  | _ => false

/-- The run-time parameters read by the Stokes solvers. -/
structure Parameters (R : Type) where
  /-- Parameter `n_cheap_stokes_solver_steps`. -/
  n_cheap_stokes_solver_steps : ℕ
  /-- Parameter `n_expensive_stokes_solver_steps`. -/
  n_expensive_stokes_solver_steps : ℕ
  /-- Parameter `linear_stokes_solver_tolerance`. -/
  linear_stokes_solver_tolerance : R
  /-- Parameter `linear_solver_A_block_tolerance`. -/
  linear_solver_A_block_tolerance : R
  /-- Parameter `linear_solver_S_block_tolerance`. -/
  linear_solver_S_block_tolerance : R
  /-- Parameter `stokes_gmres_restart_length`. -/
  stokes_gmres_restart_length : ℕ
  /-- Parameter `include_melt_transport`. -/
  include_melt_transport : Bool
  /-- Parameter `output_directory`. -/
  output_directory : String

/-- The members of `Simulator` used by the iterative Stokes solvers. Of the
vectors with all solution variables only the velocity and pressure blocks are
kept. -/
structure Simulator (R : Type) (nu np : ℕ) where
  /-- The run-time parameters. -/
  parameters : Parameters R
  /-- The system matrix (Stokes blocks). -/
  system_matrix : BlockSparseMatrix R nu np
  /-- The matrix holding the preconditioner blocks. -/
  system_preconditioner_matrix : BlockSparseMatrix R nu np
  /-- The right-hand side (Stokes blocks). -/
  system_rhs : BlockVector R nu np
  /-- The current linearization point (Stokes blocks). -/
  current_linearization_point : BlockVector R nu np
  /-- The solution vector (Stokes blocks). -/
  solution : BlockVector R nu np
  /-- The constant `pressure_scaling`. -/
  pressure_scaling : R
  /-- The member `last_pressure_normalization_adjustment`. -/
  last_pressure_normalization_adjustment : R
  /-- The object `*Mp_preconditioner`. -/
  Mp_preconditioner : Preconditioner R np
  /-- The object `*Amg_preconditioner`. -/
  Amg_preconditioner : Preconditioner R nu
  /-- The flag `assemble_newton_stokes_system`. -/
  assemble_newton_stokes_system : Bool
  /-- The member `gmres_iterations`, an `unsigned int`. -/
  gmres_iterations : ℕ

/-- Functions of the simulator and of the constraints object that the Stokes
solvers call and that are not part of the solver itself; each returns the new
content of the vectors it modifies. -/
structure Collaborators (R : Type) (nu np : ℕ) where
  /-- The call `denormalize_pressure (adjustment, vector, relevant_vector)`:
  the new content of `vector`. -/
  denormalize_pressure : R → BlockVector R nu np → BlockVector R nu np → BlockVector R nu np
  /-- The call `current_constraints.set_zero (vector)`. -/
  set_zero : BlockVector R nu np → BlockVector R nu np
  /-- The call `current_constraints.distribute (vector)`. -/
  distribute : BlockVector R nu np → BlockVector R nu np
  /-- The call `remove_nullspace (solution, distributed_stokes_solution)`: the
  new contents of both vectors. -/
  remove_nullspace : BlockVector R nu np → BlockVector R nu np →
    BlockVector R nu np × BlockVector R nu np
  /-- The call `normalize_pressure (solution)`: the new content of the vector
  and the returned adjustment. -/
  normalize_pressure : BlockVector R nu np → BlockVector R nu np × R
  /-- The call `melt_handler->compute_melt_variables (solution)`. -/
  compute_melt_variables : BlockVector R nu np → BlockVector R nu np

/-- State in which `Simulator::solve_stokes` or `StokesMatrixFreeHandler::solve`
ends, for the preconditioner class `P` and the type `T` of the returned
value. -/
structure SolveResult (P : Type) (T : Type) (R : Type) (nu np : ℕ) where
  /-- The simulator at the end. -/
  sim : Simulator R nu np
  /-- The local object `preconditioner_cheap` at the end. -/
  preconditioner_cheap : P
  /-- The local object `preconditioner_expensive` at the end. -/
  preconditioner_expensive : P
  /-- The mutable part of `solver_control_cheap` at the end. -/
  solver_control_cheap : SolverControlState R
  /-- The mutable part of `solver_control_expensive` at the end. -/
  solver_control_expensive : SolverControlState R
  /-- The actions taken, in order. -/
  events : List (SolveEvent R nu np)
  /-- The returned value, or the exception with which the function ends. -/
  result : Except (Exception R) T

/-! ## `Simulator::solve_stokes` (solver.cc), iterative path -/

/-- The state after one phase of the outer solve: the solution vector, the
preconditioner object and the solver control of the phase, and the exception
with which the `try` block was left (`none` when it ran to its end). -/
structure PhaseState (P : Type) (R : Type) (nu np : ℕ) where
  /-- Content of the solution vector handed to the solver. -/
  x : BlockVector R nu np
  /-- The preconditioner object of the phase. -/
  precond : P
  /-- The mutable part of the solver control of the phase. -/
  control : SolverControlState R
  /-- The exception leaving the `try` block, if any. -/
  exc : Option (Exception R)

/-- The state after a call of the outer solver. -/
def OuterOutcome.phase_state {P : Type} {R : Type} {nu np : ℕ}
    (out : OuterOutcome P R nu np) : PhaseState P R nu np :=
  ⟨out.x, out.precond, out.control_state, out.exc⟩

/-- The end of the iterative path of `Simulator::solve_stokes`, from the
comment "signal successful solver" to the `return` statement, reached when no
exception is pending. -/
def Simulator.solve_stokes_finish {R : Type} [LinearOrderedField R] {nu np : ℕ}
    (env : Collaborators R nu np) (sim : Simulator R nu np) (initial_residual : R)
    (distributed_stokes_solution : BlockVector R nu np)
    (preconditioner_cheap preconditioner_expensive : internal.BlockSchurPreconditioner R nu np)
    (solver_control_cheap solver_control_expensive : SolverControlState R)
    (events : List (SolveEvent R nu np)) :
    SolveResult (internal.BlockSchurPreconditioner R nu np) R R nu np :=
  -- signal successful solver
  let events := events ++ [SolveEvent.post_stokes_solver
    (preconditioner_cheap.n_iterations_S + preconditioner_expensive.n_iterations_S)
    (preconditioner_cheap.n_iterations_A + preconditioner_expensive.n_iterations_A)]
  -- distribute hanging node and other constraints
  let distributed_stokes_solution := env.distribute distributed_stokes_solution
  -- now rescale the pressure back to real physical units
  let distributed_stokes_solution : BlockVector R nu np :=
    { distributed_stokes_solution with
      block1 := sim.pressure_scaling • distributed_stokes_solution.block1 }
  -- then copy back the solution from the temporary (non-ghosted) vector
  let solution : BlockVector R nu np :=
    { sim.solution with block0 := distributed_stokes_solution.block0 }
  let solution : BlockVector R nu np :=
    { solution with block1 := distributed_stokes_solution.block1 }
  -- do some cleanup now that we have the solution
  let cleaned := env.remove_nullspace solution distributed_stokes_solution
  let normalized := env.normalize_pressure cleaned.1
  let solution := normalized.1
  -- convert melt pressures
  let solution :=
    if sim.parameters.include_melt_transport = true then env.compute_melt_variables solution
    else solution
  { sim := { sim with solution := solution
                      last_pressure_normalization_adjustment := normalized.2 }
    preconditioner_cheap := preconditioner_cheap
    preconditioner_expensive := preconditioner_expensive
    solver_control_cheap := solver_control_cheap
    solver_control_expensive := solver_control_expensive
    events := events
    result := Except.ok initial_residual }

/-- The `try`/`catch` statement of the iterative path of
`Simulator::solve_stokes` ("step 1a" and "step 1b"), followed, when no
exception is pending, by the rest of the function. The arguments are the
local variables of `solve_stokes` at that point. -/
def Simulator.solve_stokes_try {R : Type} [LinearOrderedField R] {nu np : ℕ}
    (lib : Library R) (env : Collaborators R nu np)
    (solver : OuterSolver (internal.BlockSchurPreconditioner R nu np) R nu np)
    (sim : Simulator R nu np) (initial_residual : R)
    (stokes_block : internal.StokesBlock R nu np)
    (distributed_stokes_solution distributed_stokes_rhs : BlockVector R nu np)
    (solver_control_cheap solver_control_expensive : SolverControl R)
    (preconditioner_cheap preconditioner_expensive : internal.BlockSchurPreconditioner R nu np) :
    SolveResult (internal.BlockSchurPreconditioner R nu np) R R nu np :=
  -- step 1a: try if the simple and fast solver succeeds
  let step1a : PhaseState (internal.BlockSchurPreconditioner R nu np) R nu np
      × List (SolveEvent R nu np) :=
    if sim.parameters.n_cheap_stokes_solver_steps = 0 then
      -- if this cheaper solver is not desired, then simply short-cut
      (⟨distributed_stokes_solution, preconditioner_cheap, SolverControlState.fresh,
        some (Exception.NoConvergence 0 0)⟩, [])
    else
      ((solver solver_control_cheap 50 stokes_block.vmult distributed_stokes_solution
          distributed_stokes_rhs preconditioner_cheap
          (internal.BlockSchurPreconditioner.vmult lib)).phase_state,
        [SolveEvent.solver_solve Phase.cheap solver_control_cheap 50
          distributed_stokes_solution distributed_stokes_rhs])
  let cheap := step1a.1
  let events := step1a.2
  match cheap.exc with
  | none =>
    Simulator.solve_stokes_finish env sim initial_residual cheap.x cheap.precond
      preconditioner_expensive cheap.control SolverControlState.fresh events
  | some exc_cheap =>
    if exc_cheap.is_NoConvergence then
      -- step 1b: take the stronger solver in case the simple solver failed
      let out := solver solver_control_expensive 100 stokes_block.vmult cheap.x
        distributed_stokes_rhs preconditioner_expensive
        (internal.BlockSchurPreconditioner.vmult lib)
      let events := events ++ [SolveEvent.solver_solve Phase.expensive
        solver_control_expensive 100 cheap.x distributed_stokes_rhs]
      match out.exc with
      | none =>
        Simulator.solve_stokes_finish env sim initial_residual out.x cheap.precond
          out.precond cheap.control out.control_state events
      | some exc =>
        if exc.is_std_exception then
          let events := events ++ [SolveEvent.post_stokes_solver
            (cheap.precond.n_iterations_S + out.precond.n_iterations_S)
            (cheap.precond.n_iterations_A + out.precond.n_iterations_A)]
          if lib.this_mpi_process = 0 then
            -- output solver history
            let events := events ++ [SolveEvent.write_file
              (sim.parameters.output_directory ++ "solver_history.txt")
              (if sim.parameters.n_cheap_stokes_solver_steps > 0
                then some cheap.control.history_data else none)
              out.history_data]
            { sim := sim
              preconditioner_cheap := cheap.precond
              preconditioner_expensive := out.precond
              solver_control_cheap := cheap.control
              solver_control_expensive := out.control_state
              events := events
              result := Except.error (Exception.ExcMessage
                ("The iterative Stokes solver "
                  ++ "did not converge. It reported the following error:\n\n"
                  ++ lib.what exc
                  ++ "\n See " ++ sim.parameters.output_directory ++ "solver_history.txt"
                  ++ " for convergence history.")) }
          else
            { sim := sim
              preconditioner_cheap := cheap.precond
              preconditioner_expensive := out.precond
              solver_control_cheap := cheap.control
              solver_control_expensive := out.control_state
              events := events
              result := Except.error Exception.QuietException }
        else
          { sim := sim
            preconditioner_cheap := cheap.precond
            preconditioner_expensive := out.precond
            solver_control_cheap := cheap.control
            solver_control_expensive := out.control_state
            events := events
            result := Except.error exc }
    else
      -- an exception that is not `NoConvergence` leaves the function
      { sim := sim
        preconditioner_cheap := cheap.precond
        preconditioner_expensive := preconditioner_expensive
        solver_control_cheap := cheap.control
        solver_control_expensive := SolverControlState.fresh
        events := events
        result := Except.error exc_cheap }

/-- The vector `linearized_stokes_initial_guess` of `Simulator::solve_stokes`:
the velocity and pressure of the current linearization point, denormalized,
with the constrained entries set to zero and the pressure divided by
`pressure_scaling`. -/
def Simulator.linearized_stokes_initial_guess {R : Type} [LinearOrderedField R] {nu np : ℕ}
    (env : Collaborators R nu np) (sim : Simulator R nu np) : BlockVector R nu np :=
  let linearized_stokes_initial_guess : BlockVector R nu np := ⟨0, 0⟩
  let linearized_stokes_initial_guess : BlockVector R nu np :=
    { linearized_stokes_initial_guess with block0 := sim.current_linearization_point.block0 }
  let linearized_stokes_initial_guess : BlockVector R nu np :=
    { linearized_stokes_initial_guess with block1 := sim.current_linearization_point.block1 }
  let linearized_stokes_initial_guess := env.denormalize_pressure
    sim.last_pressure_normalization_adjustment linearized_stokes_initial_guess
    sim.current_linearization_point
  let linearized_stokes_initial_guess := env.set_zero linearized_stokes_initial_guess
  { linearized_stokes_initial_guess with
    block1 := fun i => linearized_stokes_initial_guess.block1 i / sim.pressure_scaling }

/-- The number `solver_tolerance` of `Simulator::solve_stokes`: the residual is
computed with a zero velocity, `residual_u = || f - B^T p ||`, and
`residual_p = || g ||`. -/
def Simulator.solver_tolerance {R : Type} [LinearOrderedField R] {nu np : ℕ}
    (lib : Library R) (sim : Simulator R nu np)
    (linearized_stokes_initial_guess : BlockVector R nu np) : R :=
  let residual_u := (SparseMatrix.residual lib.sqrt sim.system_matrix.block01
    linearized_stokes_initial_guess.block1 sim.system_rhs.block0).2
  let residual_p := Vector.l2_norm lib.sqrt sim.system_rhs.block1
  sim.parameters.linear_stokes_solver_tolerance *
    lib.sqrt (residual_u * residual_u + residual_p * residual_p)

/-- `Simulator::solve_stokes()`, the path with
`parameters.use_direct_stokes_solver == false`, for the block layout velocity
= 0, pressure = 1 asserted in the source, deal.II from version 9.0 on and
without PETSc. The argument `solver` is the outer `SolverFGMRES`. -/
def Simulator.solve_stokes {R : Type} [LinearOrderedField R] {nu np : ℕ}
    (lib : Library R) (env : Collaborators R nu np)
    (solver : OuterSolver (internal.BlockSchurPreconditioner R nu np) R nu np)
    (sim : Simulator R nu np) :
    SolveResult (internal.BlockSchurPreconditioner R nu np) R R nu np :=
  -- extract Stokes parts of solution vector, without any ghost elements
  let distributed_stokes_solution : BlockVector R nu np := ⟨0, 0⟩
  let stokes_block : internal.StokesBlock R nu np := ⟨sim.system_matrix⟩
  -- the starting guess for the linear solver
  let linearized_stokes_initial_guess := Simulator.linearized_stokes_initial_guess env sim
  -- the initial residual, returned to the caller; the residual vector is put
  -- into distributed_stokes_solution, which is overwritten below
  let initial_residual := (stokes_block.residual lib.sqrt distributed_stokes_solution
    linearized_stokes_initial_guess sim.system_rhs).2
  let solver_tolerance := Simulator.solver_tolerance lib sim linearized_stokes_initial_guess
  -- now overwrite the solution vector again with the current best guess
  let distributed_stokes_solution : BlockVector R nu np := linearized_stokes_initial_guess
  -- extract Stokes parts of rhs vector
  let distributed_stokes_rhs : BlockVector R nu np := ⟨0, 0⟩
  let distributed_stokes_rhs : BlockVector R nu np :=
    { distributed_stokes_rhs with block0 := sim.system_rhs.block0 }
  let distributed_stokes_rhs : BlockVector R nu np :=
    { distributed_stokes_rhs with block1 := sim.system_rhs.block1 }
  -- create Solver controls for the cheap and expensive solver phase
  let solver_control_cheap : SolverControl R :=
    ⟨sim.parameters.n_cheap_stokes_solver_steps, solver_tolerance, false, true⟩
  let solver_control_expensive : SolverControl R :=
    ⟨sim.parameters.n_expensive_stokes_solver_steps, solver_tolerance, false, true⟩
  -- create a cheap preconditioner that consists of only a single V-cycle
  let preconditioner_cheap := internal.BlockSchurPreconditioner.new
    sim.system_matrix sim.system_preconditioner_matrix
    sim.Mp_preconditioner sim.Amg_preconditioner false
    sim.parameters.linear_solver_A_block_tolerance
    sim.parameters.linear_solver_S_block_tolerance
  -- create an expensive preconditioner that solves for the A block with CG
  let preconditioner_expensive := internal.BlockSchurPreconditioner.new
    sim.system_matrix sim.system_preconditioner_matrix
    sim.Mp_preconditioner sim.Amg_preconditioner true
    sim.parameters.linear_solver_A_block_tolerance
    sim.parameters.linear_solver_S_block_tolerance
  Simulator.solve_stokes_try lib env solver sim initial_residual stokes_block
    distributed_stokes_solution distributed_stokes_rhs solver_control_cheap
    solver_control_expensive preconditioner_cheap preconditioner_expensive

/-! ## `StokesMatrixFreeHandler::solve` (stokes_matrix_free.cc) -/

/-- Library call `BlockVector::sadd(s, a, V)`: `sadd` on every block. -/
def BlockVector.sadd {R : Type} [LinearOrderedField R] {nu np : ℕ}
    (this : BlockVector R nu np) (s a : R) (V : BlockVector R nu np) : BlockVector R nu np :=
  { block0 := Vector.sadd this.block0 s a V.block0
    block1 := Vector.sadd this.block1 s a V.block1 }

/-- The members of `StokesMatrixFreeHandler` used by `solve`, together with the
two preconditioner objects `prec_A` (geometric multigrid) and `prec_S`
(Chebyshev), which `solve` builds from the multigrid members with library
classes before anything else. -/
structure StokesMatrixFreeHandler (R : Type) (nu np : ℕ) where
  /-- Reference to the simulator. -/
  sim : Simulator R nu np
  /-- The matrix-free Stokes operator. -/
  stokes_matrix : internal.MatrixFree.StokesOperator R nu np
  /-- The matrix-free velocity operator. -/
  velocity_matrix : SparseMatrix R nu nu
  /-- The matrix-free pressure mass operator. -/
  mass_matrix : SparseMatrix R np np
  /-- The multigrid preconditioner of the velocity block. -/
  prec_A : Preconditioner R nu
  /-- The Chebyshev preconditioner of the mass matrix. -/
  prec_S : Preconditioner R np

/-- State of the first timing block of `StokesMatrixFreeHandler::solve`. -/
structure TimingState (R : Type) (nu np : ℕ) where
  /-- The object `preconditioner_cheap`. -/
  preconditioner_cheap : internal.MatrixFree.BlockSchurPreconditioner R nu np
  /-- The temporary `tmp_dst`. -/
  tmp_dst : BlockVector R nu np
  /-- The temporary `tmp_scr`. -/
  tmp_scr : BlockVector R nu np
  /-- The actions taken so far. -/
  events : List (SolveEvent R nu np)
  /-- The exception raised by an application of the preconditioner, if any. -/
  raised : Option (Exception R)

/-- The two statements `preconditioner_cheap.vmult(tmp_dst, tmp_scr);
tmp_scr = tmp_dst;` of the first timing block; nothing is done when an
exception is pending. -/
def TimingState.vmult_and_copy {R : Type} [LinearOrderedField R] {nu np : ℕ}
    (lib : Library R) (t : TimingState R nu np) : TimingState R nu np :=
  match t.raised with
  | some _ => t
  | none =>
    let r := t.preconditioner_cheap.vmult lib t.tmp_dst t.tmp_scr
    let events := t.events ++ [SolveEvent.preconditioner_vmult Phase.cheap t.tmp_dst t.tmp_scr]
    match r.raised with
    | some exc => ⟨r.precond, r.dst, t.tmp_scr, events, some exc⟩
    | none => ⟨r.precond, r.dst, r.dst, events, none⟩

/-- The loop `for (unsigned int i=0; i<n; ++i)` around these two statements. -/
def TimingState.loop {R : Type} [LinearOrderedField R] {nu np : ℕ}
    (lib : Library R) : ℕ → TimingState R nu np → TimingState R nu np
  | 0, t => t
  | n + 1, t => TimingState.loop lib n (t.vmult_and_copy lib)

/-- The first timing block of `StokesMatrixFreeHandler::solve`: one application
of the cheap preconditioner to copies of the solution and right-hand side,
then five more inside the timed section. -/
def StokesMatrixFreeHandler.preconditioner_timing {R : Type} [LinearOrderedField R]
    {nu np : ℕ} (lib : Library R)
    (preconditioner_cheap : internal.MatrixFree.BlockSchurPreconditioner R nu np)
    (solution_copy rhs_copy : BlockVector R nu np) : TimingState R nu np :=
  let t : TimingState R nu np := ⟨preconditioner_cheap, solution_copy, rhs_copy, [], none⟩
  let t := t.vmult_and_copy lib
  TimingState.loop lib 5 t

/-- The end of `StokesMatrixFreeHandler::solve`, from the assignment to
`sim.gmres_iterations` after the `gmres_solve` section to the `return`
statement. The argument `solution_copy` is the solution vector of the outer
solve. -/
def StokesMatrixFreeHandler.solve_finish {R : Type} [LinearOrderedField R] {nu np : ℕ}
    (env : Collaborators R nu np) (sim : Simulator R nu np)
    (initial_nonlinear_residual : R) (final_linear_residual : Option R)
    (solution_copy : BlockVector R nu np)
    (preconditioner_cheap preconditioner_expensive :
      internal.MatrixFree.BlockSchurPreconditioner R nu np)
    (solver_control_cheap solver_control_expensive : SolverControlState R)
    (events : List (SolveEvent R nu np)) :
    SolveResult (internal.MatrixFree.BlockSchurPreconditioner R nu np) (R × Option R) R nu np :=
  let gmres_iterations :=
    (solver_control_cheap.last_step + solver_control_expensive.last_step) % 2 ^ 32
  -- distribute hanging node and other constraints
  let distributed_stokes_solution : BlockVector R nu np := solution_copy
  let distributed_stokes_solution := env.distribute distributed_stokes_solution
  -- now rescale the pressure back to real physical units
  let distributed_stokes_solution : BlockVector R nu np :=
    { distributed_stokes_solution with
      block1 := sim.pressure_scaling • distributed_stokes_solution.block1 }
  -- then copy back the solution from the temporary (non-ghosted) vector
  let solution : BlockVector R nu np :=
    { sim.solution with block0 := distributed_stokes_solution.block0 }
  let solution : BlockVector R nu np :=
    { solution with block1 := distributed_stokes_solution.block1 }
  -- do some cleanup now that we have the solution
  let cleaned := env.remove_nullspace solution distributed_stokes_solution
  let normalized := env.normalize_pressure cleaned.1
  let solution :=
    if sim.assemble_newton_stokes_system = false then normalized.1 else cleaned.1
  let adjustment :=
    if sim.assemble_newton_stokes_system = false then normalized.2
    else sim.last_pressure_normalization_adjustment
  { sim := { sim with solution := solution
                      last_pressure_normalization_adjustment := adjustment
                      gmres_iterations := gmres_iterations }
    preconditioner_cheap := preconditioner_cheap
    preconditioner_expensive := preconditioner_expensive
    solver_control_cheap := solver_control_cheap
    solver_control_expensive := solver_control_expensive
    events := events
    result := Except.ok (initial_nonlinear_residual, final_linear_residual) }

/-- The part of `StokesMatrixFreeHandler::solve` after the construction of the
two preconditioners: the first timing block, the `try`/`catch` statement of the
`gmres_solve` section and, when no exception is pending, the rest of the
function. The arguments are the member `stokes_matrix` and the local
variables of `solve` at that point. -/
def StokesMatrixFreeHandler.solve_outer {R : Type} [LinearOrderedField R] {nu np : ℕ}
    (lib : Library R) (env : Collaborators R nu np)
    (solver : OuterSolver (internal.MatrixFree.BlockSchurPreconditioner R nu np) R nu np)
    (sim : Simulator R nu np) (stokes_matrix : internal.MatrixFree.StokesOperator R nu np)
    (initial_nonlinear_residual : R) (solution_copy rhs_copy : BlockVector R nu np)
    (solver_control_cheap solver_control_expensive : SolverControl R)
    (preconditioner_cheap preconditioner_expensive :
      internal.MatrixFree.BlockSchurPreconditioner R nu np) :
    SolveResult (internal.MatrixFree.BlockSchurPreconditioner R nu np) (R × Option R) R nu np :=
  -- the first timing block
  let timing := StokesMatrixFreeHandler.preconditioner_timing lib preconditioner_cheap
    solution_copy rhs_copy
  match timing.raised with
  | some exc =>
    -- the exception of the preconditioner leaves the function
    { sim := sim
      preconditioner_cheap := timing.preconditioner_cheap
      preconditioner_expensive := preconditioner_expensive
      solver_control_cheap := SolverControlState.fresh
      solver_control_expensive := SolverControlState.fresh
      events := timing.events
      result := Except.error exc }
  | none =>
    let preconditioner_cheap := timing.preconditioner_cheap
    let events := timing.events
    let sim : Simulator R nu np := { sim with gmres_iterations := 0 }
    -- the cheap solve
    let cheap := solver solver_control_cheap 50 stokes_matrix.vmult solution_copy rhs_copy
      preconditioner_cheap (internal.MatrixFree.BlockSchurPreconditioner.vmult lib)
    let events := events ++ [SolveEvent.solver_solve Phase.cheap solver_control_cheap 50
      solution_copy rhs_copy]
    match cheap.exc with
    | none =>
      StokesMatrixFreeHandler.solve_finish env sim initial_nonlinear_residual
        (some cheap.last_value) cheap.x cheap.precond preconditioner_expensive
        cheap.control_state SolverControlState.fresh events
    | some exc_cheap =>
      if exc_cheap.is_NoConvergence then
        -- step 1b: take the stronger solver in case the simple solver failed
        let number_of_temporary_vectors :=
          if sim.parameters.include_melt_transport = false
          then sim.parameters.stokes_gmres_restart_length
          else max sim.parameters.stokes_gmres_restart_length 100
        let out := solver solver_control_expensive number_of_temporary_vectors
          stokes_matrix.vmult cheap.x rhs_copy preconditioner_expensive
          (internal.MatrixFree.BlockSchurPreconditioner.vmult lib)
        let events := events ++ [SolveEvent.solver_solve Phase.expensive
          solver_control_expensive number_of_temporary_vectors cheap.x rhs_copy]
        match out.exc with
        | none =>
          StokesMatrixFreeHandler.solve_finish env sim initial_nonlinear_residual
            (some out.last_value) out.x cheap.precond out.precond
            cheap.control_state out.control_state events
        | some exc =>
          if exc.is_NoConvergence then
            -- only a message is printed
            StokesMatrixFreeHandler.solve_finish env sim initial_nonlinear_residual
              none out.x cheap.precond out.precond
              cheap.control_state out.control_state events
          else
            { sim := sim
              preconditioner_cheap := cheap.precond
              preconditioner_expensive := out.precond
              solver_control_cheap := cheap.control_state
              solver_control_expensive := out.control_state
              events := events
              result := Except.error exc }
      else
        -- an exception that is not `NoConvergence` leaves the function
        { sim := sim
          preconditioner_cheap := cheap.precond
          preconditioner_expensive := preconditioner_expensive
          solver_control_cheap := cheap.control_state
          solver_control_expensive := SolverControlState.fresh
          events := events
          result := Except.error exc_cheap }

/-- The vector `linearized_stokes_initial_guess` of
`StokesMatrixFreeHandler::solve`: as in `Simulator::solve_stokes`, or the zero
vector when the Newton system is assembled. -/
def StokesMatrixFreeHandler.linearized_stokes_initial_guess {R : Type} [LinearOrderedField R]
    {nu np : ℕ} (env : Collaborators R nu np) (self : StokesMatrixFreeHandler R nu np) :
    BlockVector R nu np :=
  let sim := self.sim
  let linearized_stokes_initial_guess : BlockVector R nu np :=
    if sim.assemble_newton_stokes_system = false then
      let guess : BlockVector R nu np := ⟨0, 0⟩
      let guess : BlockVector R nu np :=
        { guess with block0 := sim.current_linearization_point.block0 }
      let guess : BlockVector R nu np :=
        { guess with block1 := sim.current_linearization_point.block1 }
      env.denormalize_pressure sim.last_pressure_normalization_adjustment guess
        sim.current_linearization_point
    else
      let guess : BlockVector R nu np := ⟨0, 0⟩
      let guess : BlockVector R nu np := { guess with block0 := 0 }
      let guess : BlockVector R nu np := { guess with block1 := 0 }
      guess
  let linearized_stokes_initial_guess := env.set_zero linearized_stokes_initial_guess
  { linearized_stokes_initial_guess with
    block1 := fun i => linearized_stokes_initial_guess.block1 i / sim.pressure_scaling }

/-- The pair (`solver_tolerance`, `initial_nonlinear_residual`) computed by
`StokesMatrixFreeHandler::solve` from the (zero) vector
`distributed_stokes_solution`, the initial guess and the right-hand side. -/
def StokesMatrixFreeHandler.tolerance_and_residual {R : Type} [LinearOrderedField R]
    {nu np : ℕ} (lib : Library R) (self : StokesMatrixFreeHandler R nu np)
    (distributed_stokes_solution linearized_stokes_initial_guess
      distributed_stokes_rhs : BlockVector R nu np) : R × R :=
  let sim := self.sim
  if sim.assemble_newton_stokes_system = false then
    let solution_copy : BlockVector R nu np := distributed_stokes_solution
    let initial_copy : BlockVector R nu np := linearized_stokes_initial_guess
    let rhs_copy : BlockVector R nu np := distributed_stokes_rhs
    -- Compute residual l2_norm
    let solution_copy := self.stokes_matrix.vmult solution_copy initial_copy
    let solution_copy := solution_copy.sadd (-1) 1 rhs_copy
    let initial_nonlinear_residual := BlockVector.l2_norm lib.sqrt solution_copy
    -- the residual computed with a zero velocity
    let initial_copy : BlockVector R nu np := { initial_copy with block0 := 0 }
    let solution_copy := self.stokes_matrix.vmult solution_copy initial_copy
    let solution_copy : BlockVector R nu np :=
      { solution_copy with block0 := Vector.sadd solution_copy.block0 (-1) 1 rhs_copy.block0 }
    let residual_u := Vector.l2_norm lib.sqrt solution_copy.block0
    let residual_p := Vector.l2_norm lib.sqrt rhs_copy.block1
    (sim.parameters.linear_stokes_solver_tolerance *
        lib.sqrt (residual_u * residual_u + residual_p * residual_p),
      initial_nonlinear_residual)
  else
    let residual_u := Vector.l2_norm lib.sqrt distributed_stokes_rhs.block0
    let residual_p := Vector.l2_norm lib.sqrt distributed_stokes_rhs.block1
    (sim.parameters.linear_stokes_solver_tolerance *
        lib.sqrt (residual_u * residual_u + residual_p * residual_p),
      lib.sqrt (residual_u * residual_u + residual_p * residual_p))

/-- `StokesMatrixFreeHandler::solve(i)`, for the block layout velocity = 0,
pressure = 1 asserted in the source. The copies between the Trilinos and the
deal.II vector types are the identity here; the second timing block (eleven
applications of `stokes_matrix.vmult` to temporaries) changes nothing outside
its own scope and is left out; the argument `_i` only selects console output.
The argument `solver` is the outer `SolverFGMRES`. A returned
`final_linear_residual` of `none` is the signalling NaN it was created with. -/
def StokesMatrixFreeHandler.solve {R : Type} [LinearOrderedField R] {nu np : ℕ}
    (lib : Library R) (env : Collaborators R nu np)
    (solver : OuterSolver (internal.MatrixFree.BlockSchurPreconditioner R nu np) R nu np)
    (self : StokesMatrixFreeHandler R nu np) (_i : ℕ) :
    SolveResult (internal.MatrixFree.BlockSchurPreconditioner R nu np) (R × Option R) R nu np :=
  let sim := self.sim
  let distributed_stokes_solution : BlockVector R nu np := ⟨0, 0⟩
  -- extract Stokes parts of rhs vector
  let distributed_stokes_rhs : BlockVector R nu np := ⟨0, 0⟩
  let distributed_stokes_rhs : BlockVector R nu np :=
    { distributed_stokes_rhs with block0 := sim.system_rhs.block0 }
  let distributed_stokes_rhs : BlockVector R nu np :=
    { distributed_stokes_rhs with block1 := sim.system_rhs.block1 }
  -- the starting guess for the linear solver
  let linearized_stokes_initial_guess :=
    StokesMatrixFreeHandler.linearized_stokes_initial_guess env self
  -- the pair (solver_tolerance, initial_nonlinear_residual)
  let tolerance_and_residual := StokesMatrixFreeHandler.tolerance_and_residual lib self
    distributed_stokes_solution linearized_stokes_initial_guess distributed_stokes_rhs
  let solver_tolerance := tolerance_and_residual.1
  let initial_nonlinear_residual := tolerance_and_residual.2
  -- now overwrite the solution vector again with the current best guess
  let distributed_stokes_solution : BlockVector R nu np := linearized_stokes_initial_guess
  -- again, copy solution and rhs vectors to solve with matrix-free operators
  let solution_copy : BlockVector R nu np := distributed_stokes_solution
  let rhs_copy : BlockVector R nu np := distributed_stokes_rhs
  -- create Solver controls for the cheap and expensive solver phase
  let solver_control_cheap : SolverControl R :=
    ⟨sim.parameters.n_cheap_stokes_solver_steps, solver_tolerance, true, true⟩
  let solver_control_expensive : SolverControl R :=
    ⟨sim.parameters.n_expensive_stokes_solver_steps, solver_tolerance, false, true⟩
  -- create a cheap preconditioner that consists of only a single V-cycle
  let preconditioner_cheap := internal.MatrixFree.BlockSchurPreconditioner.new
    self.stokes_matrix self.velocity_matrix self.mass_matrix self.prec_S self.prec_A false
    sim.parameters.linear_solver_A_block_tolerance
    sim.parameters.linear_solver_S_block_tolerance
  let preconditioner_expensive := internal.MatrixFree.BlockSchurPreconditioner.new
    self.stokes_matrix self.velocity_matrix self.mass_matrix self.prec_S self.prec_A true
    sim.parameters.linear_solver_A_block_tolerance
    sim.parameters.linear_solver_S_block_tolerance
  StokesMatrixFreeHandler.solve_outer lib env solver sim self.stokes_matrix
    initial_nonlinear_residual solution_copy rhs_copy solver_control_cheap
    solver_control_expensive preconditioner_cheap preconditioner_expensive

/-! ## The phases of the escalation, named for the statements about them -/

/-- The `try` block "step 1a" of `Simulator::solve_stokes`, as it stands in
`Simulator.solve_stokes_try`: the state of the cheap phase when the block is
left and the actions recorded in it. -/
def Simulator.solve_stokes_step1a {R : Type} [LinearOrderedField R] {nu np : ℕ}
    (lib : Library R)
    (solver : OuterSolver (internal.BlockSchurPreconditioner R nu np) R nu np)
    (sim : Simulator R nu np) (stokes_block : internal.StokesBlock R nu np)
    (distributed_stokes_solution distributed_stokes_rhs : BlockVector R nu np)
    (solver_control_cheap : SolverControl R)
    (preconditioner_cheap : internal.BlockSchurPreconditioner R nu np) :
    PhaseState (internal.BlockSchurPreconditioner R nu np) R nu np × List (SolveEvent R nu np) :=
  if sim.parameters.n_cheap_stokes_solver_steps = 0 then
    -- if this cheaper solver is not desired, then simply short-cut
    (⟨distributed_stokes_solution, preconditioner_cheap, SolverControlState.fresh,
      some (Exception.NoConvergence 0 0)⟩, [])
  else
    ((solver solver_control_cheap 50 stokes_block.vmult distributed_stokes_solution
        distributed_stokes_rhs preconditioner_cheap
        (internal.BlockSchurPreconditioner.vmult lib)).phase_state,
      [SolveEvent.solver_solve Phase.cheap solver_control_cheap 50
        distributed_stokes_solution distributed_stokes_rhs])

/-- The vector `distributed_stokes_rhs` of both solve functions: the velocity
and pressure blocks of `system_rhs`. -/
def Simulator.distributed_stokes_rhs {R : Type} {nu np : ℕ} (sim : Simulator R nu np) :
    BlockVector R nu np :=
  ⟨sim.system_rhs.block0, sim.system_rhs.block1⟩

/-- The object `preconditioner_cheap` (`do_solve_A = false`) or
`preconditioner_expensive` (`do_solve_A = true`) as constructed in
`Simulator::solve_stokes`. -/
def Simulator.new_preconditioner {R : Type} {nu np : ℕ} (sim : Simulator R nu np)
    (do_solve_A : Bool) : internal.BlockSchurPreconditioner R nu np :=
  internal.BlockSchurPreconditioner.new sim.system_matrix sim.system_preconditioner_matrix
    sim.Mp_preconditioner sim.Amg_preconditioner do_solve_A
    sim.parameters.linear_solver_A_block_tolerance
    sim.parameters.linear_solver_S_block_tolerance

/-- The cheap attempt of `Simulator::solve_stokes` in the state `sim`: what
"step 1a" leaves, with the local variables of `solve_stokes` as arguments. -/
def Simulator.cheap_attempt {R : Type} [LinearOrderedField R] {nu np : ℕ}
    (lib : Library R) (env : Collaborators R nu np)
    (solver : OuterSolver (internal.BlockSchurPreconditioner R nu np) R nu np)
    (sim : Simulator R nu np) :
    PhaseState (internal.BlockSchurPreconditioner R nu np) R nu np × List (SolveEvent R nu np) :=
  Simulator.solve_stokes_step1a lib solver sim ⟨sim.system_matrix⟩
    (Simulator.linearized_stokes_initial_guess env sim) sim.distributed_stokes_rhs
    ⟨sim.parameters.n_cheap_stokes_solver_steps,
      Simulator.solver_tolerance lib sim (Simulator.linearized_stokes_initial_guess env sim),
      false, true⟩
    (sim.new_preconditioner false)

/-- The call of the expensive outer solver that "step 1b" of
`Simulator::solve_stokes` makes in the state `sim` after a failed cheap
attempt. -/
def Simulator.expensive_attempt {R : Type} [LinearOrderedField R] {nu np : ℕ}
    (lib : Library R) (env : Collaborators R nu np)
    (solver : OuterSolver (internal.BlockSchurPreconditioner R nu np) R nu np)
    (sim : Simulator R nu np) : OuterOutcome (internal.BlockSchurPreconditioner R nu np) R nu np :=
  solver
    ⟨sim.parameters.n_expensive_stokes_solver_steps,
      Simulator.solver_tolerance lib sim (Simulator.linearized_stokes_initial_guess env sim),
      false, true⟩
    100 (internal.StokesBlock.vmult ⟨sim.system_matrix⟩)
    (Simulator.cheap_attempt lib env solver sim).1.x sim.distributed_stokes_rhs
    (sim.new_preconditioner true) (internal.BlockSchurPreconditioner.vmult lib)

/-- The exception with which `Simulator::solve_stokes` ends when the expensive
solve has thrown `exc`: the handler of "step 1b" on rank 0 and on the other
ranks, or the exception itself when the handler does not catch it. -/
def Simulator.fatal_exception {R : Type} {nu np : ℕ} (lib : Library R)
    (sim : Simulator R nu np) (exc : Exception R) : Exception R :=
  if exc.is_std_exception then
    if lib.this_mpi_process = 0 then
      Exception.ExcMessage
        ("The iterative Stokes solver "
          ++ "did not converge. It reported the following error:\n\n"
          ++ lib.what exc
          ++ "\n See " ++ sim.parameters.output_directory ++ "solver_history.txt"
          ++ " for convergence history.")
    else Exception.QuietException
  else exc

/-- The object `preconditioner_cheap` (`do_solve_A = false`) or
`preconditioner_expensive` (`do_solve_A = true`) as constructed in
`StokesMatrixFreeHandler::solve`. -/
def StokesMatrixFreeHandler.new_preconditioner {R : Type} {nu np : ℕ}
    (self : StokesMatrixFreeHandler R nu np) (do_solve_A : Bool) :
    internal.MatrixFree.BlockSchurPreconditioner R nu np :=
  internal.MatrixFree.BlockSchurPreconditioner.new self.stokes_matrix self.velocity_matrix
    self.mass_matrix self.prec_S self.prec_A do_solve_A
    self.sim.parameters.linear_solver_A_block_tolerance
    self.sim.parameters.linear_solver_S_block_tolerance

/-- The number `solver_tolerance` of `StokesMatrixFreeHandler::solve` in the
state `self`. -/
def StokesMatrixFreeHandler.solver_tolerance {R : Type} [LinearOrderedField R] {nu np : ℕ}
    (lib : Library R) (env : Collaborators R nu np) (self : StokesMatrixFreeHandler R nu np) :
    R :=
  (StokesMatrixFreeHandler.tolerance_and_residual lib self ⟨0, 0⟩
    (StokesMatrixFreeHandler.linearized_stokes_initial_guess env self)
    self.sim.distributed_stokes_rhs).1

/-- The first timing block of `StokesMatrixFreeHandler::solve` in the state
`self`. -/
def StokesMatrixFreeHandler.timing {R : Type} [LinearOrderedField R] {nu np : ℕ}
    (lib : Library R) (env : Collaborators R nu np) (self : StokesMatrixFreeHandler R nu np) :
    TimingState R nu np :=
  StokesMatrixFreeHandler.preconditioner_timing lib (self.new_preconditioner false)
    (StokesMatrixFreeHandler.linearized_stokes_initial_guess env self)
    self.sim.distributed_stokes_rhs

/-- The call of the cheap outer solver that `StokesMatrixFreeHandler::solve`
makes in the state `self` once the timing block has returned. -/
def StokesMatrixFreeHandler.cheap_attempt {R : Type} [LinearOrderedField R] {nu np : ℕ}
    (lib : Library R) (env : Collaborators R nu np)
    (solver : OuterSolver (internal.MatrixFree.BlockSchurPreconditioner R nu np) R nu np)
    (self : StokesMatrixFreeHandler R nu np) :
    OuterOutcome (internal.MatrixFree.BlockSchurPreconditioner R nu np) R nu np :=
  solver
    ⟨self.sim.parameters.n_cheap_stokes_solver_steps,
      StokesMatrixFreeHandler.solver_tolerance lib env self, true, true⟩
    50 self.stokes_matrix.vmult
    (StokesMatrixFreeHandler.linearized_stokes_initial_guess env self)
    self.sim.distributed_stokes_rhs
    (StokesMatrixFreeHandler.timing lib env self).preconditioner_cheap
    (internal.MatrixFree.BlockSchurPreconditioner.vmult lib)

/-- The number `number_of_temporary_vectors` of the expensive phase of
`StokesMatrixFreeHandler::solve`. -/
def StokesMatrixFreeHandler.number_of_temporary_vectors {R : Type} {nu np : ℕ}
    (self : StokesMatrixFreeHandler R nu np) : ℕ :=
  if self.sim.parameters.include_melt_transport = false
  then self.sim.parameters.stokes_gmres_restart_length
  else max self.sim.parameters.stokes_gmres_restart_length 100

/-- The call of the expensive outer solver that `StokesMatrixFreeHandler::solve`
makes in the state `self` after a failed cheap attempt. -/
def StokesMatrixFreeHandler.expensive_attempt {R : Type} [LinearOrderedField R] {nu np : ℕ}
    (lib : Library R) (env : Collaborators R nu np)
    (solver : OuterSolver (internal.MatrixFree.BlockSchurPreconditioner R nu np) R nu np)
    (self : StokesMatrixFreeHandler R nu np) :
    OuterOutcome (internal.MatrixFree.BlockSchurPreconditioner R nu np) R nu np :=
  solver
    ⟨self.sim.parameters.n_expensive_stokes_solver_steps,
      StokesMatrixFreeHandler.solver_tolerance lib env self, false, true⟩
    self.number_of_temporary_vectors self.stokes_matrix.vmult
    (StokesMatrixFreeHandler.cheap_attempt lib env solver self).x
    self.sim.distributed_stokes_rhs
    (self.new_preconditioner true)
    (internal.MatrixFree.BlockSchurPreconditioner.vmult lib)

/-! ## The inner solves of `BlockSchurPreconditioner::vmult`, named for the statements about them -/

namespace internal

/-- The object `solver_control` of the first block of
`BlockSchurPreconditioner::vmult (dst, src)` (solver.cc). -/
def BlockSchurPreconditioner.S_solve_control {R : Type} [LinearOrderedField R] {nu np : ℕ}
    (lib : Library R) (self : BlockSchurPreconditioner R nu np) (src : BlockVector R nu np) :
    SolverControl R :=
  ⟨1000, Vector.l2_norm lib.sqrt src.block1 * self.S_block_tolerance, true, true⟩

/-- The call `solver.solve (stokes_preconditioner_matrix.block(1,1), dst.block(1),
src.block(1), mp_preconditioner)` that `vmult (dst, src)` of solver.cc makes when
`src.block(1).l2_norm() > 1e-50`, after `dst.block(1) = 0.0`. -/
def BlockSchurPreconditioner.S_solve {R : Type} [LinearOrderedField R] {nu np : ℕ}
    (lib : Library R) (self : BlockSchurPreconditioner R nu np) (src : BlockVector R nu np) :
    SolverOutcome R np :=
  lib.SolverFGMRES_solve 100 (self.S_solve_control lib src) np
    self.stokes_preconditioner_matrix.block11 0 src.block1 self.mp_preconditioner

/-- The vector `utmp` of `vmult (dst, src)` of solver.cc when the third block is
reached. -/
def BlockSchurPreconditioner.utmp {R : Type} [LinearOrderedField R] {nu np : ℕ}
    (lib : Library R) (self : BlockSchurPreconditioner R nu np)
    (dst src : BlockVector R nu np) : Vector R nu :=
  (self.pressure_step lib dst src).precond.top_right_step
    (self.pressure_step lib dst src).dst src

/-- The object `solver_control` of the third block of `vmult (dst, src)` of
solver.cc. -/
def BlockSchurPreconditioner.A_solve_control {R : Type} [LinearOrderedField R] {nu np : ℕ}
    (lib : Library R) (self : BlockSchurPreconditioner R nu np)
    (dst src : BlockVector R nu np) : SolverControl R :=
  ⟨10000, Vector.l2_norm lib.sqrt (self.utmp lib dst src)
    * (self.pressure_step lib dst src).precond.A_block_tolerance, false, false⟩

/-- The call `solver.solve (stokes_matrix.block(0,0), dst.block(0), utmp,
a_preconditioner)` that `vmult (dst, src)` of solver.cc makes when
`do_solve_A == true` and the first block has returned, after
`dst.block(0) = 0.0`. -/
def BlockSchurPreconditioner.A_solve {R : Type} [LinearOrderedField R] {nu np : ℕ}
    (lib : Library R) (self : BlockSchurPreconditioner R nu np)
    (dst src : BlockVector R nu np) : SolverOutcome R nu :=
  lib.TrilinosSolverCG_solve (self.A_solve_control lib dst src) nu
    (self.pressure_step lib dst src).precond.stokes_matrix.block00 0 (self.utmp lib dst src)
    (self.pressure_step lib dst src).precond.a_preconditioner

namespace MatrixFree

/-- The object `solver_control` of the first block of the matrix-free
`BlockSchurPreconditioner::vmult (dst, src)`. -/
def BlockSchurPreconditioner.S_solve_control {R : Type} [LinearOrderedField R] {nu np : ℕ}
    (lib : Library R) (self : BlockSchurPreconditioner R nu np) (src : BlockVector R nu np) :
    SolverControl R :=
  ⟨1000, Vector.l2_norm lib.sqrt src.block1 * self.S_block_tolerance, true, false⟩

/-- The call `solver.solve (mass_matrix, dst.block(1), src.block(1),
mp_preconditioner)` that the matrix-free `vmult (dst, src)` makes when
`src.block(1).l2_norm() > 1e-50`, after `dst.block(1) = 0.0`. -/
def BlockSchurPreconditioner.S_solve {R : Type} [LinearOrderedField R] {nu np : ℕ}
    (lib : Library R) (self : BlockSchurPreconditioner R nu np) (src : BlockVector R nu np) :
    SolverOutcome R np :=
  lib.SolverCG_solve (self.S_solve_control lib src) np
    self.mass_matrix 0 src.block1 self.mp_preconditioner

/-- The block vector `utmp` of the matrix-free `vmult (dst, src)` when the third
block is reached. -/
def BlockSchurPreconditioner.utmp {R : Type} [LinearOrderedField R] {nu np : ℕ}
    (lib : Library R) (self : BlockSchurPreconditioner R nu np)
    (dst src : BlockVector R nu np) : BlockVector R nu np :=
  (self.pressure_step lib dst src).precond.top_right_step
    (self.pressure_step lib dst src).dst src

/-- The object `solver_control` of the third block of the matrix-free
`vmult (dst, src)`. -/
def BlockSchurPreconditioner.A_solve_control {R : Type} [LinearOrderedField R] {nu np : ℕ}
    (lib : Library R) (self : BlockSchurPreconditioner R nu np)
    (dst src : BlockVector R nu np) : SolverControl R :=
  ⟨10000, Vector.l2_norm lib.sqrt (self.utmp lib dst src).block0
    * (self.pressure_step lib dst src).precond.A_block_tolerance, false, false⟩

/-- The call `solver.solve (velocity_matrix, dst.block(0), utmp.block(0),
a_preconditioner)` that the matrix-free `vmult (dst, src)` makes when
`do_solve_A == true` and the first block has returned, after
`dst.block(0) = 0.0`. -/
def BlockSchurPreconditioner.A_solve {R : Type} [LinearOrderedField R] {nu np : ℕ}
    (lib : Library R) (self : BlockSchurPreconditioner R nu np)
    (dst src : BlockVector R nu np) : SolverOutcome R nu :=
  lib.SolverCG_solve (self.A_solve_control lib dst src) nu
    (self.pressure_step lib dst src).precond.velocity_matrix 0 (self.utmp lib dst src).block0
    (self.pressure_step lib dst src).precond.a_preconditioner

end MatrixFree

end internal

/-! ## The copy into the solution vector with all variables -/

/-- The two assignments
`solution.block(block_vel) = distributed_stokes_solution.block(block_vel);`
`solution.block(block_p) = distributed_stokes_solution.block(block_p);`
(solver.cc 885-886, stokes_matrix_free.cc 1047-1048) on a solution vector with
any number of blocks, given as the map from the block index to the content of
the block; `V` is the type of the content of a block. The argument
`distributed_stokes_solution` has the blocks `block_vel` and `block_p`. -/
def copy_stokes_blocks {V : Type} (block_vel block_p : ℕ) (solution : ℕ → V)
    (distributed_stokes_solution : ℕ → V) : ℕ → V :=
  let solution := Function.update solution block_vel (distributed_stokes_solution block_vel)
  let solution := Function.update solution block_p (distributed_stokes_solution block_p)
  solution

/-! ## The pressure scaling loops of the direct solver path of `Simulator::solve_stokes` -/

/-- Class `IndexSet`: a set of global degree-of-freedom indices. -/
abbrev IndexSet := Finset ℕ

/-- `IndexSet::n_elements()`. -/
def IndexSet.n_elements (self : IndexSet) : ℕ := self.card

/-- `IndexSet::nth_index_in_set(n)`: the `n`-th element of the set in increasing
order (0 stands for the failed assertion `n < n_elements()`). -/
def IndexSet.nth_index_in_set (self : IndexSet) (n : ℕ) : ℕ :=
  (self.sort (· ≤ ·)).getD n 0

/-- The loop "Undo the pressure scaling" of the direct solver path (solver.cc
596-606): `distributed_stokes_solution(idx) /= pressure_scaling` for every
index of `pressure_idxset`. The vector is given as the map from the global
index to the entry. -/
def Simulator.undo_pressure_scaling {R : Type} [LinearOrderedField R]
    (include_melt_transport : Bool)
    (locally_owned_melt_pressure_dofs locally_owned_pressure_dofs : IndexSet)
    (pressure_scaling : R) (distributed_stokes_solution : ℕ → R) : ℕ → R :=
  let pressure_idxset : IndexSet :=
    if include_melt_transport = true then locally_owned_melt_pressure_dofs
    else locally_owned_pressure_dofs
  (List.range (IndexSet.n_elements pressure_idxset)).foldl
    (fun distributed_stokes_solution i =>
      let idx := IndexSet.nth_index_in_set pressure_idxset i
      Function.update distributed_stokes_solution idx
        (distributed_stokes_solution idx / pressure_scaling))
    distributed_stokes_solution

/-- The loop "now rescale the pressure back to real physical units" of the
direct solver path (solver.cc 649-658):
`distributed_stokes_solution(idx) *= pressure_scaling` for every index of
`pressure_idxset`. -/
def Simulator.rescale_pressure {R : Type} [LinearOrderedField R]
    (include_melt_transport : Bool)
    (locally_owned_melt_pressure_dofs locally_owned_pressure_dofs : IndexSet)
    (pressure_scaling : R) (distributed_stokes_solution : ℕ → R) : ℕ → R :=
  let pressure_idxset : IndexSet :=
    if include_melt_transport = true then locally_owned_melt_pressure_dofs
    else locally_owned_pressure_dofs
  (List.range (IndexSet.n_elements pressure_idxset)).foldl
    (fun distributed_stokes_solution i =>
      let idx := IndexSet.nth_index_in_set pressure_idxset i
      Function.update distributed_stokes_solution idx
        (distributed_stokes_solution idx * pressure_scaling))
    distributed_stokes_solution

/-! ## `Simulator::normalize_pressure` (helper_functions.cc) -/

namespace LinearAlgebra

/-- A `LinearAlgebra::BlockVector` with all solution variables, the parts of
all processes taken together: the sizes of the blocks and the entries by
global index. -/
structure BlockVector (R : Type) where
  /-- The sizes of the blocks, in order. -/
  block_sizes : List ℕ
  /-- The entry with the given global index. -/
  values : ℕ → R

/-- The global index of the first entry of `block(b)`. -/
def BlockVector.block_start {R : Type} (self : BlockVector R) (b : ℕ) : ℕ :=
  (self.block_sizes.take b).sum

/-- Library call `block(b).add(a)`: `a` is added to every entry of the block. -/
def BlockVector.block_add {R : Type} [LinearOrderedField R] (self : BlockVector R) (b : ℕ)
    (a : R) : BlockVector R :=
  { self with
    values := fun i =>
      if self.block_start b ≤ i ∧ i < self.block_start b + self.block_sizes.getD b 0
      then self.values i + a else self.values i }

/-- The assignment `vector(idx) = value` to one entry. -/
def BlockVector.set {R : Type} (self : BlockVector R) (idx : ℕ) (value : R) : BlockVector R :=
  { self with values := Function.update self.values idx value }

end LinearAlgebra

/-- What `normalize_pressure` reads of a face of a cell. The quadrature formula
and the pressure extractor are the ones chosen in the function. -/
structure Face (R : Type) where
  /-- `face->at_boundary()`. -/
  at_boundary : Bool
  /-- `geometry_model->depth (face->center())`. -/
  center_depth : R
  /-- `face->diameter()`. -/
  diameter : R
  /-- `fe_face_values.JxW (q)` after `reinit (cell, face_no)`. -/
  JxW : ℕ → R
  /-- The content of `pressure_values` after
  `fe_face_values[extractor_pressure].get_function_values (vector, pressure_values)`,
  as a function of the entries of `vector`. -/
  pressure_values : (ℕ → R) → ℕ → R

/-- What `normalize_pressure` reads of an active cell of `dof_handler`. -/
structure Cell (R : Type) where
  /-- The rank of the process for which `cell->is_locally_owned()` holds. -/
  subdomain_id : ℕ
  /-- The faces `cell->face (face_no)`, `face_no < faces_per_cell`. -/
  faces : List (Face R)
  /-- `fe_values.JxW (q)` after `reinit (cell)`. -/
  JxW : ℕ → R
  /-- The content of `pressure_values` after
  `fe_values[extractor_pressure].get_function_values (vector, pressure_values)`,
  as a function of the entries of `vector`. -/
  pressure_values : (ℕ → R) → ℕ → R
  /-- The global index
  `local_dof_indices[finite_element.component_to_system_index (pressure_component, j)]`
  of the `j`-th pressure degree of freedom of the cell. -/
  pressure_dof_index : ℕ → ℕ

/-- The members of `Simulator` read or written by `normalize_pressure`. -/
structure PressureNormalization (R : Type) where
  /-- Parameter `pressure_normalization`. -/
  pressure_normalization : String
  /-- Parameter `surface_pressure`. -/
  surface_pressure : R
  /-- Parameter `include_melt_transport`. -/
  include_melt_transport : Bool
  /-- Parameter `use_locally_conservative_discretization`. -/
  use_locally_conservative_discretization : Bool
  /-- `introspection.block_indices.velocities`. -/
  block_indices_velocities : ℕ
  /-- `introspection.block_indices.pressure`. -/
  block_indices_pressure : ℕ
  /-- The template argument `dim`. -/
  dim : ℕ
  /-- `quadrature.size()` of the face quadrature `QGauss<dim-1>`. -/
  n_face_q_points : ℕ
  /-- `quadrature.size()` of the cell quadrature `QGauss<dim>`. -/
  n_q_points : ℕ
  /-- The number `n_local_pressure_dofs`. -/
  n_local_pressure_dofs : ℕ
  /-- The number of processes of `mpi_communicator`. -/
  n_mpi_processes : ℕ
  /-- The active cells of `dof_handler`, in the order of the iteration. -/
  cells : List (Cell R)
  /-- The member `pressure_adjustment`. -/
  pressure_adjustment : R

/-- The loop over the quadrature points:
`my_pressure += pressure_values[q] * JxW (q); my_area += JxW (q);`. The pair is
(`my_pressure`, `my_area`). -/
def quadrature_sum {R : Type} [LinearOrderedField R] (n_q_points : ℕ)
    (pressure_values JxW : ℕ → R) (my : R × R) : R × R :=
  (List.range n_q_points).foldl
    (fun my q => (my.1 + pressure_values q * JxW q, my.2 + JxW q)) my

/-- The branch `pressure_normalization == "surface"` of `normalize_pressure` on
the process `rank`: the pair (`my_pressure`, `my_area`) after the loop over
the cells. -/
def Simulator.surface_integrals {R : Type} [LinearOrderedField R] (lib : Library R)
    (self : PressureNormalization R) (rank : ℕ) (vector : LinearAlgebra.BlockVector R) :
    R × R :=
  self.cells.foldl
    (fun my cell =>
      if cell.subdomain_id = rank then
        cell.faces.foldl
          (fun my face =>
            if face.at_boundary = true
                ∧ face.center_depth < face.diameter / lib.sqrt (1 * (self.dim : R) - 1) / 3 then
              quadrature_sum self.n_face_q_points (face.pressure_values vector.values)
                face.JxW my
            else my)
          my
      else my)
    (0, 0)

/-- The branch `pressure_normalization == "volume"` of `normalize_pressure` on
the process `rank`: the pair (`my_pressure`, `my_area`) after the loop over
the cells. -/
def Simulator.volume_integrals {R : Type} [LinearOrderedField R]
    (self : PressureNormalization R) (rank : ℕ) (vector : LinearAlgebra.BlockVector R) :
    R × R :=
  self.cells.foldl
    (fun my cell =>
      if cell.subdomain_id = rank then
        quadrature_sum self.n_q_points (cell.pressure_values vector.values) cell.JxW my
      else my)
    (0, 0)

/-- Library call `Utilities::MPI::sum (my_temp, mpi_communicator, temp)` for an
array of two numbers: the sums over the processes. -/
def Utilities.MPI.sum {R : Type} [LinearOrderedField R] (n_mpi_processes : ℕ)
    (my_temp : ℕ → R × R) : R × R :=
  (List.range n_mpi_processes).foldl
    (fun temp rank => (temp.1 + (my_temp rank).1, temp.2 + (my_temp rank).2)) (0, 0)

/-- The array `temp` of `normalize_pressure` for one of the two valid
normalization methods: the sums over the processes of the surface integrals
(`"surface"`) or of the volume integrals (otherwise). -/
def Simulator.normalize_pressure_temp {R : Type} [LinearOrderedField R] (lib : Library R)
    (self : PressureNormalization R) (vector : LinearAlgebra.BlockVector R) : R × R :=
  Utilities.MPI.sum self.n_mpi_processes
    (fun rank =>
      if self.pressure_normalization = "surface" then
        Simulator.surface_integrals lib self rank vector
      else Simulator.volume_integrals self rank vector)

/-- The quotient `temp[0] / temp[1]` of `normalize_pressure`: the averaged value
of the pressure, over the surface or over the volume. -/
def Simulator.averaged_pressure {R : Type} [LinearOrderedField R] (lib : Library R)
    (self : PressureNormalization R) (vector : LinearAlgebra.BlockVector R) : R :=
  (Simulator.normalize_pressure_temp lib self vector).1
    / (Simulator.normalize_pressure_temp lib self vector).2

/-- The last part of `normalize_pressure`, from the copy into
`distributed_vector` to the assignment `vector = distributed_vector`, with the
value of `pressure_adjustment` as an argument; the value is the new content of
`vector`. Every process runs the loops over the cells it owns. -/
def Simulator.normalize_pressure_update {R : Type} [LinearOrderedField R]
    (self : PressureNormalization R) (pressure_adjustment : R)
    (vector : LinearAlgebra.BlockVector R) : LinearAlgebra.BlockVector R :=
  let distributed_vector := vector
  if self.use_locally_conservative_discretization = false then
    if self.block_indices_velocities ≠ self.block_indices_pressure
        ∧ self.include_melt_transport = false then
      distributed_vector.block_add self.block_indices_pressure pressure_adjustment
    else
      -- pressure is not in a separate block, so we have to modify the values manually
      (List.range self.n_mpi_processes).foldl
        (fun distributed_vector rank =>
          self.cells.foldl
            (fun distributed_vector cell =>
              if cell.subdomain_id = rank then
                (List.range self.n_local_pressure_dofs).foldl
                  (fun distributed_vector j =>
                    -- copy from the unchanged vector
                    distributed_vector.set (cell.pressure_dof_index j)
                      (vector.values (cell.pressure_dof_index j) + pressure_adjustment))
                  distributed_vector
              else distributed_vector)
            distributed_vector)
        distributed_vector
  else
    -- add the adjustment to the first pressure degree of freedom on each cell
    (List.range self.n_mpi_processes).foldl
      (fun distributed_vector rank =>
        self.cells.foldl
          (fun distributed_vector cell =>
            if cell.subdomain_id = rank then
              distributed_vector.set (cell.pressure_dof_index 0)
                (distributed_vector.values (cell.pressure_dof_index 0) + pressure_adjustment)
            else distributed_vector)
          distributed_vector)
      distributed_vector

/-- `Simulator::normalize_pressure (vector)` of helper_functions.cc, all
processes together: the simulator members and the content of `vector`
afterwards, or the exception thrown. The second `AssertThrow`, with
`ExcNotImplemented`, stands in a branch that is never reached (an invalid
method has thrown before); it is given as an `ExcMessage` with that name.
The quotient `temp[0] / temp[1]` is the division of the field `R`. When the
integration domain is empty (`temp[1] == 0`: no face at the surface, or no
volume) the source divides by zero and goes on with a `double` that is not a
finite number; the field has no such number, so the definition describes the
function for `temp[1] != 0` only, and the properties proved about it have
hypotheses that hold only then. -/
def Simulator.normalize_pressure {R : Type} [LinearOrderedField R] (lib : Library R)
    (self : PressureNormalization R) (vector : LinearAlgebra.BlockVector R) :
    Except (Exception R) (PressureNormalization R × LinearAlgebra.BlockVector R) :=
  if self.pressure_normalization = "no" then Except.ok (self, vector)
  else
    -- the pair (my_pressure, my_area) of every process
    let my_temp : Except (Exception R) (ℕ → R × R) :=
      if self.pressure_normalization = "surface" then
        Except.ok (fun rank => Simulator.surface_integrals lib self rank vector)
      else if self.pressure_normalization = "volume" then
        Except.ok (fun rank => Simulator.volume_integrals self rank vector)
      else
        Except.error (Exception.ExcMessage
          ("Invalid pressure normalization method: " ++ self.pressure_normalization))
    match my_temp with
    | Except.error exc => Except.error exc
    | Except.ok my_temp =>
      let self : PressureNormalization R := { self with pressure_adjustment := 0 }
      -- sum up the integrals from each processor
      let temp := Utilities.MPI.sum self.n_mpi_processes my_temp
      if self.pressure_normalization = "surface" then
        let self : PressureNormalization R :=
          { self with pressure_adjustment := -temp.1 / temp.2 + self.surface_pressure }
        Except.ok (self, Simulator.normalize_pressure_update self self.pressure_adjustment vector)
      else if self.pressure_normalization = "volume" then
        let self : PressureNormalization R :=
          { self with pressure_adjustment := -temp.1 / temp.2 }
        Except.ok (self, Simulator.normalize_pressure_update self self.pressure_adjustment vector)
      else Except.error (Exception.ExcMessage "ExcNotImplemented")

/-! ## `Simulator::denormalize_pressure` (helper_functions.cc) -/

/-- The ways in which a call ends without returning: an exception is thrown,
or a condition checked with `Assert` is violated. `Assert` is compiled only
into a debug build, where a violated condition ends the program. -/
inductive Failure (R : Type) where
  /-- An exception is thrown. -/
  | thrown (exc : Exception R)
  /-- The `Assert` with the given condition is violated in a debug build. -/
  | assertion (condition : String)

/-- The loop over the cells in the branch of `denormalize_pressure` for a
locally conservative discretization on the process `rank`, started with the
content `vector`. In a debug build the loop ends at the first cell whose first
pressure index lies in `vector.block(0)`. -/
def Simulator.denormalize_pressure_cells {R : Type} [LinearOrderedField R] (debug : Bool)
    (self : PressureNormalization R) (rank : ℕ)
    (vector : Except (Failure R) (LinearAlgebra.BlockVector R)) :
    Except (Failure R) (LinearAlgebra.BlockVector R) :=
  self.cells.foldl
    (fun vector cell =>
      match vector with
      | Except.error failure => Except.error failure
      | Except.ok vector =>
        if cell.subdomain_id = rank then
          if debug = true ∧ ¬ (cell.pressure_dof_index 0 ≥ vector.block_sizes.getD 0 0) then
            Except.error (Failure.assertion
              "local_dof_indices[first_pressure_dof] >= vector.block(0).size()")
          else
            -- then adjust its value
            Except.ok (vector.set (cell.pressure_dof_index 0)
              (vector.values (cell.pressure_dof_index 0) - self.pressure_adjustment))
        else Except.ok vector)
    vector

/-- `Simulator::denormalize_pressure (vector, relevant_vector)` of
helper_functions.cc, all processes together: the content of `vector`
afterwards. `debug` tells whether the `Assert`s are compiled in. The two
`Assert`s on the kind of the pressure element (`FE_DGP`) and on the owner of
the first pressure index concern data of the library that the state does not
hold; as in `normalize_pressure` they are taken to hold. -/
def Simulator.denormalize_pressure {R : Type} [LinearOrderedField R] (debug : Bool)
    (self : PressureNormalization R) (vector relevant_vector : LinearAlgebra.BlockVector R) :
    Except (Failure R) (LinearAlgebra.BlockVector R) :=
  if self.pressure_normalization = "no" then Except.ok vector
  else if self.use_locally_conservative_discretization = false then
    if self.block_indices_velocities ≠ self.block_indices_pressure
        ∧ self.include_melt_transport = false then
      Except.ok (vector.block_add self.block_indices_pressure (-1 * self.pressure_adjustment))
    else
      -- pressure is not in a separate block so we have to modify the values manually
      Except.ok ((List.range self.n_mpi_processes).foldl
        (fun vector rank =>
          self.cells.foldl
            (fun vector cell =>
              if cell.subdomain_id = rank then
                (List.range self.n_local_pressure_dofs).foldl
                  (fun vector j =>
                    vector.set (cell.pressure_dof_index j)
                      (relevant_vector.values (cell.pressure_dof_index j)
                        - self.pressure_adjustment))
                  vector
              else vector)
            vector)
        vector)
  else
    if debug = true ∧ ¬ (self.include_melt_transport = false) then
      Except.error (Failure.assertion "!parameters.include_melt_transport")
    else
      (List.range self.n_mpi_processes).foldl
        (fun vector rank => Simulator.denormalize_pressure_cells debug self rank vector)
        (Except.ok vector)

/-! ## `Simulator::make_pressure_rhs_compatible` (helper_functions.cc) -/

/-- Library call `block(b).mean_value()`: the sum of the entries of the block
divided by its size. -/
def LinearAlgebra.BlockVector.block_mean_value {R : Type} [LinearOrderedField R]
    (self : LinearAlgebra.BlockVector R) (b : ℕ) : R :=
  (List.range (self.block_sizes.getD b 0)).foldl
      (fun sum k => sum + self.values (self.block_start b + k)) 0
    / (self.block_sizes.getD b 0 : R)

/-- Library call `block(b).add(a, V.block(b))`: `a` times the entry of
`V.block(b)` at the same position is added to every entry of the block. -/
def LinearAlgebra.BlockVector.block_add_scaled {R : Type} [LinearOrderedField R]
    (self : LinearAlgebra.BlockVector R) (b : ℕ) (a : R) (V : LinearAlgebra.BlockVector R) :
    LinearAlgebra.BlockVector R :=
  { self with
    values := fun i =>
      if self.block_start b ≤ i ∧ i < self.block_start b + self.block_sizes.getD b 0
      then self.values i + a * V.values (V.block_start b + (i - self.block_start b))
      else self.values i }

/-- Library call `Utilities::MPI::sum (value, mpi_communicator)` for one number:
the sum over the processes. -/
def Utilities.MPI.sum_of_values {R : Type} [LinearOrderedField R] (n_mpi_processes : ℕ)
    (value : ℕ → R) : R :=
  (List.range n_mpi_processes).foldl (fun sum rank => sum + value rank) 0

/-- The members of `Simulator` read by `make_pressure_rhs_compatible`. -/
structure PressureCompatibility (R : Type) where
  /-- Parameter `use_locally_conservative_discretization`. -/
  use_locally_conservative_discretization : Bool
  /-- Parameter `include_melt_transport`. -/
  include_melt_transport : Bool
  /-- `introspection.block_indices.velocities`. -/
  block_indices_velocities : ℕ
  /-- `introspection.block_indices.pressure`. -/
  block_indices_pressure : ℕ
  /-- `introspection.index_sets.locally_owned_fluid_pressure_dofs` on the
  process with the given rank. -/
  locally_owned_fluid_pressure_dofs : ℕ → IndexSet
  /-- `introspection.index_sets.locally_owned_pressure_dofs` on the process with
  the given rank. -/
  locally_owned_pressure_dofs : ℕ → IndexSet
  /-- The number of processes of `mpi_communicator`. -/
  n_mpi_processes : ℕ
  /-- The member `global_volume`. -/
  global_volume : R
  /-- The member `pressure_shape_function_integrals`. -/
  pressure_shape_function_integrals : LinearAlgebra.BlockVector R

/-- The index set `idxset` of `make_pressure_rhs_compatible` on the process with
the given rank: "we need to operate only on p_f not on p_c". -/
def PressureCompatibility.idxset {R : Type} (self : PressureCompatibility R) (rank : ℕ) :
    IndexSet :=
  if self.include_melt_transport = true then self.locally_owned_fluid_pressure_dofs rank
  else self.locally_owned_pressure_dofs rank

/-- `Simulator::make_pressure_rhs_compatible (vector)` of helper_functions.cc,
all processes together: the content of `vector` afterwards, or the exception
thrown. `ExcNotImplemented` is given as the `ExcMessage` with that name. -/
def Simulator.make_pressure_rhs_compatible {R : Type} [LinearOrderedField R]
    (self : PressureCompatibility R) (vector : LinearAlgebra.BlockVector R) :
    Except (Exception R) (LinearAlgebra.BlockVector R) :=
  if self.use_locally_conservative_discretization = true then
    Except.error (Exception.ExcMessage "ExcNotImplemented")
  else
    let global_normal_velocity_integral : R := 0
    if self.include_melt_transport = false
        ∧ self.block_indices_velocities ≠ self.block_indices_pressure then
      let mean := vector.block_mean_value self.block_indices_pressure
      let correction :=
        (global_normal_velocity_integral
          - mean * (vector.block_sizes.getD self.block_indices_pressure 0 : R))
        / self.global_volume
      Except.ok (vector.block_add_scaled self.block_indices_pressure correction
        self.pressure_shape_function_integrals)
    else
      let idxset : ℕ → IndexSet := self.idxset
      let pressure_sum : ℕ → R := fun rank =>
        (List.range (IndexSet.n_elements (idxset rank))).foldl
          (fun pressure_sum i =>
            let idx := IndexSet.nth_index_in_set (idxset rank) i
            pressure_sum + vector.values idx)
          0
      let global_pressure_sum := Utilities.MPI.sum_of_values self.n_mpi_processes pressure_sum
      let correction :=
        (global_normal_velocity_integral - global_pressure_sum) / self.global_volume
      Except.ok ((List.range self.n_mpi_processes).foldl
        (fun vector rank =>
          (List.range (IndexSet.n_elements (idxset rank))).foldl
            (fun vector i =>
              let idx := IndexSet.nth_index_in_set (idxset rank) i
              vector.set idx
                (vector.values idx
                  + correction * self.pressure_shape_function_integrals.values idx))
            vector)
        vector)

/-! ## Mesh refinement criteria (composition_gradient.cc, composition_threshold.cc) -/

namespace MeshRefinement

/-- What the two criteria read of an active cell of the dof handler on the
process that executes them; `dim` is the template argument. -/
structure ActiveCell (R : Type) (dim : ℕ) where
  /-- `cell->is_locally_owned()`. -/
  is_locally_owned : Bool
  /-- `cell->diameter()`. -/
  diameter : R
  /-- The content of `composition_gradients` after `get_function_gradients` for
  the compositional field `c`: the gradient at the support point `j`. -/
  composition_gradients : (c : ℕ) → (j : ℕ) → Vector R dim
  /-- The content of `composition_values` after `get_function_values` for the
  compositional field `c`: the value at the support point `j`. -/
  composition_values : (c : ℕ) → (j : ℕ) → R

/-- What `CompositionGradient<dim>::execute` reads of the plugin and of the
simulator. -/
structure CompositionGradient (R : Type) (dim : ℕ) where
  /-- `this->n_compositional_fields()`. -/
  n_compositional_fields : ℕ
  /-- `dofs_per_cell` of the base element of the compositional fields. -/
  dofs_per_cell : ℕ
  /-- The active cells of the dof handler, in the order of the iteration. -/
  cells : List (ActiveCell R dim)
  /-- The member `composition_scaling_factors`, by the index of the field. -/
  composition_scaling_factors : ℕ → R

/-- `CompositionGradient<dim>::execute (indicators)` of composition_gradient.cc:
the content of `indicators` afterwards, by the index of the cell, or the
exception thrown. The functions `std::sqrt` (in `Tensor::norm`) and `std::pow`
are parameters. -/
def CompositionGradient.execute {R : Type} [LinearOrderedField R] {dim : ℕ}
    (sqrt : R → R) (pow : R → R → R) (self : CompositionGradient R dim)
    (_indicators : ℕ → R) : Except (Exception R) (ℕ → R) :=
  if ¬ (self.n_compositional_fields ≥ 1) then
    Except.error (Exception.ExcMessage
      ("This refinement criterion can not be used when no "
        ++ "compositional fields are active!"))
  else
    let indicators : ℕ → R := fun _ => 0
    let power : R := 1 + (dim : R) / 2
    Except.ok ((List.range self.n_compositional_fields).foldl
      (fun indicators c =>
        self.cells.enum.foldl
          (fun indicators (cell : ℕ × ActiveCell R dim) =>
            let i := cell.1
            if cell.2.is_locally_owned = true then
              let indicators := (List.range self.dofs_per_cell).foldl
                (fun indicators j =>
                  Function.update indicators i
                    (indicators i
                      + Vector.l2_norm sqrt (cell.2.composition_gradients c j)
                        * self.composition_scaling_factors c))
                indicators
              -- Scale gradient in each cell with the correct power of h.
              Function.update indicators i (indicators i * pow cell.2.diameter power)
            else indicators)
          indicators)
      indicators)

/-- What `CompositionThreshold<dim>::execute` reads of the plugin and of the
simulator. -/
structure CompositionThreshold (R : Type) (dim : ℕ) where
  /-- `this->n_compositional_fields()`. -/
  n_compositional_fields : ℕ
  /-- `dofs_per_cell` of the base element of the compositional fields. -/
  dofs_per_cell : ℕ
  /-- The active cells of the dof handler, in the order of the iteration. -/
  cells : List (ActiveCell R dim)
  /-- The member `composition_thresholds`, by the index of the field. -/
  composition_thresholds : ℕ → R

/-- `CompositionThreshold<dim>::execute (indicators)` of
composition_threshold.cc: the content of `indicators` afterwards, by the index
of the cell, or the exception thrown. -/
def CompositionThreshold.execute {R : Type} [LinearOrderedField R] {dim : ℕ}
    (self : CompositionThreshold R dim) (_indicators : ℕ → R) :
    Except (Exception R) (ℕ → R) :=
  if ¬ (self.n_compositional_fields ≥ 1) then
    Except.error (Exception.ExcMessage
      ("This refinement criterion can not be used when no "
        ++ "compositional fields are active!"))
  else
    let indicators : ℕ → R := fun _ => 0
    Except.ok ((List.range self.n_compositional_fields).foldl
      (fun indicators c =>
        self.cells.enum.foldl
          (fun indicators (cell : ℕ × ActiveCell R dim) =>
            let i := cell.1
            if cell.2.is_locally_owned = true then
              -- if the composition exceeds the threshold, cell is marked for refinement
              (List.range self.dofs_per_cell).foldl
                (fun indicators j =>
                  if cell.2.composition_values c j > self.composition_thresholds c then
                    Function.update indicators i 1
                  else indicators)
                indicators
            else indicators)
          indicators)
      indicators)

end MeshRefinement

/-! ## Sequences of calls of `BlockSchurPreconditioner::vmult` -/

namespace internal

/-- The results of a sequence of calls `vmult (dst, src)` on one
`BlockSchurPreconditioner` object of solver.cc, in the order of the calls:
every call finds the object with the counters left by the call before. -/
def BlockSchurPreconditioner.vmult_calls {R : Type} [LinearOrderedField R] {nu np : ℕ}
    (lib : Library R) :
    BlockSchurPreconditioner R nu np → List (BlockVector R nu np × BlockVector R nu np) →
      List (VmultResult (BlockSchurPreconditioner R nu np) R nu np)
  | _, [] => []
  | self, (dst, src) :: rest =>
    self.vmult lib dst src
      :: BlockSchurPreconditioner.vmult_calls lib (self.vmult lib dst src).precond rest

/-- The `BlockSchurPreconditioner` object of solver.cc after a sequence of calls
`vmult (dst, src)`. -/
def BlockSchurPreconditioner.after_calls {R : Type} [LinearOrderedField R] {nu np : ℕ}
    (lib : Library R) (self : BlockSchurPreconditioner R nu np)
    (calls : List (BlockVector R nu np × BlockVector R nu np)) :
    BlockSchurPreconditioner R nu np :=
  calls.foldl (fun self call => (self.vmult lib call.1 call.2).precond) self

namespace MatrixFree

/-- The results of a sequence of calls `vmult (dst, src)` on one matrix-free
`BlockSchurPreconditioner` object, in the order of the calls: every call finds
the object with the counters left by the call before. -/
def BlockSchurPreconditioner.vmult_calls {R : Type} [LinearOrderedField R] {nu np : ℕ}
    (lib : Library R) :
    BlockSchurPreconditioner R nu np → List (BlockVector R nu np × BlockVector R nu np) →
      List (VmultResult (BlockSchurPreconditioner R nu np) R nu np)
  | _, [] => []
  | self, (dst, src) :: rest =>
    self.vmult lib dst src
      :: BlockSchurPreconditioner.vmult_calls lib (self.vmult lib dst src).precond rest

/-- The matrix-free `BlockSchurPreconditioner` object after a sequence of calls
`vmult (dst, src)`. -/
def BlockSchurPreconditioner.after_calls {R : Type} [LinearOrderedField R] {nu np : ℕ}
    (lib : Library R) (self : BlockSchurPreconditioner R nu np)
    (calls : List (BlockVector R nu np × BlockVector R nu np)) :
    BlockSchurPreconditioner R nu np :=
  calls.foldl (fun self call => (self.vmult lib call.1 call.2).precond) self

end MatrixFree

end internal

/-! ## The block layout checks of the Stokes solvers (solver.cc, stokes_matrix_free.cc) -/

/-- What the iterative Stokes solvers and the constructor of
`StokesMatrixFreeHandler` read of `introspection`. -/
structure Introspection where
  /-- `introspection.block_indices.velocities`. -/
  block_indices_velocities : ℕ
  /-- `introspection.block_indices.pressure`. -/
  block_indices_pressure : ℕ
  /-- The block index of `introspection.variable (name)`. -/
  variable_block_index : String → ℕ

/-- The constant `block_vel` of both solvers. -/
def Introspection.block_vel (self : Introspection) : ℕ :=
  self.block_indices_velocities

/-- The constant `block_p` of both solvers, for the value of the parameter
`include_melt_transport`. -/
def Introspection.block_p (self : Introspection) (include_melt_transport : Bool) : ℕ :=
  if include_melt_transport = true then self.variable_block_index "fluid pressure"
  else self.block_indices_pressure

/-- The condition of the third `Assert` of both solvers:
`!include_melt_transport || variable ("compaction pressure").block_index == 1`. -/
def Introspection.compaction_pressure_in_block_1 (self : Introspection)
    (include_melt_transport : Bool) : Bool :=
  !include_melt_transport || decide (self.variable_block_index "compaction pressure" = 1)

/-- What the constructor of `StokesMatrixFreeHandler` reads of the simulator
besides `parameters.include_melt_transport` and `introspection`. -/
structure MatrixFreeRequirements where
  /-- Parameter `free_surface_enabled`. -/
  free_surface_enabled : Bool
  /-- Parameter `use_locally_conservative_discretization`. -/
  use_locally_conservative_discretization : Bool
  /-- Parameter `stokes_velocity_degree`. -/
  stokes_velocity_degree : ℕ
  /-- `sim.geometry_model->get_periodic_boundary_pairs().size()`. -/
  n_periodic_boundary_pairs : ℕ
  /-- Whether `parameters.material_averaging` has one of the bits of the
  averaging operations that give a constant value. -/
  material_averaging_gives_a_constant : Bool

/-- The `Assert`s of the constructor of `StokesMatrixFreeHandler`
(stokes_matrix_free.cc 418-442), in the order of the source: the condition
that ends a debug build, or nothing. The other statements of the constructor
(the initialization of the members, `parse_parameters`, one line of output) do
not touch the state described here. -/
def StokesMatrixFreeHandler.constructor {R : Type} {nu np : ℕ} (debug : Bool)
    (introspection : Introspection) (requirements : MatrixFreeRequirements)
    (sim : Simulator R nu np) : Except (Failure R) Unit :=
  if debug = true ∧ ¬ (requirements.free_surface_enabled = false) then
    Except.error (Failure.assertion "!sim.parameters.free_surface_enabled")
  else if debug = true ∧ ¬ (sim.parameters.include_melt_transport = false) then
    Except.error (Failure.assertion "!sim.parameters.include_melt_transport")
  else if debug = true ∧ ¬ (requirements.use_locally_conservative_discretization = false) then
    Except.error (Failure.assertion "!sim.parameters.use_locally_conservative_discretization")
  else if debug = true ∧ ¬ (requirements.stokes_velocity_degree = 2) then
    Except.error (Failure.assertion "sim.parameters.stokes_velocity_degree==2")
  -- sanity check:
  else if debug = true ∧ ¬ (introspection.variable_block_index "velocity" = 0) then
    Except.error (Failure.assertion "velocity block_index==0")
  else if debug = true ∧ ¬ (introspection.variable_block_index "pressure" = 1) then
    Except.error (Failure.assertion "pressure block_index==1")
  else if debug = true ∧ ¬ (requirements.n_periodic_boundary_pairs = 0) then
    Except.error (Failure.assertion "get_periodic_boundary_pairs().size()==0")
  else if debug = true ∧ ¬ (requirements.material_averaging_gives_a_constant = true) then
    Except.error (Failure.assertion "material_averaging gives a constant value")
  else Except.ok ()

/-- The objects that the solvers construct or copy before they check the block
layout. -/
inductive SolverObject where
  /-- The vector `distributed_stokes_solution`. -/
  | distributed_stokes_solution
  /-- The vector `distributed_stokes_rhs`. -/
  | distributed_stokes_rhs
  /-- The vector `system_rhs` of the simulator. -/
  | system_rhs
  /-- The smoother `mg_smoother` of the multigrid method. -/
  | mg_smoother
  /-- The coarse grid solver `mg_coarse`. -/
  | mg_coarse
  /-- The level objects `mg_interface_matrices`. -/
  | mg_interface_matrices
  /-- The wrapper `mg_interface`. -/
  | mg_interface
  /-- The wrapper `mg_matrix`. -/
  | mg_matrix
  /-- The `Multigrid` object `mg`. -/
  | mg
  /-- The multigrid preconditioner `prec_A`. -/
  | prec_A
  /-- The Chebyshev preconditioner `prec_S`. -/
  | prec_S
  deriving DecidableEq

/-- Whether the object is a preconditioner or a part of the multigrid
hierarchy. -/
def SolverObject.is_preconditioner_or_multigrid : SolverObject → Bool
  | SolverObject.mg_smoother => true
  | SolverObject.mg_coarse => true
  | SolverObject.mg_interface_matrices => true
  | SolverObject.mg_interface => true
  | SolverObject.mg_matrix => true
  | SolverObject.mg => true
  | SolverObject.prec_A => true
  | SolverObject.prec_S => true
  | _ => false

/-- What a solver does from its entry to the `Assert`s on the block layout. -/
inductive SetupEvent where
  /-- An object is constructed or initialized. -/
  | constructed (object : SolverObject)
  /-- The assignment `dst.block (dst_block) = src.block (src_block)`. -/
  | block_assigned (dst : SolverObject) (dst_block : ℕ) (src : SolverObject) (src_block : ℕ)
  /-- An `Assert` is executed (debug build) and its condition holds. -/
  | checked (condition : String)
  deriving DecidableEq

/-- Whether the action reads or writes a vector block through a block index. -/
def SetupEvent.is_block_access : SetupEvent → Bool
  | SetupEvent.block_assigned _ _ _ _ => true
  | _ => false

/-- Whether the action builds a preconditioner or a multigrid object. -/
def SetupEvent.builds_preconditioner_or_multigrid : SetupEvent → Bool
  | SetupEvent.constructed object => object.is_preconditioner_or_multigrid
  | _ => false

/-- How a solver goes on at its `Assert`s on the block layout. -/
inductive LayoutOutcome (T : Type) where
  /-- Debug build: the `Assert` with the given condition is violated and the
  program ends. -/
  | assertion (condition : String)
  /-- Release build with a layout other than velocity = 0, pressure = 1: the
  `Assert`s are not there and the function goes on with code that is written
  for the other layout; what it does then is not described. -/
  | unchecked
  /-- The layout is velocity = 0, pressure = 1: the function goes on and ends as
  given. -/
  | continues (result : T)

/-- A solver from its entry on: the actions up to the `Assert`s on the block
layout, in order, and how it goes on there. -/
structure LayoutChecked (T : Type) where
  /-- The actions taken up to the `Assert`s, in order. -/
  events : List SetupEvent
  /-- How the function goes on. -/
  outcome : LayoutOutcome T

/-- The iterative branch of `Simulator::solve_stokes ()` (solver.cc) from the
entry of the function, for any block layout: the construction of
`distributed_stokes_solution` (line 565), the constants `block_vel` and
`block_p` and the three `Assert`s (lines 673-680); with the asserted layout the
function goes on as `Simulator.solve_stokes`. The timer section and the output
line are left out. -/
def Simulator.solve_stokes_with_layout {R : Type} [LinearOrderedField R] {nu np : ℕ}
    (debug : Bool) (introspection : Introspection)
    (lib : Library R) (env : Collaborators R nu np)
    (solver : OuterSolver (internal.BlockSchurPreconditioner R nu np) R nu np)
    (sim : Simulator R nu np) :
    LayoutChecked (SolveResult (internal.BlockSchurPreconditioner R nu np) R R nu np) :=
  -- extract Stokes parts of solution vector, without any ghost elements
  let events := [SetupEvent.constructed SolverObject.distributed_stokes_solution]
  -- Let us make sure that this holds (and shorten their names):
  let block_vel := introspection.block_vel
  let block_p := introspection.block_p sim.parameters.include_melt_transport
  if debug = true ∧ ¬ (block_vel = 0) then
    ⟨events, LayoutOutcome.assertion "block_vel == 0"⟩
  else if debug = true ∧ ¬ (block_p = 1) then
    ⟨events, LayoutOutcome.assertion "block_p == 1"⟩
  else if debug = true ∧ ¬ (introspection.compaction_pressure_in_block_1
      sim.parameters.include_melt_transport = true) then
    ⟨events, LayoutOutcome.assertion
      "!parameters.include_melt_transport || compaction pressure block_index == 1"⟩
  else
    let events :=
      if debug = true then
        events ++ [SetupEvent.checked "block_vel == 0", SetupEvent.checked "block_p == 1",
          SetupEvent.checked
            "!parameters.include_melt_transport || compaction pressure block_index == 1"]
      else events
    if block_vel = 0 ∧ block_p = 1
        ∧ introspection.compaction_pressure_in_block_1
            sim.parameters.include_melt_transport = true then
      ⟨events, LayoutOutcome.continues (Simulator.solve_stokes lib env solver sim)⟩
    else ⟨events, LayoutOutcome.unchecked⟩

/-- `StokesMatrixFreeHandler::solve (i)` (stokes_matrix_free.cc) from the entry
of the function, for any block layout: the construction of the multigrid
objects and of the preconditioners `prec_A` and `prec_S` (lines 696-760), the
constants `block_vel` and `block_p`, the two vectors and the copies of the two
blocks of the right hand side (lines 766-778), and the three `Assert`s (lines
780-783); with the asserted layout the function goes on as
`StokesMatrixFreeHandler.solve`. -/
def StokesMatrixFreeHandler.solve_with_layout {R : Type} [LinearOrderedField R] {nu np : ℕ}
    (debug : Bool) (introspection : Introspection)
    (lib : Library R) (env : Collaborators R nu np)
    (solver : OuterSolver (internal.MatrixFree.BlockSchurPreconditioner R nu np) R nu np)
    (self : StokesMatrixFreeHandler R nu np) (i : ℕ) :
    LayoutChecked
      (SolveResult (internal.MatrixFree.BlockSchurPreconditioner R nu np) (R × Option R)
        R nu np) :=
  let sim := self.sim
  -- Below we define all the objects needed to build the GMG preconditioner
  let events :=
    [ SetupEvent.constructed SolverObject.mg_smoother,
      SetupEvent.constructed SolverObject.mg_coarse,
      SetupEvent.constructed SolverObject.mg_interface_matrices,
      SetupEvent.constructed SolverObject.mg_interface,
      SetupEvent.constructed SolverObject.mg_matrix,
      SetupEvent.constructed SolverObject.mg,
      -- GMG Preconditioner
      SetupEvent.constructed SolverObject.prec_A,
      -- the Mass matrix Preconditioner
      SetupEvent.constructed SolverObject.prec_S ]
  let block_vel := introspection.block_vel
  let block_p := introspection.block_p sim.parameters.include_melt_transport
  let events := events ++
    [ SetupEvent.constructed SolverObject.distributed_stokes_solution,
      -- extract Stokes parts of rhs vector
      SetupEvent.constructed SolverObject.distributed_stokes_rhs,
      SetupEvent.block_assigned SolverObject.distributed_stokes_rhs block_vel
        SolverObject.system_rhs block_vel,
      SetupEvent.block_assigned SolverObject.distributed_stokes_rhs block_p
        SolverObject.system_rhs block_p ]
  if debug = true ∧ ¬ (block_vel = 0) then
    ⟨events, LayoutOutcome.assertion "block_vel == 0"⟩
  else if debug = true ∧ ¬ (block_p = 1) then
    ⟨events, LayoutOutcome.assertion "block_p == 1"⟩
  else if debug = true ∧ ¬ (introspection.compaction_pressure_in_block_1
      sim.parameters.include_melt_transport = true) then
    ⟨events, LayoutOutcome.assertion
      "!sim.parameters.include_melt_transport || compaction pressure block_index == 1"⟩
  else
    let events :=
      if debug = true then
        events ++ [SetupEvent.checked "block_vel == 0", SetupEvent.checked "block_p == 1",
          SetupEvent.checked
            "!sim.parameters.include_melt_transport || compaction pressure block_index == 1"]
      else events
    if block_vel = 0 ∧ block_p = 1
        ∧ introspection.compaction_pressure_in_block_1
            sim.parameters.include_melt_transport = true then
      ⟨events, LayoutOutcome.continues (StokesMatrixFreeHandler.solve lib env solver self i)⟩
    else ⟨events, LayoutOutcome.unchecked⟩

/-! ## `StokesMatrixFreeHandler::get_workload_imbalance` (stokes_matrix_free.cc) -/

/-- What `get_workload_imbalance` reads of `sim.triangulation`, the views of all
processes taken together. -/
structure Triangulation where
  /-- `Utilities::MPI::n_mpi_processes (sim.triangulation.get_communicator ())`. -/
  n_mpi_processes : ℕ
  /-- `sim.triangulation.n_global_levels ()`. -/
  n_global_levels : ℕ
  /-- For every level the cells of the level, each given by the rank of the
  process for which `cell->is_locally_owned_on_level ()` holds. -/
  level_subdomain_ids : ℕ → List ℕ

/-- The number `n_owned_cells_on_lvl` on the process `rank` after the loop over
the cells of the level `lvl`. The counts are `unsigned long long` in the source;
a mesh has far fewer than `2^64` cells, so they are natural numbers here. -/
def Triangulation.n_owned_cells_on_lvl (self : Triangulation) (rank lvl : ℕ) : ℕ :=
  (self.level_subdomain_ids lvl).foldl
    (fun n_owned_cells_on_lvl level_subdomain_id =>
      if level_subdomain_id = rank then n_owned_cells_on_lvl + 1 else n_owned_cells_on_lvl)
    0

/-- Library call `Utilities::MPI::max (value, communicator)` for an unsigned
number: the maximum over the processes. -/
def Utilities.MPI.max_of_counts (n_mpi_processes : ℕ) (value : ℕ → ℕ) : ℕ :=
  (List.range n_mpi_processes).foldl (fun m rank => max m (value rank)) 0

/-- Library call `Utilities::MPI::sum (value, communicator)` for an unsigned
number: the sum over the processes. -/
def Utilities.MPI.sum_of_counts (n_mpi_processes : ℕ) (value : ℕ → ℕ) : ℕ :=
  (List.range n_mpi_processes).foldl (fun sum rank => sum + value rank) 0

/-- The pair (`work_estimate`, `total_cells_in_hierarchy`) of
`get_workload_imbalance` after the loop over the levels, which runs from the
finest level down to level 0. -/
def StokesMatrixFreeHandler.work_estimates (triangulation : Triangulation) : ℕ × ℕ :=
  let n_proc := triangulation.n_mpi_processes
  (List.range triangulation.n_global_levels).reverse.foldl
    (fun (estimates : ℕ × ℕ) lvl =>
      let n_owned_cells_on_lvl := fun rank => triangulation.n_owned_cells_on_lvl rank lvl
      let work_estimate_this_level := Utilities.MPI.max_of_counts n_proc n_owned_cells_on_lvl
      -- Work estimated by summing up max number of cells on each level
      let work_estimate := estimates.1 + work_estimate_this_level
      let total_cells_on_lvl := Utilities.MPI.sum_of_counts n_proc n_owned_cells_on_lvl
      let total_cells_in_hierarchy := estimates.2 + total_cells_on_lvl
      (work_estimate, total_cells_in_hierarchy))
    (0, 0)

/-- `StokesMatrixFreeHandler::get_workload_imbalance ()` of
stokes_matrix_free.cc, in exact arithmetic. -/
def StokesMatrixFreeHandler.get_workload_imbalance {R : Type} [LinearOrderedField R]
    (triangulation : Triangulation) : R :=
  let n_proc := triangulation.n_mpi_processes
  let work_estimate := (StokesMatrixFreeHandler.work_estimates triangulation).1
  let total_cells_in_hierarchy := (StokesMatrixFreeHandler.work_estimates triangulation).2
  let ideal_work : R := (total_cells_in_hierarchy : R) / (n_proc : R)
  let workload_imbalance_ratio : R := (work_estimate : R) / ideal_work
  workload_imbalance_ratio

/-! ## `Simulator::convert_pressure_blocks` (helper_functions.cc) -/

/-- Library call `block(b) = V.block(b)` for two block vectors with blocks of
the same sizes: the entries of the block are replaced by the entries of
`V.block(b)` at the same positions. -/
def LinearAlgebra.BlockVector.block_assign {R : Type} (self : LinearAlgebra.BlockVector R)
    (b : ℕ) (V : LinearAlgebra.BlockVector R) : LinearAlgebra.BlockVector R :=
  { self with
    values := fun i =>
      if self.block_start b ≤ i ∧ i < self.block_start b + self.block_sizes.getD b 0
      then V.values (V.block_start b + (i - self.block_start b))
      else self.values i }

/-- What `convert_pressure_blocks` reads of an active cell of `dof_handler`. -/
structure MeltCell (R : Type) where
  /-- The rank of the process for which `cell->is_locally_owned()` holds. -/
  subdomain_id : ℕ
  /-- The content of `porosity_values` after `get_function_values
  (current_linearization_point, porosity_values)`. -/
  porosity_values : ℕ → R
  /-- The global index `local_dof_indices[pressure_idx]` for the `j`-th pressure
  degree of freedom of the cell. -/
  pressure_dof_index : ℕ → ℕ
  /-- The global index `local_dof_indices[p_c_idx]` for the `j`-th compaction
  pressure degree of freedom of the cell. -/
  p_c_dof_index : ℕ → ℕ

/-- The members of `Simulator` read by `convert_pressure_blocks`. -/
structure PressureConversion (R : Type) where
  /-- Parameter `include_melt_transport`. -/
  include_melt_transport : Bool
  /-- Parameter `use_locally_conservative_discretization`. -/
  use_locally_conservative_discretization : Bool
  /-- Parameter `melt_transport_threshold`. -/
  melt_transport_threshold : R
  /-- `introspection.block_indices.pressure`. -/
  block_indices_pressure : ℕ
  /-- `dofs_per_cell` of the base element of the pressure. -/
  dofs_per_cell : ℕ
  /-- The number of processes of `mpi_communicator`. -/
  n_mpi_processes : ℕ
  /-- The active cells of `dof_handler`, in the order of the iteration. -/
  cells : List (MeltCell R)
  /-- `dof_handler.locally_owned_dofs()` on the process with the given rank. -/
  locally_owned_dofs : ℕ → IndexSet

/-- The two numbers that `convert_pressure_blocks` writes for the `j`-th
pressure degree of freedom of a cell: the first into
`output_solution (local_dof_indices[pressure_idx])`, the second into
`output_solution (local_dof_indices[p_c_idx])`. -/
def Simulator.converted_pressures {R : Type} [LinearOrderedField R]
    (self : PressureConversion R) (input_solution : LinearAlgebra.BlockVector R)
    (solid_to_fluid_pressure : Bool) (cell : MeltCell R) (j : ℕ) : R × R :=
  let phi := cell.porosity_values j
  if solid_to_fluid_pressure = true then
    -- (p_s, p_f) -> (p_f, p_c)
    let p_s := input_solution.values (cell.pressure_dof_index j)
    let p_f := input_solution.values (cell.p_c_dof_index j)
    let p_c := (1 - phi) * (p_s - p_f)
    (p_f, p_c)
  else
    -- (p_f, p_c) -> (p_s, p_f)
    let p_f := input_solution.values (cell.pressure_dof_index j)
    let p_s :=
      if phi > (1 - self.melt_transport_threshold) ∨ phi ≤ 0 then p_f
      else
        let p_c := input_solution.values (cell.p_c_dof_index j)
        (p_c - (phi - 1) * p_f) / (1 - phi)
    (p_s, p_f)

/-- `Simulator::convert_pressure_blocks (input_solution, solid_to_fluid_pressure,
output_solution)` of helper_functions.cc, all processes together: the content
of `output_solution` afterwards. `debug` tells whether the `Assert` is compiled
in. -/
def Simulator.convert_pressure_blocks {R : Type} [LinearOrderedField R] (debug : Bool)
    (self : PressureConversion R) (input_solution : LinearAlgebra.BlockVector R)
    (solid_to_fluid_pressure : Bool) (output_solution : LinearAlgebra.BlockVector R) :
    Except (Failure R) (LinearAlgebra.BlockVector R) :=
  if self.include_melt_transport = false then Except.ok output_solution
  else
    -- for the direct solver we have to copy the whole block
    let block_p := self.block_indices_pressure
    let output_solution := output_solution.block_assign block_p input_solution
    if debug = true ∧ ¬ (self.use_locally_conservative_discretization = false) then
      Except.error (Failure.assertion
        "parameters.use_locally_conservative_discretization == false")
    else
      Except.ok ((List.range self.n_mpi_processes).foldl
        (fun output_solution rank =>
          self.cells.foldl
            (fun output_solution cell =>
              if cell.subdomain_id = rank then
                (List.range self.dofs_per_cell).foldl
                  (fun output_solution j =>
                    -- skip entries that are not locally owned
                    if ¬ (cell.pressure_dof_index j ∈ self.locally_owned_dofs rank) then
                      output_solution
                    else
                      (output_solution.set (cell.pressure_dof_index j)
                          (Simulator.converted_pressures self input_solution
                            solid_to_fluid_pressure cell j).1).set
                        (cell.p_c_dof_index j)
                        (Simulator.converted_pressures self input_solution
                          solid_to_fluid_pressure cell j).2)
                  output_solution
              else output_solution)
            output_solution)
        output_solution)

/-! ## A small concrete system

One velocity and one pressure unknown over the rationals, with the Stokes
operator `[[1, 1], [1, 0]]`, the pressure mass matrix `1`, identity
preconditioners and inner solvers that are exact for the identity matrix. It
is used to run the definitions on concrete inputs. -/

namespace Examples

/-- The Stokes system matrix `[[1, 1], [1, 0]]`. -/
def system_matrix : BlockSparseMatrix ℚ 1 1 := ⟨1, 1, 1, 0⟩

/-- The preconditioner matrix: velocity block `1`, pressure mass matrix `1`. -/
def system_preconditioner_matrix : BlockSparseMatrix ℚ 1 1 := ⟨1, 0, 0, 1⟩

/-- A Krylov solver for the identity matrix: the solution of `x = b` is `b`,
found in one step. -/
def identity_solver (_control : SolverControl ℚ) (n : ℕ) (_A : SparseMatrix ℚ n n)
    (_x0 b : Vector ℚ n) (_preconditioner : Preconditioner ℚ n) : SolverOutcome ℚ n :=
  ⟨b, 1, [], none⟩

/-- The library on rank 0, with the rational square root (exact on squares)
and the solver for the identity matrix. -/
def lib : Library ℚ :=
  { sqrt := Rat.sqrt
    this_mpi_process := 0
    to_string := fun _ => "?"
    what := fun _ => "?"
    SolverFGMRES_solve := fun _ => identity_solver
    TrilinosSolverCG_solve := identity_solver
    SolverCG_solve := identity_solver }

/-- The preconditioner of solver.cc for the small system, freshly constructed. -/
def preconditioner (do_solve_A : Bool) : internal.BlockSchurPreconditioner ℚ 1 1 :=
  internal.BlockSchurPreconditioner.new system_matrix system_preconditioner_matrix id id
    do_solve_A (1 / 100) (1 / 100)

/-- The matrix-free preconditioner for the small system, freshly constructed. -/
def mf_preconditioner (do_solve_A : Bool) : internal.MatrixFree.BlockSchurPreconditioner ℚ 1 1 :=
  internal.MatrixFree.BlockSchurPreconditioner.new ⟨system_matrix⟩ 1 1 id id
    do_solve_A (1 / 100) (1 / 100)

/-- The block vector with velocity `u` and pressure `p`. -/
def vec (u p : ℚ) : BlockVector ℚ 1 1 := ⟨fun _ => u, fun _ => p⟩

/-- Collaborators that leave every vector as it is and report the pressure
adjustment 0. -/
def env : Collaborators ℚ 1 1 :=
  { denormalize_pressure := fun _ vector _ => vector
    set_zero := fun vector => vector
    distribute := fun vector => vector
    remove_nullspace := fun solution distributed_stokes_solution =>
      (solution, distributed_stokes_solution)
    normalize_pressure := fun solution => (solution, 0)
    compute_melt_variables := fun solution => solution }

/-- An outer solver for the small system that fails at once when the iteration
cap is 0 and otherwise returns, after one step and without using the
preconditioner, the exact solution `u = g`, `p = f - g` of `u + p = f`,
`u = g`. -/
def outer_solver (P : Type) : OuterSolver P ℚ 1 1 :=
  fun control _ _ x b preconditioner _ =>
    if control.max_steps = 0 then
      ⟨x, 0, 1, [1], preconditioner, some (Exception.NoConvergence 0 1)⟩
    else
      ⟨⟨b.block1, b.block0 - b.block1⟩, 1, 0, [1, 0], preconditioner, none⟩

/-- A simulator for the small system with right-hand side `(1, 0)`, the zero
vector as linearization point, pressure scaling 1, and the given number of
cheap solver steps. -/
def sim (n_cheap_stokes_solver_steps : ℕ) : Simulator ℚ 1 1 :=
  { parameters :=
      { n_cheap_stokes_solver_steps := n_cheap_stokes_solver_steps
        n_expensive_stokes_solver_steps := 10
        linear_stokes_solver_tolerance := 1 / 1000000
        linear_solver_A_block_tolerance := 1 / 100
        linear_solver_S_block_tolerance := 1 / 100
        stokes_gmres_restart_length := 50
        include_melt_transport := false
        output_directory := "output/" }
    system_matrix := system_matrix
    system_preconditioner_matrix := system_preconditioner_matrix
    system_rhs := vec 1 0
    current_linearization_point := vec 0 0
    solution := vec 0 0
    pressure_scaling := 1
    last_pressure_normalization_adjustment := 0
    Mp_preconditioner := id
    Amg_preconditioner := id
    assemble_newton_stokes_system := false
    gmres_iterations := 0 }

/-- The matrix-free handler for the small system. -/
def handler (n_cheap_stokes_solver_steps : ℕ) : StokesMatrixFreeHandler ℚ 1 1 :=
  { sim := sim n_cheap_stokes_solver_steps
    stokes_matrix := ⟨system_matrix⟩
    velocity_matrix := 1
    mass_matrix := 1
    prec_A := id
    prec_S := id }

/-- An outer solver for the small system that needs two steps: with the
iteration cap 0 it fails at once, with the cap 1 it leaves its first iterate
`x + b` in the solution vector and fails, and otherwise it returns the exact
solution after two steps. The preconditioner is not used. -/
def two_step_solver (P : Type) : OuterSolver P ℚ 1 1 :=
  fun control _ _ x b preconditioner _ =>
    if control.max_steps = 0 then
      ⟨x, 0, 1, [1], preconditioner, some (Exception.NoConvergence 0 1)⟩
    else if control.max_steps = 1 then
      ⟨⟨x.block0 + b.block0, x.block1 + b.block1⟩, 1, 1, [1, 1], preconditioner,
        some (Exception.NoConvergence 1 1)⟩
    else
      ⟨⟨b.block1, b.block0 - b.block1⟩, 2, 0, [1, 1, 0], preconditioner, none⟩

/-- An outer solver that never converges: it leaves the solution vector as it
is and fails with `NoConvergence` at the iteration cap. The preconditioner is
not used. -/
def stalled_solver (P : Type) : OuterSolver P ℚ 1 1 :=
  fun control _ _ x _ preconditioner _ =>
    ⟨x, control.max_steps, 1, [1], preconditioner,
      some (Exception.NoConvergence control.max_steps 1)⟩

/-- An outer solver that never converges and moves the solution vector: it
leaves `x + b` in it and fails with `NoConvergence` at the iteration cap. The
preconditioner is not used. -/
def drifting_solver (P : Type) : OuterSolver P ℚ 1 1 :=
  fun control _ _ x b preconditioner _ =>
    ⟨⟨x.block0 + b.block0, x.block1 + b.block1⟩, control.max_steps, 1, [1], preconditioner,
      some (Exception.NoConvergence control.max_steps 1)⟩

/-- A Krylov solver that never converges: it leaves the solution vector as it
is and fails with `NoConvergence` at the iteration cap. -/
def stalled_inner_solver (control : SolverControl ℚ) (n : ℕ) (_A : SparseMatrix ℚ n n)
    (x0 _b : Vector ℚ n) (_preconditioner : Preconditioner ℚ n) : SolverOutcome ℚ n :=
  ⟨x0, control.max_steps, [], some (Exception.NoConvergence control.max_steps 1)⟩

/-- The library on rank 0 in which the Schur solver of solver.cc never
converges. -/
def failing_lib : Library ℚ :=
  { lib with SolverFGMRES_solve := fun _ => stalled_inner_solver }

/-- An outer solver for the small system that applies the preconditioner once,
to the solution vector and the right-hand side: an exception of the
preconditioner leaves the solver, otherwise the exact solution is returned
after one step. -/
def preconditioned_solver (P : Type) : OuterSolver P ℚ 1 1 :=
  fun _ _ _ x b preconditioner vmult =>
    match (vmult preconditioner x b).raised with
    | some exc => ⟨x, 0, 1, [], (vmult preconditioner x b).precond, some exc⟩
    | none =>
      ⟨⟨b.block1, b.block0 - b.block1⟩, 1, 0, [1, 0], (vmult preconditioner x b).precond, none⟩

/-- The simulator for the small system with one cheap step and the right-hand
side `(0, 1)`. -/
def sim_pressure_rhs : Simulator ℚ 1 1 :=
  { sim 1 with system_rhs := vec 0 1 }

/-- A mesh with one cell on one process for `normalize_pressure`: the vector
has a velocity block with the entry 0 and a pressure block with the entry 1,
the pressure is constant on the cell with the value of entry 1, and the cell
and its one boundary face at the surface have one quadrature point with
weight 1. -/
def normalization (pressure_normalization : String) : PressureNormalization ℚ :=
  { pressure_normalization := pressure_normalization
    surface_pressure := 7
    include_melt_transport := false
    use_locally_conservative_discretization := false
    block_indices_velocities := 0
    block_indices_pressure := 1
    dim := 2
    n_face_q_points := 1
    n_q_points := 1
    n_local_pressure_dofs := 1
    n_mpi_processes := 1
    cells :=
      [{ subdomain_id := 0
         faces := [{ at_boundary := true
                     center_depth := 0
                     diameter := 3
                     JxW := fun _ => 1
                     pressure_values := fun values _ => values 1 }]
         JxW := fun _ => 1
         pressure_values := fun values _ => values 1
         pressure_dof_index := fun _ => 1 }]
    pressure_adjustment := 0 }

/-- The vector with the velocity entry 5 and the pressure entry 3. -/
def full_vector : LinearAlgebra.BlockVector ℚ :=
  { block_sizes := [1, 1]
    values := fun i => if i = 0 then 5 else if i = 1 then 3 else 0 }

/-- The simulator members for `make_pressure_rhs_compatible` on one process:
velocity block 0, pressure block 1, the pressure index set with the index 1,
`global_volume = 2` and the integral 2 of the pressure shape function. -/
def compatibility : PressureCompatibility ℚ :=
  { use_locally_conservative_discretization := false
    include_melt_transport := false
    block_indices_velocities := 0
    block_indices_pressure := 1
    locally_owned_fluid_pressure_dofs := fun _ => {1}
    locally_owned_pressure_dofs := fun _ => {1}
    n_mpi_processes := 1
    global_volume := 2
    pressure_shape_function_integrals :=
      { block_sizes := [1, 1]
        values := fun i => if i = 1 then 2 else 0 } }

/-- The function `std::pow` for exponents that are natural numbers. -/
def pow (x y : ℚ) : ℚ := x ^ (Int.toNat ⌊y⌋)

/-- Two compositional fields on a mesh (`dim = 2`) with one locally owned cell
of diameter 2 and one support point, at which both fields have the gradient
`(1, 0)`; both scaling factors are 1. -/
def two_fields : MeshRefinement.CompositionGradient ℚ 2 :=
  { n_compositional_fields := 2
    dofs_per_cell := 1
    cells := [{ is_locally_owned := true
                diameter := 2
                composition_gradients := fun _ _ => ![1, 0]
                composition_values := fun _ _ => 0 }]
    composition_scaling_factors := fun _ => 1 }

/-- Two compositional fields with the thresholds 1/2 on a mesh with two cells
with one support point: a locally owned cell on which the second field has
the value 1 and the first the value 0, and a cell of another process. -/
def two_thresholds : MeshRefinement.CompositionThreshold ℚ 2 :=
  { n_compositional_fields := 2
    dofs_per_cell := 1
    cells := [{ is_locally_owned := true
                diameter := 2
                composition_gradients := fun _ _ => ![0, 0]
                composition_values := fun c _ => if c = 1 then 1 else 0 },
              { is_locally_owned := false
                diameter := 2
                composition_gradients := fun _ _ => ![0, 0]
                composition_values := fun _ _ => 1 }]
    composition_thresholds := fun _ => 1 / 2 }

/-- The block layout with the pressure in block 0 and the velocity in block 1,
the same in both views of `introspection`. -/
def swapped_introspection : Introspection :=
  { block_indices_velocities := 1
    block_indices_pressure := 0
    variable_block_index := fun name => if name = "velocity" then 1 else 0 }

/-- The block layout with the velocity in block 0 and the pressure in block 1. -/
def standard_introspection : Introspection :=
  { block_indices_velocities := 0
    block_indices_pressure := 1
    variable_block_index := fun name => if name = "velocity" then 0 else 1 }

/-- A simulator setup that the constructor of `StokesMatrixFreeHandler`
accepts. -/
def requirements : MatrixFreeRequirements :=
  { free_surface_enabled := false
    use_locally_conservative_discretization := false
    stokes_velocity_degree := 2
    n_periodic_boundary_pairs := 0
    material_averaging_gives_a_constant := true }

/-- A hierarchy with two levels on two processes: one cell on level 0, owned by
process 0, and two cells on level 1, one for each process. -/
def triangulation : Triangulation :=
  { n_mpi_processes := 2
    n_global_levels := 2
    level_subdomain_ids := fun lvl => if lvl = 0 then [0] else [0, 1] }

/-- The simulator members for `convert_pressure_blocks` with melt transport on
one process: one cell with one pressure degree of freedom, with the pressure
index 1, the compaction pressure index 2 and the porosity 1/2; the threshold
is 1/10. -/
def conversion : PressureConversion ℚ :=
  { include_melt_transport := true
    use_locally_conservative_discretization := false
    melt_transport_threshold := 1 / 10
    block_indices_pressure := 1
    dofs_per_cell := 1
    n_mpi_processes := 1
    cells := [{ subdomain_id := 0
                porosity_values := fun _ => 1 / 2
                pressure_dof_index := fun _ => 1
                p_c_dof_index := fun _ => 2 }]
    locally_owned_dofs := fun _ => {0, 1, 2} }

/-- The vector with the velocity entry 5 and the pressure block `(p_s, p_f)`
with the solid pressure 3 and the fluid pressure 1. -/
def melt_vector : LinearAlgebra.BlockVector ℚ :=
  { block_sizes := [1, 2]
    values := fun i => if i = 0 then 5 else if i = 1 then 3 else if i = 2 then 1 else 0 }

end Examples

/-! ## Verified properties -/

namespace internal

/-- C1: `StokesBlock::residual` leaves `b - A*x` in `dst`, block by block, that
is `b` minus what `vmult` computes for `x`, and returns the l2 norm of that
`dst`. -/
theorem StokesBlock_residual_is_b_minus_Ax {R : Type} [LinearOrderedField R] {nu np : ℕ}
    (sqrt : R → R) (self : StokesBlock R nu np) (dst x b : BlockVector R nu np) :
    (self.residual sqrt dst x b).1.block0
        = b.block0 - (Matrix.mulVec self.system_matrix.block00 x.block0
                      + Matrix.mulVec self.system_matrix.block01 x.block1)
    ∧ (self.residual sqrt dst x b).1.block1
        = b.block1 - (Matrix.mulVec self.system_matrix.block10 x.block0
                      + Matrix.mulVec self.system_matrix.block11 x.block1)
    ∧ (∀ tmp : BlockVector R nu np,
        (self.residual sqrt dst x b).1.block0 = b.block0 - (self.vmult tmp x).block0
        ∧ (self.residual sqrt dst x b).1.block1 = b.block1 - (self.vmult tmp x).block1)
    ∧ (self.residual sqrt dst x b).2
        = BlockVector.l2_norm sqrt (self.residual sqrt dst x b).1 := by
  have h0 : (self.residual sqrt dst x b).1.block0
      = b.block0 - (Matrix.mulVec self.system_matrix.block00 x.block0
                      + Matrix.mulVec self.system_matrix.block01 x.block1) := by
    simp only [StokesBlock.residual, StokesBlock.vmult, Vector.sadd, SparseMatrix.vmult,
      SparseMatrix.vmult_add]
    rw [neg_one_smul, one_smul]
    abel
  have h1 : (self.residual sqrt dst x b).1.block1
      = b.block1 - (Matrix.mulVec self.system_matrix.block10 x.block0
                      + Matrix.mulVec self.system_matrix.block11 x.block1) := by
    simp only [StokesBlock.residual, StokesBlock.vmult, Vector.sadd, SparseMatrix.vmult,
      SparseMatrix.vmult_add]
    rw [neg_one_smul, one_smul]
    abel
  exact ⟨h0, h1, fun _ => ⟨h0, h1⟩, rfl⟩

/-- C2: `StokesBlock::vmult` computes the full 2x2 block product,
`dst.block(0) = A00*src0 + A01*src1` and `dst.block(1) = A10*src0 + A11*src1`,
and the content of `dst` on entry does not influence the result. -/
theorem StokesBlock_vmult_block_product {R : Type} [LinearOrderedField R] {nu np : ℕ}
    (self : StokesBlock R nu np) (dst src : BlockVector R nu np) :
    (self.vmult dst src).block0
        = Matrix.mulVec self.system_matrix.block00 src.block0
          + Matrix.mulVec self.system_matrix.block01 src.block1
    ∧ (self.vmult dst src).block1
        = Matrix.mulVec self.system_matrix.block10 src.block0
          + Matrix.mulVec self.system_matrix.block11 src.block1
    ∧ ∀ dst0 : BlockVector R nu np, self.vmult dst0 src = self.vmult dst src := by
  refine ⟨rfl, rfl, fun _ => rfl⟩

end internal

/-! ## Auxiliary lemmas on `BlockSchurPreconditioner::vmult` -/

namespace internal

/-- The pressure step of solver.cc when the Schur solve is skipped. -/
theorem pressure_step_of_le {R : Type} [LinearOrderedField R] {nu np : ℕ}
    (lib : Library R) (self : BlockSchurPreconditioner R nu np) (dst src : BlockVector R nu np)
    (h : Vector.l2_norm lib.sqrt src.block1 ≤ 1e-50) :
    self.pressure_step lib dst src
      = ⟨self, [], { dst with block1 := (-1 : R) • dst.block1 }, none⟩ := by
  unfold BlockSchurPreconditioner.pressure_step
  simp only []
  rw [if_neg (not_lt.mpr h)]

/-- The pressure step of solver.cc when the Schur solve runs and converges. -/
theorem pressure_step_of_gt {R : Type} [LinearOrderedField R] {nu np : ℕ}
    (lib : Library R) (self : BlockSchurPreconditioner R nu np) (dst src : BlockVector R nu np)
    (h : Vector.l2_norm lib.sqrt src.block1 > 1e-50)
    (hout : (lib.SolverFGMRES_solve 100 ⟨1000, Vector.l2_norm lib.sqrt src.block1 * self.S_block_tolerance, true, true⟩ np
        self.stokes_preconditioner_matrix.block11 0 src.block1 self.mp_preconditioner).exc = none) :
    self.pressure_step lib dst src
      = ⟨{ self with n_iterations_S_ := self.n_iterations_S_ + (lib.SolverFGMRES_solve 100 ⟨1000, Vector.l2_norm lib.sqrt src.block1 * self.S_block_tolerance, true, true⟩ np
        self.stokes_preconditioner_matrix.block11 0 src.block1 self.mp_preconditioner).last_step },
          [Call.S_solve ⟨1000, Vector.l2_norm lib.sqrt src.block1 * self.S_block_tolerance, true, true⟩ 0 src.block1],
          { dst with block1 := (-1 : R) • (lib.SolverFGMRES_solve 100 ⟨1000, Vector.l2_norm lib.sqrt src.block1 * self.S_block_tolerance, true, true⟩ np
        self.stokes_preconditioner_matrix.block11 0 src.block1 self.mp_preconditioner).x }, none⟩ := by
  unfold BlockSchurPreconditioner.pressure_step
  simp only []
  rw [if_pos h]
  split
  · rfl
  · rename_i exc hexc
    rw [hout] at hexc
    cases hexc

theorem pressure_step_raised_of_gt {R : Type} [LinearOrderedField R] {nu np : ℕ}
    (lib : Library R) (self : BlockSchurPreconditioner R nu np) (dst src : BlockVector R nu np)
    (h : Vector.l2_norm lib.sqrt src.block1 > 1e-50) (exc : Exception R)
    (hout : (lib.SolverFGMRES_solve 100 ⟨1000, Vector.l2_norm lib.sqrt src.block1 * self.S_block_tolerance, true, true⟩ np
        self.stokes_preconditioner_matrix.block11 0 src.block1 self.mp_preconditioner).exc = some exc) :
    (self.pressure_step lib dst src).raised ≠ none
    ∧ (self.pressure_step lib dst src).precond = self := by
  unfold BlockSchurPreconditioner.pressure_step
  simp only []
  rw [if_pos h]
  split
  · rename_i hexc
    rw [hout] at hexc
    cases hexc
  · split
    · split <;> exact ⟨by simp, rfl⟩
    · exact ⟨by simp, rfl⟩

/-- The pressure step of solver.cc changes nothing but the counter of S. -/
theorem pressure_step_precond {R : Type} [LinearOrderedField R] {nu np : ℕ}
    (lib : Library R) (self : BlockSchurPreconditioner R nu np) (dst src : BlockVector R nu np) :
    (self.pressure_step lib dst src).precond
      = { self with
          n_iterations_S_ := (self.pressure_step lib dst src).precond.n_iterations_S_ } := by
  unfold BlockSchurPreconditioner.pressure_step
  simp only []
  split
  · split
    · rfl
    · split
      · split <;> rfl
      · rfl
  · rfl

theorem pressure_step_calls_of_gt {R : Type} [LinearOrderedField R] {nu np : ℕ}
    (lib : Library R) (self : BlockSchurPreconditioner R nu np) (dst src : BlockVector R nu np)
    (h : Vector.l2_norm lib.sqrt src.block1 > 1e-50) :
    (self.pressure_step lib dst src).calls.filter Call.is_S_solve
      = [Call.S_solve ⟨1000, Vector.l2_norm lib.sqrt src.block1 * self.S_block_tolerance, true, true⟩ 0 src.block1] := by
  unfold BlockSchurPreconditioner.pressure_step
  simp only []
  rw [if_pos h]
  split
  · rfl
  · split
    · split <;> rfl
    · rfl

theorem pressure_step_calls_velocity {R : Type} [LinearOrderedField R] {nu np : ℕ}
    (lib : Library R) (self : BlockSchurPreconditioner R nu np) (dst src : BlockVector R nu np) :
    (self.pressure_step lib dst src).calls.filter Call.is_A_solve = []
    ∧ (self.pressure_step lib dst src).calls.filter Call.is_a_preconditioner_vmult = [] := by
  unfold BlockSchurPreconditioner.pressure_step
  simp only []
  split
  · split
    · exact ⟨rfl, rfl⟩
    · split
      · split <;> exact ⟨rfl, rfl⟩
      · exact ⟨rfl, rfl⟩
  · exact ⟨rfl, rfl⟩

theorem velocity_step_of_not_solve {R : Type} [LinearOrderedField R] {nu np : ℕ}
    (lib : Library R) (self : BlockSchurPreconditioner R nu np) (calls : List (Call R nu np))
    (dst : BlockVector R nu np) (utmp : Vector R nu) (h : self.do_solve_A = false) :
    self.velocity_step lib calls dst utmp
      = ⟨{ self with n_iterations_A_ := self.n_iterations_A_ + 1 },
          calls ++ [Call.a_preconditioner_vmult utmp],
          { dst with block0 := self.a_preconditioner utmp }, none⟩ := by
  unfold BlockSchurPreconditioner.velocity_step
  simp [h]

theorem velocity_step_of_solve {R : Type} [LinearOrderedField R] {nu np : ℕ}
    (lib : Library R) (self : BlockSchurPreconditioner R nu np) (calls : List (Call R nu np))
    (dst : BlockVector R nu np) (utmp : Vector R nu) (h : self.do_solve_A = true) :
    (self.velocity_step lib calls dst utmp).calls
        = calls ++ [Call.A_solve ⟨10000, Vector.l2_norm lib.sqrt utmp * self.A_block_tolerance, false, false⟩ 0 utmp]
    ∧ (self.velocity_step lib calls dst utmp).dst
        = { dst with block0 := (lib.TrilinosSolverCG_solve ⟨10000, Vector.l2_norm lib.sqrt utmp * self.A_block_tolerance, false, false⟩ nu
        self.stokes_matrix.block00 0 utmp self.a_preconditioner).x }
    ∧ (match (lib.TrilinosSolverCG_solve ⟨10000, Vector.l2_norm lib.sqrt utmp * self.A_block_tolerance, false, false⟩ nu
        self.stokes_matrix.block00 0 utmp self.a_preconditioner).exc with
        | none =>
          (self.velocity_step lib calls dst utmp).raised = none
          ∧ (self.velocity_step lib calls dst utmp).precond
              = { self with n_iterations_A_ := self.n_iterations_A_ + (lib.TrilinosSolverCG_solve ⟨10000, Vector.l2_norm lib.sqrt utmp * self.A_block_tolerance, false, false⟩ nu
        self.stokes_matrix.block00 0 utmp self.a_preconditioner).last_step }
        | some _ =>
          (self.velocity_step lib calls dst utmp).raised ≠ none
          ∧ (self.velocity_step lib calls dst utmp).precond = self) := by
  unfold BlockSchurPreconditioner.velocity_step
  simp only []
  rw [if_pos h]
  split
  · rename_i hexc
    simp [hexc]
  · rename_i exc hexc
    simp only [hexc]
    split
    · split <;> simp
    · simp

theorem velocity_step_calls_S {R : Type} [LinearOrderedField R] {nu np : ℕ}
    (lib : Library R) (self : BlockSchurPreconditioner R nu np) (calls : List (Call R nu np))
    (dst : BlockVector R nu np) (utmp : Vector R nu) :
    (self.velocity_step lib calls dst utmp).calls.filter Call.is_S_solve
      = calls.filter Call.is_S_solve := by
  unfold BlockSchurPreconditioner.velocity_step
  simp only []
  split
  · split
    · simp [Call.is_S_solve]
    · split
      · split <;> simp [Call.is_S_solve]
      · simp [Call.is_S_solve]
  · simp [Call.is_S_solve]

theorem velocity_step_n_iterations_S {R : Type} [LinearOrderedField R] {nu np : ℕ}
    (lib : Library R) (self : BlockSchurPreconditioner R nu np) (calls : List (Call R nu np))
    (dst : BlockVector R nu np) (utmp : Vector R nu) :
    (self.velocity_step lib calls dst utmp).precond.n_iterations_S_ = self.n_iterations_S_ := by
  unfold BlockSchurPreconditioner.velocity_step
  simp only []
  split
  · split
    · rfl
    · split
      · split <;> rfl
      · rfl
  · rfl

theorem velocity_step_dst_block1 {R : Type} [LinearOrderedField R] {nu np : ℕ}
    (lib : Library R) (self : BlockSchurPreconditioner R nu np) (calls : List (Call R nu np))
    (dst : BlockVector R nu np) (utmp : Vector R nu) :
    (self.velocity_step lib calls dst utmp).dst.block1 = dst.block1 := by
  unfold BlockSchurPreconditioner.velocity_step
  simp only []
  split
  · split
    · rfl
    · split
      · split <;> rfl
      · rfl
  · rfl

theorem vmult_of_pressure_ok {R : Type} [LinearOrderedField R] {nu np : ℕ}
    (lib : Library R) (self : BlockSchurPreconditioner R nu np) (dst src : BlockVector R nu np)
    (h : (self.pressure_step lib dst src).raised = none) :
    self.vmult lib dst src
      = (self.pressure_step lib dst src).precond.velocity_step lib
          (self.pressure_step lib dst src).calls (self.pressure_step lib dst src).dst
          ((self.pressure_step lib dst src).precond.top_right_step
            (self.pressure_step lib dst src).dst src) := by
  unfold BlockSchurPreconditioner.vmult
  simp only []
  split
  · rename_i e he
    rw [h] at he
    cases he
  · rfl

theorem vmult_of_pressure_raised {R : Type} [LinearOrderedField R] {nu np : ℕ}
    (lib : Library R) (self : BlockSchurPreconditioner R nu np) (dst src : BlockVector R nu np)
    (h : (self.pressure_step lib dst src).raised ≠ none) :
    self.vmult lib dst src = self.pressure_step lib dst src := by
  unfold BlockSchurPreconditioner.vmult
  simp only []
  split
  · rfl
  · rename_i he
    exact absurd he h

theorem vmult_dst_block1 {R : Type} [LinearOrderedField R] {nu np : ℕ}
    (lib : Library R) (self : BlockSchurPreconditioner R nu np) (dst src : BlockVector R nu np) :
    (self.vmult lib dst src).dst.block1 = (self.pressure_step lib dst src).dst.block1 := by
  unfold BlockSchurPreconditioner.vmult
  simp only []
  split
  · rfl
  · exact velocity_step_dst_block1 lib _ _ _ _

theorem vmult_calls_S {R : Type} [LinearOrderedField R] {nu np : ℕ}
    (lib : Library R) (self : BlockSchurPreconditioner R nu np) (dst src : BlockVector R nu np) :
    (self.vmult lib dst src).calls.filter Call.is_S_solve
      = (self.pressure_step lib dst src).calls.filter Call.is_S_solve := by
  unfold BlockSchurPreconditioner.vmult
  simp only []
  split
  · rfl
  · exact velocity_step_calls_S lib _ _ _ _

theorem vmult_n_iterations_S {R : Type} [LinearOrderedField R] {nu np : ℕ}
    (lib : Library R) (self : BlockSchurPreconditioner R nu np) (dst src : BlockVector R nu np) :
    (self.vmult lib dst src).precond.n_iterations_S_
      = (self.pressure_step lib dst src).precond.n_iterations_S_ := by
  unfold BlockSchurPreconditioner.vmult
  simp only []
  split
  · rfl
  · exact velocity_step_n_iterations_S lib _ _ _ _

/-- The matrix-free pressure step when the Schur solve is skipped. -/
theorem mf_pressure_step_of_le {R : Type} [LinearOrderedField R] {nu np : ℕ}
    (lib : Library R) (self : MatrixFree.BlockSchurPreconditioner R nu np) (dst src : BlockVector R nu np)
    (h : Vector.l2_norm lib.sqrt src.block1 ≤ 1e-50) :
    self.pressure_step lib dst src
      = ⟨self, [], { dst with block1 := (-1 : R) • dst.block1 }, none⟩ := by
  unfold MatrixFree.BlockSchurPreconditioner.pressure_step
  simp only []
  rw [if_neg (not_lt.mpr h)]

/-- The matrix-free pressure step when the Schur solve runs and converges. -/
theorem mf_pressure_step_of_gt {R : Type} [LinearOrderedField R] {nu np : ℕ}
    (lib : Library R) (self : MatrixFree.BlockSchurPreconditioner R nu np) (dst src : BlockVector R nu np)
    (h : Vector.l2_norm lib.sqrt src.block1 > 1e-50)
    (hout : (lib.SolverCG_solve ⟨1000, Vector.l2_norm lib.sqrt src.block1 * self.S_block_tolerance, true, false⟩ np
        self.mass_matrix 0 src.block1 self.mp_preconditioner).exc = none) :
    self.pressure_step lib dst src
      = ⟨{ self with n_iterations_S_ := self.n_iterations_S_ + (lib.SolverCG_solve ⟨1000, Vector.l2_norm lib.sqrt src.block1 * self.S_block_tolerance, true, false⟩ np
        self.mass_matrix 0 src.block1 self.mp_preconditioner).last_step },
          [Call.S_solve ⟨1000, Vector.l2_norm lib.sqrt src.block1 * self.S_block_tolerance, true, false⟩ 0 src.block1],
          { dst with block1 := (-1 : R) • (lib.SolverCG_solve ⟨1000, Vector.l2_norm lib.sqrt src.block1 * self.S_block_tolerance, true, false⟩ np
        self.mass_matrix 0 src.block1 self.mp_preconditioner).x }, none⟩ := by
  unfold MatrixFree.BlockSchurPreconditioner.pressure_step
  simp only []
  rw [if_pos h]
  split
  · rfl
  · rename_i exc hexc
    rw [hout] at hexc
    cases hexc

theorem mf_pressure_step_raised_of_gt {R : Type} [LinearOrderedField R] {nu np : ℕ}
    (lib : Library R) (self : MatrixFree.BlockSchurPreconditioner R nu np) (dst src : BlockVector R nu np)
    (h : Vector.l2_norm lib.sqrt src.block1 > 1e-50) (exc : Exception R)
    (hout : (lib.SolverCG_solve ⟨1000, Vector.l2_norm lib.sqrt src.block1 * self.S_block_tolerance, true, false⟩ np
        self.mass_matrix 0 src.block1 self.mp_preconditioner).exc = some exc) :
    (self.pressure_step lib dst src).raised ≠ none
    ∧ (self.pressure_step lib dst src).precond = self := by
  unfold MatrixFree.BlockSchurPreconditioner.pressure_step
  simp only []
  rw [if_pos h]
  split
  · rename_i hexc
    rw [hout] at hexc
    cases hexc
  · split
    · split <;> exact ⟨by simp, rfl⟩
    · exact ⟨by simp, rfl⟩

/-- The matrix-free pressure step changes nothing but the counter of S. -/
theorem mf_pressure_step_precond {R : Type} [LinearOrderedField R] {nu np : ℕ}
    (lib : Library R) (self : MatrixFree.BlockSchurPreconditioner R nu np) (dst src : BlockVector R nu np) :
    (self.pressure_step lib dst src).precond
      = { self with
          n_iterations_S_ := (self.pressure_step lib dst src).precond.n_iterations_S_ } := by
  unfold MatrixFree.BlockSchurPreconditioner.pressure_step
  simp only []
  split
  · split
    · rfl
    · split
      · split <;> rfl
      · rfl
  · rfl

theorem mf_pressure_step_calls_of_gt {R : Type} [LinearOrderedField R] {nu np : ℕ}
    (lib : Library R) (self : MatrixFree.BlockSchurPreconditioner R nu np) (dst src : BlockVector R nu np)
    (h : Vector.l2_norm lib.sqrt src.block1 > 1e-50) :
    (self.pressure_step lib dst src).calls.filter Call.is_S_solve
      = [Call.S_solve ⟨1000, Vector.l2_norm lib.sqrt src.block1 * self.S_block_tolerance, true, false⟩ 0 src.block1] := by
  unfold MatrixFree.BlockSchurPreconditioner.pressure_step
  simp only []
  rw [if_pos h]
  split
  · rfl
  · split
    · split <;> rfl
    · rfl

theorem mf_pressure_step_calls_velocity {R : Type} [LinearOrderedField R] {nu np : ℕ}
    (lib : Library R) (self : MatrixFree.BlockSchurPreconditioner R nu np) (dst src : BlockVector R nu np) :
    (self.pressure_step lib dst src).calls.filter Call.is_A_solve = []
    ∧ (self.pressure_step lib dst src).calls.filter Call.is_a_preconditioner_vmult = [] := by
  unfold MatrixFree.BlockSchurPreconditioner.pressure_step
  simp only []
  split
  · split
    · exact ⟨rfl, rfl⟩
    · split
      · split <;> exact ⟨rfl, rfl⟩
      · exact ⟨rfl, rfl⟩
  · exact ⟨rfl, rfl⟩

theorem mf_velocity_step_of_not_solve {R : Type} [LinearOrderedField R] {nu np : ℕ}
    (lib : Library R) (self : MatrixFree.BlockSchurPreconditioner R nu np) (calls : List (Call R nu np))
    (dst : BlockVector R nu np) (utmp : BlockVector R nu np) (h : self.do_solve_A = false) :
    self.velocity_step lib calls dst utmp
      = ⟨{ self with n_iterations_A_ := self.n_iterations_A_ + 1 },
          calls ++ [Call.a_preconditioner_vmult utmp.block0],
          { dst with block0 := self.a_preconditioner utmp.block0 }, none⟩ := by
  unfold MatrixFree.BlockSchurPreconditioner.velocity_step
  simp [h]

theorem mf_velocity_step_of_solve {R : Type} [LinearOrderedField R] {nu np : ℕ}
    (lib : Library R) (self : MatrixFree.BlockSchurPreconditioner R nu np) (calls : List (Call R nu np))
    (dst : BlockVector R nu np) (utmp : BlockVector R nu np) (h : self.do_solve_A = true) :
    (self.velocity_step lib calls dst utmp).calls
        = calls ++ [Call.A_solve ⟨10000, Vector.l2_norm lib.sqrt utmp.block0 * self.A_block_tolerance, false, false⟩ 0 utmp.block0]
    ∧ (self.velocity_step lib calls dst utmp).dst
        = { dst with block0 := (lib.SolverCG_solve ⟨10000, Vector.l2_norm lib.sqrt utmp.block0 * self.A_block_tolerance, false, false⟩ nu
        self.velocity_matrix 0 utmp.block0 self.a_preconditioner).x }
    ∧ (match (lib.SolverCG_solve ⟨10000, Vector.l2_norm lib.sqrt utmp.block0 * self.A_block_tolerance, false, false⟩ nu
        self.velocity_matrix 0 utmp.block0 self.a_preconditioner).exc with
        | none =>
          (self.velocity_step lib calls dst utmp).raised = none
          ∧ (self.velocity_step lib calls dst utmp).precond
              = { self with n_iterations_A_ := self.n_iterations_A_ + (lib.SolverCG_solve ⟨10000, Vector.l2_norm lib.sqrt utmp.block0 * self.A_block_tolerance, false, false⟩ nu
        self.velocity_matrix 0 utmp.block0 self.a_preconditioner).last_step }
        | some _ =>
          (self.velocity_step lib calls dst utmp).raised ≠ none
          ∧ (self.velocity_step lib calls dst utmp).precond = self) := by
  unfold MatrixFree.BlockSchurPreconditioner.velocity_step
  simp only []
  rw [if_pos h]
  split
  · rename_i hexc
    simp [hexc]
  · rename_i exc hexc
    simp only [hexc]
    split
    · split <;> simp
    · simp

theorem mf_velocity_step_calls_S {R : Type} [LinearOrderedField R] {nu np : ℕ}
    (lib : Library R) (self : MatrixFree.BlockSchurPreconditioner R nu np) (calls : List (Call R nu np))
    (dst : BlockVector R nu np) (utmp : BlockVector R nu np) :
    (self.velocity_step lib calls dst utmp).calls.filter Call.is_S_solve
      = calls.filter Call.is_S_solve := by
  unfold MatrixFree.BlockSchurPreconditioner.velocity_step
  simp only []
  split
  · split
    · simp [Call.is_S_solve]
    · split
      · split <;> simp [Call.is_S_solve]
      · simp [Call.is_S_solve]
  · simp [Call.is_S_solve]

theorem mf_velocity_step_n_iterations_S {R : Type} [LinearOrderedField R] {nu np : ℕ}
    (lib : Library R) (self : MatrixFree.BlockSchurPreconditioner R nu np) (calls : List (Call R nu np))
    (dst : BlockVector R nu np) (utmp : BlockVector R nu np) :
    (self.velocity_step lib calls dst utmp).precond.n_iterations_S_ = self.n_iterations_S_ := by
  unfold MatrixFree.BlockSchurPreconditioner.velocity_step
  simp only []
  split
  · split
    · rfl
    · split
      · split <;> rfl
      · rfl
  · rfl

theorem mf_velocity_step_dst_block1 {R : Type} [LinearOrderedField R] {nu np : ℕ}
    (lib : Library R) (self : MatrixFree.BlockSchurPreconditioner R nu np) (calls : List (Call R nu np))
    (dst : BlockVector R nu np) (utmp : BlockVector R nu np) :
    (self.velocity_step lib calls dst utmp).dst.block1 = dst.block1 := by
  unfold MatrixFree.BlockSchurPreconditioner.velocity_step
  simp only []
  split
  · split
    · rfl
    · split
      · split <;> rfl
      · rfl
  · rfl

theorem mf_vmult_of_pressure_ok {R : Type} [LinearOrderedField R] {nu np : ℕ}
    (lib : Library R) (self : MatrixFree.BlockSchurPreconditioner R nu np) (dst src : BlockVector R nu np)
    (h : (self.pressure_step lib dst src).raised = none) :
    self.vmult lib dst src
      = (self.pressure_step lib dst src).precond.velocity_step lib
          (self.pressure_step lib dst src).calls (self.pressure_step lib dst src).dst
          ((self.pressure_step lib dst src).precond.top_right_step
            (self.pressure_step lib dst src).dst src) := by
  unfold MatrixFree.BlockSchurPreconditioner.vmult
  simp only []
  split
  · rename_i e he
    rw [h] at he
    cases he
  · rfl

theorem mf_vmult_of_pressure_raised {R : Type} [LinearOrderedField R] {nu np : ℕ}
    (lib : Library R) (self : MatrixFree.BlockSchurPreconditioner R nu np) (dst src : BlockVector R nu np)
    (h : (self.pressure_step lib dst src).raised ≠ none) :
    self.vmult lib dst src = self.pressure_step lib dst src := by
  unfold MatrixFree.BlockSchurPreconditioner.vmult
  simp only []
  split
  · rfl
  · rename_i he
    exact absurd he h

theorem mf_vmult_dst_block1 {R : Type} [LinearOrderedField R] {nu np : ℕ}
    (lib : Library R) (self : MatrixFree.BlockSchurPreconditioner R nu np) (dst src : BlockVector R nu np) :
    (self.vmult lib dst src).dst.block1 = (self.pressure_step lib dst src).dst.block1 := by
  unfold MatrixFree.BlockSchurPreconditioner.vmult
  simp only []
  split
  · rfl
  · exact mf_velocity_step_dst_block1 lib _ _ _ _

theorem mf_vmult_calls_S {R : Type} [LinearOrderedField R] {nu np : ℕ}
    (lib : Library R) (self : MatrixFree.BlockSchurPreconditioner R nu np) (dst src : BlockVector R nu np) :
    (self.vmult lib dst src).calls.filter Call.is_S_solve
      = (self.pressure_step lib dst src).calls.filter Call.is_S_solve := by
  unfold MatrixFree.BlockSchurPreconditioner.vmult
  simp only []
  split
  · rfl
  · exact mf_velocity_step_calls_S lib _ _ _ _

theorem mf_vmult_n_iterations_S {R : Type} [LinearOrderedField R] {nu np : ℕ}
    (lib : Library R) (self : MatrixFree.BlockSchurPreconditioner R nu np) (dst src : BlockVector R nu np) :
    (self.vmult lib dst src).precond.n_iterations_S_
      = (self.pressure_step lib dst src).precond.n_iterations_S_ := by
  unfold MatrixFree.BlockSchurPreconditioner.vmult
  simp only []
  split
  · rfl
  · exact mf_velocity_step_n_iterations_S lib _ _ _ _

/-- The vector `utmp` of solver.cc is `src.block(0) - B^T * dst.block(1)`. -/
theorem top_right_step_eq {R : Type} [LinearOrderedField R] {nu np : ℕ}
    (self : BlockSchurPreconditioner R nu np) (dst src : BlockVector R nu np) :
    self.top_right_step dst src
      = src.block0 - Matrix.mulVec self.stokes_matrix.block01 dst.block1 := by
  simp only [BlockSchurPreconditioner.top_right_step, SparseMatrix.vmult]
  rw [neg_one_smul]
  abel

/-- The velocity block of the matrix-free `utmp` is
`src.block(0) - B^T * dst.block(1)`. -/
theorem mf_top_right_step_block0 {R : Type} [LinearOrderedField R] {nu np : ℕ}
    (self : MatrixFree.BlockSchurPreconditioner R nu np) (dst src : BlockVector R nu np) :
    (self.top_right_step dst src).block0
      = src.block0 - Matrix.mulVec self.stokes_matrix.blocks.block01 dst.block1 := by
  simp only [MatrixFree.BlockSchurPreconditioner.top_right_step, MatrixFree.StokesOperator.vmult]
  rw [neg_one_smul, Matrix.mulVec_zero, zero_add]
  abel

end internal

namespace Examples

theorem sqrt_zero : lib.sqrt 0 = 0 := by
  have h := Rat.sqrt_eq 0
  rw [mul_zero, abs_zero] at h
  exact h

theorem sqrt_one : lib.sqrt 1 = 1 := by
  have h := Rat.sqrt_eq 1
  rw [mul_one, abs_one] at h
  exact h

theorem l2_norm_const_zero : Vector.l2_norm lib.sqrt (fun _ : Fin 1 => (0 : ℚ)) = 0 := by
  simp [Vector.l2_norm, Vector.norm_sqr, sqrt_zero]

theorem l2_norm_const_one : Vector.l2_norm lib.sqrt (fun _ : Fin 1 => (1 : ℚ)) = 1 := by
  simp [Vector.l2_norm, Vector.norm_sqr, sqrt_one]

theorem pressure_near_zero (u : ℚ) :
    Vector.l2_norm lib.sqrt (vec u 0).block1 ≤ 1e-50 := by
  show Vector.l2_norm lib.sqrt (fun _ : Fin 1 => (0 : ℚ)) ≤ 1e-50
  rw [l2_norm_const_zero]
  norm_num

theorem pressure_not_near_zero (u : ℚ) :
    Vector.l2_norm lib.sqrt (vec u 1).block1 > 1e-50 := by
  show Vector.l2_norm lib.sqrt (fun _ : Fin 1 => (1 : ℚ)) > 1e-50
  rw [l2_norm_const_one]
  norm_num

end Examples

namespace internal

/-- C3: at the input `src = (0, 0)` (pressure norm `0 ≤ 1e-50`) and
`dst = (0, 1)`, both versions of `BlockSchurPreconditioner::vmult` leave the
pressure block `-1` in `dst`, the negated old content, and not the zero
vector. -/
theorem BlockSchurPreconditioner_vmult_near_zero_negates_old_pressure :
    ((Examples.preconditioner false).vmult Examples.lib
        (Examples.vec 0 1) (Examples.vec 0 0)).dst.block1 = (fun _ => -1)
    ∧ ((Examples.mf_preconditioner false).vmult Examples.lib
        (Examples.vec 0 1) (Examples.vec 0 0)).dst.block1 = (fun _ => -1)
    ∧ (fun _ => -1 : Vector ℚ 1) ≠ 0 := by
  refine ⟨?_, ?_, ?_⟩
  · rw [vmult_dst_block1, pressure_step_of_le _ _ _ _ (Examples.pressure_near_zero 0)]
    funext i
    simp [Examples.vec]
  · rw [mf_vmult_dst_block1, mf_pressure_step_of_le _ _ _ _ (Examples.pressure_near_zero 0)]
    funext i
    simp [Examples.vec]
  · intro h
    have h0 := congrFun h 0
    simp at h0

/-- C4: when the pressure block of `src` has l2 norm at most `1e-50`, the
pressure step of `BlockSchurPreconditioner::vmult` (both versions) makes no
library call and raises nothing, the whole call never starts the Schur solver,
and `n_iterations_S()` is the same after the call as before. -/
theorem BlockSchurPreconditioner_vmult_near_zero_skips_S_solve {R : Type}
    [LinearOrderedField R] {nu np : ℕ} (lib : Library R)
    (P : BlockSchurPreconditioner R nu np) (Q : MatrixFree.BlockSchurPreconditioner R nu np)
    (dst src : BlockVector R nu np) (h : Vector.l2_norm lib.sqrt src.block1 ≤ 1e-50) :
    ((P.pressure_step lib dst src).calls = []
      ∧ (P.pressure_step lib dst src).raised = none
      ∧ (P.vmult lib dst src).calls.filter Call.is_S_solve = []
      ∧ (P.vmult lib dst src).precond.n_iterations_S = P.n_iterations_S)
    ∧ ((Q.pressure_step lib dst src).calls = []
      ∧ (Q.pressure_step lib dst src).raised = none
      ∧ (Q.vmult lib dst src).calls.filter Call.is_S_solve = []
      ∧ (Q.vmult lib dst src).precond.n_iterations_S = Q.n_iterations_S) := by
  constructor
  · refine ⟨?_, ?_, ?_, ?_⟩
    · rw [pressure_step_of_le lib P dst src h]
    · rw [pressure_step_of_le lib P dst src h]
    · rw [vmult_calls_S, pressure_step_of_le lib P dst src h]
      rfl
    · show (P.vmult lib dst src).precond.n_iterations_S_ = P.n_iterations_S_
      rw [vmult_n_iterations_S, pressure_step_of_le lib P dst src h]
  · refine ⟨?_, ?_, ?_, ?_⟩
    · rw [mf_pressure_step_of_le lib Q dst src h]
    · rw [mf_pressure_step_of_le lib Q dst src h]
    · rw [mf_vmult_calls_S, mf_pressure_step_of_le lib Q dst src h]
      rfl
    · show (Q.vmult lib dst src).precond.n_iterations_S_ = Q.n_iterations_S_
      rw [mf_vmult_n_iterations_S, mf_pressure_step_of_le lib Q dst src h]

/-- Witness of C4 on the small system, with `src = (1, 0)` and `dst = (0, 1)`. -/
theorem BlockSchurPreconditioner_vmult_near_zero_skips_S_solve_witness :
    Vector.l2_norm Examples.lib.sqrt (Examples.vec 1 0).block1 ≤ 1e-50
    ∧ (((Examples.preconditioner false).pressure_step Examples.lib
          (Examples.vec 0 1) (Examples.vec 1 0)).calls = []
      ∧ ((Examples.preconditioner false).pressure_step Examples.lib
          (Examples.vec 0 1) (Examples.vec 1 0)).raised = none
      ∧ ((Examples.preconditioner false).vmult Examples.lib
          (Examples.vec 0 1) (Examples.vec 1 0)).calls.filter Call.is_S_solve = []
      ∧ ((Examples.preconditioner false).vmult Examples.lib
          (Examples.vec 0 1) (Examples.vec 1 0)).precond.n_iterations_S
        = (Examples.preconditioner false).n_iterations_S)
    ∧ (((Examples.mf_preconditioner false).pressure_step Examples.lib
          (Examples.vec 0 1) (Examples.vec 1 0)).calls = []
      ∧ ((Examples.mf_preconditioner false).pressure_step Examples.lib
          (Examples.vec 0 1) (Examples.vec 1 0)).raised = none
      ∧ ((Examples.mf_preconditioner false).vmult Examples.lib
          (Examples.vec 0 1) (Examples.vec 1 0)).calls.filter Call.is_S_solve = []
      ∧ ((Examples.mf_preconditioner false).vmult Examples.lib
          (Examples.vec 0 1) (Examples.vec 1 0)).precond.n_iterations_S
        = (Examples.mf_preconditioner false).n_iterations_S) :=
  ⟨Examples.pressure_near_zero 1,
    BlockSchurPreconditioner_vmult_near_zero_skips_S_solve Examples.lib
      (Examples.preconditioner false) (Examples.mf_preconditioner false)
      (Examples.vec 0 1) (Examples.vec 1 0) (Examples.pressure_near_zero 1)⟩

end internal

namespace internal

/-- C5: when the pressure block of `src` has l2 norm above `1e-50`,
`BlockSchurPreconditioner::vmult` (both versions) starts the Schur solver
exactly once, from the zero vector, with right-hand side `src.block(1)`,
iteration cap 1000 and absolute tolerance `||src.block(1)|| * S_block_tolerance`;
if that solve converges, `dst.block(1)` is the negative of its result after the
call, and otherwise the call raises. -/
theorem BlockSchurPreconditioner_vmult_S_solve {R : Type}
    [LinearOrderedField R] {nu np : ℕ} (lib : Library R)
    (P : BlockSchurPreconditioner R nu np) (Q : MatrixFree.BlockSchurPreconditioner R nu np)
    (dst src : BlockVector R nu np) (h : Vector.l2_norm lib.sqrt src.block1 > 1e-50) :
    ((P.vmult lib dst src).calls.filter Call.is_S_solve
        = [Call.S_solve
            ⟨1000, Vector.l2_norm lib.sqrt src.block1 * P.S_block_tolerance, true, true⟩
            0 src.block1]
      ∧ (match (lib.SolverFGMRES_solve 100
            ⟨1000, Vector.l2_norm lib.sqrt src.block1 * P.S_block_tolerance, true, true⟩ np
            P.stokes_preconditioner_matrix.block11 0 src.block1 P.mp_preconditioner).exc with
          | none =>
            (P.vmult lib dst src).dst.block1
              = -(lib.SolverFGMRES_solve 100
                  ⟨1000, Vector.l2_norm lib.sqrt src.block1 * P.S_block_tolerance, true, true⟩ np
                  P.stokes_preconditioner_matrix.block11 0 src.block1 P.mp_preconditioner).x
          | some _ => (P.vmult lib dst src).raised ≠ none))
    ∧ ((Q.vmult lib dst src).calls.filter Call.is_S_solve
        = [Call.S_solve
            ⟨1000, Vector.l2_norm lib.sqrt src.block1 * Q.S_block_tolerance, true, false⟩
            0 src.block1]
      ∧ (match (lib.SolverCG_solve
            ⟨1000, Vector.l2_norm lib.sqrt src.block1 * Q.S_block_tolerance, true, false⟩ np
            Q.mass_matrix 0 src.block1 Q.mp_preconditioner).exc with
          | none =>
            (Q.vmult lib dst src).dst.block1
              = -(lib.SolverCG_solve
                  ⟨1000, Vector.l2_norm lib.sqrt src.block1 * Q.S_block_tolerance, true, false⟩ np
                  Q.mass_matrix 0 src.block1 Q.mp_preconditioner).x
          | some _ => (Q.vmult lib dst src).raised ≠ none)) := by
  constructor
  · constructor
    · rw [vmult_calls_S, pressure_step_calls_of_gt lib P dst src h]
    · split
      · rename_i hout
        rw [vmult_dst_block1, pressure_step_of_gt lib P dst src h hout]
        simp
      · rename_i exc hout
        have hr := (pressure_step_raised_of_gt lib P dst src h exc hout).1
        rw [vmult_of_pressure_raised lib P dst src hr]
        exact hr
  · constructor
    · rw [mf_vmult_calls_S, mf_pressure_step_calls_of_gt lib Q dst src h]
    · split
      · rename_i hout
        rw [mf_vmult_dst_block1, mf_pressure_step_of_gt lib Q dst src h hout]
        simp
      · rename_i exc hout
        have hr := (mf_pressure_step_raised_of_gt lib Q dst src h exc hout).1
        rw [mf_vmult_of_pressure_raised lib Q dst src hr]
        exact hr

/-- C6: the right-hand side of the velocity step is
`src.block(0) - B^T * dst.block(1)` in both versions, so the matrix-free route
through the full operator gives the same vector as the route of solver.cc
through block (0,1) alone, whatever the velocity block of `dst` holds; and
`vmult` hands exactly this vector to the velocity step. -/
theorem BlockSchurPreconditioner_velocity_rhs {R : Type}
    [LinearOrderedField R] {nu np : ℕ} (lib : Library R)
    (P : BlockSchurPreconditioner R nu np) (Q : MatrixFree.BlockSchurPreconditioner R nu np)
    (dstP dstQ src : BlockVector R nu np)
    (hB : Q.stokes_matrix.blocks.block01 = P.stokes_matrix.block01)
    (hd : dstQ.block1 = dstP.block1) :
    P.top_right_step dstP src
        = src.block0 - Matrix.mulVec P.stokes_matrix.block01 dstP.block1
    ∧ (Q.top_right_step dstQ src).block0
        = src.block0 - Matrix.mulVec Q.stokes_matrix.blocks.block01 dstQ.block1
    ∧ (Q.top_right_step dstQ src).block0 = P.top_right_step dstP src
    ∧ P.vmult lib dstP src
        = (match (P.pressure_step lib dstP src).raised with
          | some _ => P.pressure_step lib dstP src
          | none =>
            (P.pressure_step lib dstP src).precond.velocity_step lib
              (P.pressure_step lib dstP src).calls (P.pressure_step lib dstP src).dst
              (src.block0 - Matrix.mulVec P.stokes_matrix.block01
                (P.pressure_step lib dstP src).dst.block1))
    ∧ Q.vmult lib dstQ src
        = (match (Q.pressure_step lib dstQ src).raised with
          | some _ => Q.pressure_step lib dstQ src
          | none =>
            (Q.pressure_step lib dstQ src).precond.velocity_step lib
              (Q.pressure_step lib dstQ src).calls (Q.pressure_step lib dstQ src).dst
              ((Q.pressure_step lib dstQ src).precond.top_right_step
                (Q.pressure_step lib dstQ src).dst src)) := by
  refine ⟨top_right_step_eq P dstP src, mf_top_right_step_block0 Q dstQ src, ?_, ?_, rfl⟩
  · rw [top_right_step_eq, mf_top_right_step_block0, hB, hd]
  · have hpre : (P.pressure_step lib dstP src).precond.stokes_matrix = P.stokes_matrix := by
      rw [pressure_step_precond]
    rw [← hpre, ← top_right_step_eq]
    rfl

/-- Witness of C6 on the small system, with different velocity content in the
two destination vectors. -/
theorem BlockSchurPreconditioner_velocity_rhs_witness :
    (Examples.mf_preconditioner false).stokes_matrix.blocks.block01
        = (Examples.preconditioner false).stokes_matrix.block01
    ∧ (Examples.vec 5 2).block1 = (Examples.vec 3 2).block1
    ∧ ((Examples.mf_preconditioner false).top_right_step
          (Examples.vec 5 2) (Examples.vec 1 1)).block0
        = (Examples.preconditioner false).top_right_step (Examples.vec 3 2) (Examples.vec 1 1) :=
  ⟨rfl, rfl,
    (BlockSchurPreconditioner_velocity_rhs Examples.lib (Examples.preconditioner false)
      (Examples.mf_preconditioner false) (Examples.vec 3 2) (Examples.vec 5 2)
      (Examples.vec 1 1) rfl rfl).2.2.1⟩

end internal

namespace internal

/-- Witness of C5 on the small system, with `src = (0, 1)`: the Schur solver is
started once and `dst.block(1)` becomes the negative of its result. -/
theorem BlockSchurPreconditioner_vmult_S_solve_witness :
    Vector.l2_norm Examples.lib.sqrt (Examples.vec 0 1).block1 > 1e-50
    ∧ ((Examples.preconditioner false).vmult Examples.lib
        (Examples.vec 0 5) (Examples.vec 0 1)).calls.filter Call.is_S_solve
        = [Call.S_solve
            ⟨1000, Vector.l2_norm Examples.lib.sqrt (Examples.vec 0 1).block1
              * (Examples.preconditioner false).S_block_tolerance, true, true⟩
            0 (Examples.vec 0 1).block1]
    ∧ ((Examples.preconditioner false).vmult Examples.lib
        (Examples.vec 0 5) (Examples.vec 0 1)).dst.block1 = -(Examples.vec 0 1).block1
    ∧ ((Examples.mf_preconditioner false).vmult Examples.lib
        (Examples.vec 0 5) (Examples.vec 0 1)).dst.block1 = -(Examples.vec 0 1).block1 :=
  ⟨Examples.pressure_not_near_zero 0,
    (BlockSchurPreconditioner_vmult_S_solve Examples.lib (Examples.preconditioner false)
      (Examples.mf_preconditioner false) (Examples.vec 0 5) (Examples.vec 0 1)
      (Examples.pressure_not_near_zero 0)).1.1,
    (BlockSchurPreconditioner_vmult_S_solve Examples.lib (Examples.preconditioner false)
      (Examples.mf_preconditioner false) (Examples.vec 0 5) (Examples.vec 0 1)
      (Examples.pressure_not_near_zero 0)).1.2,
    (BlockSchurPreconditioner_vmult_S_solve Examples.lib (Examples.preconditioner false)
      (Examples.mf_preconditioner false) (Examples.vec 0 5) (Examples.vec 0 1)
      (Examples.pressure_not_near_zero 0)).2.2⟩

/-- C7: with `do_solve_A == false`, once the pressure step has returned,
`BlockSchurPreconditioner::vmult` (both versions) returns normally, its only
library call in the velocity step is one application of the velocity
preconditioner to `u_rhs = src.block(0) - B^T * dst.block(1)`, no velocity
solver is started, `dst.block(0)` is the output of that application, and
`n_iterations_A()` has grown by exactly 1. -/
theorem BlockSchurPreconditioner_vmult_cheap_velocity_step {R : Type}
    [LinearOrderedField R] {nu np : ℕ} (lib : Library R)
    (P : BlockSchurPreconditioner R nu np) (Q : MatrixFree.BlockSchurPreconditioner R nu np)
    (dst src : BlockVector R nu np)
    (hP : P.do_solve_A = false) (hQ : Q.do_solve_A = false)
    (hp : (P.pressure_step lib dst src).raised = none)
    (hq : (Q.pressure_step lib dst src).raised = none) :
    ((P.vmult lib dst src).raised = none
      ∧ (P.vmult lib dst src).calls
          = (P.pressure_step lib dst src).calls
            ++ [Call.a_preconditioner_vmult
                (src.block0 - Matrix.mulVec P.stokes_matrix.block01
                  (P.pressure_step lib dst src).dst.block1)]
      ∧ (P.vmult lib dst src).calls.filter Call.is_a_preconditioner_vmult
          = [Call.a_preconditioner_vmult
              (src.block0 - Matrix.mulVec P.stokes_matrix.block01
                (P.pressure_step lib dst src).dst.block1)]
      ∧ (P.vmult lib dst src).calls.filter Call.is_A_solve = []
      ∧ (P.vmult lib dst src).dst.block0
          = P.a_preconditioner
              (src.block0 - Matrix.mulVec P.stokes_matrix.block01
                (P.pressure_step lib dst src).dst.block1)
      ∧ (P.vmult lib dst src).precond.n_iterations_A = P.n_iterations_A + 1)
    ∧ ((Q.vmult lib dst src).raised = none
      ∧ (Q.vmult lib dst src).calls
          = (Q.pressure_step lib dst src).calls
            ++ [Call.a_preconditioner_vmult
                (src.block0 - Matrix.mulVec Q.stokes_matrix.blocks.block01
                  (Q.pressure_step lib dst src).dst.block1)]
      ∧ (Q.vmult lib dst src).calls.filter Call.is_a_preconditioner_vmult
          = [Call.a_preconditioner_vmult
              (src.block0 - Matrix.mulVec Q.stokes_matrix.blocks.block01
                (Q.pressure_step lib dst src).dst.block1)]
      ∧ (Q.vmult lib dst src).calls.filter Call.is_A_solve = []
      ∧ (Q.vmult lib dst src).dst.block0
          = Q.a_preconditioner
              (src.block0 - Matrix.mulVec Q.stokes_matrix.blocks.block01
                (Q.pressure_step lib dst src).dst.block1)
      ∧ (Q.vmult lib dst src).precond.n_iterations_A = Q.n_iterations_A + 1) := by
  constructor
  · obtain ⟨k, hk⟩ : ∃ k, (P.pressure_step lib dst src).precond
        = { P with n_iterations_S_ := k } := ⟨_, pressure_step_precond lib P dst src⟩
    have hP0 : ({ P with n_iterations_S_ := k } : BlockSchurPreconditioner R nu np).do_solve_A
        = false := hP
    have hv := vmult_of_pressure_ok lib P dst src hp
    rw [hk, velocity_step_of_not_solve lib _ _ _ _ hP0, top_right_step_eq] at hv
    have hc := pressure_step_calls_velocity lib P dst src
    rw [hv]
    refine ⟨rfl, rfl, ?_, ?_, rfl, rfl⟩
    · simp [List.filter_append, hc.2, Call.is_a_preconditioner_vmult]
    · simp [List.filter_append, hc.1, Call.is_A_solve]
  · obtain ⟨k, hk⟩ : ∃ k, (Q.pressure_step lib dst src).precond
        = { Q with n_iterations_S_ := k } := ⟨_, mf_pressure_step_precond lib Q dst src⟩
    have hQ0 : ({ Q with n_iterations_S_ := k }
        : MatrixFree.BlockSchurPreconditioner R nu np).do_solve_A = false := hQ
    have hv := mf_vmult_of_pressure_ok lib Q dst src hq
    rw [hk, mf_velocity_step_of_not_solve lib _ _ _ _ hQ0, mf_top_right_step_block0] at hv
    have hc := mf_pressure_step_calls_velocity lib Q dst src
    rw [hv]
    refine ⟨rfl, rfl, ?_, ?_, rfl, rfl⟩
    · simp [List.filter_append, hc.2, Call.is_a_preconditioner_vmult]
    · simp [List.filter_append, hc.1, Call.is_A_solve]

end internal

namespace Examples

theorem pressure_step_returns (b : Bool) (dst : BlockVector ℚ 1 1) (u : ℚ) :
    ((preconditioner b).pressure_step lib dst (vec u 0)).raised = none := by
  rw [internal.pressure_step_of_le lib _ dst _ (pressure_near_zero u)]

theorem mf_pressure_step_returns (b : Bool) (dst : BlockVector ℚ 1 1) (u : ℚ) :
    ((mf_preconditioner b).pressure_step lib dst (vec u 0)).raised = none := by
  rw [internal.mf_pressure_step_of_le lib _ dst _ (pressure_near_zero u)]

end Examples

namespace internal

/-- Witness of C7 on the small system, with `src = (1, 0)` and `dst = (0, 1)`. -/
theorem BlockSchurPreconditioner_vmult_cheap_velocity_step_witness :
    (Examples.preconditioner false).do_solve_A = false
    ∧ (Examples.mf_preconditioner false).do_solve_A = false
    ∧ ((Examples.preconditioner false).pressure_step Examples.lib
        (Examples.vec 0 1) (Examples.vec 1 0)).raised = none
    ∧ ((Examples.mf_preconditioner false).pressure_step Examples.lib
        (Examples.vec 0 1) (Examples.vec 1 0)).raised = none
    ∧ ((Examples.preconditioner false).vmult Examples.lib
        (Examples.vec 0 1) (Examples.vec 1 0)).raised = none
    ∧ ((Examples.preconditioner false).vmult Examples.lib
        (Examples.vec 0 1) (Examples.vec 1 0)).precond.n_iterations_A
        = (Examples.preconditioner false).n_iterations_A + 1
    ∧ ((Examples.mf_preconditioner false).vmult Examples.lib
        (Examples.vec 0 1) (Examples.vec 1 0)).raised = none
    ∧ ((Examples.mf_preconditioner false).vmult Examples.lib
        (Examples.vec 0 1) (Examples.vec 1 0)).precond.n_iterations_A
        = (Examples.mf_preconditioner false).n_iterations_A + 1 :=
  have h := BlockSchurPreconditioner_vmult_cheap_velocity_step Examples.lib
    (Examples.preconditioner false) (Examples.mf_preconditioner false)
    (Examples.vec 0 1) (Examples.vec 1 0) rfl rfl
    (Examples.pressure_step_returns false (Examples.vec 0 1) 1)
    (Examples.mf_pressure_step_returns false (Examples.vec 0 1) 1)
  ⟨rfl, rfl, Examples.pressure_step_returns false (Examples.vec 0 1) 1,
    Examples.mf_pressure_step_returns false (Examples.vec 0 1) 1,
    h.1.1, h.1.2.2.2.2.2, h.2.1, h.2.2.2.2.2.2⟩

/-- C8: with `do_solve_A == true`, once the pressure step has returned, the
velocity step of `BlockSchurPreconditioner::vmult` (both versions) is one call
of the CG solver for `A00 * dst.block(0) = u_rhs` with the velocity
preconditioner, started from the zero vector, with iteration cap 10000 and
absolute tolerance `||u_rhs|| * A_block_tolerance`, where
`u_rhs = src.block(0) - B^T * dst.block(1)`; `dst.block(0)` is what the solver
leaves; if it converges the call returns normally and `n_iterations_A()` has
grown by the solver's `last_step()`, otherwise the call raises and the counter
is unchanged. -/
theorem BlockSchurPreconditioner_vmult_expensive_velocity_step {R : Type}
    [LinearOrderedField R] {nu np : ℕ} (lib : Library R)
    (P : BlockSchurPreconditioner R nu np) (Q : MatrixFree.BlockSchurPreconditioner R nu np)
    (dst src : BlockVector R nu np)
    (hP : P.do_solve_A = true) (hQ : Q.do_solve_A = true)
    (hp : (P.pressure_step lib dst src).raised = none)
    (hq : (Q.pressure_step lib dst src).raised = none) :
    (let u_rhs : Vector R nu := src.block0 - Matrix.mulVec P.stokes_matrix.block01
        (P.pressure_step lib dst src).dst.block1
      let control : SolverControl R :=
        ⟨10000, Vector.l2_norm lib.sqrt u_rhs * P.A_block_tolerance, false, false⟩
      let out := lib.TrilinosSolverCG_solve control nu P.stokes_matrix.block00 0 u_rhs
        P.a_preconditioner
      (P.vmult lib dst src).calls
          = (P.pressure_step lib dst src).calls ++ [Call.A_solve control 0 u_rhs]
      ∧ (P.vmult lib dst src).calls.filter Call.is_A_solve = [Call.A_solve control 0 u_rhs]
      ∧ (P.vmult lib dst src).calls.filter Call.is_a_preconditioner_vmult = []
      ∧ (P.vmult lib dst src).dst.block0 = out.x
      ∧ (match out.exc with
          | none =>
            (P.vmult lib dst src).raised = none
            ∧ (P.vmult lib dst src).precond.n_iterations_A = P.n_iterations_A + out.last_step
          | some _ =>
            (P.vmult lib dst src).raised ≠ none
            ∧ (P.vmult lib dst src).precond.n_iterations_A = P.n_iterations_A))
    ∧ (let u_rhs : Vector R nu := src.block0 - Matrix.mulVec Q.stokes_matrix.blocks.block01
        (Q.pressure_step lib dst src).dst.block1
      let control : SolverControl R :=
        ⟨10000, Vector.l2_norm lib.sqrt u_rhs * Q.A_block_tolerance, false, false⟩
      let out := lib.SolverCG_solve control nu Q.velocity_matrix 0 u_rhs Q.a_preconditioner
      (Q.vmult lib dst src).calls
          = (Q.pressure_step lib dst src).calls ++ [Call.A_solve control 0 u_rhs]
      ∧ (Q.vmult lib dst src).calls.filter Call.is_A_solve = [Call.A_solve control 0 u_rhs]
      ∧ (Q.vmult lib dst src).calls.filter Call.is_a_preconditioner_vmult = []
      ∧ (Q.vmult lib dst src).dst.block0 = out.x
      ∧ (match out.exc with
          | none =>
            (Q.vmult lib dst src).raised = none
            ∧ (Q.vmult lib dst src).precond.n_iterations_A = Q.n_iterations_A + out.last_step
          | some _ =>
            (Q.vmult lib dst src).raised ≠ none
            ∧ (Q.vmult lib dst src).precond.n_iterations_A = Q.n_iterations_A)) := by
  constructor
  · intro u_rhs control out
    obtain ⟨k, hk⟩ : ∃ k, (P.pressure_step lib dst src).precond
        = { P with n_iterations_S_ := k } := ⟨_, pressure_step_precond lib P dst src⟩
    have hP0 : ({ P with n_iterations_S_ := k } : BlockSchurPreconditioner R nu np).do_solve_A
        = true := hP
    have hv := vmult_of_pressure_ok lib P dst src hp
    rw [hk, top_right_step_eq] at hv
    have hs := velocity_step_of_solve lib { P with n_iterations_S_ := k }
      (P.pressure_step lib dst src).calls (P.pressure_step lib dst src).dst u_rhs hP0
    rw [← hv] at hs
    have hc := pressure_step_calls_velocity lib P dst src
    refine ⟨hs.1, ?_, ?_, ?_, ?_⟩
    · rw [hs.1]
      simp only [List.filter_append, hc.1]
      rfl
    · rw [hs.1]
      simp only [List.filter_append, hc.2]
      rfl
    · rw [hs.2.1]
    · have h3 := hs.2.2
      revert h3
      show (match out.exc with
        | none => _
        | some _ => _) → (match out.exc with
        | none => _
        | some _ => _)
      cases out.exc with
      | none =>
        intro h3
        exact ⟨h3.1, by rw [h3.2]; rfl⟩
      | some e =>
        intro h3
        exact ⟨h3.1, by rw [h3.2]; rfl⟩
  · intro u_rhs control out
    obtain ⟨k, hk⟩ : ∃ k, (Q.pressure_step lib dst src).precond
        = { Q with n_iterations_S_ := k } := ⟨_, mf_pressure_step_precond lib Q dst src⟩
    have hQ0 : ({ Q with n_iterations_S_ := k }
        : MatrixFree.BlockSchurPreconditioner R nu np).do_solve_A = true := hQ
    have hv := mf_vmult_of_pressure_ok lib Q dst src hq
    have hu : ((Q.pressure_step lib dst src).precond.top_right_step
        (Q.pressure_step lib dst src).dst src).block0 = u_rhs := by
      rw [mf_top_right_step_block0, hk]
    rw [hk] at hv
    have hs := mf_velocity_step_of_solve lib { Q with n_iterations_S_ := k }
      (Q.pressure_step lib dst src).calls (Q.pressure_step lib dst src).dst
      (MatrixFree.BlockSchurPreconditioner.top_right_step { Q with n_iterations_S_ := k }
        (Q.pressure_step lib dst src).dst src) hQ0
    rw [← hv] at hs
    rw [hk] at hu
    rw [hu] at hs
    have hc := mf_pressure_step_calls_velocity lib Q dst src
    refine ⟨hs.1, ?_, ?_, ?_, ?_⟩
    · rw [hs.1]
      simp only [List.filter_append, hc.1]
      rfl
    · rw [hs.1]
      simp only [List.filter_append, hc.2]
      rfl
    · rw [hs.2.1]
    · have h3 := hs.2.2
      revert h3
      show (match out.exc with
        | none => _
        | some _ => _) → (match out.exc with
        | none => _
        | some _ => _)
      cases out.exc with
      | none =>
        intro h3
        exact ⟨h3.1, by rw [h3.2]; rfl⟩
      | some e =>
        intro h3
        exact ⟨h3.1, by rw [h3.2]; rfl⟩

end internal

namespace internal

/-- Witness of C8 on the small system, with `src = (1, 0)` and `dst = (0, 1)`:
the CG solver for the identity matrix converges in one step. -/
theorem BlockSchurPreconditioner_vmult_expensive_velocity_step_witness :
    (Examples.preconditioner true).do_solve_A = true
    ∧ (Examples.mf_preconditioner true).do_solve_A = true
    ∧ ((Examples.preconditioner true).pressure_step Examples.lib
        (Examples.vec 0 1) (Examples.vec 1 0)).raised = none
    ∧ ((Examples.mf_preconditioner true).pressure_step Examples.lib
        (Examples.vec 0 1) (Examples.vec 1 0)).raised = none
    ∧ ((Examples.preconditioner true).vmult Examples.lib
        (Examples.vec 0 1) (Examples.vec 1 0)).raised = none
    ∧ ((Examples.preconditioner true).vmult Examples.lib
        (Examples.vec 0 1) (Examples.vec 1 0)).precond.n_iterations_A
        = (Examples.preconditioner true).n_iterations_A + 1
    ∧ ((Examples.mf_preconditioner true).vmult Examples.lib
        (Examples.vec 0 1) (Examples.vec 1 0)).raised = none
    ∧ ((Examples.mf_preconditioner true).vmult Examples.lib
        (Examples.vec 0 1) (Examples.vec 1 0)).precond.n_iterations_A
        = (Examples.mf_preconditioner true).n_iterations_A + 1 :=
  have h := BlockSchurPreconditioner_vmult_expensive_velocity_step Examples.lib
    (Examples.preconditioner true) (Examples.mf_preconditioner true)
    (Examples.vec 0 1) (Examples.vec 1 0) rfl rfl
    (Examples.pressure_step_returns true (Examples.vec 0 1) 1)
    (Examples.mf_pressure_step_returns true (Examples.vec 0 1) 1)
  ⟨rfl, rfl, Examples.pressure_step_returns true (Examples.vec 0 1) 1,
    Examples.mf_pressure_step_returns true (Examples.vec 0 1) 1,
    h.1.2.2.2.2.1, h.1.2.2.2.2.2, h.2.2.2.2.2.1, h.2.2.2.2.2.2⟩

end internal

/-! ## Auxiliary lemmas on the escalation -/

/-- The escalation of `Simulator::solve_stokes` when no cheap steps are asked
for: the cheap objects stay untouched and the first action is the start of the
expensive solver. -/
theorem solve_stokes_try_of_no_cheap_steps {R : Type} [LinearOrderedField R] {nu np : ℕ}
    (lib : Library R) (env : Collaborators R nu np)
    (solver : OuterSolver (internal.BlockSchurPreconditioner R nu np) R nu np)
    (sim : Simulator R nu np) (initial_residual : R)
    (stokes_block : internal.StokesBlock R nu np)
    (distributed_stokes_solution distributed_stokes_rhs : BlockVector R nu np)
    (solver_control_cheap solver_control_expensive : SolverControl R)
    (preconditioner_cheap preconditioner_expensive : internal.BlockSchurPreconditioner R nu np)
    (h : sim.parameters.n_cheap_stokes_solver_steps = 0) :
    (Simulator.solve_stokes_try lib env solver sim initial_residual stokes_block
        distributed_stokes_solution distributed_stokes_rhs solver_control_cheap
        solver_control_expensive preconditioner_cheap preconditioner_expensive).preconditioner_cheap
      = preconditioner_cheap
    ∧ (Simulator.solve_stokes_try lib env solver sim initial_residual stokes_block
        distributed_stokes_solution distributed_stokes_rhs solver_control_cheap
        solver_control_expensive preconditioner_cheap preconditioner_expensive).solver_control_cheap
      = SolverControlState.fresh
    ∧ ∃ rest : List (SolveEvent R nu np),
      (Simulator.solve_stokes_try lib env solver sim initial_residual stokes_block
        distributed_stokes_solution distributed_stokes_rhs solver_control_cheap
        solver_control_expensive preconditioner_cheap preconditioner_expensive).events
        = SolveEvent.solver_solve Phase.expensive solver_control_expensive 100
            distributed_stokes_solution distributed_stokes_rhs :: rest
      ∧ rest.filter (fun e => e.is_solver_solve Phase.cheap || e.is_solver_solve Phase.expensive)
          = []
      ∧ rest.filter (SolveEvent.is_preconditioner_vmult Phase.cheap) = [] := by
  unfold Simulator.solve_stokes_try
  simp only [h, if_true, Exception.is_NoConvergence]
  split
  · exact ⟨rfl, rfl, _, rfl, rfl, rfl⟩
  · split
    · split
      · exact ⟨rfl, rfl, _, rfl, rfl, rfl⟩
      · exact ⟨rfl, rfl, _, rfl, rfl, rfl⟩
    · exact ⟨rfl, rfl, _, rfl, rfl, rfl⟩

/-- C9: in `Simulator::solve_stokes` with `n_cheap_stokes_solver_steps == 0`
the cheap outer solver is never started and the cheap preconditioner is never
applied: at the end the object `preconditioner_cheap` is as constructed, with
`n_iterations_A()` and `n_iterations_S()` equal to 0, and `solver_control_cheap`
was never used; the first recorded action is the start of the expensive outer
solver, with iteration cap `n_expensive_stokes_solver_steps`, and it is the
only start of an outer solver. -/
theorem Simulator_solve_stokes_skips_cheap {R : Type} [LinearOrderedField R] {nu np : ℕ}
    (lib : Library R) (env : Collaborators R nu np)
    (solver : OuterSolver (internal.BlockSchurPreconditioner R nu np) R nu np)
    (sim : Simulator R nu np)
    (h : sim.parameters.n_cheap_stokes_solver_steps = 0) :
    (Simulator.solve_stokes lib env solver sim).events.filter
        (SolveEvent.is_solver_solve Phase.cheap) = []
    ∧ (Simulator.solve_stokes lib env solver sim).events.filter
        (SolveEvent.is_preconditioner_vmult Phase.cheap) = []
    ∧ (Simulator.solve_stokes lib env solver sim).preconditioner_cheap
        = internal.BlockSchurPreconditioner.new sim.system_matrix
            sim.system_preconditioner_matrix sim.Mp_preconditioner sim.Amg_preconditioner false
            sim.parameters.linear_solver_A_block_tolerance
            sim.parameters.linear_solver_S_block_tolerance
    ∧ (Simulator.solve_stokes lib env solver sim).preconditioner_cheap.n_iterations_A = 0
    ∧ (Simulator.solve_stokes lib env solver sim).preconditioner_cheap.n_iterations_S = 0
    ∧ (Simulator.solve_stokes lib env solver sim).solver_control_cheap
        = SolverControlState.fresh
    ∧ ∃ (control : SolverControl R) (x b : BlockVector R nu np),
        control.max_steps = sim.parameters.n_expensive_stokes_solver_steps
        ∧ (Simulator.solve_stokes lib env solver sim).events.head?
            = some (SolveEvent.solver_solve Phase.expensive control 100 x b)
        ∧ (Simulator.solve_stokes lib env solver sim).events.filter
            (fun e => e.is_solver_solve Phase.cheap || e.is_solver_solve Phase.expensive)
            = [SolveEvent.solver_solve Phase.expensive control 100 x b] := by
  unfold Simulator.solve_stokes
  simp only []
  obtain ⟨hpc, hctrl, rest, hev, hrest, hrestv⟩ :=
    solve_stokes_try_of_no_cheap_steps lib env solver sim _ _ _ _ _ _ _ _ h
  rw [hpc, hctrl, hev]
  have hrest_cheap : rest.filter (SolveEvent.is_solver_solve Phase.cheap) = [] := by
    rw [List.filter_eq_nil_iff] at hrest ⊢
    intro e he
    have := hrest e he
    simp only [Bool.or_eq_true, not_or] at this
    exact this.1
  refine ⟨?_, ?_, rfl, rfl, rfl, rfl, _, _, _, rfl, rfl, ?_⟩
  · rw [List.filter_cons_of_neg (by simp [SolveEvent.is_solver_solve]), hrest_cheap]
  · rw [List.filter_cons_of_neg (by simp [SolveEvent.is_preconditioner_vmult]), hrestv]
  · rw [List.filter_cons_of_pos (by simp [SolveEvent.is_solver_solve]), hrest]

/-- Witness of C9: the small system with `n_cheap_stokes_solver_steps = 0`. -/
theorem Simulator_solve_stokes_skips_cheap_witness :
    (Examples.sim 0).parameters.n_cheap_stokes_solver_steps = 0
    ∧ (Simulator.solve_stokes Examples.lib Examples.env
        (Examples.outer_solver _) (Examples.sim 0)).events.filter
        (SolveEvent.is_solver_solve Phase.cheap) = []
    ∧ (Simulator.solve_stokes Examples.lib Examples.env
        (Examples.outer_solver _) (Examples.sim 0)).preconditioner_cheap.n_iterations_A = 0
    ∧ (Simulator.solve_stokes Examples.lib Examples.env
        (Examples.outer_solver _) (Examples.sim 0)).preconditioner_cheap.n_iterations_S = 0 :=
  have h := Simulator_solve_stokes_skips_cheap Examples.lib Examples.env
    (Examples.outer_solver _) (Examples.sim 0) rfl
  ⟨rfl, h.1, h.2.2.2.1, h.2.2.2.2.1⟩

/-! ## Auxiliary lemmas on the timing block of the matrix-free solve -/

/-- A returning application of the cheap matrix-free preconditioner adds 1 to
the counter of A. -/
theorem mf_vmult_cheap_of_returned {R : Type} [LinearOrderedField R] {nu np : ℕ}
    (lib : Library R) (Q : internal.MatrixFree.BlockSchurPreconditioner R nu np)
    (dst src : BlockVector R nu np) (hQ : Q.do_solve_A = false)
    (hr : (Q.vmult lib dst src).raised = none) :
    (Q.vmult lib dst src).precond.n_iterations_A_ = Q.n_iterations_A_ + 1
    ∧ (Q.vmult lib dst src).precond.do_solve_A = false := by
  by_cases hp : (Q.pressure_step lib dst src).raised = none
  · obtain ⟨k, hk⟩ : ∃ k, (Q.pressure_step lib dst src).precond
        = { Q with n_iterations_S_ := k } := ⟨_, internal.mf_pressure_step_precond lib Q dst src⟩
    have hQ0 : ({ Q with n_iterations_S_ := k }
        : internal.MatrixFree.BlockSchurPreconditioner R nu np).do_solve_A = false := hQ
    rw [internal.mf_vmult_of_pressure_ok lib Q dst src hp, hk,
      internal.mf_velocity_step_of_not_solve lib _ _ _ _ hQ0]
    exact ⟨rfl, hQ⟩
  · rw [internal.mf_vmult_of_pressure_raised lib Q dst src hp] at hr
    exact absurd hr hp

/-- The cheap matrix-free preconditioner returns normally on a near-zero
pressure right-hand side and negates the old pressure block of `dst`. -/
theorem mf_vmult_cheap_of_le {R : Type} [LinearOrderedField R] {nu np : ℕ}
    (lib : Library R) (Q : internal.MatrixFree.BlockSchurPreconditioner R nu np)
    (dst src : BlockVector R nu np) (hQ : Q.do_solve_A = false)
    (h : Vector.l2_norm lib.sqrt src.block1 ≤ 1e-50) :
    (Q.vmult lib dst src).raised = none
    ∧ (Q.vmult lib dst src).dst.block1 = (-1 : R) • dst.block1 := by
  have hp := internal.mf_pressure_step_of_le lib Q dst src h
  have hp0 : (Q.pressure_step lib dst src).raised = none := by rw [hp]
  constructor
  · rw [internal.mf_vmult_of_pressure_ok lib Q dst src hp0, hp,
      internal.mf_velocity_step_of_not_solve lib _ _ _ _ hQ]
  · rw [internal.mf_vmult_dst_block1, hp]

/-- One pass through the two statements of the timing block. -/
theorem TimingState_vmult_and_copy_spec {R : Type} [LinearOrderedField R] {nu np : ℕ}
    (lib : Library R) (t : TimingState R nu np) :
    ∃ l : List (SolveEvent R nu np),
      (t.vmult_and_copy lib).events = t.events ++ l
      ∧ (∀ e ∈ l, e.is_preconditioner_vmult Phase.cheap = true)
      ∧ (t.raised = none → l = [SolveEvent.preconditioner_vmult Phase.cheap t.tmp_dst t.tmp_scr])
      ∧ ((t.vmult_and_copy lib).raised = none →
          l.length = 1 ∧ t.raised = none
          ∧ (t.preconditioner_cheap.do_solve_A = false →
              (t.vmult_and_copy lib).preconditioner_cheap.n_iterations_A_
                = t.preconditioner_cheap.n_iterations_A_ + 1
              ∧ (t.vmult_and_copy lib).preconditioner_cheap.do_solve_A = false)) := by
  unfold TimingState.vmult_and_copy
  split
  · rename_i e he
    refine ⟨[], by simp, by simp, ?_, ?_⟩
    · intro h
      rw [h] at he
      cases he
    · intro h
      rw [h] at he
      cases he
  · rename_i he
    simp only []
    split
    · rename_i exc hexc
      refine ⟨[SolveEvent.preconditioner_vmult Phase.cheap t.tmp_dst t.tmp_scr], rfl, ?_,
        fun _ => rfl, ?_⟩
      · intro e hmem
        rw [List.mem_singleton] at hmem
        rw [hmem]
        simp [SolveEvent.is_preconditioner_vmult]
      · intro h
        cases h
    · rename_i hexc
      refine ⟨[SolveEvent.preconditioner_vmult Phase.cheap t.tmp_dst t.tmp_scr], rfl, ?_,
        fun _ => rfl, ?_⟩
      · intro e hmem
        rw [List.mem_singleton] at hmem
        rw [hmem]
        simp [SolveEvent.is_preconditioner_vmult]
      · intro _
        exact ⟨rfl, he, fun hQ => mf_vmult_cheap_of_returned lib _ _ _ hQ hexc⟩

/-- The loop of the timing block: `n` recorded applications when it ends without
exception. -/
theorem TimingState_loop_spec {R : Type} [LinearOrderedField R] {nu np : ℕ}
    (lib : Library R) (n : ℕ) (t : TimingState R nu np) :
    ∃ l : List (SolveEvent R nu np),
      (TimingState.loop lib n t).events = t.events ++ l
      ∧ (∀ e ∈ l, e.is_preconditioner_vmult Phase.cheap = true)
      ∧ ((TimingState.loop lib n t).raised = none →
          l.length = n ∧ t.raised = none
          ∧ (t.preconditioner_cheap.do_solve_A = false →
              (TimingState.loop lib n t).preconditioner_cheap.n_iterations_A_
                = t.preconditioner_cheap.n_iterations_A_ + n
              ∧ (TimingState.loop lib n t).preconditioner_cheap.do_solve_A = false)) := by
  induction n generalizing t with
  | zero =>
    refine ⟨[], by simp [TimingState.loop], by simp, ?_⟩
    intro h
    exact ⟨rfl, h, fun hQ => ⟨rfl, hQ⟩⟩
  | succ n ih =>
    obtain ⟨l1, hl1, hpv1, _, hret1⟩ := TimingState_vmult_and_copy_spec lib t
    obtain ⟨l2, hl2, hpv2, hret2⟩ := ih (t.vmult_and_copy lib)
    refine ⟨l1 ++ l2, ?_, ?_, ?_⟩
    · show (TimingState.loop lib n (t.vmult_and_copy lib)).events = _
      rw [hl2, hl1, List.append_assoc]
    · intro e hmem
      rw [List.mem_append] at hmem
      cases hmem with
      | inl h => exact hpv1 e h
      | inr h => exact hpv2 e h
    · intro h
      have h2 := hret2 h
      have h1 := hret1 h2.2.1
      refine ⟨?_, h1.2.1, ?_⟩
      · rw [List.length_append, h1.1, h2.1, Nat.add_comm]
      · intro hQ
        have h1Q := h1.2.2 hQ
        have h2Q := h2.2.2 h1Q.2
        refine ⟨?_, h2Q.2⟩
        show (TimingState.loop lib n (t.vmult_and_copy lib)).preconditioner_cheap.n_iterations_A_
          = _
        rw [h2Q.1, h1Q.1]
        omega

/-- The timing block records an application of the cheap preconditioner first,
records nothing else, and makes six of them when it ends without exception. -/
theorem preconditioner_timing_spec {R : Type} [LinearOrderedField R] {nu np : ℕ}
    (lib : Library R) (pc : internal.MatrixFree.BlockSchurPreconditioner R nu np)
    (x b : BlockVector R nu np) :
    (∃ rest : List (SolveEvent R nu np),
      (StokesMatrixFreeHandler.preconditioner_timing lib pc x b).events
        = SolveEvent.preconditioner_vmult Phase.cheap x b :: rest)
    ∧ (∀ e ∈ (StokesMatrixFreeHandler.preconditioner_timing lib pc x b).events,
        e.is_preconditioner_vmult Phase.cheap = true)
    ∧ ((StokesMatrixFreeHandler.preconditioner_timing lib pc x b).raised = none →
        (StokesMatrixFreeHandler.preconditioner_timing lib pc x b).events.length = 6
        ∧ (pc.do_solve_A = false →
            (StokesMatrixFreeHandler.preconditioner_timing lib pc x b).preconditioner_cheap.n_iterations_A_
              = pc.n_iterations_A_ + 6)) := by
  unfold StokesMatrixFreeHandler.preconditioner_timing
  simp only []
  obtain ⟨l1, hl1, hpv1, hfirst, hret1⟩ :=
    TimingState_vmult_and_copy_spec lib ⟨pc, x, b, [], none⟩
  obtain ⟨l2, hl2, hpv2, hret2⟩ :=
    TimingState_loop_spec lib 5 (TimingState.vmult_and_copy lib ⟨pc, x, b, [], none⟩)
  have hl1eq := hfirst rfl
  rw [hl2, hl1, hl1eq]
  refine ⟨⟨l2, rfl⟩, ?_, ?_⟩
  · intro e hmem
    simp only [List.nil_append, List.mem_append] at hmem
    cases hmem with
    | inl h => exact hpv1 e (hl1eq ▸ h)
    | inr h => exact hpv2 e h
  · intro h
    have h2 := hret2 h
    have h1 := hret1 h2.2.1
    refine ⟨by simp [h2.1], ?_⟩
    intro hQ
    have h1Q := h1.2.2 hQ
    have h2Q := h2.2.2 h1Q.2
    rw [h2Q.1, h1Q.1]

/-- The shape of the record of `solve_outer`: the timing block, then the start
of the cheap outer solver, then at most the start of the expensive one. -/
theorem solve_outer_spec {R : Type} [LinearOrderedField R] {nu np : ℕ}
    (lib : Library R) (env : Collaborators R nu np)
    (solver : OuterSolver (internal.MatrixFree.BlockSchurPreconditioner R nu np) R nu np)
    (sim : Simulator R nu np) (stokes_matrix : internal.MatrixFree.StokesOperator R nu np)
    (initial_nonlinear_residual : R) (solution_copy rhs_copy : BlockVector R nu np)
    (solver_control_cheap solver_control_expensive : SolverControl R)
    (preconditioner_cheap preconditioner_expensive :
      internal.MatrixFree.BlockSchurPreconditioner R nu np) :
    ((StokesMatrixFreeHandler.preconditioner_timing lib preconditioner_cheap
        solution_copy rhs_copy).raised ≠ none →
      (StokesMatrixFreeHandler.solve_outer lib env solver sim stokes_matrix
        initial_nonlinear_residual solution_copy rhs_copy solver_control_cheap
        solver_control_expensive preconditioner_cheap preconditioner_expensive).result.isOk
        = false)
    ∧ ((StokesMatrixFreeHandler.preconditioner_timing lib preconditioner_cheap
        solution_copy rhs_copy).raised = none →
      ∃ rest : List (SolveEvent R nu np),
        (StokesMatrixFreeHandler.solve_outer lib env solver sim stokes_matrix
          initial_nonlinear_residual solution_copy rhs_copy solver_control_cheap
          solver_control_expensive preconditioner_cheap preconditioner_expensive).events
          = (StokesMatrixFreeHandler.preconditioner_timing lib preconditioner_cheap
              solution_copy rhs_copy).events
            ++ [SolveEvent.solver_solve Phase.cheap solver_control_cheap 50
                solution_copy rhs_copy] ++ rest
        ∧ rest.filter (SolveEvent.is_solver_solve Phase.cheap) = []
        ∧ rest.filter (SolveEvent.is_preconditioner_vmult Phase.cheap) = []
        ∧ (StokesMatrixFreeHandler.solve_outer lib env solver sim stokes_matrix
            initial_nonlinear_residual solution_copy rhs_copy solver_control_cheap
            solver_control_expensive preconditioner_cheap preconditioner_expensive).preconditioner_cheap
          = (solver solver_control_cheap 50 stokes_matrix.vmult solution_copy rhs_copy
              (StokesMatrixFreeHandler.preconditioner_timing lib preconditioner_cheap
                solution_copy rhs_copy).preconditioner_cheap
              (internal.MatrixFree.BlockSchurPreconditioner.vmult lib)).precond) := by
  unfold StokesMatrixFreeHandler.solve_outer
  simp only []
  split
  · rename_i exc hexc
    refine ⟨fun _ => rfl, ?_⟩
    intro h
    rw [h] at hexc
    cases hexc
  · rename_i hexc
    refine ⟨fun h => absurd hexc h, fun _ => ?_⟩
    split
    · exact ⟨[], by simp [StokesMatrixFreeHandler.solve_finish], rfl, rfl, rfl⟩
    · split
      · split
        · exact ⟨_, rfl, rfl, rfl, rfl⟩
        · split
          · exact ⟨_, rfl, rfl, rfl, rfl⟩
          · exact ⟨_, rfl, rfl, rfl, rfl⟩
      · exact ⟨[], by simp, rfl, rfl, rfl⟩

/-- Counts of cheap-phase actions in the record of `solve_outer`. -/
theorem solve_outer_counts {R : Type} [LinearOrderedField R] {nu np : ℕ}
    (lib : Library R) (env : Collaborators R nu np)
    (solver : OuterSolver (internal.MatrixFree.BlockSchurPreconditioner R nu np) R nu np)
    (sim : Simulator R nu np) (stokes_matrix : internal.MatrixFree.StokesOperator R nu np)
    (initial_nonlinear_residual : R) (solution_copy rhs_copy : BlockVector R nu np)
    (solver_control_cheap solver_control_expensive : SolverControl R)
    (preconditioner_cheap preconditioner_expensive :
      internal.MatrixFree.BlockSchurPreconditioner R nu np)
    (hQ : preconditioner_cheap.do_solve_A = false) :
    (∃ rest : List (SolveEvent R nu np),
      (StokesMatrixFreeHandler.solve_outer lib env solver sim stokes_matrix
        initial_nonlinear_residual solution_copy rhs_copy solver_control_cheap
        solver_control_expensive preconditioner_cheap preconditioner_expensive).events
        = SolveEvent.preconditioner_vmult Phase.cheap solution_copy rhs_copy :: rest)
    ∧ ((StokesMatrixFreeHandler.solve_outer lib env solver sim stokes_matrix
        initial_nonlinear_residual solution_copy rhs_copy solver_control_cheap
        solver_control_expensive preconditioner_cheap preconditioner_expensive).result.isOk
        = true →
      (StokesMatrixFreeHandler.preconditioner_timing lib preconditioner_cheap
        solution_copy rhs_copy).raised = none)
    ∧ ((StokesMatrixFreeHandler.preconditioner_timing lib preconditioner_cheap
        solution_copy rhs_copy).raised = none →
      ((StokesMatrixFreeHandler.solve_outer lib env solver sim stokes_matrix
        initial_nonlinear_residual solution_copy rhs_copy solver_control_cheap
        solver_control_expensive preconditioner_cheap preconditioner_expensive).events.filter
          (SolveEvent.is_preconditioner_vmult Phase.cheap)).length = 6
      ∧ ((StokesMatrixFreeHandler.solve_outer lib env solver sim stokes_matrix
        initial_nonlinear_residual solution_copy rhs_copy solver_control_cheap
        solver_control_expensive preconditioner_cheap preconditioner_expensive).events.filter
          (SolveEvent.is_solver_solve Phase.cheap)).length = 1
      ∧ (∃ first rest : List (SolveEvent R nu np),
          (StokesMatrixFreeHandler.solve_outer lib env solver sim stokes_matrix
            initial_nonlinear_residual solution_copy rhs_copy solver_control_cheap
            solver_control_expensive preconditioner_cheap preconditioner_expensive).events
            = first ++ rest
          ∧ first.length = 6
          ∧ (∀ e ∈ first, e.is_preconditioner_vmult Phase.cheap = true)
          ∧ rest.filter (SolveEvent.is_preconditioner_vmult Phase.cheap) = [])
      ∧ ∃ pc : internal.MatrixFree.BlockSchurPreconditioner R nu np,
          pc.n_iterations_A_ = preconditioner_cheap.n_iterations_A_ + 6
          ∧ (StokesMatrixFreeHandler.solve_outer lib env solver sim stokes_matrix
              initial_nonlinear_residual solution_copy rhs_copy solver_control_cheap
              solver_control_expensive preconditioner_cheap
              preconditioner_expensive).preconditioner_cheap
            = (solver solver_control_cheap 50 stokes_matrix.vmult solution_copy rhs_copy pc
                (internal.MatrixFree.BlockSchurPreconditioner.vmult lib)).precond) := by
  obtain ⟨⟨trest, htev⟩, htpv, htret⟩ :=
    preconditioner_timing_spec lib preconditioner_cheap solution_copy rhs_copy
  obtain ⟨hraised, hok⟩ := solve_outer_spec lib env solver sim stokes_matrix
    initial_nonlinear_residual solution_copy rhs_copy solver_control_cheap
    solver_control_expensive preconditioner_cheap preconditioner_expensive
  refine ⟨?_, ?_, ?_⟩
  · by_cases ht : (StokesMatrixFreeHandler.preconditioner_timing lib preconditioner_cheap
        solution_copy rhs_copy).raised = none
    · obtain ⟨rest, hev, _⟩ := hok ht
      rw [hev, htev]
      exact ⟨trest ++ [SolveEvent.solver_solve Phase.cheap solver_control_cheap 50
        solution_copy rhs_copy] ++ rest, by simp only [List.cons_append]⟩
    · refine ⟨trest, ?_⟩
      rw [← htev]
      revert ht
      unfold StokesMatrixFreeHandler.solve_outer
      simp only []
      split
      · intro _
        rfl
      · rename_i h
        intro ht
        exact absurd h ht
  · intro hres
    by_contra ht
    rw [hraised ht] at hres
    cases hres
  · intro ht
    obtain ⟨rest, hev, hrs, hrv, hpc⟩ := hok ht
    have hfilt : (StokesMatrixFreeHandler.preconditioner_timing lib preconditioner_cheap
        solution_copy rhs_copy).events.filter (SolveEvent.is_preconditioner_vmult Phase.cheap)
        = (StokesMatrixFreeHandler.preconditioner_timing lib preconditioner_cheap
            solution_copy rhs_copy).events := List.filter_eq_self.mpr htpv
    have hfilt_s : (StokesMatrixFreeHandler.preconditioner_timing lib preconditioner_cheap
        solution_copy rhs_copy).events.filter (SolveEvent.is_solver_solve Phase.cheap) = [] := by
      rw [List.filter_eq_nil_iff]
      intro e he
      have := htpv e he
      cases e <;> simp_all [SolveEvent.is_solver_solve, SolveEvent.is_preconditioner_vmult]
    refine ⟨?_, ?_, ⟨_, _, by rw [hev, List.append_assoc], (htret ht).1, htpv, ?_⟩,
      ⟨_, (htret ht).2 hQ, hpc⟩⟩
    · rw [hev, List.filter_append, List.filter_append, hfilt, hrv]
      simp [SolveEvent.is_preconditioner_vmult, (htret ht).1]
    · rw [hev, List.filter_append, List.filter_append, hfilt_s, hrs]
      simp [SolveEvent.is_solver_solve]
    · rw [List.filter_append, hrv]
      simp [SolveEvent.is_preconditioner_vmult]

/-- The timing block ends without exception when the pressure blocks of the
solution copy and of the right-hand side are zero. -/
theorem timing_returns_of_zero_pressure {R : Type} [LinearOrderedField R] {nu np : ℕ}
    (lib : Library R) (hz : Vector.l2_norm lib.sqrt (0 : Vector R np) ≤ 1e-50)
    (pc : internal.MatrixFree.BlockSchurPreconditioner R nu np) (hQ : pc.do_solve_A = false)
    (x b : BlockVector R nu np) (hx : x.block1 = 0) (hb : b.block1 = 0) :
    (StokesMatrixFreeHandler.preconditioner_timing lib pc x b).raised = none := by
  have step : ∀ t : TimingState R nu np,
      (t.raised = none ∧ t.tmp_dst.block1 = 0 ∧ t.tmp_scr.block1 = 0
        ∧ t.preconditioner_cheap.do_solve_A = false) →
      ((t.vmult_and_copy lib).raised = none ∧ (t.vmult_and_copy lib).tmp_dst.block1 = 0
        ∧ (t.vmult_and_copy lib).tmp_scr.block1 = 0
        ∧ (t.vmult_and_copy lib).preconditioner_cheap.do_solve_A = false) := by
    intro t ⟨hr, hd, hs, hq⟩
    have hle : Vector.l2_norm lib.sqrt t.tmp_scr.block1 ≤ 1e-50 := by rw [hs]; exact hz
    have hv := mf_vmult_cheap_of_le lib t.preconditioner_cheap t.tmp_dst t.tmp_scr hq hle
    have hc := mf_vmult_cheap_of_returned lib t.preconditioner_cheap t.tmp_dst t.tmp_scr hq hv.1
    have hd0 : (t.preconditioner_cheap.vmult lib t.tmp_dst t.tmp_scr).dst.block1 = 0 := by
      rw [hv.2, hd, smul_zero]
    unfold TimingState.vmult_and_copy
    rw [hr]
    simp only [hv.1]
    exact ⟨trivial, hd0, hd0, hc.2⟩
  have loop : ∀ (n : ℕ) (t : TimingState R nu np),
      (t.raised = none ∧ t.tmp_dst.block1 = 0 ∧ t.tmp_scr.block1 = 0
        ∧ t.preconditioner_cheap.do_solve_A = false) →
      (TimingState.loop lib n t).raised = none := by
    intro n
    induction n with
    | zero =>
      intro t h
      exact h.1
    | succ n ih =>
      intro t h
      exact ih _ (step t h)
  unfold StokesMatrixFreeHandler.preconditioner_timing
  exact loop 5 _ (step ⟨pc, x, b, [], none⟩ ⟨rfl, hx, hb, hQ⟩)

/-- Counts of cheap-phase actions in the record of
`StokesMatrixFreeHandler::solve`. -/
theorem solve_counts {R : Type} [LinearOrderedField R] {nu np : ℕ}
    (lib : Library R) (env : Collaborators R nu np)
    (solver : OuterSolver (internal.MatrixFree.BlockSchurPreconditioner R nu np) R nu np)
    (self : StokesMatrixFreeHandler R nu np) (i : ℕ) :
    (∃ rest : List (SolveEvent R nu np),
      (StokesMatrixFreeHandler.solve lib env solver self i).events
        = SolveEvent.preconditioner_vmult Phase.cheap
            (StokesMatrixFreeHandler.linearized_stokes_initial_guess env self)
            ⟨self.sim.system_rhs.block0, self.sim.system_rhs.block1⟩ :: rest)
    ∧ ((StokesMatrixFreeHandler.solve lib env solver self i).result.isOk = true →
      (StokesMatrixFreeHandler.preconditioner_timing lib
        (internal.MatrixFree.BlockSchurPreconditioner.new self.stokes_matrix
          self.velocity_matrix self.mass_matrix self.prec_S self.prec_A false
          self.sim.parameters.linear_solver_A_block_tolerance
          self.sim.parameters.linear_solver_S_block_tolerance)
        (StokesMatrixFreeHandler.linearized_stokes_initial_guess env self)
        ⟨self.sim.system_rhs.block0, self.sim.system_rhs.block1⟩).raised = none)
    ∧ ((StokesMatrixFreeHandler.preconditioner_timing lib
        (internal.MatrixFree.BlockSchurPreconditioner.new self.stokes_matrix
          self.velocity_matrix self.mass_matrix self.prec_S self.prec_A false
          self.sim.parameters.linear_solver_A_block_tolerance
          self.sim.parameters.linear_solver_S_block_tolerance)
        (StokesMatrixFreeHandler.linearized_stokes_initial_guess env self)
        ⟨self.sim.system_rhs.block0, self.sim.system_rhs.block1⟩).raised = none →
      ((StokesMatrixFreeHandler.solve lib env solver self i).events.filter
          (SolveEvent.is_preconditioner_vmult Phase.cheap)).length = 6
      ∧ ((StokesMatrixFreeHandler.solve lib env solver self i).events.filter
          (SolveEvent.is_solver_solve Phase.cheap)).length = 1
      ∧ (∃ first rest : List (SolveEvent R nu np),
          (StokesMatrixFreeHandler.solve lib env solver self i).events = first ++ rest
          ∧ first.length = 6
          ∧ (∀ e ∈ first, e.is_preconditioner_vmult Phase.cheap = true)
          ∧ rest.filter (SolveEvent.is_preconditioner_vmult Phase.cheap) = [])
      ∧ ∃ (pc : internal.MatrixFree.BlockSchurPreconditioner R nu np)
          (control : SolverControl R) (x b : BlockVector R nu np),
          pc.n_iterations_A_ = 6
          ∧ (StokesMatrixFreeHandler.solve lib env solver self i).preconditioner_cheap
            = (solver control 50 self.stokes_matrix.vmult x b pc
                (internal.MatrixFree.BlockSchurPreconditioner.vmult lib)).precond) := by
  unfold StokesMatrixFreeHandler.solve
  simp only []
  obtain ⟨h1, h2, h3⟩ := solve_outer_counts lib env solver self.sim self.stokes_matrix
    (StokesMatrixFreeHandler.tolerance_and_residual lib self ⟨0, 0⟩
      (StokesMatrixFreeHandler.linearized_stokes_initial_guess env self)
      ⟨self.sim.system_rhs.block0, self.sim.system_rhs.block1⟩).2
    (StokesMatrixFreeHandler.linearized_stokes_initial_guess env self)
    ⟨self.sim.system_rhs.block0, self.sim.system_rhs.block1⟩
    ⟨self.sim.parameters.n_cheap_stokes_solver_steps,
      (StokesMatrixFreeHandler.tolerance_and_residual lib self ⟨0, 0⟩
        (StokesMatrixFreeHandler.linearized_stokes_initial_guess env self)
        ⟨self.sim.system_rhs.block0, self.sim.system_rhs.block1⟩).1, true, true⟩
    ⟨self.sim.parameters.n_expensive_stokes_solver_steps,
      (StokesMatrixFreeHandler.tolerance_and_residual lib self ⟨0, 0⟩
        (StokesMatrixFreeHandler.linearized_stokes_initial_guess env self)
        ⟨self.sim.system_rhs.block0, self.sim.system_rhs.block1⟩).1, false, true⟩
    (internal.MatrixFree.BlockSchurPreconditioner.new self.stokes_matrix
      self.velocity_matrix self.mass_matrix self.prec_S self.prec_A false
      self.sim.parameters.linear_solver_A_block_tolerance
      self.sim.parameters.linear_solver_S_block_tolerance)
    (internal.MatrixFree.BlockSchurPreconditioner.new self.stokes_matrix
      self.velocity_matrix self.mass_matrix self.prec_S self.prec_A true
      self.sim.parameters.linear_solver_A_block_tolerance
      self.sim.parameters.linear_solver_S_block_tolerance)
    rfl
  refine ⟨h1, h2, fun ht => ?_⟩
  obtain ⟨c1, c2, c3, pc, hpc, hfinal⟩ := h3 ht
  exact ⟨c1, c2, c3, pc, _, _, _, by rw [hpc]; rfl, hfinal⟩

namespace Examples

theorem l2_norm_zero_le : Vector.l2_norm lib.sqrt (0 : Vector ℚ 1) ≤ 1e-50 := by
  show Vector.l2_norm lib.sqrt (fun _ : Fin 1 => (0 : ℚ)) ≤ 1e-50
  rw [l2_norm_const_zero]
  norm_num

theorem initial_guess_block1 (n : ℕ) :
    (StokesMatrixFreeHandler.linearized_stokes_initial_guess env (handler n)).block1 = 0 := by
  funext i
  simp [StokesMatrixFreeHandler.linearized_stokes_initial_guess, handler, sim, env, vec]

theorem outer_solver_precond (P : Type) (control : SolverControl ℚ) (m : ℕ)
    (A : BlockVector ℚ 1 1 → BlockVector ℚ 1 1 → BlockVector ℚ 1 1) (x b : BlockVector ℚ 1 1)
    (pc : P) (vm : P → BlockVector ℚ 1 1 → BlockVector ℚ 1 1 → VmultResult P ℚ 1 1) :
    (outer_solver P control m A x b pc vm).precond = pc := by
  unfold outer_solver
  split <;> rfl

theorem timing_returns (n : ℕ) :
    (StokesMatrixFreeHandler.preconditioner_timing lib
      (internal.MatrixFree.BlockSchurPreconditioner.new (handler n).stokes_matrix
        (handler n).velocity_matrix (handler n).mass_matrix (handler n).prec_S
        (handler n).prec_A false (handler n).sim.parameters.linear_solver_A_block_tolerance
        (handler n).sim.parameters.linear_solver_S_block_tolerance)
      (StokesMatrixFreeHandler.linearized_stokes_initial_guess env (handler n))
      ⟨(handler n).sim.system_rhs.block0, (handler n).sim.system_rhs.block1⟩).raised = none :=
  timing_returns_of_zero_pressure lib l2_norm_zero_le _ rfl _ _ (initial_guess_block1 n) rfl

theorem solve_returns :
    (StokesMatrixFreeHandler.solve lib env (outer_solver _) (handler 0) 0).result.isOk = true := by
  unfold StokesMatrixFreeHandler.solve
  simp only []
  unfold StokesMatrixFreeHandler.solve_outer
  simp only []
  rw [timing_returns 0]
  rfl

end Examples

/-- C10, counterexample: on the small system with
`n_cheap_stokes_solver_steps = 0`, `StokesMatrixFreeHandler::solve` applies the
cheap preconditioner six times, starts the cheap outer solver once, and ends
with `n_iterations_A() = 6` for the cheap preconditioner. -/
theorem StokesMatrixFreeHandler_solve_uses_cheap_with_no_cheap_steps :
    (Examples.handler 0).sim.parameters.n_cheap_stokes_solver_steps = 0
    ∧ ((StokesMatrixFreeHandler.solve Examples.lib Examples.env (Examples.outer_solver _)
        (Examples.handler 0) 0).events.filter
          (SolveEvent.is_preconditioner_vmult Phase.cheap)).length = 6
    ∧ ((StokesMatrixFreeHandler.solve Examples.lib Examples.env (Examples.outer_solver _)
        (Examples.handler 0) 0).events.filter
          (SolveEvent.is_solver_solve Phase.cheap)).length = 1
    ∧ (StokesMatrixFreeHandler.solve Examples.lib Examples.env (Examples.outer_solver _)
        (Examples.handler 0) 0).preconditioner_cheap.n_iterations_A = 6 := by
  obtain ⟨h1, h2, _, pc, control, x, b, hpc, hfinal⟩ :=
    (solve_counts Examples.lib Examples.env (Examples.outer_solver _)
      (Examples.handler 0) 0).2.2 (Examples.timing_returns 0)
  refine ⟨rfl, h1, h2, ?_⟩
  show (StokesMatrixFreeHandler.solve Examples.lib Examples.env (Examples.outer_solver _)
        (Examples.handler 0) 0).preconditioner_cheap.n_iterations_A_ = 6
  rw [hfinal, Examples.outer_solver_precond, hpc]

/-- C10, amended: for every state (also with `n_cheap_stokes_solver_steps == 0`)
the first action of `StokesMatrixFreeHandler::solve` is an application of the
cheap preconditioner, in its timing block; whenever `solve` returns normally,
with an outer solver that never decreases the counter of the preconditioner it
is given, exactly six direct applications of the cheap preconditioner are
recorded, they are the first six actions, and the cheap preconditioner ends
with `n_iterations_A()` at least 6. -/
theorem StokesMatrixFreeHandler_solve_times_cheap_preconditioner {R : Type}
    [LinearOrderedField R] {nu np : ℕ}
    (lib : Library R) (env : Collaborators R nu np)
    (solver : OuterSolver (internal.MatrixFree.BlockSchurPreconditioner R nu np) R nu np)
    (self : StokesMatrixFreeHandler R nu np) (i : ℕ)
    (hsolver : ∀ control m A x b pc vm,
      pc.n_iterations_A_ ≤ (solver control m A x b pc vm).precond.n_iterations_A_)
    (hret : (StokesMatrixFreeHandler.solve lib env solver self i).result.isOk = true) :
    (∃ (dst src : BlockVector R nu np) (rest : List (SolveEvent R nu np)),
      (StokesMatrixFreeHandler.solve lib env solver self i).events
        = SolveEvent.preconditioner_vmult Phase.cheap dst src :: rest)
    ∧ ((StokesMatrixFreeHandler.solve lib env solver self i).events.filter
        (SolveEvent.is_preconditioner_vmult Phase.cheap)).length = 6
    ∧ (∃ first rest : List (SolveEvent R nu np),
        (StokesMatrixFreeHandler.solve lib env solver self i).events = first ++ rest
        ∧ first.length = 6
        ∧ (∀ e ∈ first, e.is_preconditioner_vmult Phase.cheap = true)
        ∧ rest.filter (SolveEvent.is_preconditioner_vmult Phase.cheap) = [])
    ∧ 6 ≤ (StokesMatrixFreeHandler.solve lib env solver self i).preconditioner_cheap.n_iterations_A
    := by
  obtain ⟨⟨rest, hfirst⟩, hok, hcounts⟩ := solve_counts lib env solver self i
  obtain ⟨h1, _, h3, pc, control, x, b, hpc, hfinal⟩ := hcounts (hok hret)
  refine ⟨⟨_, _, rest, hfirst⟩, h1, h3, ?_⟩
  show 6 ≤ (StokesMatrixFreeHandler.solve lib env solver self i).preconditioner_cheap.n_iterations_A_
  rw [hfinal]
  have := hsolver control 50 self.stokes_matrix.vmult x b pc
    (internal.MatrixFree.BlockSchurPreconditioner.vmult lib)
  omega

/-- Witness of the amended C10: the small system with
`n_cheap_stokes_solver_steps = 0`, where `solve` returns normally. -/
theorem StokesMatrixFreeHandler_solve_times_cheap_preconditioner_witness :
    (∀ control m A x b pc vm,
      pc.n_iterations_A_ ≤ (Examples.outer_solver
        (internal.MatrixFree.BlockSchurPreconditioner ℚ 1 1)
        control m A x b pc vm).precond.n_iterations_A_)
    ∧ (StokesMatrixFreeHandler.solve Examples.lib Examples.env (Examples.outer_solver _)
        (Examples.handler 0) 0).result.isOk = true
    ∧ ((StokesMatrixFreeHandler.solve Examples.lib Examples.env (Examples.outer_solver _)
        (Examples.handler 0) 0).events.filter
          (SolveEvent.is_preconditioner_vmult Phase.cheap)).length = 6
    ∧ 6 ≤ (StokesMatrixFreeHandler.solve Examples.lib Examples.env (Examples.outer_solver _)
        (Examples.handler 0) 0).preconditioner_cheap.n_iterations_A :=
  have hs : ∀ control m A x b pc vm,
      pc.n_iterations_A_ ≤ (Examples.outer_solver
        (internal.MatrixFree.BlockSchurPreconditioner ℚ 1 1)
        control m A x b pc vm).precond.n_iterations_A_ :=
    fun control m A x b pc vm =>
      Nat.le_of_eq (congrArg _ (Examples.outer_solver_precond _ control m A x b pc vm).symm)
  have h := StokesMatrixFreeHandler_solve_times_cheap_preconditioner Examples.lib Examples.env
    (Examples.outer_solver _) (Examples.handler 0) 0 hs Examples.solve_returns
  ⟨hs, Examples.solve_returns, h.2.1, h.2.2.2⟩

/-! ## The cases of the escalation in `Simulator::solve_stokes` -/

/-- The function `Simulator::solve_stokes` is its `try`/`catch` statement run on
the local variables computed before it. -/
theorem solve_stokes_eq_try {R : Type} [LinearOrderedField R] {nu np : ℕ}
    (lib : Library R) (env : Collaborators R nu np)
    (solver : OuterSolver (internal.BlockSchurPreconditioner R nu np) R nu np)
    (sim : Simulator R nu np) :
    Simulator.solve_stokes lib env solver sim
      = Simulator.solve_stokes_try lib env solver sim
          (internal.StokesBlock.residual lib.sqrt ⟨sim.system_matrix⟩ ⟨0, 0⟩
            (Simulator.linearized_stokes_initial_guess env sim) sim.system_rhs).2
          ⟨sim.system_matrix⟩ (Simulator.linearized_stokes_initial_guess env sim)
          sim.distributed_stokes_rhs
          ⟨sim.parameters.n_cheap_stokes_solver_steps,
            Simulator.solver_tolerance lib sim
              (Simulator.linearized_stokes_initial_guess env sim), false, true⟩
          ⟨sim.parameters.n_expensive_stokes_solver_steps,
            Simulator.solver_tolerance lib sim
              (Simulator.linearized_stokes_initial_guess env sim), false, true⟩
          (sim.new_preconditioner false) (sim.new_preconditioner true) := rfl

/-- The escalation when the cheap attempt ends without exception. -/
theorem solve_stokes_try_of_cheap_converged {R : Type} [LinearOrderedField R] {nu np : ℕ}
    (lib : Library R) (env : Collaborators R nu np)
    (solver : OuterSolver (internal.BlockSchurPreconditioner R nu np) R nu np)
    (sim : Simulator R nu np) (initial_residual : R)
    (stokes_block : internal.StokesBlock R nu np)
    (x0 rhs : BlockVector R nu np)
    (control_cheap control_expensive : SolverControl R)
    (pc_cheap pc_expensive : internal.BlockSchurPreconditioner R nu np)
    (h : (Simulator.solve_stokes_step1a lib solver sim stokes_block x0 rhs control_cheap
      pc_cheap).1.exc = none) :
    Simulator.solve_stokes_try lib env solver sim initial_residual stokes_block x0 rhs
        control_cheap control_expensive pc_cheap pc_expensive
      = Simulator.solve_stokes_finish env sim initial_residual
          (Simulator.solve_stokes_step1a lib solver sim stokes_block x0 rhs control_cheap
            pc_cheap).1.x
          (Simulator.solve_stokes_step1a lib solver sim stokes_block x0 rhs control_cheap
            pc_cheap).1.precond
          pc_expensive
          (Simulator.solve_stokes_step1a lib solver sim stokes_block x0 rhs control_cheap
            pc_cheap).1.control
          SolverControlState.fresh
          (Simulator.solve_stokes_step1a lib solver sim stokes_block x0 rhs control_cheap
            pc_cheap).2 := by
  unfold Simulator.solve_stokes_try
  unfold Simulator.solve_stokes_step1a at h ⊢
  simp only []
  split
  · rfl
  · rename_i e he
    rw [h] at he
    cases he

/-- The escalation when the cheap attempt ends with an exception that is not
`NoConvergence`: the exception leaves the function, nothing else is done. -/
theorem solve_stokes_try_of_cheap_raised {R : Type} [LinearOrderedField R] {nu np : ℕ}
    (lib : Library R) (env : Collaborators R nu np)
    (solver : OuterSolver (internal.BlockSchurPreconditioner R nu np) R nu np)
    (sim : Simulator R nu np) (initial_residual : R)
    (stokes_block : internal.StokesBlock R nu np)
    (x0 rhs : BlockVector R nu np)
    (control_cheap control_expensive : SolverControl R)
    (pc_cheap pc_expensive : internal.BlockSchurPreconditioner R nu np)
    (cheap : PhaseState (internal.BlockSchurPreconditioner R nu np) R nu np)
    (ev : List (SolveEvent R nu np))
    (hc : Simulator.solve_stokes_step1a lib solver sim stokes_block x0 rhs control_cheap
      pc_cheap = (cheap, ev))
    (e : Exception R) (h : cheap.exc = some e) (he : e.is_NoConvergence = false) :
    Simulator.solve_stokes_try lib env solver sim initial_residual stokes_block x0 rhs
        control_cheap control_expensive pc_cheap pc_expensive
      = { sim := sim
          preconditioner_cheap := cheap.precond
          preconditioner_expensive := pc_expensive
          solver_control_cheap := cheap.control
          solver_control_expensive := SolverControlState.fresh
          events := ev
          result := Except.error e } := by
  unfold Simulator.solve_stokes_try
  unfold Simulator.solve_stokes_step1a at hc
  simp only []
  rw [hc]
  simp only [h, he]
  rfl

/-- The escalation when the cheap attempt ends with `NoConvergence` and the
expensive solver converges. -/
theorem solve_stokes_try_of_expensive_converged {R : Type} [LinearOrderedField R] {nu np : ℕ}
    (lib : Library R) (env : Collaborators R nu np)
    (solver : OuterSolver (internal.BlockSchurPreconditioner R nu np) R nu np)
    (sim : Simulator R nu np) (initial_residual : R)
    (stokes_block : internal.StokesBlock R nu np)
    (x0 rhs : BlockVector R nu np)
    (control_cheap control_expensive : SolverControl R)
    (pc_cheap pc_expensive : internal.BlockSchurPreconditioner R nu np)
    (cheap : PhaseState (internal.BlockSchurPreconditioner R nu np) R nu np)
    (ev : List (SolveEvent R nu np))
    (hc : Simulator.solve_stokes_step1a lib solver sim stokes_block x0 rhs control_cheap
      pc_cheap = (cheap, ev))
    (e : Exception R) (h : cheap.exc = some e) (he : e.is_NoConvergence = true)
    (out : OuterOutcome (internal.BlockSchurPreconditioner R nu np) R nu np)
    (hout : solver control_expensive 100 stokes_block.vmult cheap.x rhs pc_expensive
      (internal.BlockSchurPreconditioner.vmult lib) = out)
    (ho : out.exc = none) :
    Simulator.solve_stokes_try lib env solver sim initial_residual stokes_block x0 rhs
        control_cheap control_expensive pc_cheap pc_expensive
      = Simulator.solve_stokes_finish env sim initial_residual out.x cheap.precond out.precond
          cheap.control out.control_state
          (ev ++ [SolveEvent.solver_solve Phase.expensive control_expensive 100 cheap.x rhs]) := by
  unfold Simulator.solve_stokes_try
  unfold Simulator.solve_stokes_step1a at hc
  simp only []
  rw [hc]
  simp only [h, he, hout, ho]
  rfl

/-- The escalation when the cheap attempt ends with `NoConvergence` and the
expensive solver throws `exc`: the function ends with an exception, the
simulator is left as it was. -/
theorem solve_stokes_try_of_expensive_failed {R : Type} [LinearOrderedField R] {nu np : ℕ}
    (lib : Library R) (env : Collaborators R nu np)
    (solver : OuterSolver (internal.BlockSchurPreconditioner R nu np) R nu np)
    (sim : Simulator R nu np) (initial_residual : R)
    (stokes_block : internal.StokesBlock R nu np)
    (x0 rhs : BlockVector R nu np)
    (control_cheap control_expensive : SolverControl R)
    (pc_cheap pc_expensive : internal.BlockSchurPreconditioner R nu np)
    (cheap : PhaseState (internal.BlockSchurPreconditioner R nu np) R nu np)
    (ev : List (SolveEvent R nu np))
    (hc : Simulator.solve_stokes_step1a lib solver sim stokes_block x0 rhs control_cheap
      pc_cheap = (cheap, ev))
    (e : Exception R) (h : cheap.exc = some e) (he : e.is_NoConvergence = true)
    (out : OuterOutcome (internal.BlockSchurPreconditioner R nu np) R nu np)
    (hout : solver control_expensive 100 stokes_block.vmult cheap.x rhs pc_expensive
      (internal.BlockSchurPreconditioner.vmult lib) = out)
    (exc : Exception R) (ho : out.exc = some exc) :
    Simulator.solve_stokes_try lib env solver sim initial_residual stokes_block x0 rhs
        control_cheap control_expensive pc_cheap pc_expensive
      = { sim := sim
          preconditioner_cheap := cheap.precond
          preconditioner_expensive := out.precond
          solver_control_cheap := cheap.control
          solver_control_expensive := out.control_state
          events := ev
            ++ [SolveEvent.solver_solve Phase.expensive control_expensive 100 cheap.x rhs]
            ++ (if exc.is_std_exception then
                  [SolveEvent.post_stokes_solver
                    (cheap.precond.n_iterations_S + out.precond.n_iterations_S)
                    (cheap.precond.n_iterations_A + out.precond.n_iterations_A)]
                  ++ (if lib.this_mpi_process = 0 then
                        [SolveEvent.write_file
                          (sim.parameters.output_directory ++ "solver_history.txt")
                          (if sim.parameters.n_cheap_stokes_solver_steps > 0
                            then some cheap.control.history_data else none)
                          out.history_data]
                      else [])
                else [])
          result := Except.error (Simulator.fatal_exception lib sim exc) } := by
  unfold Simulator.solve_stokes_try Simulator.fatal_exception
  unfold Simulator.solve_stokes_step1a at hc
  simp only []
  rw [hc]
  simp only [h, he, hout, ho]
  by_cases hs : exc.is_std_exception = true
  · by_cases hr : lib.this_mpi_process = 0
    · simp [hs, hr]
    · simp [hs, hr]
  · simp [hs]

/-! ## The cases of the escalation in `StokesMatrixFreeHandler::solve` -/

/-- The function `StokesMatrixFreeHandler::solve` is the part after the
construction of the preconditioners run on the local variables computed
before it. -/
theorem solve_eq_solve_outer {R : Type} [LinearOrderedField R] {nu np : ℕ}
    (lib : Library R) (env : Collaborators R nu np)
    (solver : OuterSolver (internal.MatrixFree.BlockSchurPreconditioner R nu np) R nu np)
    (self : StokesMatrixFreeHandler R nu np) (i : ℕ) :
    StokesMatrixFreeHandler.solve lib env solver self i
      = StokesMatrixFreeHandler.solve_outer lib env solver self.sim self.stokes_matrix
          (StokesMatrixFreeHandler.tolerance_and_residual lib self ⟨0, 0⟩
            (StokesMatrixFreeHandler.linearized_stokes_initial_guess env self)
            self.sim.distributed_stokes_rhs).2
          (StokesMatrixFreeHandler.linearized_stokes_initial_guess env self)
          self.sim.distributed_stokes_rhs
          ⟨self.sim.parameters.n_cheap_stokes_solver_steps,
            StokesMatrixFreeHandler.solver_tolerance lib env self, true, true⟩
          ⟨self.sim.parameters.n_expensive_stokes_solver_steps,
            StokesMatrixFreeHandler.solver_tolerance lib env self, false, true⟩
          (self.new_preconditioner false) (self.new_preconditioner true) := rfl

/-- The matrix-free solve when an application of the cheap preconditioner in
the timing block raises: the exception leaves the function. -/
theorem solve_outer_of_timing_raised {R : Type} [LinearOrderedField R] {nu np : ℕ}
    (lib : Library R) (env : Collaborators R nu np)
    (solver : OuterSolver (internal.MatrixFree.BlockSchurPreconditioner R nu np) R nu np)
    (sim : Simulator R nu np) (stokes_matrix : internal.MatrixFree.StokesOperator R nu np)
    (initial_nonlinear_residual : R) (x0 rhs : BlockVector R nu np)
    (control_cheap control_expensive : SolverControl R)
    (pc_cheap pc_expensive : internal.MatrixFree.BlockSchurPreconditioner R nu np)
    (timing : TimingState R nu np)
    (ht : StokesMatrixFreeHandler.preconditioner_timing lib pc_cheap x0 rhs = timing)
    (e : Exception R) (h : timing.raised = some e) :
    StokesMatrixFreeHandler.solve_outer lib env solver sim stokes_matrix
        initial_nonlinear_residual x0 rhs control_cheap control_expensive pc_cheap pc_expensive
      = { sim := sim
          preconditioner_cheap := timing.preconditioner_cheap
          preconditioner_expensive := pc_expensive
          solver_control_cheap := SolverControlState.fresh
          solver_control_expensive := SolverControlState.fresh
          events := timing.events
          result := Except.error e } := by
  unfold StokesMatrixFreeHandler.solve_outer
  simp only []
  rw [ht]
  simp only [h]

/-- The matrix-free solve when the cheap solver converges. -/
theorem solve_outer_of_cheap_converged {R : Type} [LinearOrderedField R] {nu np : ℕ}
    (lib : Library R) (env : Collaborators R nu np)
    (solver : OuterSolver (internal.MatrixFree.BlockSchurPreconditioner R nu np) R nu np)
    (sim : Simulator R nu np) (stokes_matrix : internal.MatrixFree.StokesOperator R nu np)
    (initial_nonlinear_residual : R) (x0 rhs : BlockVector R nu np)
    (control_cheap control_expensive : SolverControl R)
    (pc_cheap pc_expensive : internal.MatrixFree.BlockSchurPreconditioner R nu np)
    (timing : TimingState R nu np)
    (ht : StokesMatrixFreeHandler.preconditioner_timing lib pc_cheap x0 rhs = timing)
    (h : timing.raised = none)
    (cheap : OuterOutcome (internal.MatrixFree.BlockSchurPreconditioner R nu np) R nu np)
    (hc : solver control_cheap 50 stokes_matrix.vmult x0 rhs timing.preconditioner_cheap
      (internal.MatrixFree.BlockSchurPreconditioner.vmult lib) = cheap)
    (hce : cheap.exc = none) :
    StokesMatrixFreeHandler.solve_outer lib env solver sim stokes_matrix
        initial_nonlinear_residual x0 rhs control_cheap control_expensive pc_cheap pc_expensive
      = StokesMatrixFreeHandler.solve_finish env { sim with gmres_iterations := 0 }
          initial_nonlinear_residual (some cheap.last_value) cheap.x cheap.precond pc_expensive
          cheap.control_state SolverControlState.fresh
          (timing.events ++ [SolveEvent.solver_solve Phase.cheap control_cheap 50 x0 rhs]) := by
  unfold StokesMatrixFreeHandler.solve_outer
  simp only []
  rw [ht]
  simp only [h, hc, hce]

/-- The matrix-free solve when the cheap solver throws an exception that is not
`NoConvergence`: the exception leaves the function. -/
theorem solve_outer_of_cheap_raised {R : Type} [LinearOrderedField R] {nu np : ℕ}
    (lib : Library R) (env : Collaborators R nu np)
    (solver : OuterSolver (internal.MatrixFree.BlockSchurPreconditioner R nu np) R nu np)
    (sim : Simulator R nu np) (stokes_matrix : internal.MatrixFree.StokesOperator R nu np)
    (initial_nonlinear_residual : R) (x0 rhs : BlockVector R nu np)
    (control_cheap control_expensive : SolverControl R)
    (pc_cheap pc_expensive : internal.MatrixFree.BlockSchurPreconditioner R nu np)
    (timing : TimingState R nu np)
    (ht : StokesMatrixFreeHandler.preconditioner_timing lib pc_cheap x0 rhs = timing)
    (h : timing.raised = none)
    (cheap : OuterOutcome (internal.MatrixFree.BlockSchurPreconditioner R nu np) R nu np)
    (hc : solver control_cheap 50 stokes_matrix.vmult x0 rhs timing.preconditioner_cheap
      (internal.MatrixFree.BlockSchurPreconditioner.vmult lib) = cheap)
    (e : Exception R) (hce : cheap.exc = some e) (he : e.is_NoConvergence = false) :
    StokesMatrixFreeHandler.solve_outer lib env solver sim stokes_matrix
        initial_nonlinear_residual x0 rhs control_cheap control_expensive pc_cheap pc_expensive
      = { sim := { sim with gmres_iterations := 0 }
          preconditioner_cheap := cheap.precond
          preconditioner_expensive := pc_expensive
          solver_control_cheap := cheap.control_state
          solver_control_expensive := SolverControlState.fresh
          events := timing.events ++ [SolveEvent.solver_solve Phase.cheap control_cheap 50 x0 rhs]
          result := Except.error e } := by
  unfold StokesMatrixFreeHandler.solve_outer
  simp only []
  rw [ht]
  simp only [h, hc, hce, he]
  rfl

/-- The matrix-free solve when the cheap solver throws `NoConvergence` and the
expensive solver returns, or throws `NoConvergence` too: in both cases the
function goes on to its end and returns; the returned final residual is the
last value of the expensive solver in the first case and the untouched NaN in
the second. -/
theorem solve_outer_of_expensive_run {R : Type} [LinearOrderedField R] {nu np : ℕ}
    (lib : Library R) (env : Collaborators R nu np)
    (solver : OuterSolver (internal.MatrixFree.BlockSchurPreconditioner R nu np) R nu np)
    (sim : Simulator R nu np) (stokes_matrix : internal.MatrixFree.StokesOperator R nu np)
    (initial_nonlinear_residual : R) (x0 rhs : BlockVector R nu np)
    (control_cheap control_expensive : SolverControl R)
    (pc_cheap pc_expensive : internal.MatrixFree.BlockSchurPreconditioner R nu np)
    (timing : TimingState R nu np)
    (ht : StokesMatrixFreeHandler.preconditioner_timing lib pc_cheap x0 rhs = timing)
    (h : timing.raised = none)
    (cheap : OuterOutcome (internal.MatrixFree.BlockSchurPreconditioner R nu np) R nu np)
    (hc : solver control_cheap 50 stokes_matrix.vmult x0 rhs timing.preconditioner_cheap
      (internal.MatrixFree.BlockSchurPreconditioner.vmult lib) = cheap)
    (e : Exception R) (hce : cheap.exc = some e) (he : e.is_NoConvergence = true)
    (m : ℕ)
    (hm : (if sim.parameters.include_melt_transport = false
      then sim.parameters.stokes_gmres_restart_length
      else max sim.parameters.stokes_gmres_restart_length 100) = m)
    (out : OuterOutcome (internal.MatrixFree.BlockSchurPreconditioner R nu np) R nu np)
    (hout : solver control_expensive m stokes_matrix.vmult cheap.x rhs pc_expensive
      (internal.MatrixFree.BlockSchurPreconditioner.vmult lib) = out)
    (ho : ∀ exc, out.exc = some exc → exc.is_NoConvergence = true) :
    StokesMatrixFreeHandler.solve_outer lib env solver sim stokes_matrix
        initial_nonlinear_residual x0 rhs control_cheap control_expensive pc_cheap pc_expensive
      = StokesMatrixFreeHandler.solve_finish env { sim with gmres_iterations := 0 }
          initial_nonlinear_residual
          (match out.exc with
            | none => some out.last_value
            | some _ => none)
          out.x cheap.precond out.precond cheap.control_state out.control_state
          (timing.events ++ [SolveEvent.solver_solve Phase.cheap control_cheap 50 x0 rhs]
            ++ [SolveEvent.solver_solve Phase.expensive control_expensive m cheap.x rhs]) := by
  unfold StokesMatrixFreeHandler.solve_outer
  simp only []
  rw [ht]
  simp only [h, hc, hce, he, hm, hout]
  cases hx : out.exc with
  | none => simp
  | some exc => simp [ho exc hx]

/-- The matrix-free solve when the cheap solver throws `NoConvergence` and the
expensive solver throws an exception that is not `NoConvergence`: the exception
leaves the function. -/
theorem solve_outer_of_expensive_raised {R : Type} [LinearOrderedField R] {nu np : ℕ}
    (lib : Library R) (env : Collaborators R nu np)
    (solver : OuterSolver (internal.MatrixFree.BlockSchurPreconditioner R nu np) R nu np)
    (sim : Simulator R nu np) (stokes_matrix : internal.MatrixFree.StokesOperator R nu np)
    (initial_nonlinear_residual : R) (x0 rhs : BlockVector R nu np)
    (control_cheap control_expensive : SolverControl R)
    (pc_cheap pc_expensive : internal.MatrixFree.BlockSchurPreconditioner R nu np)
    (timing : TimingState R nu np)
    (ht : StokesMatrixFreeHandler.preconditioner_timing lib pc_cheap x0 rhs = timing)
    (h : timing.raised = none)
    (cheap : OuterOutcome (internal.MatrixFree.BlockSchurPreconditioner R nu np) R nu np)
    (hc : solver control_cheap 50 stokes_matrix.vmult x0 rhs timing.preconditioner_cheap
      (internal.MatrixFree.BlockSchurPreconditioner.vmult lib) = cheap)
    (e : Exception R) (hce : cheap.exc = some e) (he : e.is_NoConvergence = true)
    (m : ℕ)
    (hm : (if sim.parameters.include_melt_transport = false
      then sim.parameters.stokes_gmres_restart_length
      else max sim.parameters.stokes_gmres_restart_length 100) = m)
    (out : OuterOutcome (internal.MatrixFree.BlockSchurPreconditioner R nu np) R nu np)
    (hout : solver control_expensive m stokes_matrix.vmult cheap.x rhs pc_expensive
      (internal.MatrixFree.BlockSchurPreconditioner.vmult lib) = out)
    (exc : Exception R) (ho : out.exc = some exc) (hn : exc.is_NoConvergence = false) :
    StokesMatrixFreeHandler.solve_outer lib env solver sim stokes_matrix
        initial_nonlinear_residual x0 rhs control_cheap control_expensive pc_cheap pc_expensive
      = { sim := { sim with gmres_iterations := 0 }
          preconditioner_cheap := cheap.precond
          preconditioner_expensive := out.precond
          solver_control_cheap := cheap.control_state
          solver_control_expensive := out.control_state
          events := timing.events
            ++ [SolveEvent.solver_solve Phase.cheap control_cheap 50 x0 rhs]
            ++ [SolveEvent.solver_solve Phase.expensive control_expensive m cheap.x rhs]
          result := Except.error exc } := by
  unfold StokesMatrixFreeHandler.solve_outer
  simp only []
  rw [ht]
  simp only [h, hc, hce, he, hm, hout, ho, hn]
  rfl

/-! ## The escalation from the cheap to the expensive phase -/

/-- A record of a direct application of a preconditioner is not a start of an
outer solver. -/
theorem is_solver_solve_of_is_preconditioner_vmult {R : Type} {nu np : ℕ}
    (ph ph2 : Phase) (e : SolveEvent R nu np)
    (h : e.is_preconditioner_vmult ph = true) : e.is_solver_solve ph2 = false := by
  cases e <;> simp_all [SolveEvent.is_preconditioner_vmult, SolveEvent.is_solver_solve]

/-- The records of the timing block hold no start of an outer solver. -/
theorem timing_events_no_solver_solve {R : Type} [LinearOrderedField R] {nu np : ℕ}
    (lib : Library R) (pc : internal.MatrixFree.BlockSchurPreconditioner R nu np)
    (x b : BlockVector R nu np) (ph : Phase) :
    (StokesMatrixFreeHandler.preconditioner_timing lib pc x b).events.filter
      (SolveEvent.is_solver_solve ph) = [] := by
  rw [List.filter_eq_nil_iff]
  intro e he
  rw [is_solver_solve_of_is_preconditioner_vmult Phase.cheap ph e
    ((preconditioner_timing_spec lib pc x b).2.1 e he)]
  simp

/-- The records of "step 1a" hold at most the start of the cheap solver. -/
theorem solve_stokes_step1a_events {R : Type} [LinearOrderedField R] {nu np : ℕ}
    (lib : Library R)
    (solver : OuterSolver (internal.BlockSchurPreconditioner R nu np) R nu np)
    (sim : Simulator R nu np) (stokes_block : internal.StokesBlock R nu np)
    (x0 rhs : BlockVector R nu np) (control_cheap : SolverControl R)
    (pc_cheap : internal.BlockSchurPreconditioner R nu np) :
    (Simulator.solve_stokes_step1a lib solver sim stokes_block x0 rhs control_cheap pc_cheap).2
        = [] ∨
      (Simulator.solve_stokes_step1a lib solver sim stokes_block x0 rhs control_cheap pc_cheap).2
        = [SolveEvent.solver_solve Phase.cheap control_cheap 50 x0 rhs] := by
  unfold Simulator.solve_stokes_step1a
  split
  · exact Or.inl rfl
  · exact Or.inr rfl

/-- The starts of the expensive outer solver recorded by `solve_stokes_try`, and
the state of the expensive objects at the end, in terms of the outcome of
"step 1a". -/
theorem solve_stokes_try_expensive {R : Type} [LinearOrderedField R] {nu np : ℕ}
    (lib : Library R) (env : Collaborators R nu np)
    (solver : OuterSolver (internal.BlockSchurPreconditioner R nu np) R nu np)
    (sim : Simulator R nu np) (initial_residual : R)
    (stokes_block : internal.StokesBlock R nu np)
    (x0 rhs : BlockVector R nu np)
    (control_cheap control_expensive : SolverControl R)
    (pc_cheap pc_expensive : internal.BlockSchurPreconditioner R nu np)
    (cheap : PhaseState (internal.BlockSchurPreconditioner R nu np) R nu np)
    (ev : List (SolveEvent R nu np))
    (hc : Simulator.solve_stokes_step1a lib solver sim stokes_block x0 rhs control_cheap
      pc_cheap = (cheap, ev)) :
    ((∃ e, cheap.exc = some e ∧ e.is_NoConvergence = true) →
      (Simulator.solve_stokes_try lib env solver sim initial_residual stokes_block x0 rhs
          control_cheap control_expensive pc_cheap pc_expensive).events.filter
          (SolveEvent.is_solver_solve Phase.expensive)
        = [SolveEvent.solver_solve Phase.expensive control_expensive 100 cheap.x rhs]
      ∧ (Simulator.solve_stokes_try lib env solver sim initial_residual stokes_block x0 rhs
          control_cheap control_expensive pc_cheap pc_expensive).preconditioner_expensive
        = (solver control_expensive 100 stokes_block.vmult cheap.x rhs pc_expensive
            (internal.BlockSchurPreconditioner.vmult lib)).precond
      ∧ (Simulator.solve_stokes_try lib env solver sim initial_residual stokes_block x0 rhs
          control_cheap control_expensive pc_cheap pc_expensive).solver_control_expensive
        = (solver control_expensive 100 stokes_block.vmult cheap.x rhs pc_expensive
            (internal.BlockSchurPreconditioner.vmult lib)).control_state)
    ∧ ((¬ ∃ e, cheap.exc = some e ∧ e.is_NoConvergence = true) →
      (Simulator.solve_stokes_try lib env solver sim initial_residual stokes_block x0 rhs
          control_cheap control_expensive pc_cheap pc_expensive).events.filter
          (SolveEvent.is_solver_solve Phase.expensive) = []
      ∧ (Simulator.solve_stokes_try lib env solver sim initial_residual stokes_block x0 rhs
          control_cheap control_expensive pc_cheap pc_expensive).preconditioner_expensive
        = pc_expensive
      ∧ (Simulator.solve_stokes_try lib env solver sim initial_residual stokes_block x0 rhs
          control_cheap control_expensive pc_cheap pc_expensive).solver_control_expensive
        = SolverControlState.fresh) := by
  have hev : ev.filter (SolveEvent.is_solver_solve Phase.expensive) = [] := by
    have h2 : (Simulator.solve_stokes_step1a lib solver sim stokes_block x0 rhs control_cheap
      pc_cheap).2 = ev := by rw [hc]
    rcases solve_stokes_step1a_events lib solver sim stokes_block x0 rhs control_cheap pc_cheap
      with h | h
    · rw [← h2, h]; rfl
    · rw [← h2, h]; simp [SolveEvent.is_solver_solve]
  cases hx : cheap.exc with
  | none =>
    have h1 : (Simulator.solve_stokes_step1a lib solver sim stokes_block x0 rhs control_cheap
      pc_cheap).1.exc = none := by rw [hc]; exact hx
    rw [solve_stokes_try_of_cheap_converged lib env solver sim initial_residual stokes_block
      x0 rhs control_cheap control_expensive pc_cheap pc_expensive h1, hc]
    refine ⟨?_, ?_⟩
    · rintro ⟨e, he, _⟩
      cases he
    · intro _
      refine ⟨?_, rfl, rfl⟩
      show (ev ++ [_]).filter _ = []
      rw [List.filter_append, hev]
      simp [SolveEvent.is_solver_solve]
  | some e =>
    cases he : e.is_NoConvergence with
    | false =>
      rw [solve_stokes_try_of_cheap_raised lib env solver sim initial_residual stokes_block
        x0 rhs control_cheap control_expensive pc_cheap pc_expensive cheap ev hc e hx he]
      refine ⟨?_, ?_⟩
      · rintro ⟨e2, he2, hn⟩
        cases he2
        rw [he] at hn
        cases hn
      · intro _
        exact ⟨hev, rfl, rfl⟩
    | true =>
      refine ⟨fun _ => ?_, fun hn => absurd ⟨e, rfl, he⟩ hn⟩
      cases ho : (solver control_expensive 100 stokes_block.vmult cheap.x rhs pc_expensive
          (internal.BlockSchurPreconditioner.vmult lib)).exc with
      | none =>
        rw [solve_stokes_try_of_expensive_converged lib env solver sim initial_residual
          stokes_block x0 rhs control_cheap control_expensive pc_cheap pc_expensive cheap ev hc
          e hx he _ rfl ho]
        refine ⟨?_, rfl, rfl⟩
        show ((ev ++ [_]) ++ [_]).filter _ = _
        rw [List.filter_append, List.filter_append, hev]
        simp [SolveEvent.is_solver_solve]
      | some exc =>
        rw [solve_stokes_try_of_expensive_failed lib env solver sim initial_residual
          stokes_block x0 rhs control_cheap control_expensive pc_cheap pc_expensive cheap ev hc
          e hx he _ rfl exc ho]
        refine ⟨?_, rfl, rfl⟩
        show ((ev ++ [_]) ++ _).filter _ = _
        rw [List.filter_append, List.filter_append, hev]
        by_cases hs : exc.is_std_exception = true
        · by_cases hr : lib.this_mpi_process = 0
          · simp [hs, hr, SolveEvent.is_solver_solve]
          · simp [hs, hr, SolveEvent.is_solver_solve]
        · simp [hs, SolveEvent.is_solver_solve]

/-- The starts of the expensive outer solver recorded by the matrix-free
`solve_outer`, and the state of the expensive objects at the end, in terms of
the outcome of the timing block and of the cheap solver. -/
theorem solve_outer_expensive {R : Type} [LinearOrderedField R] {nu np : ℕ}
    (lib : Library R) (env : Collaborators R nu np)
    (solver : OuterSolver (internal.MatrixFree.BlockSchurPreconditioner R nu np) R nu np)
    (sim : Simulator R nu np) (stokes_matrix : internal.MatrixFree.StokesOperator R nu np)
    (initial_nonlinear_residual : R) (x0 rhs : BlockVector R nu np)
    (control_cheap control_expensive : SolverControl R)
    (pc_cheap pc_expensive : internal.MatrixFree.BlockSchurPreconditioner R nu np)
    (timing : TimingState R nu np)
    (ht : StokesMatrixFreeHandler.preconditioner_timing lib pc_cheap x0 rhs = timing)
    (cheap : OuterOutcome (internal.MatrixFree.BlockSchurPreconditioner R nu np) R nu np)
    (hc : solver control_cheap 50 stokes_matrix.vmult x0 rhs timing.preconditioner_cheap
      (internal.MatrixFree.BlockSchurPreconditioner.vmult lib) = cheap)
    (m : ℕ)
    (hm : (if sim.parameters.include_melt_transport = false
      then sim.parameters.stokes_gmres_restart_length
      else max sim.parameters.stokes_gmres_restart_length 100) = m) :
    ((timing.raised = none ∧ ∃ e, cheap.exc = some e ∧ e.is_NoConvergence = true) →
      (StokesMatrixFreeHandler.solve_outer lib env solver sim stokes_matrix
          initial_nonlinear_residual x0 rhs control_cheap control_expensive pc_cheap
          pc_expensive).events.filter (SolveEvent.is_solver_solve Phase.expensive)
        = [SolveEvent.solver_solve Phase.expensive control_expensive m cheap.x rhs]
      ∧ (StokesMatrixFreeHandler.solve_outer lib env solver sim stokes_matrix
          initial_nonlinear_residual x0 rhs control_cheap control_expensive pc_cheap
          pc_expensive).preconditioner_expensive
        = (solver control_expensive m stokes_matrix.vmult cheap.x rhs pc_expensive
            (internal.MatrixFree.BlockSchurPreconditioner.vmult lib)).precond
      ∧ (StokesMatrixFreeHandler.solve_outer lib env solver sim stokes_matrix
          initial_nonlinear_residual x0 rhs control_cheap control_expensive pc_cheap
          pc_expensive).solver_control_expensive
        = (solver control_expensive m stokes_matrix.vmult cheap.x rhs pc_expensive
            (internal.MatrixFree.BlockSchurPreconditioner.vmult lib)).control_state)
    ∧ ((¬ (timing.raised = none ∧ ∃ e, cheap.exc = some e ∧ e.is_NoConvergence = true)) →
      (StokesMatrixFreeHandler.solve_outer lib env solver sim stokes_matrix
          initial_nonlinear_residual x0 rhs control_cheap control_expensive pc_cheap
          pc_expensive).events.filter (SolveEvent.is_solver_solve Phase.expensive) = []
      ∧ (StokesMatrixFreeHandler.solve_outer lib env solver sim stokes_matrix
          initial_nonlinear_residual x0 rhs control_cheap control_expensive pc_cheap
          pc_expensive).preconditioner_expensive = pc_expensive
      ∧ (StokesMatrixFreeHandler.solve_outer lib env solver sim stokes_matrix
          initial_nonlinear_residual x0 rhs control_cheap control_expensive pc_cheap
          pc_expensive).solver_control_expensive = SolverControlState.fresh) := by
  have hev : timing.events.filter (SolveEvent.is_solver_solve Phase.expensive) = [] := by
    rw [← ht]
    exact timing_events_no_solver_solve lib pc_cheap x0 rhs Phase.expensive
  cases htr : timing.raised with
  | some e0 =>
    rw [solve_outer_of_timing_raised lib env solver sim stokes_matrix
      initial_nonlinear_residual x0 rhs control_cheap control_expensive pc_cheap pc_expensive
      timing ht e0 htr]
    refine ⟨?_, fun _ => ⟨hev, rfl, rfl⟩⟩
    rintro ⟨h, _⟩
    cases h
  | none =>
    cases hx : cheap.exc with
    | none =>
      rw [solve_outer_of_cheap_converged lib env solver sim stokes_matrix
        initial_nonlinear_residual x0 rhs control_cheap control_expensive pc_cheap pc_expensive
        timing ht htr cheap hc hx]
      refine ⟨?_, ?_⟩
      · rintro ⟨_, e, he, _⟩
        cases he
      · intro _
        refine ⟨?_, rfl, rfl⟩
        show (timing.events ++ [_]).filter _ = []
        rw [List.filter_append, hev]
        simp [SolveEvent.is_solver_solve]
    | some e =>
      cases he : e.is_NoConvergence with
      | false =>
        rw [solve_outer_of_cheap_raised lib env solver sim stokes_matrix
          initial_nonlinear_residual x0 rhs control_cheap control_expensive pc_cheap
          pc_expensive timing ht htr cheap hc e hx he]
        refine ⟨?_, ?_⟩
        · rintro ⟨_, e2, he2, hn⟩
          cases he2
          rw [he] at hn
          cases hn
        · intro _
          refine ⟨?_, rfl, rfl⟩
          show (timing.events ++ [_]).filter _ = []
          rw [List.filter_append, hev]
          simp [SolveEvent.is_solver_solve]
      | true =>
        refine ⟨fun _ => ?_, fun hn => absurd ⟨rfl, e, rfl, he⟩ hn⟩
        by_cases ho : ∀ exc, (solver control_expensive m stokes_matrix.vmult cheap.x rhs
            pc_expensive (internal.MatrixFree.BlockSchurPreconditioner.vmult lib)).exc
            = some exc → exc.is_NoConvergence = true
        · rw [solve_outer_of_expensive_run lib env solver sim stokes_matrix
            initial_nonlinear_residual x0 rhs control_cheap control_expensive pc_cheap
            pc_expensive timing ht htr cheap hc e hx he m hm _ rfl ho]
          refine ⟨?_, rfl, rfl⟩
          show ((timing.events ++ [_]) ++ [_]).filter _ = _
          rw [List.filter_append, List.filter_append, hev]
          simp [SolveEvent.is_solver_solve]
        · push_neg at ho
          obtain ⟨exc, hexc, hn⟩ := ho
          rw [solve_outer_of_expensive_raised lib env solver sim stokes_matrix
            initial_nonlinear_residual x0 rhs control_cheap control_expensive pc_cheap
            pc_expensive timing ht htr cheap hc e hx he m hm _ rfl exc hexc (by simpa using hn)]
          refine ⟨?_, rfl, rfl⟩
          show ((timing.events ++ [_]) ++ [_]).filter _ = _
          rw [List.filter_append, List.filter_append, hev]
          simp [SolveEvent.is_solver_solve]

/-- Every start of an outer solver recorded by `solve_stokes_try` carries one of
the two solver controls of the function. -/
theorem solve_stokes_try_controls {R : Type} [LinearOrderedField R] {nu np : ℕ}
    (lib : Library R) (env : Collaborators R nu np)
    (solver : OuterSolver (internal.BlockSchurPreconditioner R nu np) R nu np)
    (sim : Simulator R nu np) (initial_residual : R)
    (stokes_block : internal.StokesBlock R nu np)
    (x0 rhs : BlockVector R nu np)
    (control_cheap control_expensive : SolverControl R)
    (pc_cheap pc_expensive : internal.BlockSchurPreconditioner R nu np)
    (ph : Phase) (control : SolverControl R) (m : ℕ) (x b : BlockVector R nu np)
    (hmem : SolveEvent.solver_solve ph control m x b ∈
      (Simulator.solve_stokes_try lib env solver sim initial_residual stokes_block x0 rhs
        control_cheap control_expensive pc_cheap pc_expensive).events) :
    (ph = Phase.cheap ∧ control = control_cheap)
      ∨ (ph = Phase.expensive ∧ control = control_expensive) := by
  obtain ⟨cheap, ev, hc⟩ : ∃ cheap ev, Simulator.solve_stokes_step1a lib solver sim stokes_block
      x0 rhs control_cheap pc_cheap = (cheap, ev) := ⟨_, _, rfl⟩
  have hev : ∀ e ∈ ev, e = SolveEvent.solver_solve Phase.cheap control_cheap 50 x0 rhs := by
    have h2 : (Simulator.solve_stokes_step1a lib solver sim stokes_block x0 rhs control_cheap
      pc_cheap).2 = ev := by rw [hc]
    intro e he
    rcases solve_stokes_step1a_events lib solver sim stokes_block x0 rhs control_cheap pc_cheap
      with h | h
    · rw [← h2, h] at he
      cases he
    · rw [← h2, h, List.mem_singleton] at he
      exact he
  have hcheap : SolveEvent.solver_solve ph control m x b ∈ ev →
      ph = Phase.cheap ∧ control = control_cheap := by
    intro h
    have := hev _ h
    injection this with h1 h2
    exact ⟨h1, h2⟩
  cases hx : cheap.exc with
  | none =>
    have h1 : (Simulator.solve_stokes_step1a lib solver sim stokes_block x0 rhs control_cheap
      pc_cheap).1.exc = none := by rw [hc]; exact hx
    rw [solve_stokes_try_of_cheap_converged lib env solver sim initial_residual stokes_block
      x0 rhs control_cheap control_expensive pc_cheap pc_expensive h1, hc] at hmem
    have hmem2 : SolveEvent.solver_solve ph control m x b ∈ ev ++ [SolveEvent.post_stokes_solver
        (cheap.precond.n_iterations_S + pc_expensive.n_iterations_S)
        (cheap.precond.n_iterations_A + pc_expensive.n_iterations_A)] := hmem
    simp only [List.mem_append, List.mem_singleton] at hmem2
    rcases hmem2 with h | h
    · exact Or.inl (hcheap h)
    · cases h
  | some e =>
    cases he : e.is_NoConvergence with
    | false =>
      rw [solve_stokes_try_of_cheap_raised lib env solver sim initial_residual stokes_block
        x0 rhs control_cheap control_expensive pc_cheap pc_expensive cheap ev hc e hx he] at hmem
      exact Or.inl (hcheap hmem)
    | true =>
      cases ho : (solver control_expensive 100 stokes_block.vmult cheap.x rhs pc_expensive
          (internal.BlockSchurPreconditioner.vmult lib)).exc with
      | none =>
        rw [solve_stokes_try_of_expensive_converged lib env solver sim initial_residual
          stokes_block x0 rhs control_cheap control_expensive pc_cheap pc_expensive cheap ev hc
          e hx he _ rfl ho] at hmem
        have hmem2 : SolveEvent.solver_solve ph control m x b ∈
            (ev ++ [SolveEvent.solver_solve Phase.expensive control_expensive 100 cheap.x rhs])
              ++ [SolveEvent.post_stokes_solver _ _] := hmem
        simp only [List.mem_append, List.mem_singleton] at hmem2
        rcases hmem2 with (h | h) | h
        · exact Or.inl (hcheap h)
        · injection h with h1 h2
          exact Or.inr ⟨h1, h2⟩
        · cases h
      | some exc =>
        rw [solve_stokes_try_of_expensive_failed lib env solver sim initial_residual
          stokes_block x0 rhs control_cheap control_expensive pc_cheap pc_expensive cheap ev hc
          e hx he _ rfl exc ho] at hmem
        simp only [List.mem_append, List.mem_singleton] at hmem
        rcases hmem with (h | h) | h
        · exact Or.inl (hcheap h)
        · injection h with h1 h2
          exact Or.inr ⟨h1, h2⟩
        · exfalso
          by_cases hs : exc.is_std_exception = true
          · by_cases hr : lib.this_mpi_process = 0
            · simp [hs, hr] at h
            · simp [hs, hr] at h
          · simp [hs] at h

/-- Every start of an outer solver recorded by the matrix-free `solve_outer`
carries one of the two solver controls of the function. -/
theorem solve_outer_controls {R : Type} [LinearOrderedField R] {nu np : ℕ}
    (lib : Library R) (env : Collaborators R nu np)
    (solver : OuterSolver (internal.MatrixFree.BlockSchurPreconditioner R nu np) R nu np)
    (sim : Simulator R nu np) (stokes_matrix : internal.MatrixFree.StokesOperator R nu np)
    (initial_nonlinear_residual : R) (x0 rhs : BlockVector R nu np)
    (control_cheap control_expensive : SolverControl R)
    (pc_cheap pc_expensive : internal.MatrixFree.BlockSchurPreconditioner R nu np)
    (ph : Phase) (control : SolverControl R) (m : ℕ) (x b : BlockVector R nu np)
    (hmem : SolveEvent.solver_solve ph control m x b ∈
      (StokesMatrixFreeHandler.solve_outer lib env solver sim stokes_matrix
        initial_nonlinear_residual x0 rhs control_cheap control_expensive pc_cheap
        pc_expensive).events) :
    (ph = Phase.cheap ∧ control = control_cheap)
      ∨ (ph = Phase.expensive ∧ control = control_expensive) := by
  have htim : SolveEvent.solver_solve ph control m x b ∉
      (StokesMatrixFreeHandler.preconditioner_timing lib pc_cheap x0 rhs).events := by
    intro h
    have := (preconditioner_timing_spec lib pc_cheap x0 rhs).2.1 _ h
    simp [SolveEvent.is_preconditioner_vmult] at this
  cases htr : (StokesMatrixFreeHandler.preconditioner_timing lib pc_cheap x0 rhs).raised with
  | some e0 =>
    rw [solve_outer_of_timing_raised lib env solver sim stokes_matrix
      initial_nonlinear_residual x0 rhs control_cheap control_expensive pc_cheap pc_expensive
      _ rfl e0 htr] at hmem
    exact absurd hmem htim
  | none =>
    cases hx : (solver control_cheap 50 stokes_matrix.vmult x0 rhs
        (StokesMatrixFreeHandler.preconditioner_timing lib pc_cheap x0 rhs).preconditioner_cheap
        (internal.MatrixFree.BlockSchurPreconditioner.vmult lib)).exc with
    | none =>
      rw [solve_outer_of_cheap_converged lib env solver sim stokes_matrix
        initial_nonlinear_residual x0 rhs control_cheap control_expensive pc_cheap pc_expensive
        _ rfl htr _ rfl hx] at hmem
      have hmem2 : SolveEvent.solver_solve ph control m x b ∈
          (StokesMatrixFreeHandler.preconditioner_timing lib pc_cheap x0 rhs).events
            ++ [SolveEvent.solver_solve Phase.cheap control_cheap 50 x0 rhs] := hmem
      simp only [List.mem_append, List.mem_singleton] at hmem2
      rcases hmem2 with h | h
      · exact absurd h htim
      · injection h with h1 h2
        exact Or.inl ⟨h1, h2⟩
    | some e =>
      cases he : e.is_NoConvergence with
      | false =>
        rw [solve_outer_of_cheap_raised lib env solver sim stokes_matrix
          initial_nonlinear_residual x0 rhs control_cheap control_expensive pc_cheap
          pc_expensive _ rfl htr _ rfl e hx he] at hmem
        simp only [List.mem_append, List.mem_singleton] at hmem
        rcases hmem with h | h
        · exact absurd h htim
        · injection h with h1 h2
          exact Or.inl ⟨h1, h2⟩
      | true =>
        have key : SolveEvent.solver_solve ph control m x b ∈
            ((StokesMatrixFreeHandler.preconditioner_timing lib pc_cheap x0 rhs).events
              ++ [SolveEvent.solver_solve Phase.cheap control_cheap 50 x0 rhs])
              ++ [SolveEvent.solver_solve Phase.expensive control_expensive
                (if sim.parameters.include_melt_transport = false
                  then sim.parameters.stokes_gmres_restart_length
                  else max sim.parameters.stokes_gmres_restart_length 100)
                (solver control_cheap 50 stokes_matrix.vmult x0 rhs
                  (StokesMatrixFreeHandler.preconditioner_timing lib pc_cheap x0
                    rhs).preconditioner_cheap
                  (internal.MatrixFree.BlockSchurPreconditioner.vmult lib)).x rhs] := by
          by_cases ho : ∀ exc, (solver control_expensive
              (if sim.parameters.include_melt_transport = false
                then sim.parameters.stokes_gmres_restart_length
                else max sim.parameters.stokes_gmres_restart_length 100)
              stokes_matrix.vmult
              (solver control_cheap 50 stokes_matrix.vmult x0 rhs
                (StokesMatrixFreeHandler.preconditioner_timing lib pc_cheap x0
                  rhs).preconditioner_cheap
                (internal.MatrixFree.BlockSchurPreconditioner.vmult lib)).x rhs
              pc_expensive (internal.MatrixFree.BlockSchurPreconditioner.vmult lib)).exc
              = some exc → exc.is_NoConvergence = true
          · rw [solve_outer_of_expensive_run lib env solver sim stokes_matrix
              initial_nonlinear_residual x0 rhs control_cheap control_expensive pc_cheap
              pc_expensive _ rfl htr _ rfl e hx he _ rfl _ rfl ho] at hmem
            exact hmem
          · push_neg at ho
            obtain ⟨exc, hexc, hn⟩ := ho
            rw [solve_outer_of_expensive_raised lib env solver sim stokes_matrix
              initial_nonlinear_residual x0 rhs control_cheap control_expensive pc_cheap
              pc_expensive _ rfl htr _ rfl e hx he _ rfl _ rfl exc hexc
              (by simpa using hn)] at hmem
            exact hmem
        simp only [List.mem_append, List.mem_singleton] at key
        rcases key with (h | h) | h
        · exact absurd h htim
        · injection h with h1 h2
          exact Or.inl ⟨h1, h2⟩
        · injection h with h1 h2
          exact Or.inr ⟨h1, h2⟩

/-- C11: in `Simulator::solve_stokes` the expensive outer solver is started if
and only if the cheap attempt ended with `SolverControl::NoConvergence`, and in
`StokesMatrixFreeHandler::solve` if and only if the cheap solve was reached and
ended so; in particular it is never started when the cheap solve converges.
When it is started it is started once, with the iteration cap
`n_expensive_stokes_solver_steps`, on the preconditioner constructed with
`do_solve_A == true` (the expensive objects at the end of the function are the
ones this call leaves), and every start of an outer solver, cheap or expensive,
carries the same tolerance `solver_tolerance`. -/
theorem escalation_to_expensive_iff_cheap_NoConvergence {R : Type} [LinearOrderedField R]
    {nu np : ℕ} (lib : Library R) (env : Collaborators R nu np)
    (solver : OuterSolver (internal.BlockSchurPreconditioner R nu np) R nu np)
    (mf_solver : OuterSolver (internal.MatrixFree.BlockSchurPreconditioner R nu np) R nu np)
    (sim : Simulator R nu np) (self : StokesMatrixFreeHandler R nu np) (i : ℕ) :
    -- Simulator::solve_stokes
    (((Simulator.solve_stokes lib env solver sim).events.filter
          (SolveEvent.is_solver_solve Phase.expensive) ≠ []
        ↔ ∃ e, (Simulator.cheap_attempt lib env solver sim).1.exc = some e
            ∧ e.is_NoConvergence = true)
      ∧ ((Simulator.cheap_attempt lib env solver sim).1.exc = none →
          (Simulator.solve_stokes lib env solver sim).events.filter
            (SolveEvent.is_solver_solve Phase.expensive) = [])
      ∧ ((∃ e, (Simulator.cheap_attempt lib env solver sim).1.exc = some e
            ∧ e.is_NoConvergence = true) →
          (Simulator.solve_stokes lib env solver sim).events.filter
              (SolveEvent.is_solver_solve Phase.expensive)
            = [SolveEvent.solver_solve Phase.expensive
                ⟨sim.parameters.n_expensive_stokes_solver_steps,
                  Simulator.solver_tolerance lib sim
                    (Simulator.linearized_stokes_initial_guess env sim), false, true⟩
                100 (Simulator.cheap_attempt lib env solver sim).1.x
                sim.distributed_stokes_rhs]
          ∧ (Simulator.solve_stokes lib env solver sim).preconditioner_expensive
            = (Simulator.expensive_attempt lib env solver sim).precond
          ∧ (Simulator.solve_stokes lib env solver sim).solver_control_expensive
            = (Simulator.expensive_attempt lib env solver sim).control_state)
      ∧ Simulator.expensive_attempt lib env solver sim
          = solver
              ⟨sim.parameters.n_expensive_stokes_solver_steps,
                Simulator.solver_tolerance lib sim
                  (Simulator.linearized_stokes_initial_guess env sim), false, true⟩
              100 (internal.StokesBlock.vmult ⟨sim.system_matrix⟩)
              (Simulator.cheap_attempt lib env solver sim).1.x sim.distributed_stokes_rhs
              (sim.new_preconditioner true) (internal.BlockSchurPreconditioner.vmult lib)
      ∧ (sim.new_preconditioner true).do_solve_A = true
      ∧ ∀ ph control m x b, SolveEvent.solver_solve ph control m x b
            ∈ (Simulator.solve_stokes lib env solver sim).events →
          control.tolerance = Simulator.solver_tolerance lib sim
            (Simulator.linearized_stokes_initial_guess env sim))
    -- StokesMatrixFreeHandler::solve
    ∧ (((StokesMatrixFreeHandler.solve lib env mf_solver self i).events.filter
          (SolveEvent.is_solver_solve Phase.expensive) ≠ []
        ↔ ((StokesMatrixFreeHandler.timing lib env self).raised = none
            ∧ ∃ e, (StokesMatrixFreeHandler.cheap_attempt lib env mf_solver self).exc = some e
              ∧ e.is_NoConvergence = true))
      ∧ (((StokesMatrixFreeHandler.timing lib env self).raised = none
            ∧ (StokesMatrixFreeHandler.cheap_attempt lib env mf_solver self).exc = none) →
          (StokesMatrixFreeHandler.solve lib env mf_solver self i).events.filter
            (SolveEvent.is_solver_solve Phase.expensive) = [])
      ∧ (((StokesMatrixFreeHandler.timing lib env self).raised = none
            ∧ ∃ e, (StokesMatrixFreeHandler.cheap_attempt lib env mf_solver self).exc = some e
              ∧ e.is_NoConvergence = true) →
          (StokesMatrixFreeHandler.solve lib env mf_solver self i).events.filter
              (SolveEvent.is_solver_solve Phase.expensive)
            = [SolveEvent.solver_solve Phase.expensive
                ⟨self.sim.parameters.n_expensive_stokes_solver_steps,
                  StokesMatrixFreeHandler.solver_tolerance lib env self, false, true⟩
                self.number_of_temporary_vectors
                (StokesMatrixFreeHandler.cheap_attempt lib env mf_solver self).x
                self.sim.distributed_stokes_rhs]
          ∧ (StokesMatrixFreeHandler.solve lib env mf_solver self i).preconditioner_expensive
            = (StokesMatrixFreeHandler.expensive_attempt lib env mf_solver self).precond
          ∧ (StokesMatrixFreeHandler.solve lib env mf_solver self i).solver_control_expensive
            = (StokesMatrixFreeHandler.expensive_attempt lib env mf_solver self).control_state)
      ∧ StokesMatrixFreeHandler.expensive_attempt lib env mf_solver self
          = mf_solver
              ⟨self.sim.parameters.n_expensive_stokes_solver_steps,
                StokesMatrixFreeHandler.solver_tolerance lib env self, false, true⟩
              self.number_of_temporary_vectors self.stokes_matrix.vmult
              (StokesMatrixFreeHandler.cheap_attempt lib env mf_solver self).x
              self.sim.distributed_stokes_rhs
              (self.new_preconditioner true)
              (internal.MatrixFree.BlockSchurPreconditioner.vmult lib)
      ∧ (self.new_preconditioner true).do_solve_A = true
      ∧ ∀ ph control m x b, SolveEvent.solver_solve ph control m x b
            ∈ (StokesMatrixFreeHandler.solve lib env mf_solver self i).events →
          control.tolerance = StokesMatrixFreeHandler.solver_tolerance lib env self) := by
  constructor
  · have h := solve_stokes_try_expensive lib env solver sim
      (internal.StokesBlock.residual lib.sqrt ⟨sim.system_matrix⟩ ⟨0, 0⟩
        (Simulator.linearized_stokes_initial_guess env sim) sim.system_rhs).2
      ⟨sim.system_matrix⟩ (Simulator.linearized_stokes_initial_guess env sim)
      sim.distributed_stokes_rhs
      ⟨sim.parameters.n_cheap_stokes_solver_steps,
        Simulator.solver_tolerance lib sim
          (Simulator.linearized_stokes_initial_guess env sim), false, true⟩
      ⟨sim.parameters.n_expensive_stokes_solver_steps,
        Simulator.solver_tolerance lib sim
          (Simulator.linearized_stokes_initial_guess env sim), false, true⟩
      (sim.new_preconditioner false) (sim.new_preconditioner true)
      (Simulator.cheap_attempt lib env solver sim).1
      (Simulator.cheap_attempt lib env solver sim).2 rfl
    rw [← solve_stokes_eq_try lib env solver sim] at h
    refine ⟨⟨?_, ?_⟩, ?_, h.1, rfl, rfl, ?_⟩
    · intro hne
      by_contra hn
      exact hne (h.2 hn).1
    · intro hex
      rw [(h.1 hex).1]
      simp
    · intro hnone
      refine (h.2 ?_).1
      rintro ⟨e, he, _⟩
      rw [hnone] at he
      cases he
    · intro ph control m x b hmem
      rw [solve_stokes_eq_try] at hmem
      rcases solve_stokes_try_controls lib env solver sim _ _ _ _ _ _ _ _ ph control m x b hmem
        with h1 | h1
      · rw [h1.2]
      · rw [h1.2]
  · have h := solve_outer_expensive lib env mf_solver self.sim self.stokes_matrix
      (StokesMatrixFreeHandler.tolerance_and_residual lib self ⟨0, 0⟩
        (StokesMatrixFreeHandler.linearized_stokes_initial_guess env self)
        self.sim.distributed_stokes_rhs).2
      (StokesMatrixFreeHandler.linearized_stokes_initial_guess env self)
      self.sim.distributed_stokes_rhs
      ⟨self.sim.parameters.n_cheap_stokes_solver_steps,
        StokesMatrixFreeHandler.solver_tolerance lib env self, true, true⟩
      ⟨self.sim.parameters.n_expensive_stokes_solver_steps,
        StokesMatrixFreeHandler.solver_tolerance lib env self, false, true⟩
      (self.new_preconditioner false) (self.new_preconditioner true)
      (StokesMatrixFreeHandler.timing lib env self) rfl
      (StokesMatrixFreeHandler.cheap_attempt lib env mf_solver self) rfl
      self.number_of_temporary_vectors rfl
    rw [← solve_eq_solve_outer lib env mf_solver self i] at h
    refine ⟨⟨?_, ?_⟩, ?_, h.1, rfl, rfl, ?_⟩
    · intro hne
      by_contra hn
      exact hne (h.2 hn).1
    · intro hex
      rw [(h.1 hex).1]
      simp
    · rintro ⟨_, hnone⟩
      refine (h.2 ?_).1
      rintro ⟨_, e, he, _⟩
      rw [hnone] at he
      cases he
    · intro ph control m x b hmem
      rw [solve_eq_solve_outer] at hmem
      rcases solve_outer_controls lib env mf_solver self.sim _ _ _ _ _ _ _ _ ph control m x b hmem
        with h1 | h1
      · rw [h1.2]
      · rw [h1.2]

/-! ## The starting vector of the expensive solve -/

namespace Examples

theorem simulator_initial_guess (n : ℕ) :
    Simulator.linearized_stokes_initial_guess env (sim n) = vec 0 0 := by
  unfold Simulator.linearized_stokes_initial_guess
  simp [sim, env, vec]

theorem handler_initial_guess (n : ℕ) :
    StokesMatrixFreeHandler.linearized_stokes_initial_guess env (handler n) = vec 0 0 := by
  unfold StokesMatrixFreeHandler.linearized_stokes_initial_guess
  simp [handler, sim, env, vec]

theorem vec_ne : vec 1 0 ≠ vec 0 0 := by
  intro h
  have h0 := congrArg (fun v : BlockVector ℚ 1 1 => v.block0 0) h
  simp [vec] at h0

theorem handler_timing_returns (n : ℕ) :
    (StokesMatrixFreeHandler.timing lib env (handler n)).raised = none :=
  timing_returns n

theorem cheap_attempt_two_step :
    (Simulator.cheap_attempt lib env (two_step_solver _) (sim 1)).1.x = vec 1 0
    ∧ (Simulator.cheap_attempt lib env (two_step_solver _) (sim 1)).1.exc
        = some (Exception.NoConvergence 1 1) := by
  unfold Simulator.cheap_attempt Simulator.solve_stokes_step1a
  rw [simulator_initial_guess]
  constructor
  · simp [sim, two_step_solver, OuterOutcome.phase_state, Simulator.distributed_stokes_rhs, vec]
    rfl
  · simp [sim, two_step_solver, OuterOutcome.phase_state]

theorem mf_cheap_attempt_two_step :
    (StokesMatrixFreeHandler.cheap_attempt lib env (two_step_solver _) (handler 1)).x = vec 1 0
    ∧ (StokesMatrixFreeHandler.cheap_attempt lib env (two_step_solver _) (handler 1)).exc
        = some (Exception.NoConvergence 1 1) := by
  unfold StokesMatrixFreeHandler.cheap_attempt
  rw [handler_initial_guess]
  constructor
  · simp [handler, sim, two_step_solver, Simulator.distributed_stokes_rhs, vec]
    rfl
  · simp [handler, sim, two_step_solver]

end Examples

/-- C12, counterexample: on the small system with one cheap step and an outer
solver that needs two steps, the cheap solver fails with `NoConvergence` and
leaves its first iterate `(1, 0)` in the solution vector; in both solve
functions the expensive solver is then started from `(1, 0)`, not from the
initial guess `linearized_stokes_initial_guess = (0, 0)`. -/
theorem expensive_solve_starts_from_failed_cheap_iterate :
    Simulator.linearized_stokes_initial_guess Examples.env (Examples.sim 1) = Examples.vec 0 0
    ∧ (Simulator.cheap_attempt Examples.lib Examples.env (Examples.two_step_solver _)
        (Examples.sim 1)).1.exc = some (Exception.NoConvergence 1 1)
    ∧ (Simulator.solve_stokes Examples.lib Examples.env (Examples.two_step_solver _)
        (Examples.sim 1)).events.filter (SolveEvent.is_solver_solve Phase.expensive)
      = [SolveEvent.solver_solve Phase.expensive
          ⟨10, Simulator.solver_tolerance Examples.lib (Examples.sim 1)
            (Simulator.linearized_stokes_initial_guess Examples.env (Examples.sim 1)),
            false, true⟩
          100 (Examples.vec 1 0) (Examples.vec 1 0)]
    ∧ StokesMatrixFreeHandler.linearized_stokes_initial_guess Examples.env (Examples.handler 1)
      = Examples.vec 0 0
    ∧ (StokesMatrixFreeHandler.cheap_attempt Examples.lib Examples.env
        (Examples.two_step_solver _) (Examples.handler 1)).exc
      = some (Exception.NoConvergence 1 1)
    ∧ (StokesMatrixFreeHandler.solve Examples.lib Examples.env (Examples.two_step_solver _)
        (Examples.handler 1) 0).events.filter (SolveEvent.is_solver_solve Phase.expensive)
      = [SolveEvent.solver_solve Phase.expensive
          ⟨10, StokesMatrixFreeHandler.solver_tolerance Examples.lib Examples.env
            (Examples.handler 1), false, true⟩
          50 (Examples.vec 1 0) (Examples.vec 1 0)]
    ∧ Examples.vec 1 0 ≠ Examples.vec 0 0 := by
  refine ⟨Examples.simulator_initial_guess 1, Examples.cheap_attempt_two_step.2, ?_,
    Examples.handler_initial_guess 1, Examples.mf_cheap_attempt_two_step.2, ?_,
    Examples.vec_ne⟩
  · have h := (solve_stokes_try_expensive Examples.lib Examples.env (Examples.two_step_solver _)
      (Examples.sim 1)
      (internal.StokesBlock.residual Examples.lib.sqrt ⟨(Examples.sim 1).system_matrix⟩ ⟨0, 0⟩
        (Simulator.linearized_stokes_initial_guess Examples.env (Examples.sim 1))
        (Examples.sim 1).system_rhs).2
      ⟨(Examples.sim 1).system_matrix⟩
      (Simulator.linearized_stokes_initial_guess Examples.env (Examples.sim 1))
      (Examples.sim 1).distributed_stokes_rhs
      ⟨(Examples.sim 1).parameters.n_cheap_stokes_solver_steps,
        Simulator.solver_tolerance Examples.lib (Examples.sim 1)
          (Simulator.linearized_stokes_initial_guess Examples.env (Examples.sim 1)),
        false, true⟩
      ⟨(Examples.sim 1).parameters.n_expensive_stokes_solver_steps,
        Simulator.solver_tolerance Examples.lib (Examples.sim 1)
          (Simulator.linearized_stokes_initial_guess Examples.env (Examples.sim 1)),
        false, true⟩
      ((Examples.sim 1).new_preconditioner false) ((Examples.sim 1).new_preconditioner true)
      (Simulator.cheap_attempt Examples.lib Examples.env (Examples.two_step_solver _)
        (Examples.sim 1)).1
      (Simulator.cheap_attempt Examples.lib Examples.env (Examples.two_step_solver _)
        (Examples.sim 1)).2 rfl).1 ⟨_, Examples.cheap_attempt_two_step.2, rfl⟩
    rw [← solve_stokes_eq_try Examples.lib Examples.env (Examples.two_step_solver _)
      (Examples.sim 1), Examples.cheap_attempt_two_step.1] at h
    exact h.1
  · have h := (solve_outer_expensive Examples.lib Examples.env (Examples.two_step_solver _)
      (Examples.handler 1).sim (Examples.handler 1).stokes_matrix
      (StokesMatrixFreeHandler.tolerance_and_residual Examples.lib (Examples.handler 1) ⟨0, 0⟩
        (StokesMatrixFreeHandler.linearized_stokes_initial_guess Examples.env
          (Examples.handler 1))
        (Examples.handler 1).sim.distributed_stokes_rhs).2
      (StokesMatrixFreeHandler.linearized_stokes_initial_guess Examples.env (Examples.handler 1))
      (Examples.handler 1).sim.distributed_stokes_rhs
      ⟨(Examples.handler 1).sim.parameters.n_cheap_stokes_solver_steps,
        StokesMatrixFreeHandler.solver_tolerance Examples.lib Examples.env (Examples.handler 1),
        true, true⟩
      ⟨(Examples.handler 1).sim.parameters.n_expensive_stokes_solver_steps,
        StokesMatrixFreeHandler.solver_tolerance Examples.lib Examples.env (Examples.handler 1),
        false, true⟩
      ((Examples.handler 1).new_preconditioner false)
      ((Examples.handler 1).new_preconditioner true)
      (StokesMatrixFreeHandler.timing Examples.lib Examples.env (Examples.handler 1)) rfl
      (StokesMatrixFreeHandler.cheap_attempt Examples.lib Examples.env
        (Examples.two_step_solver _) (Examples.handler 1)) rfl
      (Examples.handler 1).number_of_temporary_vectors rfl).1
      ⟨Examples.handler_timing_returns 1, _, Examples.mf_cheap_attempt_two_step.2, rfl⟩
    rw [← solve_eq_solve_outer Examples.lib Examples.env (Examples.two_step_solver _)
      (Examples.handler 1) 0, Examples.mf_cheap_attempt_two_step.1] at h
    exact h.1

/-- C12, amended: in both solve functions every start of the expensive outer
solver is handed, as starting vector, the content of the solution vector at the
end of the cheap attempt, that is the vector the failed cheap solver left: the
code does not reset it. In `Simulator::solve_stokes` this is
`linearized_stokes_initial_guess` itself when the cheap attempt is short-cut
(`n_cheap_stokes_solver_steps == 0`), and otherwise, as always in
`StokesMatrixFreeHandler::solve`, it is what the cheap solver, started from
`linearized_stokes_initial_guess`, left in the vector. -/
theorem expensive_solve_starts_from_cheap_result {R : Type} [LinearOrderedField R]
    {nu np : ℕ} (lib : Library R) (env : Collaborators R nu np)
    (solver : OuterSolver (internal.BlockSchurPreconditioner R nu np) R nu np)
    (mf_solver : OuterSolver (internal.MatrixFree.BlockSchurPreconditioner R nu np) R nu np)
    (sim : Simulator R nu np) (self : StokesMatrixFreeHandler R nu np) (i : ℕ) :
    -- Simulator::solve_stokes
    ((∀ control m x b, SolveEvent.solver_solve Phase.expensive control m x b
          ∈ (Simulator.solve_stokes lib env solver sim).events →
        x = (Simulator.cheap_attempt lib env solver sim).1.x)
      ∧ (sim.parameters.n_cheap_stokes_solver_steps = 0 →
          (Simulator.cheap_attempt lib env solver sim).1.x
            = Simulator.linearized_stokes_initial_guess env sim)
      ∧ (sim.parameters.n_cheap_stokes_solver_steps ≠ 0 →
          (Simulator.cheap_attempt lib env solver sim).1.x
            = (solver
                ⟨sim.parameters.n_cheap_stokes_solver_steps,
                  Simulator.solver_tolerance lib sim
                    (Simulator.linearized_stokes_initial_guess env sim), false, true⟩
                50 (internal.StokesBlock.vmult ⟨sim.system_matrix⟩)
                (Simulator.linearized_stokes_initial_guess env sim) sim.distributed_stokes_rhs
                (sim.new_preconditioner false) (internal.BlockSchurPreconditioner.vmult lib)).x))
    -- StokesMatrixFreeHandler::solve
    ∧ ((∀ control m x b, SolveEvent.solver_solve Phase.expensive control m x b
          ∈ (StokesMatrixFreeHandler.solve lib env mf_solver self i).events →
        x = (StokesMatrixFreeHandler.cheap_attempt lib env mf_solver self).x)
      ∧ (StokesMatrixFreeHandler.cheap_attempt lib env mf_solver self).x
          = (mf_solver
              ⟨self.sim.parameters.n_cheap_stokes_solver_steps,
                StokesMatrixFreeHandler.solver_tolerance lib env self, true, true⟩
              50 self.stokes_matrix.vmult
              (StokesMatrixFreeHandler.linearized_stokes_initial_guess env self)
              self.sim.distributed_stokes_rhs
              (StokesMatrixFreeHandler.timing lib env self).preconditioner_cheap
              (internal.MatrixFree.BlockSchurPreconditioner.vmult lib)).x) := by
  refine ⟨⟨?_, ?_, ?_⟩, ?_, rfl⟩
  · intro control m x b hmem
    have h := solve_stokes_try_expensive lib env solver sim
      (internal.StokesBlock.residual lib.sqrt ⟨sim.system_matrix⟩ ⟨0, 0⟩
        (Simulator.linearized_stokes_initial_guess env sim) sim.system_rhs).2
      ⟨sim.system_matrix⟩ (Simulator.linearized_stokes_initial_guess env sim)
      sim.distributed_stokes_rhs
      ⟨sim.parameters.n_cheap_stokes_solver_steps,
        Simulator.solver_tolerance lib sim
          (Simulator.linearized_stokes_initial_guess env sim), false, true⟩
      ⟨sim.parameters.n_expensive_stokes_solver_steps,
        Simulator.solver_tolerance lib sim
          (Simulator.linearized_stokes_initial_guess env sim), false, true⟩
      (sim.new_preconditioner false) (sim.new_preconditioner true)
      (Simulator.cheap_attempt lib env solver sim).1
      (Simulator.cheap_attempt lib env solver sim).2 rfl
    rw [← solve_stokes_eq_try lib env solver sim] at h
    have hf : SolveEvent.solver_solve Phase.expensive control m x b
        ∈ (Simulator.solve_stokes lib env solver sim).events.filter
          (SolveEvent.is_solver_solve Phase.expensive) :=
      List.mem_filter.mpr ⟨hmem, by simp [SolveEvent.is_solver_solve]⟩
    by_cases hex : ∃ e, (Simulator.cheap_attempt lib env solver sim).1.exc = some e
        ∧ e.is_NoConvergence = true
    · rw [(h.1 hex).1, List.mem_singleton] at hf
      injection hf with _ _ _ hx _
    · rw [(h.2 hex).1] at hf
      cases hf
  · intro h0
    unfold Simulator.cheap_attempt Simulator.solve_stokes_step1a
    rw [if_pos h0]
  · intro h0
    unfold Simulator.cheap_attempt Simulator.solve_stokes_step1a
    rw [if_neg h0]
    rfl
  · intro control m x b hmem
    have h := solve_outer_expensive lib env mf_solver self.sim self.stokes_matrix
      (StokesMatrixFreeHandler.tolerance_and_residual lib self ⟨0, 0⟩
        (StokesMatrixFreeHandler.linearized_stokes_initial_guess env self)
        self.sim.distributed_stokes_rhs).2
      (StokesMatrixFreeHandler.linearized_stokes_initial_guess env self)
      self.sim.distributed_stokes_rhs
      ⟨self.sim.parameters.n_cheap_stokes_solver_steps,
        StokesMatrixFreeHandler.solver_tolerance lib env self, true, true⟩
      ⟨self.sim.parameters.n_expensive_stokes_solver_steps,
        StokesMatrixFreeHandler.solver_tolerance lib env self, false, true⟩
      (self.new_preconditioner false) (self.new_preconditioner true)
      (StokesMatrixFreeHandler.timing lib env self) rfl
      (StokesMatrixFreeHandler.cheap_attempt lib env mf_solver self) rfl
      self.number_of_temporary_vectors rfl
    rw [← solve_eq_solve_outer lib env mf_solver self i] at h
    have hf : SolveEvent.solver_solve Phase.expensive control m x b
        ∈ (StokesMatrixFreeHandler.solve lib env mf_solver self i).events.filter
          (SolveEvent.is_solver_solve Phase.expensive) :=
      List.mem_filter.mpr ⟨hmem, by simp [SolveEvent.is_solver_solve]⟩
    by_cases hex : (StokesMatrixFreeHandler.timing lib env self).raised = none
        ∧ ∃ e, (StokesMatrixFreeHandler.cheap_attempt lib env mf_solver self).exc = some e
          ∧ e.is_NoConvergence = true
    · rw [(h.1 hex).1, List.mem_singleton] at hf
      injection hf with _ _ _ hx _
    · rw [(h.2 hex).1] at hf
      cases hf

/-! ## The tolerance of the outer solve -/

/-- The tolerance of `Simulator::solve_stokes` written out. -/
theorem Simulator_solver_tolerance_eq {R : Type} [LinearOrderedField R] {nu np : ℕ}
    (lib : Library R) (sim : Simulator R nu np) (guess : BlockVector R nu np) :
    Simulator.solver_tolerance lib sim guess
      = sim.parameters.linear_stokes_solver_tolerance *
          lib.sqrt
            (Vector.l2_norm lib.sqrt
                (sim.system_rhs.block0 - Matrix.mulVec sim.system_matrix.block01 guess.block1)
              * Vector.l2_norm lib.sqrt
                (sim.system_rhs.block0 - Matrix.mulVec sim.system_matrix.block01 guess.block1)
              + Vector.l2_norm lib.sqrt sim.system_rhs.block1
                * Vector.l2_norm lib.sqrt sim.system_rhs.block1) := rfl

/-- The tolerance of the non-Newton branch of `StokesMatrixFreeHandler::solve`
written out, for every content of the temporary vector and every velocity
block of the initial guess. -/
theorem tolerance_and_residual_fst_eq {R : Type} [LinearOrderedField R] {nu np : ℕ}
    (lib : Library R) (self : StokesMatrixFreeHandler R nu np)
    (tmp guess rhs : BlockVector R nu np)
    (h : self.sim.assemble_newton_stokes_system = false) :
    (StokesMatrixFreeHandler.tolerance_and_residual lib self tmp guess rhs).1
      = self.sim.parameters.linear_stokes_solver_tolerance *
          lib.sqrt
            (Vector.l2_norm lib.sqrt
                (rhs.block0 - Matrix.mulVec self.stokes_matrix.blocks.block01 guess.block1)
              * Vector.l2_norm lib.sqrt
                (rhs.block0 - Matrix.mulVec self.stokes_matrix.blocks.block01 guess.block1)
              + Vector.l2_norm lib.sqrt rhs.block1 * Vector.l2_norm lib.sqrt rhs.block1) := by
  have hv : Vector.sadd
      (Matrix.mulVec self.stokes_matrix.blocks.block00 (0 : Vector R nu)
        + Matrix.mulVec self.stokes_matrix.blocks.block01 guess.block1) (-1) 1 rhs.block0
      = rhs.block0 - Matrix.mulVec self.stokes_matrix.blocks.block01 guess.block1 := by
    unfold Vector.sadd
    rw [Matrix.mulVec_zero, zero_add, one_smul, neg_one_smul]
    abel
  unfold StokesMatrixFreeHandler.tolerance_and_residual
  simp only [h, if_true, internal.MatrixFree.StokesOperator.vmult]
  rw [hv]

/-- The tolerance of `StokesMatrixFreeHandler::solve` reads only the pressure
block of the initial guess, in both branches. -/
theorem tolerance_and_residual_fst_congr {R : Type} [LinearOrderedField R] {nu np : ℕ}
    (lib : Library R) (self : StokesMatrixFreeHandler R nu np)
    (tmp1 tmp2 g1 g2 rhs : BlockVector R nu np) (h : g1.block1 = g2.block1) :
    (StokesMatrixFreeHandler.tolerance_and_residual lib self tmp1 g1 rhs).1
      = (StokesMatrixFreeHandler.tolerance_and_residual lib self tmp2 g2 rhs).1 := by
  cases hn : self.sim.assemble_newton_stokes_system with
  | false =>
    rw [tolerance_and_residual_fst_eq lib self tmp1 g1 rhs hn,
      tolerance_and_residual_fst_eq lib self tmp2 g2 rhs hn, h]
  | true =>
    unfold StokesMatrixFreeHandler.tolerance_and_residual
    simp [hn]

/-- The pressure block of the initial guess of `Simulator::solve_stokes` does not
depend on the velocity block of the current linearization point, when
`denormalize_pressure` and `set_zero` compute the pressure entries from
pressure entries only. -/
theorem Simulator_initial_guess_block1_congr {R : Type} [LinearOrderedField R] {nu np : ℕ}
    (env : Collaborators R nu np) (sim : Simulator R nu np) (u : Vector R nu)
    (hden : ∀ (a : R) (v v2 w w2 : BlockVector R nu np), v.block1 = v2.block1 →
      w.block1 = w2.block1 →
      (env.denormalize_pressure a v w).block1 = (env.denormalize_pressure a v2 w2).block1)
    (hzero : ∀ v v2 : BlockVector R nu np, v.block1 = v2.block1 →
      (env.set_zero v).block1 = (env.set_zero v2).block1) :
    (Simulator.linearized_stokes_initial_guess env
        { sim with current_linearization_point :=
            { sim.current_linearization_point with block0 := u } }).block1
      = (Simulator.linearized_stokes_initial_guess env sim).block1 := by
  have h := hzero
    (env.denormalize_pressure sim.last_pressure_normalization_adjustment
      ⟨u, sim.current_linearization_point.block1⟩ ⟨u, sim.current_linearization_point.block1⟩)
    (env.denormalize_pressure sim.last_pressure_normalization_adjustment
      ⟨sim.current_linearization_point.block0, sim.current_linearization_point.block1⟩
      sim.current_linearization_point)
    (hden sim.last_pressure_normalization_adjustment _ _ _ _ rfl rfl)
  unfold Simulator.linearized_stokes_initial_guess
  simp only []
  rw [h]

/-- The matrix-free twin of `Simulator_initial_guess_block1_congr`. -/
theorem mf_initial_guess_block1_congr {R : Type} [LinearOrderedField R] {nu np : ℕ}
    (env : Collaborators R nu np) (self : StokesMatrixFreeHandler R nu np) (u : Vector R nu)
    (hden : ∀ (a : R) (v v2 w w2 : BlockVector R nu np), v.block1 = v2.block1 →
      w.block1 = w2.block1 →
      (env.denormalize_pressure a v w).block1 = (env.denormalize_pressure a v2 w2).block1)
    (hzero : ∀ v v2 : BlockVector R nu np, v.block1 = v2.block1 →
      (env.set_zero v).block1 = (env.set_zero v2).block1) :
    (StokesMatrixFreeHandler.linearized_stokes_initial_guess env
        { self with sim := { self.sim with current_linearization_point :=
            { self.sim.current_linearization_point with block0 := u } } }).block1
      = (StokesMatrixFreeHandler.linearized_stokes_initial_guess env self).block1 := by
  unfold StokesMatrixFreeHandler.linearized_stokes_initial_guess
  simp only []
  cases hn : self.sim.assemble_newton_stokes_system with
  | false =>
    have h := hzero
      (env.denormalize_pressure self.sim.last_pressure_normalization_adjustment
        ⟨u, self.sim.current_linearization_point.block1⟩
        ⟨u, self.sim.current_linearization_point.block1⟩)
      (env.denormalize_pressure self.sim.last_pressure_normalization_adjustment
        ⟨self.sim.current_linearization_point.block0, self.sim.current_linearization_point.block1⟩
        self.sim.current_linearization_point)
      (hden self.sim.last_pressure_normalization_adjustment _ _ _ _ rfl rfl)
    simp only [if_true]
    rw [h]
  | true =>
    simp

/-- C13: in `Simulator::solve_stokes`, and in the non-Newton branch of
`StokesMatrixFreeHandler::solve`, `solver_tolerance` is
`linear_stokes_solver_tolerance * sqrt (ru^2 + rp^2)` with
`ru = || f - B^T p0 ||` (`p0` the pressure block of the scaled initial guess,
the velocity taken as zero) and `rp = || g ||`, and it is the tolerance of
every start of an outer solver. The number reads only the pressure block of
the initial guess; hence two states that differ only in the velocity block of
`current_linearization_point` get the same tolerance, `denormalize_pressure`
and `set_zero` computing pressure entries from pressure entries only. -/
theorem solver_tolerance_formula_and_velocity_independence {R : Type}
    [LinearOrderedField R] {nu np : ℕ} (lib : Library R) (env : Collaborators R nu np)
    (solver : OuterSolver (internal.BlockSchurPreconditioner R nu np) R nu np)
    (sim : Simulator R nu np) (self : StokesMatrixFreeHandler R nu np) (u : Vector R nu) :
    -- the formula in Simulator::solve_stokes
    (∀ ph control m x b, SolveEvent.solver_solve ph control m x b
          ∈ (Simulator.solve_stokes lib env solver sim).events →
        control.tolerance
          = sim.parameters.linear_stokes_solver_tolerance *
              lib.sqrt
                (Vector.l2_norm lib.sqrt
                    (sim.system_rhs.block0 - Matrix.mulVec sim.system_matrix.block01
                      (Simulator.linearized_stokes_initial_guess env sim).block1)
                  * Vector.l2_norm lib.sqrt
                    (sim.system_rhs.block0 - Matrix.mulVec sim.system_matrix.block01
                      (Simulator.linearized_stokes_initial_guess env sim).block1)
                  + Vector.l2_norm lib.sqrt sim.system_rhs.block1
                    * Vector.l2_norm lib.sqrt sim.system_rhs.block1))
    -- the formula in the non-Newton branch of StokesMatrixFreeHandler::solve
    ∧ (self.sim.assemble_newton_stokes_system = false →
        StokesMatrixFreeHandler.solver_tolerance lib env self
          = self.sim.parameters.linear_stokes_solver_tolerance *
              lib.sqrt
                (Vector.l2_norm lib.sqrt
                    (self.sim.system_rhs.block0 - Matrix.mulVec self.stokes_matrix.blocks.block01
                      (StokesMatrixFreeHandler.linearized_stokes_initial_guess env self).block1)
                  * Vector.l2_norm lib.sqrt
                    (self.sim.system_rhs.block0 - Matrix.mulVec self.stokes_matrix.blocks.block01
                      (StokesMatrixFreeHandler.linearized_stokes_initial_guess env self).block1)
                  + Vector.l2_norm lib.sqrt self.sim.system_rhs.block1
                    * Vector.l2_norm lib.sqrt self.sim.system_rhs.block1))
    -- two initial guesses with the same pressure block give the same tolerance
    ∧ (∀ g1 g2 : BlockVector R nu np, g1.block1 = g2.block1 →
        Simulator.solver_tolerance lib sim g1 = Simulator.solver_tolerance lib sim g2)
    ∧ (∀ tmp1 tmp2 g1 g2 rhs : BlockVector R nu np, g1.block1 = g2.block1 →
        (StokesMatrixFreeHandler.tolerance_and_residual lib self tmp1 g1 rhs).1
          = (StokesMatrixFreeHandler.tolerance_and_residual lib self tmp2 g2 rhs).1)
    -- two states that differ in the velocity block of the linearization point
    ∧ ((∀ (a : R) (v v2 w w2 : BlockVector R nu np), v.block1 = v2.block1 →
          w.block1 = w2.block1 →
          (env.denormalize_pressure a v w).block1 = (env.denormalize_pressure a v2 w2).block1) →
        (∀ v v2 : BlockVector R nu np, v.block1 = v2.block1 →
          (env.set_zero v).block1 = (env.set_zero v2).block1) →
        (∀ ph control m x b, SolveEvent.solver_solve ph control m x b
            ∈ (Simulator.solve_stokes lib env solver
                { sim with current_linearization_point :=
                    { sim.current_linearization_point with block0 := u } }).events →
          control.tolerance = Simulator.solver_tolerance lib sim
            (Simulator.linearized_stokes_initial_guess env sim))
        ∧ StokesMatrixFreeHandler.solver_tolerance lib env
            { self with sim := { self.sim with current_linearization_point :=
                { self.sim.current_linearization_point with block0 := u } } }
          = StokesMatrixFreeHandler.solver_tolerance lib env self) := by
  have hguess : ∀ g1 g2 : BlockVector R nu np, g1.block1 = g2.block1 →
      Simulator.solver_tolerance lib sim g1 = Simulator.solver_tolerance lib sim g2 := by
    intro g1 g2 h
    rw [Simulator_solver_tolerance_eq, Simulator_solver_tolerance_eq, h]
  have hctl : ∀ (s : Simulator R nu np) ph control m x b,
      SolveEvent.solver_solve ph control m x b ∈ (Simulator.solve_stokes lib env solver s).events →
      control.tolerance = Simulator.solver_tolerance lib s
        (Simulator.linearized_stokes_initial_guess env s) := by
    intro s ph control m x b hmem
    rw [solve_stokes_eq_try] at hmem
    rcases solve_stokes_try_controls lib env solver s _ _ _ _ _ _ _ _ ph control m x b hmem
      with h1 | h1
    · rw [h1.2]
    · rw [h1.2]
  refine ⟨?_, ?_, hguess, tolerance_and_residual_fst_congr lib self, ?_⟩
  · intro ph control m x b hmem
    rw [hctl sim ph control m x b hmem, Simulator_solver_tolerance_eq]
  · intro hn
    exact tolerance_and_residual_fst_eq lib self _ _ _ hn
  · intro hden hzero
    refine ⟨?_, ?_⟩
    · intro ph control m x b hmem
      rw [hctl _ ph control m x b hmem]
      exact hguess _ _ (Simulator_initial_guess_block1_congr env sim u hden hzero)
    · exact tolerance_and_residual_fst_congr lib self _ _ _ _ _
        (mf_initial_guess_block1_congr env self u hden hzero)

/-- Witness of C13: on the small system, whose collaborators leave every vector
as it is, the matrix-free tolerance is the same for the velocity `5` as for the
velocity `0` of the linearization point, and every outer solver start of
`Simulator::solve_stokes` in the state with velocity `5` carries the tolerance
of the state with velocity `0`. -/
theorem solver_tolerance_formula_and_velocity_independence_witness :
    (∀ ph control m x b, SolveEvent.solver_solve ph control m x b
        ∈ (Simulator.solve_stokes Examples.lib Examples.env (Examples.outer_solver _)
            { Examples.sim 1 with current_linearization_point :=
                { (Examples.sim 1).current_linearization_point with
                  block0 := fun _ => 5 } }).events →
      control.tolerance = Simulator.solver_tolerance Examples.lib (Examples.sim 1)
        (Simulator.linearized_stokes_initial_guess Examples.env (Examples.sim 1)))
    ∧ StokesMatrixFreeHandler.solver_tolerance Examples.lib Examples.env
        { Examples.handler 1 with sim := { (Examples.handler 1).sim with
            current_linearization_point :=
              { (Examples.handler 1).sim.current_linearization_point with
                block0 := fun _ => 5 } } }
      = StokesMatrixFreeHandler.solver_tolerance Examples.lib Examples.env
          (Examples.handler 1) :=
  (solver_tolerance_formula_and_velocity_independence Examples.lib Examples.env
    (Examples.outer_solver _) (Examples.sim 1) (Examples.handler 1) (fun _ => 5)).2.2.2.2
    (fun _ _ _ _ _ h _ => h) (fun _ _ h => h)

/-! ## The fatal state of `Simulator::solve_stokes` -/

/-- The end of `Simulator::solve_stokes` when the cheap attempt ended with
`NoConvergence` and the expensive solver threw `exc`. -/
theorem solve_stokes_of_expensive_failed {R : Type} [LinearOrderedField R] {nu np : ℕ}
    (lib : Library R) (env : Collaborators R nu np)
    (solver : OuterSolver (internal.BlockSchurPreconditioner R nu np) R nu np)
    (sim : Simulator R nu np) (e exc : Exception R)
    (hcheap : (Simulator.cheap_attempt lib env solver sim).1.exc = some e)
    (he : e.is_NoConvergence = true)
    (hexp : (Simulator.expensive_attempt lib env solver sim).exc = some exc) :
    Simulator.solve_stokes lib env solver sim
      = { sim := sim
          preconditioner_cheap := (Simulator.cheap_attempt lib env solver sim).1.precond
          preconditioner_expensive := (Simulator.expensive_attempt lib env solver sim).precond
          solver_control_cheap := (Simulator.cheap_attempt lib env solver sim).1.control
          solver_control_expensive :=
            (Simulator.expensive_attempt lib env solver sim).control_state
          events := (Simulator.cheap_attempt lib env solver sim).2
            ++ [SolveEvent.solver_solve Phase.expensive
                ⟨sim.parameters.n_expensive_stokes_solver_steps,
                  Simulator.solver_tolerance lib sim
                    (Simulator.linearized_stokes_initial_guess env sim), false, true⟩
                100 (Simulator.cheap_attempt lib env solver sim).1.x
                sim.distributed_stokes_rhs]
            ++ (if exc.is_std_exception then
                  [SolveEvent.post_stokes_solver
                    ((Simulator.cheap_attempt lib env solver sim).1.precond.n_iterations_S
                      + (Simulator.expensive_attempt lib env solver sim).precond.n_iterations_S)
                    ((Simulator.cheap_attempt lib env solver sim).1.precond.n_iterations_A
                      + (Simulator.expensive_attempt lib env solver sim).precond.n_iterations_A)]
                  ++ (if lib.this_mpi_process = 0 then
                        [SolveEvent.write_file
                          (sim.parameters.output_directory ++ "solver_history.txt")
                          (if sim.parameters.n_cheap_stokes_solver_steps > 0
                            then some
                              (Simulator.cheap_attempt lib env solver sim).1.control.history_data
                            else none)
                          (Simulator.expensive_attempt lib env solver sim).history_data]
                      else [])
                else [])
          result := Except.error (Simulator.fatal_exception lib sim exc) } := by
  rw [solve_stokes_eq_try]
  exact solve_stokes_try_of_expensive_failed lib env solver sim _ _ _ _ _ _ _ _
    (Simulator.cheap_attempt lib env solver sim).1
    (Simulator.cheap_attempt lib env solver sim).2 rfl e hcheap he
    (Simulator.expensive_attempt lib env solver sim) rfl exc hexp

/-- C14: when in `Simulator::solve_stokes` the expensive outer solve fails (the
cheap attempt ended with `NoConvergence` and the expensive solver throws), the
function does not return normally, on any rank, and the simulator is left as
it was. If the exception is a `std::exception`, such as
`SolverControl::NoConvergence`, then rank 0 writes the convergence history of
both phases to `solver_history.txt` in the output directory and ends with an
`ExcMessage` whose text says that the iterative Stokes solver did not converge
and names that file, and every other rank ends with `QuietException`; any
other exception leaves the function as it is. -/
theorem Simulator_solve_stokes_fatal_when_expensive_fails {R : Type} [LinearOrderedField R]
    {nu np : ℕ} (lib : Library R) (env : Collaborators R nu np)
    (solver : OuterSolver (internal.BlockSchurPreconditioner R nu np) R nu np)
    (sim : Simulator R nu np) (e exc : Exception R)
    (hcheap : (Simulator.cheap_attempt lib env solver sim).1.exc = some e)
    (he : e.is_NoConvergence = true)
    (hexp : (Simulator.expensive_attempt lib env solver sim).exc = some exc) :
    (Simulator.solve_stokes lib env solver sim).result.isOk = false
    ∧ (Simulator.solve_stokes lib env solver sim).sim = sim
    ∧ (exc.is_std_exception = true → lib.this_mpi_process = 0 →
        (Simulator.solve_stokes lib env solver sim).result
          = Except.error (Exception.ExcMessage
              ("The iterative Stokes solver "
                ++ "did not converge. It reported the following error:\n\n"
                ++ lib.what exc
                ++ "\n See " ++ sim.parameters.output_directory ++ "solver_history.txt"
                ++ " for convergence history."))
        ∧ SolveEvent.write_file (sim.parameters.output_directory ++ "solver_history.txt")
            (if sim.parameters.n_cheap_stokes_solver_steps > 0
              then some (Simulator.cheap_attempt lib env solver sim).1.control.history_data
              else none)
            (Simulator.expensive_attempt lib env solver sim).history_data
          ∈ (Simulator.solve_stokes lib env solver sim).events)
    ∧ (exc.is_std_exception = true → lib.this_mpi_process ≠ 0 →
        (Simulator.solve_stokes lib env solver sim).result
          = Except.error Exception.QuietException)
    ∧ (exc.is_std_exception = false →
        (Simulator.solve_stokes lib env solver sim).result = Except.error exc)
    ∧ ∀ k r, (Exception.NoConvergence k r : Exception R).is_std_exception = true := by
  rw [solve_stokes_of_expensive_failed lib env solver sim e exc hcheap he hexp]
  refine ⟨rfl, rfl, ?_, ?_, ?_, fun _ _ => rfl⟩
  · intro hs hr
    simp [Simulator.fatal_exception, hs, hr]
  · intro hs hr
    simp [Simulator.fatal_exception, hs, hr]
  · intro hs
    simp [Simulator.fatal_exception, hs]

/-- Witness of C14: the small system on rank 0 with one cheap step and an outer
solver that never converges. -/
theorem Simulator_solve_stokes_fatal_when_expensive_fails_witness :
    (Simulator.solve_stokes Examples.lib Examples.env (Examples.stalled_solver _)
        (Examples.sim 1)).result.isOk = false
    ∧ (Simulator.solve_stokes Examples.lib Examples.env (Examples.stalled_solver _)
        (Examples.sim 1)).result
      = Except.error (Exception.ExcMessage
          ("The iterative Stokes solver did not converge. "
            ++ "It reported the following error:\n\n?\n"
            ++ " See output/solver_history.txt for convergence history.")) :=
  have h := Simulator_solve_stokes_fatal_when_expensive_fails Examples.lib Examples.env
    (Examples.stalled_solver _) (Examples.sim 1) (Exception.NoConvergence 1 1)
    (Exception.NoConvergence 10 1) rfl rfl rfl
  ⟨h.1, (h.2.2.1 rfl rfl).1⟩

/-! ## `StokesMatrixFreeHandler::solve` when both outer solves fail -/

/-- The end of `StokesMatrixFreeHandler::solve` when the timing block returned,
the cheap solver threw `NoConvergence` and the expensive solver threw
`NoConvergence` too: the function runs to its end. -/
theorem solve_of_both_failed {R : Type} [LinearOrderedField R] {nu np : ℕ}
    (lib : Library R) (env : Collaborators R nu np)
    (solver : OuterSolver (internal.MatrixFree.BlockSchurPreconditioner R nu np) R nu np)
    (self : StokesMatrixFreeHandler R nu np) (i : ℕ) (e exc : Exception R)
    (ht : (StokesMatrixFreeHandler.timing lib env self).raised = none)
    (hcheap : (StokesMatrixFreeHandler.cheap_attempt lib env solver self).exc = some e)
    (he : e.is_NoConvergence = true)
    (hexp : (StokesMatrixFreeHandler.expensive_attempt lib env solver self).exc = some exc)
    (hn : exc.is_NoConvergence = true) :
    StokesMatrixFreeHandler.solve lib env solver self i
      = StokesMatrixFreeHandler.solve_finish env { self.sim with gmres_iterations := 0 }
          (StokesMatrixFreeHandler.tolerance_and_residual lib self ⟨0, 0⟩
            (StokesMatrixFreeHandler.linearized_stokes_initial_guess env self)
            self.sim.distributed_stokes_rhs).2
          none
          (StokesMatrixFreeHandler.expensive_attempt lib env solver self).x
          (StokesMatrixFreeHandler.cheap_attempt lib env solver self).precond
          (StokesMatrixFreeHandler.expensive_attempt lib env solver self).precond
          (StokesMatrixFreeHandler.cheap_attempt lib env solver self).control_state
          (StokesMatrixFreeHandler.expensive_attempt lib env solver self).control_state
          ((StokesMatrixFreeHandler.timing lib env self).events
            ++ [SolveEvent.solver_solve Phase.cheap
                ⟨self.sim.parameters.n_cheap_stokes_solver_steps,
                  StokesMatrixFreeHandler.solver_tolerance lib env self, true, true⟩
                50 (StokesMatrixFreeHandler.linearized_stokes_initial_guess env self)
                self.sim.distributed_stokes_rhs]
            ++ [SolveEvent.solver_solve Phase.expensive
                ⟨self.sim.parameters.n_expensive_stokes_solver_steps,
                  StokesMatrixFreeHandler.solver_tolerance lib env self, false, true⟩
                self.number_of_temporary_vectors
                (StokesMatrixFreeHandler.cheap_attempt lib env solver self).x
                self.sim.distributed_stokes_rhs]) := by
  rw [solve_eq_solve_outer,
    solve_outer_of_expensive_run lib env solver self.sim self.stokes_matrix _ _ _ _ _ _ _
      (StokesMatrixFreeHandler.timing lib env self) rfl ht
      (StokesMatrixFreeHandler.cheap_attempt lib env solver self) rfl e hcheap he
      self.number_of_temporary_vectors rfl
      (StokesMatrixFreeHandler.expensive_attempt lib env solver self) rfl
      (fun exc2 h2 => by rw [hexp] at h2; cases h2; exact hn),
    hexp]

namespace Examples

theorem mf_drifting_attempts :
    (StokesMatrixFreeHandler.cheap_attempt lib env (drifting_solver _) (handler 1)).exc
        = some (Exception.NoConvergence 1 1)
    ∧ (StokesMatrixFreeHandler.expensive_attempt lib env (drifting_solver _) (handler 1)).exc
        = some (Exception.NoConvergence 10 1)
    ∧ (StokesMatrixFreeHandler.expensive_attempt lib env (drifting_solver _) (handler 1)).x
        = vec 2 0 := by
  refine ⟨rfl, rfl, ?_⟩
  unfold StokesMatrixFreeHandler.expensive_attempt StokesMatrixFreeHandler.cheap_attempt
  rw [handler_initial_guess]
  simp only [drifting_solver, handler, sim, Simulator.distributed_stokes_rhs, vec]
  ext i
  · show (0 : ℚ) + 1 + 1 = 2
    norm_num
  · show (0 : ℚ) + 0 + 0 = 0
    norm_num

end Examples

/-- The end of `StokesMatrixFreeHandler::solve` when the timing block returned,
the cheap solver threw `NoConvergence` and the expensive solver threw an
exception that is not `NoConvergence`. -/
theorem solve_of_expensive_raised {R : Type} [LinearOrderedField R] {nu np : ℕ}
    (lib : Library R) (env : Collaborators R nu np)
    (solver : OuterSolver (internal.MatrixFree.BlockSchurPreconditioner R nu np) R nu np)
    (self : StokesMatrixFreeHandler R nu np) (i : ℕ) (e exc : Exception R)
    (ht : (StokesMatrixFreeHandler.timing lib env self).raised = none)
    (hcheap : (StokesMatrixFreeHandler.cheap_attempt lib env solver self).exc = some e)
    (he : e.is_NoConvergence = true)
    (hexp : (StokesMatrixFreeHandler.expensive_attempt lib env solver self).exc = some exc)
    (hn : exc.is_NoConvergence = false) :
    (StokesMatrixFreeHandler.solve lib env solver self i).result = Except.error exc
    ∧ (StokesMatrixFreeHandler.solve lib env solver self i).sim.solution = self.sim.solution := by
  rw [solve_eq_solve_outer,
    solve_outer_of_expensive_raised lib env solver self.sim self.stokes_matrix _ _ _ _ _ _ _
      (StokesMatrixFreeHandler.timing lib env self) rfl ht
      (StokesMatrixFreeHandler.cheap_attempt lib env solver self) rfl e hcheap he
      self.number_of_temporary_vectors rfl
      (StokesMatrixFreeHandler.expensive_attempt lib env solver self) rfl exc hexp hn]
  exact ⟨rfl, rfl⟩

/-- C15: the fatal state of `StokesMatrixFreeHandler::solve` is not reached. On
the small system with one cheap step and an outer solver that never
converges, both outer solves fail with `NoConvergence`, the expensive one
leaving the iterate `(2, 0)`; yet `solve` returns normally, with the NaN as
final linear residual, and `sim.solution`, which was `(0, 0)`, has been
overwritten with `(2, 0)`. The handler of the expensive solve
(stokes_matrix_free.cc 1010-1020) only prints a banner, its abort is commented
out, and the statements after it are the ones of a successful solve;
`Simulator::solve_stokes` throws in the same situation. -/
theorem StokesMatrixFreeHandler_solve_returns_when_both_solves_fail :
    (StokesMatrixFreeHandler.cheap_attempt Examples.lib Examples.env
        (Examples.drifting_solver _) (Examples.handler 1)).exc
      = some (Exception.NoConvergence 1 1)
    ∧ (StokesMatrixFreeHandler.expensive_attempt Examples.lib Examples.env
        (Examples.drifting_solver _) (Examples.handler 1)).exc
      = some (Exception.NoConvergence 10 1)
    ∧ (StokesMatrixFreeHandler.expensive_attempt Examples.lib Examples.env
        (Examples.drifting_solver _) (Examples.handler 1)).x = Examples.vec 2 0
    ∧ (Examples.handler 1).sim.solution = Examples.vec 0 0
    ∧ (StokesMatrixFreeHandler.solve Examples.lib Examples.env (Examples.drifting_solver _)
        (Examples.handler 1) 0).result.isOk = true
    ∧ (∃ r, (StokesMatrixFreeHandler.solve Examples.lib Examples.env
        (Examples.drifting_solver _) (Examples.handler 1) 0).result = Except.ok (r, none))
    ∧ (StokesMatrixFreeHandler.solve Examples.lib Examples.env (Examples.drifting_solver _)
        (Examples.handler 1) 0).sim.solution = Examples.vec 2 0 := by
  have h := solve_of_both_failed Examples.lib Examples.env (Examples.drifting_solver _)
    (Examples.handler 1) 0 _ _ (Examples.handler_timing_returns 1)
    Examples.mf_drifting_attempts.1 rfl Examples.mf_drifting_attempts.2.1 rfl
  refine ⟨Examples.mf_drifting_attempts.1, Examples.mf_drifting_attempts.2.1,
    Examples.mf_drifting_attempts.2.2, rfl, ?_, ?_, ?_⟩
  · rw [h]
    rfl
  · rw [h]
    exact ⟨_, rfl⟩
  · rw [h, Examples.mf_drifting_attempts.2.2]
    unfold StokesMatrixFreeHandler.solve_finish
    simp only [Examples.env, Examples.handler, Examples.sim, Examples.vec]
    ext i
    · rfl
    · show (1 : ℚ) • (fun _ : Fin 1 => (0 : ℚ)) i = 0
      simp

/-- The code of `StokesMatrixFreeHandler::solve` as it stands, for every
system: when the cheap outer solve fails with `NoConvergence` and the
expensive outer solve throws, then: if the
expensive solver threw `NoConvergence` too, the handler only prints a banner
and `solve` returns normally, with the initial nonlinear residual and the NaN
(`none`) as final linear residual, `sim.gmres_iterations` is the sum of the
last steps of both solves, and `sim.solution` is overwritten with the
unconverged iterate left by the expensive solver (constraints distributed,
pressure rescaled, then the usual cleanup); if it threw any other exception,
that exception leaves `solve` and `sim.solution` is not touched. -/
theorem StokesMatrixFreeHandler_solve_when_expensive_fails {R : Type}
    [LinearOrderedField R] {nu np : ℕ}
    (lib : Library R) (env : Collaborators R nu np)
    (solver : OuterSolver (internal.MatrixFree.BlockSchurPreconditioner R nu np) R nu np)
    (self : StokesMatrixFreeHandler R nu np) (i : ℕ) (e exc : Exception R)
    (ht : (StokesMatrixFreeHandler.timing lib env self).raised = none)
    (hcheap : (StokesMatrixFreeHandler.cheap_attempt lib env solver self).exc = some e)
    (he : e.is_NoConvergence = true)
    (hexp : (StokesMatrixFreeHandler.expensive_attempt lib env solver self).exc = some exc) :
    (exc.is_NoConvergence = true →
      (StokesMatrixFreeHandler.solve lib env solver self i).result
        = Except.ok
            ((StokesMatrixFreeHandler.tolerance_and_residual lib self ⟨0, 0⟩
              (StokesMatrixFreeHandler.linearized_stokes_initial_guess env self)
              self.sim.distributed_stokes_rhs).2, none)
      ∧ (StokesMatrixFreeHandler.solve lib env solver self i).sim.gmres_iterations
        = ((StokesMatrixFreeHandler.cheap_attempt lib env solver self).last_step
            + (StokesMatrixFreeHandler.expensive_attempt lib env solver self).last_step)
          % 2 ^ 32
      ∧ (StokesMatrixFreeHandler.solve lib env solver self i).sim.solution
        = (if self.sim.assemble_newton_stokes_system = false then
            (env.normalize_pressure
              (env.remove_nullspace
                ⟨(env.distribute
                    (StokesMatrixFreeHandler.expensive_attempt lib env solver self).x).block0,
                  self.sim.pressure_scaling •
                    (env.distribute
                      (StokesMatrixFreeHandler.expensive_attempt lib env solver self).x).block1⟩
                ⟨(env.distribute
                    (StokesMatrixFreeHandler.expensive_attempt lib env solver self).x).block0,
                  self.sim.pressure_scaling •
                    (env.distribute
                      (StokesMatrixFreeHandler.expensive_attempt lib env solver self).x).block1⟩).1).1
          else
            (env.remove_nullspace
              ⟨(env.distribute
                  (StokesMatrixFreeHandler.expensive_attempt lib env solver self).x).block0,
                self.sim.pressure_scaling •
                  (env.distribute
                    (StokesMatrixFreeHandler.expensive_attempt lib env solver self).x).block1⟩
              ⟨(env.distribute
                  (StokesMatrixFreeHandler.expensive_attempt lib env solver self).x).block0,
                self.sim.pressure_scaling •
                  (env.distribute
                    (StokesMatrixFreeHandler.expensive_attempt lib env solver self).x).block1⟩).1))
    ∧ (exc.is_NoConvergence = false →
      (StokesMatrixFreeHandler.solve lib env solver self i).result = Except.error exc
      ∧ (StokesMatrixFreeHandler.solve lib env solver self i).sim.solution
        = self.sim.solution) := by
  refine ⟨fun hn => ?_, fun hn => solve_of_expensive_raised lib env solver self i e exc ht
    hcheap he hexp hn⟩
  rw [solve_of_both_failed lib env solver self i e exc ht hcheap he hexp hn]
  exact ⟨rfl, rfl, rfl⟩

/-- The same on the small system with one cheap step and an outer solver that
never converges: `solve` returns, and eleven steps are counted. -/
theorem StokesMatrixFreeHandler_solve_when_expensive_fails_witness :
    (StokesMatrixFreeHandler.solve Examples.lib Examples.env (Examples.drifting_solver _)
        (Examples.handler 1) 0).result
      = Except.ok
          ((StokesMatrixFreeHandler.tolerance_and_residual Examples.lib (Examples.handler 1)
            ⟨0, 0⟩
            (StokesMatrixFreeHandler.linearized_stokes_initial_guess Examples.env
              (Examples.handler 1))
            (Examples.handler 1).sim.distributed_stokes_rhs).2, none)
    ∧ (StokesMatrixFreeHandler.solve Examples.lib Examples.env (Examples.drifting_solver _)
        (Examples.handler 1) 0).sim.gmres_iterations = 11 :=
  have h := (StokesMatrixFreeHandler_solve_when_expensive_fails Examples.lib Examples.env
    (Examples.drifting_solver _) (Examples.handler 1) 0 (Exception.NoConvergence 1 1)
    (Exception.NoConvergence 10 1) (Examples.handler_timing_returns 1)
    Examples.mf_drifting_attempts.1 rfl Examples.mf_drifting_attempts.2.1).1 rfl
  ⟨h.1, h.2.1⟩

/-! ## The exceptions of `BlockSchurPreconditioner::vmult` -/

namespace internal

/-- The first block of `vmult` when the Schur solver throws: the exception
raised and the untouched counters. -/
theorem pressure_step_of_failed {R : Type} [LinearOrderedField R] {nu np : ℕ}
    (lib : Library R) (self : BlockSchurPreconditioner R nu np) (dst src : BlockVector R nu np)
    (h : Vector.l2_norm lib.sqrt src.block1 > 1e-50) (exc : Exception R)
    (hout : (self.S_solve lib src).exc = some exc) :
    (self.pressure_step lib dst src).raised
      = some (if exc.is_std_exception then
          if lib.this_mpi_process = 0 then
            Exception.ExcMessage
              ("The iterative (bottom right) solver in BlockSchurPreconditioner::vmult "
                ++ "did not converge to a tolerance of "
                ++ lib.to_string (self.S_solve_control lib src).tolerance
                ++ ". It reported the following error:\n\n"
                ++ lib.what exc)
          else Exception.QuietException
        else exc)
    ∧ (self.pressure_step lib dst src).precond = self := by
  unfold BlockSchurPreconditioner.S_solve BlockSchurPreconditioner.S_solve_control at hout
  unfold BlockSchurPreconditioner.pressure_step BlockSchurPreconditioner.S_solve_control
  simp only []
  rw [if_pos h]
  simp only [hout]
  by_cases hs : exc.is_std_exception = true
  · by_cases hr : lib.this_mpi_process = 0
    · simp [hs, hr]
    · simp [hs, hr]
  · simp [hs]

/-- The third block of `vmult` when the velocity solver throws: the exception
raised and the untouched counters. -/
theorem velocity_step_of_failed {R : Type} [LinearOrderedField R] {nu np : ℕ}
    (lib : Library R) (self : BlockSchurPreconditioner R nu np) (calls : List (Call R nu np))
    (dst : BlockVector R nu np) (utmp : Vector R nu) (h : self.do_solve_A = true)
    (exc : Exception R)
    (hout : (lib.TrilinosSolverCG_solve ⟨10000, Vector.l2_norm lib.sqrt utmp * self.A_block_tolerance, false, false⟩ nu
        self.stokes_matrix.block00 0 utmp self.a_preconditioner).exc = some exc) :
    (self.velocity_step lib calls dst utmp).raised
      = some (if exc.is_std_exception then
          if lib.this_mpi_process = 0 then
            Exception.ExcMessage
              ("The iterative (top left) solver in BlockSchurPreconditioner::vmult "
                ++ "did not converge to a tolerance of "
                ++ lib.to_string (Vector.l2_norm lib.sqrt utmp * self.A_block_tolerance)
                ++ ". It reported the following error:\n\n"
                ++ lib.what exc)
          else Exception.QuietException
        else exc)
    ∧ (self.velocity_step lib calls dst utmp).precond = self := by
  unfold BlockSchurPreconditioner.velocity_step
  simp only []
  rw [if_pos h]
  simp only [hout]
  by_cases hs : exc.is_std_exception = true
  · by_cases hr : lib.this_mpi_process = 0
    · simp [hs, hr]
    · simp [hs, hr]
  · simp [hs]

/-- The third block of `vmult` when the velocity solver returns. -/
theorem velocity_step_of_converged {R : Type} [LinearOrderedField R] {nu np : ℕ}
    (lib : Library R) (self : BlockSchurPreconditioner R nu np) (calls : List (Call R nu np))
    (dst : BlockVector R nu np) (utmp : Vector R nu) (h : self.do_solve_A = true)
    (hout : (lib.TrilinosSolverCG_solve ⟨10000, Vector.l2_norm lib.sqrt utmp * self.A_block_tolerance, false, false⟩ nu
        self.stokes_matrix.block00 0 utmp self.a_preconditioner).exc = none) :
    (self.velocity_step lib calls dst utmp).raised = none := by
  unfold BlockSchurPreconditioner.velocity_step
  simp only []
  rw [if_pos h]
  simp only [hout]

/-- The first block of `vmult` returns unless the Schur solver is started and
throws. -/
theorem pressure_step_returns_iff {R : Type} [LinearOrderedField R] {nu np : ℕ}
    (lib : Library R) (self : BlockSchurPreconditioner R nu np) (dst src : BlockVector R nu np) :
    (self.pressure_step lib dst src).raised = none
      ↔ ¬ (Vector.l2_norm lib.sqrt src.block1 > 1e-50 ∧ (self.S_solve lib src).exc ≠ none) := by
  by_cases h : Vector.l2_norm lib.sqrt src.block1 > 1e-50
  · cases hS : (self.S_solve lib src).exc with
    | none =>
      have hS2 := hS
      unfold BlockSchurPreconditioner.S_solve BlockSchurPreconditioner.S_solve_control at hS2
      rw [pressure_step_of_gt lib self dst src h hS2]
      simp
    | some exc =>
      rw [(pressure_step_of_failed lib self dst src h exc hS).1]
      simp [h]
  · rw [pressure_step_of_le lib self dst src (not_lt.mp h)]
    simp [h]

/-- All facts on the exceptions of `vmult` in one statement. -/
theorem vmult_error_spec {R : Type} [LinearOrderedField R] {nu np : ℕ}
    (lib : Library R) (self : BlockSchurPreconditioner R nu np) (dst src : BlockVector R nu np) :
    ((self.vmult lib dst src).raised ≠ none ↔
        (Vector.l2_norm lib.sqrt src.block1 > 1e-50 ∧ (self.S_solve lib src).exc ≠ none)
        ∨ (¬ (Vector.l2_norm lib.sqrt src.block1 > 1e-50 ∧ (self.S_solve lib src).exc ≠ none)
            ∧ self.do_solve_A = true ∧ (self.A_solve lib dst src).exc ≠ none))
    ∧ (∀ exc, Vector.l2_norm lib.sqrt src.block1 > 1e-50 →
        (self.S_solve lib src).exc = some exc →
        (self.vmult lib dst src).raised
          = some (if exc.is_std_exception then
              if lib.this_mpi_process = 0 then
                Exception.ExcMessage
                  ("The iterative (bottom right) solver in BlockSchurPreconditioner::vmult "
                    ++ "did not converge to a tolerance of "
                    ++ lib.to_string (self.S_solve_control lib src).tolerance
                    ++ ". It reported the following error:\n\n"
                    ++ lib.what exc)
              else Exception.QuietException
            else exc)
        ∧ (self.vmult lib dst src).precond = self)
    ∧ (∀ exc,
        ¬ (Vector.l2_norm lib.sqrt src.block1 > 1e-50 ∧ (self.S_solve lib src).exc ≠ none) →
        self.do_solve_A = true → (self.A_solve lib dst src).exc = some exc →
        (self.vmult lib dst src).raised
          = some (if exc.is_std_exception then
              if lib.this_mpi_process = 0 then
                Exception.ExcMessage
                  ("The iterative (top left) solver in BlockSchurPreconditioner::vmult "
                    ++ "did not converge to a tolerance of "
                    ++ lib.to_string (self.A_solve_control lib dst src).tolerance
                    ++ ". It reported the following error:\n\n"
                    ++ lib.what exc)
              else Exception.QuietException
            else exc)
        ∧ (self.vmult lib dst src).precond = (self.pressure_step lib dst src).precond
        ∧ (self.vmult lib dst src).precond.n_iterations_A_ = self.n_iterations_A_) := by
  have hdo : (self.pressure_step lib dst src).precond.do_solve_A = self.do_solve_A := by
    rw [pressure_step_precond lib self dst src]
  have hnA : (self.pressure_step lib dst src).precond.n_iterations_A_
      = self.n_iterations_A_ := by
    rw [pressure_step_precond lib self dst src]
  refine ⟨?_, ?_, ?_⟩
  · by_cases hp : (self.pressure_step lib dst src).raised = none
    · have hnS := (pressure_step_returns_iff lib self dst src).mp hp
      rw [vmult_of_pressure_ok lib self dst src hp]
      by_cases hd : self.do_solve_A = true
      · cases hA : (self.A_solve lib dst src).exc with
        | none =>
          rw [velocity_step_of_converged lib (self.pressure_step lib dst src).precond
            (self.pressure_step lib dst src).calls (self.pressure_step lib dst src).dst
            ((self.pressure_step lib dst src).precond.top_right_step
              (self.pressure_step lib dst src).dst src) (hdo.trans hd) hA]
          simp [hnS]
        | some exc =>
          rw [(velocity_step_of_failed lib (self.pressure_step lib dst src).precond
            (self.pressure_step lib dst src).calls (self.pressure_step lib dst src).dst
            ((self.pressure_step lib dst src).precond.top_right_step
              (self.pressure_step lib dst src).dst src) (hdo.trans hd) exc hA).1]
          simp [hnS, hd]
      · rw [velocity_step_of_not_solve lib _ _ _ _
          (by rw [hdo]; simpa using hd)]
        simp [hnS, hd]
    · have hS : Vector.l2_norm lib.sqrt src.block1 > 1e-50
          ∧ (self.S_solve lib src).exc ≠ none := by
        by_contra hcon
        exact hp ((pressure_step_returns_iff lib self dst src).mpr hcon)
      rw [vmult_of_pressure_raised lib self dst src hp]
      simp [hp, hS]
  · intro exc h hS
    have hf := pressure_step_of_failed lib self dst src h exc hS
    have hp : (self.pressure_step lib dst src).raised ≠ none := by
      rw [hf.1]
      simp
    rw [vmult_of_pressure_raised lib self dst src hp]
    exact hf
  · intro exc hnS hd hA
    have hp := (pressure_step_returns_iff lib self dst src).mpr hnS
    rw [vmult_of_pressure_ok lib self dst src hp]
    have hf := velocity_step_of_failed lib (self.pressure_step lib dst src).precond
      (self.pressure_step lib dst src).calls (self.pressure_step lib dst src).dst
      ((self.pressure_step lib dst src).precond.top_right_step
        (self.pressure_step lib dst src).dst src) (hdo.trans hd) exc hA
    refine ⟨hf.1, hf.2, ?_⟩
    rw [hf.2, hnA]

/-- The first block of `vmult` when the Schur solver throws: the exception
raised and the untouched counters. -/
theorem mf_pressure_step_of_failed {R : Type} [LinearOrderedField R] {nu np : ℕ}
    (lib : Library R) (self : MatrixFree.BlockSchurPreconditioner R nu np) (dst src : BlockVector R nu np)
    (h : Vector.l2_norm lib.sqrt src.block1 > 1e-50) (exc : Exception R)
    (hout : (self.S_solve lib src).exc = some exc) :
    (self.pressure_step lib dst src).raised
      = some (if exc.is_std_exception then
          if lib.this_mpi_process = 0 then
            Exception.ExcMessage
              ("The iterative (bottom right) solver in BlockSchurPreconditioner::vmult "
                ++ "did not converge to a tolerance of "
                ++ lib.to_string (self.S_solve_control lib src).tolerance
                ++ ". It reported the following error:\n\n"
                ++ lib.what exc)
          else Exception.QuietException
        else exc)
    ∧ (self.pressure_step lib dst src).precond = self := by
  unfold MatrixFree.BlockSchurPreconditioner.S_solve MatrixFree.BlockSchurPreconditioner.S_solve_control at hout
  unfold MatrixFree.BlockSchurPreconditioner.pressure_step MatrixFree.BlockSchurPreconditioner.S_solve_control
  simp only []
  rw [if_pos h]
  simp only [hout]
  by_cases hs : exc.is_std_exception = true
  · by_cases hr : lib.this_mpi_process = 0
    · simp [hs, hr]
    · simp [hs, hr]
  · simp [hs]

/-- The third block of `vmult` when the velocity solver throws: the exception
raised and the untouched counters. -/
theorem mf_velocity_step_of_failed {R : Type} [LinearOrderedField R] {nu np : ℕ}
    (lib : Library R) (self : MatrixFree.BlockSchurPreconditioner R nu np) (calls : List (Call R nu np))
    (dst : BlockVector R nu np) (utmp : BlockVector R nu np) (h : self.do_solve_A = true)
    (exc : Exception R)
    (hout : (lib.SolverCG_solve ⟨10000, Vector.l2_norm lib.sqrt utmp.block0 * self.A_block_tolerance, false, false⟩ nu
        self.velocity_matrix 0 utmp.block0 self.a_preconditioner).exc = some exc) :
    (self.velocity_step lib calls dst utmp).raised
      = some (if exc.is_std_exception then
          if lib.this_mpi_process = 0 then
            Exception.ExcMessage
              ("The iterative (top left) solver in BlockSchurPreconditioner::vmult "
                ++ "did not converge to a tolerance of "
                ++ lib.to_string (Vector.l2_norm lib.sqrt utmp.block0 * self.A_block_tolerance)
                ++ ". It reported the following error:\n\n"
                ++ lib.what exc)
          else Exception.QuietException
        else exc)
    ∧ (self.velocity_step lib calls dst utmp).precond = self := by
  unfold MatrixFree.BlockSchurPreconditioner.velocity_step
  simp only []
  rw [if_pos h]
  simp only [hout]
  by_cases hs : exc.is_std_exception = true
  · by_cases hr : lib.this_mpi_process = 0
    · simp [hs, hr]
    · simp [hs, hr]
  · simp [hs]

/-- The third block of `vmult` when the velocity solver returns. -/
theorem mf_velocity_step_of_converged {R : Type} [LinearOrderedField R] {nu np : ℕ}
    (lib : Library R) (self : MatrixFree.BlockSchurPreconditioner R nu np) (calls : List (Call R nu np))
    (dst : BlockVector R nu np) (utmp : BlockVector R nu np) (h : self.do_solve_A = true)
    (hout : (lib.SolverCG_solve ⟨10000, Vector.l2_norm lib.sqrt utmp.block0 * self.A_block_tolerance, false, false⟩ nu
        self.velocity_matrix 0 utmp.block0 self.a_preconditioner).exc = none) :
    (self.velocity_step lib calls dst utmp).raised = none := by
  unfold MatrixFree.BlockSchurPreconditioner.velocity_step
  simp only []
  rw [if_pos h]
  simp only [hout]

/-- The first block of `vmult` returns unless the Schur solver is started and
throws. -/
theorem mf_pressure_step_returns_iff {R : Type} [LinearOrderedField R] {nu np : ℕ}
    (lib : Library R) (self : MatrixFree.BlockSchurPreconditioner R nu np) (dst src : BlockVector R nu np) :
    (self.pressure_step lib dst src).raised = none
      ↔ ¬ (Vector.l2_norm lib.sqrt src.block1 > 1e-50 ∧ (self.S_solve lib src).exc ≠ none) := by
  by_cases h : Vector.l2_norm lib.sqrt src.block1 > 1e-50
  · cases hS : (self.S_solve lib src).exc with
    | none =>
      have hS2 := hS
      unfold MatrixFree.BlockSchurPreconditioner.S_solve MatrixFree.BlockSchurPreconditioner.S_solve_control at hS2
      rw [mf_pressure_step_of_gt lib self dst src h hS2]
      simp
    | some exc =>
      rw [(mf_pressure_step_of_failed lib self dst src h exc hS).1]
      simp [h]
  · rw [mf_pressure_step_of_le lib self dst src (not_lt.mp h)]
    simp [h]

/-- All facts on the exceptions of `vmult` in one statement. -/
theorem mf_vmult_error_spec {R : Type} [LinearOrderedField R] {nu np : ℕ}
    (lib : Library R) (self : MatrixFree.BlockSchurPreconditioner R nu np) (dst src : BlockVector R nu np) :
    ((self.vmult lib dst src).raised ≠ none ↔
        (Vector.l2_norm lib.sqrt src.block1 > 1e-50 ∧ (self.S_solve lib src).exc ≠ none)
        ∨ (¬ (Vector.l2_norm lib.sqrt src.block1 > 1e-50 ∧ (self.S_solve lib src).exc ≠ none)
            ∧ self.do_solve_A = true ∧ (self.A_solve lib dst src).exc ≠ none))
    ∧ (∀ exc, Vector.l2_norm lib.sqrt src.block1 > 1e-50 →
        (self.S_solve lib src).exc = some exc →
        (self.vmult lib dst src).raised
          = some (if exc.is_std_exception then
              if lib.this_mpi_process = 0 then
                Exception.ExcMessage
                  ("The iterative (bottom right) solver in BlockSchurPreconditioner::vmult "
                    ++ "did not converge to a tolerance of "
                    ++ lib.to_string (self.S_solve_control lib src).tolerance
                    ++ ". It reported the following error:\n\n"
                    ++ lib.what exc)
              else Exception.QuietException
            else exc)
        ∧ (self.vmult lib dst src).precond = self)
    ∧ (∀ exc,
        ¬ (Vector.l2_norm lib.sqrt src.block1 > 1e-50 ∧ (self.S_solve lib src).exc ≠ none) →
        self.do_solve_A = true → (self.A_solve lib dst src).exc = some exc →
        (self.vmult lib dst src).raised
          = some (if exc.is_std_exception then
              if lib.this_mpi_process = 0 then
                Exception.ExcMessage
                  ("The iterative (top left) solver in BlockSchurPreconditioner::vmult "
                    ++ "did not converge to a tolerance of "
                    ++ lib.to_string (self.A_solve_control lib dst src).tolerance
                    ++ ". It reported the following error:\n\n"
                    ++ lib.what exc)
              else Exception.QuietException
            else exc)
        ∧ (self.vmult lib dst src).precond = (self.pressure_step lib dst src).precond
        ∧ (self.vmult lib dst src).precond.n_iterations_A_ = self.n_iterations_A_) := by
  have hdo : (self.pressure_step lib dst src).precond.do_solve_A = self.do_solve_A := by
    rw [mf_pressure_step_precond lib self dst src]
  have hnA : (self.pressure_step lib dst src).precond.n_iterations_A_
      = self.n_iterations_A_ := by
    rw [mf_pressure_step_precond lib self dst src]
  refine ⟨?_, ?_, ?_⟩
  · by_cases hp : (self.pressure_step lib dst src).raised = none
    · have hnS := (mf_pressure_step_returns_iff lib self dst src).mp hp
      rw [mf_vmult_of_pressure_ok lib self dst src hp]
      by_cases hd : self.do_solve_A = true
      · cases hA : (self.A_solve lib dst src).exc with
        | none =>
          rw [mf_velocity_step_of_converged lib (self.pressure_step lib dst src).precond
            (self.pressure_step lib dst src).calls (self.pressure_step lib dst src).dst
            ((self.pressure_step lib dst src).precond.top_right_step
              (self.pressure_step lib dst src).dst src) (hdo.trans hd) hA]
          simp [hnS]
        | some exc =>
          rw [(mf_velocity_step_of_failed lib (self.pressure_step lib dst src).precond
            (self.pressure_step lib dst src).calls (self.pressure_step lib dst src).dst
            ((self.pressure_step lib dst src).precond.top_right_step
              (self.pressure_step lib dst src).dst src) (hdo.trans hd) exc hA).1]
          simp [hnS, hd]
      · rw [mf_velocity_step_of_not_solve lib _ _ _ _
          (by rw [hdo]; simpa using hd)]
        simp [hnS, hd]
    · have hS : Vector.l2_norm lib.sqrt src.block1 > 1e-50
          ∧ (self.S_solve lib src).exc ≠ none := by
        by_contra hcon
        exact hp ((mf_pressure_step_returns_iff lib self dst src).mpr hcon)
      rw [mf_vmult_of_pressure_raised lib self dst src hp]
      simp [hp, hS]
  · intro exc h hS
    have hf := mf_pressure_step_of_failed lib self dst src h exc hS
    have hp : (self.pressure_step lib dst src).raised ≠ none := by
      rw [hf.1]
      simp
    rw [mf_vmult_of_pressure_raised lib self dst src hp]
    exact hf
  · intro exc hnS hd hA
    have hp := (mf_pressure_step_returns_iff lib self dst src).mpr hnS
    rw [mf_vmult_of_pressure_ok lib self dst src hp]
    have hf := mf_velocity_step_of_failed lib (self.pressure_step lib dst src).precond
      (self.pressure_step lib dst src).calls (self.pressure_step lib dst src).dst
      ((self.pressure_step lib dst src).precond.top_right_step
        (self.pressure_step lib dst src).dst src) (hdo.trans hd) exc hA
    refine ⟨hf.1, hf.2, ?_⟩
    rw [hf.2, hnA]

end internal

/-! ## A failing inner solve during the cheap phase -/

/-- The exception raised by the handlers of `BlockSchurPreconditioner::vmult` is
never a `NoConvergence`. -/
theorem vmult_handler_not_NoConvergence {R : Type} (rank : ℕ) (text : String)
    (exc : Exception R) :
    (if exc.is_std_exception then
        if rank = 0 then Exception.ExcMessage text else Exception.QuietException
      else exc).is_NoConvergence = false := by
  cases exc with
  | NoConvergence k r =>
    by_cases hr : rank = 0 <;> simp [Exception.is_std_exception, Exception.is_NoConvergence, hr]
  | ExcMessage t =>
    by_cases hr : rank = 0 <;> simp [Exception.is_std_exception, Exception.is_NoConvergence, hr]
  | QuietException =>
    simp [Exception.is_std_exception, Exception.is_NoConvergence]

/-- An exception with which `BlockSchurPreconditioner::vmult` of solver.cc ends
is never a `NoConvergence`. -/
theorem vmult_raised_not_NoConvergence {R : Type} [LinearOrderedField R] {nu np : ℕ}
    (lib : Library R) (pc : internal.BlockSchurPreconditioner R nu np)
    (dst src : BlockVector R nu np) (e : Exception R)
    (h : (pc.vmult lib dst src).raised = some e) : e.is_NoConvergence = false := by
  have hspec := internal.vmult_error_spec lib pc dst src
  have hne : (pc.vmult lib dst src).raised ≠ none := by rw [h]; simp
  rcases hspec.1.mp hne with ⟨hgt, hS⟩ | ⟨hnS, hd, hA⟩
  · obtain ⟨exc, hexc⟩ := Option.ne_none_iff_exists'.mp hS
    have h2 := (hspec.2.1 exc hgt hexc).1
    rw [h] at h2
    injection h2 with h3
    rw [h3]
    exact vmult_handler_not_NoConvergence _ _ exc
  · obtain ⟨exc, hexc⟩ := Option.ne_none_iff_exists'.mp hA
    have h2 := (hspec.2.2 exc hnS hd hexc).1
    rw [h] at h2
    injection h2 with h3
    rw [h3]
    exact vmult_handler_not_NoConvergence _ _ exc

/-- The end of `Simulator::solve_stokes` when the cheap attempt ends with an
exception that is not `NoConvergence`. -/
theorem solve_stokes_of_cheap_raised {R : Type} [LinearOrderedField R] {nu np : ℕ}
    (lib : Library R) (env : Collaborators R nu np)
    (solver : OuterSolver (internal.BlockSchurPreconditioner R nu np) R nu np)
    (sim : Simulator R nu np) (e : Exception R)
    (hcheap : (Simulator.cheap_attempt lib env solver sim).1.exc = some e)
    (he : e.is_NoConvergence = false) :
    Simulator.solve_stokes lib env solver sim
      = { sim := sim
          preconditioner_cheap := (Simulator.cheap_attempt lib env solver sim).1.precond
          preconditioner_expensive := sim.new_preconditioner true
          solver_control_cheap := (Simulator.cheap_attempt lib env solver sim).1.control
          solver_control_expensive := SolverControlState.fresh
          events := (Simulator.cheap_attempt lib env solver sim).2
          result := Except.error e } := by
  rw [solve_stokes_eq_try]
  exact solve_stokes_try_of_cheap_raised lib env solver sim _ _ _ _ _ _ _ _
    (Simulator.cheap_attempt lib env solver sim).1
    (Simulator.cheap_attempt lib env solver sim).2 rfl e hcheap he

/-- The records of the cheap attempt hold no start of the expensive solver. -/
theorem cheap_attempt_events {R : Type} [LinearOrderedField R] {nu np : ℕ}
    (lib : Library R) (env : Collaborators R nu np)
    (solver : OuterSolver (internal.BlockSchurPreconditioner R nu np) R nu np)
    (sim : Simulator R nu np) :
    (Simulator.cheap_attempt lib env solver sim).2.filter
      (SolveEvent.is_solver_solve Phase.expensive) = [] := by
  unfold Simulator.cheap_attempt
  rcases solve_stokes_step1a_events lib solver sim ⟨sim.system_matrix⟩
    (Simulator.linearized_stokes_initial_guess env sim) sim.distributed_stokes_rhs
    ⟨sim.parameters.n_cheap_stokes_solver_steps,
      Simulator.solver_tolerance lib sim (Simulator.linearized_stokes_initial_guess env sim),
      false, true⟩ (sim.new_preconditioner false) with h | h
  · rw [h]; rfl
  · rw [h]; simp [SolveEvent.is_solver_solve]

namespace Examples

theorem failing_vmult_raised :
    ((sim_pressure_rhs.new_preconditioner false).vmult failing_lib
        (Simulator.linearized_stokes_initial_guess env sim_pressure_rhs)
        sim_pressure_rhs.distributed_stokes_rhs).raised
      = some (Exception.ExcMessage
          ("The iterative (bottom right) solver in BlockSchurPreconditioner::vmult "
            ++ "did not converge to a tolerance of ?. "
            ++ "It reported the following error:\n\n?")) :=
  ((internal.vmult_error_spec failing_lib (sim_pressure_rhs.new_preconditioner false)
    (Simulator.linearized_stokes_initial_guess env sim_pressure_rhs)
    sim_pressure_rhs.distributed_stokes_rhs).2.1 (Exception.NoConvergence 1000 1)
    (pressure_not_near_zero 0) rfl).1

theorem failing_cheap_attempt :
    (Simulator.cheap_attempt failing_lib env (preconditioned_solver _) sim_pressure_rhs).1.exc
      = some (Exception.ExcMessage
          ("The iterative (bottom right) solver in BlockSchurPreconditioner::vmult "
            ++ "did not converge to a tolerance of ?. "
            ++ "It reported the following error:\n\n?")) := by
  unfold Simulator.cheap_attempt Simulator.solve_stokes_step1a
  rw [if_neg (by simp [sim_pressure_rhs, sim])]
  unfold preconditioned_solver
  simp only [OuterOutcome.phase_state]
  rw [failing_vmult_raised]

end Examples

/-- C16, counterexample: on the small system with right-hand side `(0, 1)`, one
cheap step, a Schur solver that never converges and an outer solver that
applies the cheap preconditioner, the application fails because the Schur
solve threw `NoConvergence`; the `ExcMessage` raised by the preconditioner
leaves `Simulator::solve_stokes`, and the expensive solver is never started. -/
theorem Simulator_solve_stokes_ends_on_failed_Schur_solve :
    ((Examples.sim_pressure_rhs.new_preconditioner false).S_solve Examples.failing_lib
        Examples.sim_pressure_rhs.distributed_stokes_rhs).exc
      = some (Exception.NoConvergence 1000 1)
    ∧ ((Examples.sim_pressure_rhs.new_preconditioner false).vmult Examples.failing_lib
        (Simulator.linearized_stokes_initial_guess Examples.env Examples.sim_pressure_rhs)
        Examples.sim_pressure_rhs.distributed_stokes_rhs).raised
      = some (Exception.ExcMessage
          ("The iterative (bottom right) solver in BlockSchurPreconditioner::vmult "
            ++ "did not converge to a tolerance of ?. "
            ++ "It reported the following error:\n\n?"))
    ∧ (Simulator.cheap_attempt Examples.failing_lib Examples.env
        (Examples.preconditioned_solver _) Examples.sim_pressure_rhs).1.exc
      = some (Exception.ExcMessage
          ("The iterative (bottom right) solver in BlockSchurPreconditioner::vmult "
            ++ "did not converge to a tolerance of ?. "
            ++ "It reported the following error:\n\n?"))
    ∧ (Simulator.solve_stokes Examples.failing_lib Examples.env
        (Examples.preconditioned_solver _) Examples.sim_pressure_rhs).result
      = Except.error (Exception.ExcMessage
          ("The iterative (bottom right) solver in BlockSchurPreconditioner::vmult "
            ++ "did not converge to a tolerance of ?. "
            ++ "It reported the following error:\n\n?"))
    ∧ (Simulator.solve_stokes Examples.failing_lib Examples.env
        (Examples.preconditioned_solver _) Examples.sim_pressure_rhs).events.filter
          (SolveEvent.is_solver_solve Phase.expensive) = [] := by
  have h := solve_stokes_of_cheap_raised Examples.failing_lib Examples.env
    (Examples.preconditioned_solver _) Examples.sim_pressure_rhs _
    Examples.failing_cheap_attempt rfl
  refine ⟨rfl, Examples.failing_vmult_raised, Examples.failing_cheap_attempt, ?_, ?_⟩
  · rw [h]
  · rw [h]
    exact cheap_attempt_events _ _ _ _

/-- C16, amended: if the cheap attempt of `Simulator::solve_stokes` ends with an
exception raised by an application of `BlockSchurPreconditioner::vmult` (as
when an inner solve of the cheap preconditioner does not converge and the
outer solver passes the exception on), then this exception is not a
`NoConvergence`, the handler "step 1b" is not entered, and `solve_stokes` ends
with this very exception: the expensive solver is never started, the expensive
preconditioner is left as constructed and the simulator is left as it was. -/
theorem Simulator_solve_stokes_inner_failure_ends_solve {R : Type} [LinearOrderedField R]
    {nu np : ℕ} (lib : Library R) (env : Collaborators R nu np)
    (solver : OuterSolver (internal.BlockSchurPreconditioner R nu np) R nu np)
    (sim : Simulator R nu np) (pc : internal.BlockSchurPreconditioner R nu np)
    (dst src : BlockVector R nu np) (e : Exception R)
    (hraised : (pc.vmult lib dst src).raised = some e)
    (hcheap : (Simulator.cheap_attempt lib env solver sim).1.exc = some e) :
    e.is_NoConvergence = false
    ∧ (Simulator.solve_stokes lib env solver sim).result = Except.error e
    ∧ (Simulator.solve_stokes lib env solver sim).events.filter
        (SolveEvent.is_solver_solve Phase.expensive) = []
    ∧ (Simulator.solve_stokes lib env solver sim).preconditioner_expensive
        = sim.new_preconditioner true
    ∧ (Simulator.solve_stokes lib env solver sim).solver_control_expensive
        = SolverControlState.fresh
    ∧ (Simulator.solve_stokes lib env solver sim).sim = sim := by
  have he := vmult_raised_not_NoConvergence lib pc dst src e hraised
  rw [solve_stokes_of_cheap_raised lib env solver sim e hcheap he]
  exact ⟨he, rfl, cheap_attempt_events lib env solver sim, rfl, rfl, rfl⟩

/-- Witness of the amended C16: the small system with right-hand side `(0, 1)`
and a Schur solver that never converges. -/
theorem Simulator_solve_stokes_inner_failure_ends_solve_witness :
    (Simulator.solve_stokes Examples.failing_lib Examples.env
        (Examples.preconditioned_solver _) Examples.sim_pressure_rhs).result
      = Except.error (Exception.ExcMessage
          ("The iterative (bottom right) solver in BlockSchurPreconditioner::vmult "
            ++ "did not converge to a tolerance of ?. "
            ++ "It reported the following error:\n\n?"))
    ∧ (Simulator.solve_stokes Examples.failing_lib Examples.env
        (Examples.preconditioned_solver _) Examples.sim_pressure_rhs).sim
      = Examples.sim_pressure_rhs :=
  have h := Simulator_solve_stokes_inner_failure_ends_solve Examples.failing_lib Examples.env
    (Examples.preconditioned_solver _) Examples.sim_pressure_rhs
    (Examples.sim_pressure_rhs.new_preconditioner false)
    (Simulator.linearized_stokes_initial_guess Examples.env Examples.sim_pressure_rhs)
    Examples.sim_pressure_rhs.distributed_stokes_rhs _
    Examples.failing_vmult_raised Examples.failing_cheap_attempt
  ⟨h.2.1, h.2.2.2.2.2⟩

namespace internal

/-- C17: `BlockSchurPreconditioner::vmult`, in solver.cc and in
stokes_matrix_free.cc, ends with an exception if and only if an inner solve it
starts throws: the Schur solve, started when `||src.block(1)|| > 1e-50`, or,
when the first block has returned and `do_solve_A` is true, the velocity solve.
When the failing solve throws a `std::exception`, such as
`SolverControl::NoConvergence`, rank 0 raises an `ExcMessage` naming the block
("bottom right" or "top left") and the tolerance of the solve, and every other
rank raises `QuietException`; any other exception is passed on. In each case
the iteration counter of the failed solve is the one `vmult` was entered
with. -/
theorem BlockSchurPreconditioner_vmult_raises_iff_inner_solve_fails {R : Type}
    [LinearOrderedField R] {nu np : ℕ} (lib : Library R)
    (P : BlockSchurPreconditioner R nu np) (Q : MatrixFree.BlockSchurPreconditioner R nu np)
    (dst src : BlockVector R nu np) :
    -- solver.cc
    (((P.vmult lib dst src).raised ≠ none ↔
        (Vector.l2_norm lib.sqrt src.block1 > 1e-50 ∧ (P.S_solve lib src).exc ≠ none)
        ∨ (¬ (Vector.l2_norm lib.sqrt src.block1 > 1e-50 ∧ (P.S_solve lib src).exc ≠ none)
            ∧ P.do_solve_A = true ∧ (P.A_solve lib dst src).exc ≠ none))
      ∧ (∀ exc, Vector.l2_norm lib.sqrt src.block1 > 1e-50 →
          (P.S_solve lib src).exc = some exc →
          (P.vmult lib dst src).raised
            = some (if exc.is_std_exception then
                if lib.this_mpi_process = 0 then
                  Exception.ExcMessage
                    ("The iterative (bottom right) solver in BlockSchurPreconditioner::vmult "
                      ++ "did not converge to a tolerance of "
                      ++ lib.to_string (P.S_solve_control lib src).tolerance
                      ++ ". It reported the following error:\n\n"
                      ++ lib.what exc)
                else Exception.QuietException
              else exc)
          ∧ (P.vmult lib dst src).precond.n_iterations_S = P.n_iterations_S
          ∧ (P.vmult lib dst src).precond.n_iterations_A = P.n_iterations_A)
      ∧ (∀ exc,
          ¬ (Vector.l2_norm lib.sqrt src.block1 > 1e-50 ∧ (P.S_solve lib src).exc ≠ none) →
          P.do_solve_A = true → (P.A_solve lib dst src).exc = some exc →
          (P.vmult lib dst src).raised
            = some (if exc.is_std_exception then
                if lib.this_mpi_process = 0 then
                  Exception.ExcMessage
                    ("The iterative (top left) solver in BlockSchurPreconditioner::vmult "
                      ++ "did not converge to a tolerance of "
                      ++ lib.to_string (P.A_solve_control lib dst src).tolerance
                      ++ ". It reported the following error:\n\n"
                      ++ lib.what exc)
                else Exception.QuietException
              else exc)
          ∧ (P.vmult lib dst src).precond.n_iterations_A = P.n_iterations_A)
      ∧ (P.S_solve_control lib src).tolerance
          = Vector.l2_norm lib.sqrt src.block1 * P.S_block_tolerance
      ∧ (P.A_solve_control lib dst src).tolerance
          = Vector.l2_norm lib.sqrt (P.utmp lib dst src) * P.A_block_tolerance
      ∧ ∀ k r, (Exception.NoConvergence k r : Exception R).is_std_exception = true)
    -- stokes_matrix_free.cc
    ∧ (((Q.vmult lib dst src).raised ≠ none ↔
        (Vector.l2_norm lib.sqrt src.block1 > 1e-50 ∧ (Q.S_solve lib src).exc ≠ none)
        ∨ (¬ (Vector.l2_norm lib.sqrt src.block1 > 1e-50 ∧ (Q.S_solve lib src).exc ≠ none)
            ∧ Q.do_solve_A = true ∧ (Q.A_solve lib dst src).exc ≠ none))
      ∧ (∀ exc, Vector.l2_norm lib.sqrt src.block1 > 1e-50 →
          (Q.S_solve lib src).exc = some exc →
          (Q.vmult lib dst src).raised
            = some (if exc.is_std_exception then
                if lib.this_mpi_process = 0 then
                  Exception.ExcMessage
                    ("The iterative (bottom right) solver in BlockSchurPreconditioner::vmult "
                      ++ "did not converge to a tolerance of "
                      ++ lib.to_string (Q.S_solve_control lib src).tolerance
                      ++ ". It reported the following error:\n\n"
                      ++ lib.what exc)
                else Exception.QuietException
              else exc)
          ∧ (Q.vmult lib dst src).precond.n_iterations_S = Q.n_iterations_S
          ∧ (Q.vmult lib dst src).precond.n_iterations_A = Q.n_iterations_A)
      ∧ (∀ exc,
          ¬ (Vector.l2_norm lib.sqrt src.block1 > 1e-50 ∧ (Q.S_solve lib src).exc ≠ none) →
          Q.do_solve_A = true → (Q.A_solve lib dst src).exc = some exc →
          (Q.vmult lib dst src).raised
            = some (if exc.is_std_exception then
                if lib.this_mpi_process = 0 then
                  Exception.ExcMessage
                    ("The iterative (top left) solver in BlockSchurPreconditioner::vmult "
                      ++ "did not converge to a tolerance of "
                      ++ lib.to_string (Q.A_solve_control lib dst src).tolerance
                      ++ ". It reported the following error:\n\n"
                      ++ lib.what exc)
                else Exception.QuietException
              else exc)
          ∧ (Q.vmult lib dst src).precond.n_iterations_A = Q.n_iterations_A)
      ∧ (Q.S_solve_control lib src).tolerance
          = Vector.l2_norm lib.sqrt src.block1 * Q.S_block_tolerance
      ∧ (Q.A_solve_control lib dst src).tolerance
          = Vector.l2_norm lib.sqrt (Q.utmp lib dst src).block0 * Q.A_block_tolerance
      ∧ ∀ k r, (Exception.NoConvergence k r : Exception R).is_std_exception = true) := by
  have hP := vmult_error_spec lib P dst src
  have hQ := mf_vmult_error_spec lib Q dst src
  refine ⟨⟨hP.1, ?_, ?_, rfl, ?_, fun _ _ => rfl⟩, ⟨hQ.1, ?_, ?_, rfl, ?_, fun _ _ => rfl⟩⟩
  · intro exc h hS
    have h2 := hP.2.1 exc h hS
    refine ⟨h2.1, ?_, ?_⟩
    · rw [h2.2]
    · rw [h2.2]
  · intro exc hnS hd hA
    have h2 := hP.2.2 exc hnS hd hA
    exact ⟨h2.1, h2.2.2⟩
  · show _ * (P.pressure_step lib dst src).precond.A_block_tolerance = _
    rw [pressure_step_precond lib P dst src]
  · intro exc h hS
    have h2 := hQ.2.1 exc h hS
    refine ⟨h2.1, ?_, ?_⟩
    · rw [h2.2]
    · rw [h2.2]
  · intro exc hnS hd hA
    have h2 := hQ.2.2 exc hnS hd hA
    exact ⟨h2.1, h2.2.2⟩
  · show _ * (Q.pressure_step lib dst src).precond.A_block_tolerance = _
    rw [mf_pressure_step_precond lib Q dst src]

end internal

namespace internal

/-- Witness of C17: on the small system with pressure right-hand side `1` and a
Schur solver that never converges, `vmult` of solver.cc raises on rank 0 the
`ExcMessage` naming the bottom right block, and both counters stay 0. -/
theorem BlockSchurPreconditioner_vmult_raises_iff_inner_solve_fails_witness :
    ((Examples.preconditioner false).vmult Examples.failing_lib (Examples.vec 0 0)
        (Examples.vec 0 1)).raised
      = some (Exception.ExcMessage
          ("The iterative (bottom right) solver in BlockSchurPreconditioner::vmult "
            ++ "did not converge to a tolerance of ?. "
            ++ "It reported the following error:\n\n?"))
    ∧ ((Examples.preconditioner false).vmult Examples.failing_lib (Examples.vec 0 0)
        (Examples.vec 0 1)).precond.n_iterations_S = 0
    ∧ ((Examples.preconditioner false).vmult Examples.failing_lib (Examples.vec 0 0)
        (Examples.vec 0 1)).precond.n_iterations_A = 0 :=
  (BlockSchurPreconditioner_vmult_raises_iff_inner_solve_fails Examples.failing_lib
    (Examples.preconditioner false) (Examples.mf_preconditioner false) (Examples.vec 0 0)
    (Examples.vec 0 1)).1.2.1 (Exception.NoConvergence 1000 1)
    (Examples.pressure_not_near_zero 0) rfl

end internal

/-! ## The success path: what is copied into the solution vector -/

/-- The end of `Simulator::solve_stokes` when the cheap attempt converged. -/
theorem solve_stokes_of_cheap_converged {R : Type} [LinearOrderedField R] {nu np : ℕ}
    (lib : Library R) (env : Collaborators R nu np)
    (solver : OuterSolver (internal.BlockSchurPreconditioner R nu np) R nu np)
    (sim : Simulator R nu np)
    (hcheap : (Simulator.cheap_attempt lib env solver sim).1.exc = none) :
    Simulator.solve_stokes lib env solver sim
      = Simulator.solve_stokes_finish env sim
          (internal.StokesBlock.residual lib.sqrt ⟨sim.system_matrix⟩ ⟨0, 0⟩
            (Simulator.linearized_stokes_initial_guess env sim) sim.system_rhs).2
          (Simulator.cheap_attempt lib env solver sim).1.x
          (Simulator.cheap_attempt lib env solver sim).1.precond
          (sim.new_preconditioner true)
          (Simulator.cheap_attempt lib env solver sim).1.control
          SolverControlState.fresh
          (Simulator.cheap_attempt lib env solver sim).2 := by
  rw [solve_stokes_eq_try]
  exact solve_stokes_try_of_cheap_converged lib env solver sim _ _ _ _ _ _ _ _ hcheap

/-- The end of `Simulator::solve_stokes` when the cheap attempt ended with
`NoConvergence` and the expensive solver converged. -/
theorem solve_stokes_of_expensive_converged {R : Type} [LinearOrderedField R] {nu np : ℕ}
    (lib : Library R) (env : Collaborators R nu np)
    (solver : OuterSolver (internal.BlockSchurPreconditioner R nu np) R nu np)
    (sim : Simulator R nu np) (e : Exception R)
    (hcheap : (Simulator.cheap_attempt lib env solver sim).1.exc = some e)
    (he : e.is_NoConvergence = true)
    (hexp : (Simulator.expensive_attempt lib env solver sim).exc = none) :
    Simulator.solve_stokes lib env solver sim
      = Simulator.solve_stokes_finish env sim
          (internal.StokesBlock.residual lib.sqrt ⟨sim.system_matrix⟩ ⟨0, 0⟩
            (Simulator.linearized_stokes_initial_guess env sim) sim.system_rhs).2
          (Simulator.expensive_attempt lib env solver sim).x
          (Simulator.cheap_attempt lib env solver sim).1.precond
          (Simulator.expensive_attempt lib env solver sim).precond
          (Simulator.cheap_attempt lib env solver sim).1.control
          (Simulator.expensive_attempt lib env solver sim).control_state
          ((Simulator.cheap_attempt lib env solver sim).2
            ++ [SolveEvent.solver_solve Phase.expensive
                ⟨sim.parameters.n_expensive_stokes_solver_steps,
                  Simulator.solver_tolerance lib sim
                    (Simulator.linearized_stokes_initial_guess env sim), false, true⟩
                100 (Simulator.cheap_attempt lib env solver sim).1.x
                sim.distributed_stokes_rhs]) := by
  rw [solve_stokes_eq_try]
  exact solve_stokes_try_of_expensive_converged lib env solver sim _ _ _ _ _ _ _ _
    (Simulator.cheap_attempt lib env solver sim).1
    (Simulator.cheap_attempt lib env solver sim).2 rfl e hcheap he
    (Simulator.expensive_attempt lib env solver sim) rfl hexp

/-- The solution vector at the end of `Simulator::solve_stokes` on the success
path, for the vector `x` left by the converged solver. -/
theorem solve_stokes_finish_solution {R : Type} [LinearOrderedField R] {nu np : ℕ}
    (env : Collaborators R nu np) (sim : Simulator R nu np) (r : R) (x : BlockVector R nu np)
    (pc1 pc2 : internal.BlockSchurPreconditioner R nu np) (c1 c2 : SolverControlState R)
    (ev : List (SolveEvent R nu np)) :
    (Simulator.solve_stokes_finish env sim r x pc1 pc2 c1 c2 ev).sim.solution
      = (if sim.parameters.include_melt_transport = true then
          env.compute_melt_variables
            (env.normalize_pressure
              (env.remove_nullspace
                ⟨(env.distribute x).block0, sim.pressure_scaling • (env.distribute x).block1⟩
                ⟨(env.distribute x).block0,
                  sim.pressure_scaling • (env.distribute x).block1⟩).1).1
        else
          (env.normalize_pressure
            (env.remove_nullspace
              ⟨(env.distribute x).block0, sim.pressure_scaling • (env.distribute x).block1⟩
              ⟨(env.distribute x).block0,
                sim.pressure_scaling • (env.distribute x).block1⟩).1).1)
    ∧ (Simulator.solve_stokes_finish env sim r x pc1 pc2 c1 c2 ev).result = Except.ok r :=
  ⟨rfl, rfl⟩

/-- The solution vector at the end of `StokesMatrixFreeHandler::solve` on the
path through the end of the function, for the vector `x` left by the solver. -/
theorem solve_finish_solution {R : Type} [LinearOrderedField R] {nu np : ℕ}
    (env : Collaborators R nu np) (sim : Simulator R nu np) (r : R) (f : Option R)
    (x : BlockVector R nu np)
    (pc1 pc2 : internal.MatrixFree.BlockSchurPreconditioner R nu np)
    (c1 c2 : SolverControlState R) (ev : List (SolveEvent R nu np)) :
    (StokesMatrixFreeHandler.solve_finish env sim r f x pc1 pc2 c1 c2 ev).sim.solution
      = (if sim.assemble_newton_stokes_system = false then
          (env.normalize_pressure
            (env.remove_nullspace
              ⟨(env.distribute x).block0, sim.pressure_scaling • (env.distribute x).block1⟩
              ⟨(env.distribute x).block0,
                sim.pressure_scaling • (env.distribute x).block1⟩).1).1
        else
          (env.remove_nullspace
            ⟨(env.distribute x).block0, sim.pressure_scaling • (env.distribute x).block1⟩
            ⟨(env.distribute x).block0,
              sim.pressure_scaling • (env.distribute x).block1⟩).1)
    ∧ (StokesMatrixFreeHandler.solve_finish env sim r f x pc1 pc2 c1 c2 ev).result
      = Except.ok (r, f) :=
  ⟨rfl, rfl⟩

/-- The end of `StokesMatrixFreeHandler::solve` when the timing block returned
and the cheap solver converged. -/
theorem solve_of_cheap_converged {R : Type} [LinearOrderedField R] {nu np : ℕ}
    (lib : Library R) (env : Collaborators R nu np)
    (solver : OuterSolver (internal.MatrixFree.BlockSchurPreconditioner R nu np) R nu np)
    (self : StokesMatrixFreeHandler R nu np) (i : ℕ)
    (ht : (StokesMatrixFreeHandler.timing lib env self).raised = none)
    (hcheap : (StokesMatrixFreeHandler.cheap_attempt lib env solver self).exc = none) :
    StokesMatrixFreeHandler.solve lib env solver self i
      = StokesMatrixFreeHandler.solve_finish env { self.sim with gmres_iterations := 0 }
          (StokesMatrixFreeHandler.tolerance_and_residual lib self ⟨0, 0⟩
            (StokesMatrixFreeHandler.linearized_stokes_initial_guess env self)
            self.sim.distributed_stokes_rhs).2
          (some (StokesMatrixFreeHandler.cheap_attempt lib env solver self).last_value)
          (StokesMatrixFreeHandler.cheap_attempt lib env solver self).x
          (StokesMatrixFreeHandler.cheap_attempt lib env solver self).precond
          (self.new_preconditioner true)
          (StokesMatrixFreeHandler.cheap_attempt lib env solver self).control_state
          SolverControlState.fresh
          ((StokesMatrixFreeHandler.timing lib env self).events
            ++ [SolveEvent.solver_solve Phase.cheap
                ⟨self.sim.parameters.n_cheap_stokes_solver_steps,
                  StokesMatrixFreeHandler.solver_tolerance lib env self, true, true⟩
                50 (StokesMatrixFreeHandler.linearized_stokes_initial_guess env self)
                self.sim.distributed_stokes_rhs]) := by
  rw [solve_eq_solve_outer]
  exact solve_outer_of_cheap_converged lib env solver self.sim self.stokes_matrix _ _ _ _ _ _ _
    (StokesMatrixFreeHandler.timing lib env self) rfl ht
    (StokesMatrixFreeHandler.cheap_attempt lib env solver self) rfl hcheap

/-- The end of `StokesMatrixFreeHandler::solve` when the timing block returned,
the cheap solver threw `NoConvergence` and the expensive solver converged. -/
theorem solve_of_expensive_converged {R : Type} [LinearOrderedField R] {nu np : ℕ}
    (lib : Library R) (env : Collaborators R nu np)
    (solver : OuterSolver (internal.MatrixFree.BlockSchurPreconditioner R nu np) R nu np)
    (self : StokesMatrixFreeHandler R nu np) (i : ℕ) (e : Exception R)
    (ht : (StokesMatrixFreeHandler.timing lib env self).raised = none)
    (hcheap : (StokesMatrixFreeHandler.cheap_attempt lib env solver self).exc = some e)
    (he : e.is_NoConvergence = true)
    (hexp : (StokesMatrixFreeHandler.expensive_attempt lib env solver self).exc = none) :
    StokesMatrixFreeHandler.solve lib env solver self i
      = StokesMatrixFreeHandler.solve_finish env { self.sim with gmres_iterations := 0 }
          (StokesMatrixFreeHandler.tolerance_and_residual lib self ⟨0, 0⟩
            (StokesMatrixFreeHandler.linearized_stokes_initial_guess env self)
            self.sim.distributed_stokes_rhs).2
          (some (StokesMatrixFreeHandler.expensive_attempt lib env solver self).last_value)
          (StokesMatrixFreeHandler.expensive_attempt lib env solver self).x
          (StokesMatrixFreeHandler.cheap_attempt lib env solver self).precond
          (StokesMatrixFreeHandler.expensive_attempt lib env solver self).precond
          (StokesMatrixFreeHandler.cheap_attempt lib env solver self).control_state
          (StokesMatrixFreeHandler.expensive_attempt lib env solver self).control_state
          ((StokesMatrixFreeHandler.timing lib env self).events
            ++ [SolveEvent.solver_solve Phase.cheap
                ⟨self.sim.parameters.n_cheap_stokes_solver_steps,
                  StokesMatrixFreeHandler.solver_tolerance lib env self, true, true⟩
                50 (StokesMatrixFreeHandler.linearized_stokes_initial_guess env self)
                self.sim.distributed_stokes_rhs]
            ++ [SolveEvent.solver_solve Phase.expensive
                ⟨self.sim.parameters.n_expensive_stokes_solver_steps,
                  StokesMatrixFreeHandler.solver_tolerance lib env self, false, true⟩
                self.number_of_temporary_vectors
                (StokesMatrixFreeHandler.cheap_attempt lib env solver self).x
                self.sim.distributed_stokes_rhs]) := by
  rw [solve_eq_solve_outer,
    solve_outer_of_expensive_run lib env solver self.sim self.stokes_matrix _ _ _ _ _ _ _
      (StokesMatrixFreeHandler.timing lib env self) rfl ht
      (StokesMatrixFreeHandler.cheap_attempt lib env solver self) rfl e hcheap he
      self.number_of_temporary_vectors rfl
      (StokesMatrixFreeHandler.expensive_attempt lib env solver self) rfl
      (fun exc2 h2 => by rw [hexp] at h2; cases h2),
    hexp]

/-- C18: on the success path of `Simulator::solve_stokes` (iterative) and of
`StokesMatrixFreeHandler::solve`, with `x` the vector left by the outer solve
that converged (the cheap one, or the expensive one after a cheap
`NoConvergence`) and `(u, p)` the blocks of `x` after
`current_constraints.distribute`, the vector `copied` that the copy leaves in
the two Stokes blocks of the solution vector has the velocity block `u` and
the pressure block `pressure_scaling * p`; the solution at the end of the
function is what `remove_nullspace`, `normalize_pressure` (and the melt
conversion) make of it. On the solution vector with all its blocks the copy
assigns blocks 0 and 1 and leaves every other block as it was. -/
theorem solution_copy_on_success {R : Type} [LinearOrderedField R] {nu np : ℕ}
    (lib : Library R) (env : Collaborators R nu np)
    (solver : OuterSolver (internal.BlockSchurPreconditioner R nu np) R nu np)
    (mf_solver : OuterSolver (internal.MatrixFree.BlockSchurPreconditioner R nu np) R nu np)
    (sim : Simulator R nu np) (self : StokesMatrixFreeHandler R nu np) (i : ℕ)
    {V : Type} (solution distributed_stokes_solution : ℕ → V) :
    -- Simulator::solve_stokes
    (∀ x : BlockVector R nu np,
      (((Simulator.cheap_attempt lib env solver sim).1.exc = none
          ∧ x = (Simulator.cheap_attempt lib env solver sim).1.x)
        ∨ (∃ e, (Simulator.cheap_attempt lib env solver sim).1.exc = some e
            ∧ e.is_NoConvergence = true
            ∧ (Simulator.expensive_attempt lib env solver sim).exc = none
            ∧ x = (Simulator.expensive_attempt lib env solver sim).x)) →
      ∃ copied : BlockVector R nu np,
        copied.block0 = (env.distribute x).block0
        ∧ copied.block1 = sim.pressure_scaling • (env.distribute x).block1
        ∧ (∀ j, copied.block1 j = sim.pressure_scaling * (env.distribute x).block1 j)
        ∧ (Simulator.solve_stokes lib env solver sim).sim.solution
          = (if sim.parameters.include_melt_transport = true then
              env.compute_melt_variables
                (env.normalize_pressure (env.remove_nullspace copied copied).1).1
            else (env.normalize_pressure (env.remove_nullspace copied copied).1).1)
        ∧ (Simulator.solve_stokes lib env solver sim).result.isOk = true)
    -- StokesMatrixFreeHandler::solve
    ∧ (∀ x : BlockVector R nu np,
      ((StokesMatrixFreeHandler.timing lib env self).raised = none
        ∧ (((StokesMatrixFreeHandler.cheap_attempt lib env mf_solver self).exc = none
            ∧ x = (StokesMatrixFreeHandler.cheap_attempt lib env mf_solver self).x)
          ∨ (∃ e, (StokesMatrixFreeHandler.cheap_attempt lib env mf_solver self).exc = some e
              ∧ e.is_NoConvergence = true
              ∧ (StokesMatrixFreeHandler.expensive_attempt lib env mf_solver self).exc = none
              ∧ x = (StokesMatrixFreeHandler.expensive_attempt lib env mf_solver self).x))) →
      ∃ copied : BlockVector R nu np,
        copied.block0 = (env.distribute x).block0
        ∧ copied.block1 = self.sim.pressure_scaling • (env.distribute x).block1
        ∧ (∀ j, copied.block1 j = self.sim.pressure_scaling * (env.distribute x).block1 j)
        ∧ (StokesMatrixFreeHandler.solve lib env mf_solver self i).sim.solution
          = (if self.sim.assemble_newton_stokes_system = false then
              (env.normalize_pressure (env.remove_nullspace copied copied).1).1
            else (env.remove_nullspace copied copied).1)
        ∧ (StokesMatrixFreeHandler.solve lib env mf_solver self i).result.isOk = true)
    -- the copy on the vector with all solution variables
    ∧ (∀ b, b ≠ 0 → b ≠ 1 →
        copy_stokes_blocks 0 1 solution distributed_stokes_solution b = solution b)
    ∧ copy_stokes_blocks 0 1 solution distributed_stokes_solution 0
        = distributed_stokes_solution 0
    ∧ copy_stokes_blocks 0 1 solution distributed_stokes_solution 1
        = distributed_stokes_solution 1 := by
  refine ⟨?_, ?_, ?_, ?_, ?_⟩
  · intro x hx
    refine ⟨⟨(env.distribute x).block0, sim.pressure_scaling • (env.distribute x).block1⟩,
      rfl, rfl, fun _ => rfl, ?_⟩
    rcases hx with ⟨hc, hxe⟩ | ⟨e, hc, he, hexp, hxe⟩
    · rw [solve_stokes_of_cheap_converged lib env solver sim hc, hxe]
      exact ⟨(solve_stokes_finish_solution env sim _ _ _ _ _ _ _).1, rfl⟩
    · rw [solve_stokes_of_expensive_converged lib env solver sim e hc he hexp, hxe]
      exact ⟨(solve_stokes_finish_solution env sim _ _ _ _ _ _ _).1, rfl⟩
  · intro x hx
    refine ⟨⟨(env.distribute x).block0, self.sim.pressure_scaling • (env.distribute x).block1⟩,
      rfl, rfl, fun _ => rfl, ?_⟩
    rcases hx with ⟨ht, ⟨hc, hxe⟩ | ⟨e, hc, he, hexp, hxe⟩⟩
    · rw [solve_of_cheap_converged lib env mf_solver self i ht hc, hxe]
      exact ⟨(solve_finish_solution env _ _ _ _ _ _ _ _ _).1, rfl⟩
    · rw [solve_of_expensive_converged lib env mf_solver self i e ht hc he hexp, hxe]
      exact ⟨(solve_finish_solution env _ _ _ _ _ _ _ _ _).1, rfl⟩
  · intro b h0 h1
    unfold copy_stokes_blocks
    simp [Function.update, h0, h1]
  · unfold copy_stokes_blocks
    simp [Function.update]
  · unfold copy_stokes_blocks
    simp [Function.update]

/-- Witness of C18: on the small system with one cheap step the cheap solver
converges with `(u, p) = (0, 1)`, and `Simulator::solve_stokes` returns with a
solution made from a copied vector with these blocks (the pressure scaling
is 1). -/
theorem solution_copy_on_success_witness :
    ∃ copied : BlockVector ℚ 1 1,
      copied.block0 = (Examples.vec 0 1).block0
      ∧ (∀ j, copied.block1 j = 1 * (Examples.vec 0 1).block1 j)
      ∧ (Simulator.solve_stokes Examples.lib Examples.env (Examples.outer_solver _)
          (Examples.sim 1)).sim.solution = copied
      ∧ (Simulator.solve_stokes Examples.lib Examples.env (Examples.outer_solver _)
          (Examples.sim 1)).result.isOk = true :=
  have h := (solution_copy_on_success Examples.lib Examples.env (Examples.outer_solver _)
    (Examples.outer_solver _) (Examples.sim 1) (Examples.handler 1) 0
    (fun _ : ℕ => (0 : ℕ)) (fun _ : ℕ => (0 : ℕ))).1
    (Simulator.cheap_attempt Examples.lib Examples.env (Examples.outer_solver _)
      (Examples.sim 1)).1.x (Or.inl ⟨rfl, rfl⟩)
  Exists.elim h (fun copied hc =>
    ⟨copied, hc.1.trans (by
        show (Examples.outer_solver _ _ _ _ _ (Examples.sim 1).distributed_stokes_rhs _ _).x.block0
          = _
        simp [Examples.outer_solver, Examples.sim, Examples.vec,
          Simulator.distributed_stokes_rhs]),
      fun j => (hc.2.2.1 j).trans (by
        show (1 : ℚ) * (Examples.outer_solver _ _ _ _ _
          (Examples.sim 1).distributed_stokes_rhs _ _).x.block1 j = _
        simp [Examples.outer_solver, Examples.sim, Examples.vec,
          Simulator.distributed_stokes_rhs]),
      hc.2.2.2.1, hc.2.2.2.2⟩)

/-! ## The pressure scaling round trip -/

/-- A loop that replaces the entries at the indices of a list without
repetition by their image under `f`. -/
theorem foldl_update_apply {R : Type} (f : R → R) (l : List ℕ) (hl : l.Nodup) (v : ℕ → R)
    (j : ℕ) :
    (l.foldl (fun v idx => Function.update v idx (f (v idx))) v) j
      = if j ∈ l then f (v j) else v j := by
  induction l generalizing v with
  | nil => simp
  | cons a t ih =>
    rw [List.nodup_cons] at hl
    rw [List.foldl_cons, ih hl.2]
    by_cases hja : j = a
    · subst hja
      simp [hl.1]
    · by_cases hjt : j ∈ t
      · simp [hjt, hja, Function.update_noteq hja]
      · simp [hjt, hja, Function.update_noteq hja]

/-- A loop over the positions of an index set visits its elements. -/
theorem foldl_range_nth_index {R : Type} (s : IndexSet) (g : (ℕ → R) → ℕ → (ℕ → R))
    (v : ℕ → R) :
    (List.range (IndexSet.n_elements s)).foldl
        (fun v i => g v (IndexSet.nth_index_in_set s i)) v
      = (s.sort (· ≤ ·)).foldl g v := by
  have hmap : (List.range (IndexSet.n_elements s)).map (IndexSet.nth_index_in_set s)
      = s.sort (· ≤ ·) := by
    apply List.ext_getElem
    · simp [IndexSet.n_elements]
    · intro i h1 h2
      simp [IndexSet.nth_index_in_set, List.getElem?_eq_getElem h2]
  rw [← hmap, List.foldl_map]

/-- The entries after a loop over an index set that replaces each visited entry
by its image under `f`. -/
theorem index_set_loop_apply {R : Type} (f : R → R) (s : IndexSet) (v : ℕ → R) (j : ℕ) :
    ((List.range (IndexSet.n_elements s)).foldl
        (fun v i => Function.update v (IndexSet.nth_index_in_set s i)
          (f (v (IndexSet.nth_index_in_set s i)))) v) j
      = if j ∈ s then f (v j) else v j := by
  rw [foldl_range_nth_index s (fun v idx => Function.update v idx (f (v idx))) v,
    foldl_update_apply f _ (Finset.sort_nodup _ s) v j]
  simp

/-- The entries after the loop "Undo the pressure scaling". -/
theorem undo_pressure_scaling_apply {R : Type} [LinearOrderedField R] (melt : Bool)
    (s_melt s : IndexSet) (ps : R) (v : ℕ → R) (j : ℕ) :
    Simulator.undo_pressure_scaling melt s_melt s ps v j
      = if j ∈ (if melt = true then s_melt else s) then v j / ps else v j := by
  unfold Simulator.undo_pressure_scaling
  exact index_set_loop_apply (fun x => x / ps) _ v j

/-- The entries after the loop that rescales the pressure. -/
theorem rescale_pressure_apply {R : Type} [LinearOrderedField R] (melt : Bool)
    (s_melt s : IndexSet) (ps : R) (v : ℕ → R) (j : ℕ) :
    Simulator.rescale_pressure melt s_melt s ps v j
      = if j ∈ (if melt = true then s_melt else s) then v j * ps else v j := by
  unfold Simulator.rescale_pressure
  exact index_set_loop_apply (fun x => x * ps) _ v j

/-- C19: for `pressure_scaling != 0`, in exact arithmetic: multiplying the
scaled initial guess of the iterative paths by `pressure_scaling` gives back
the pressure it was divided from (the order used in the solver: the guess is
divided, the result is multiplied), and multiplying then dividing any pressure
vector gives it back; the per-index loops of the direct solver path undo each
other in both orders, and they change only the entries whose index is in the
pressure index set, which they divide, respectively multiply, by
`pressure_scaling`. -/
theorem pressure_scaling_round_trip {R : Type} [LinearOrderedField R] {nu np : ℕ}
    (env : Collaborators R nu np) (sim : Simulator R nu np)
    (self : StokesMatrixFreeHandler R nu np)
    (hps : sim.pressure_scaling ≠ 0) (hself : self.sim.pressure_scaling ≠ 0) :
    -- block-wise scaling of the iterative paths: divided, then multiplied
    sim.pressure_scaling • (Simulator.linearized_stokes_initial_guess env sim).block1
        = (env.set_zero (env.denormalize_pressure sim.last_pressure_normalization_adjustment
            ⟨sim.current_linearization_point.block0, sim.current_linearization_point.block1⟩
            sim.current_linearization_point)).block1
    ∧ self.sim.pressure_scaling
          • (StokesMatrixFreeHandler.linearized_stokes_initial_guess env self).block1
        = (env.set_zero
            (if self.sim.assemble_newton_stokes_system = false then
              env.denormalize_pressure self.sim.last_pressure_normalization_adjustment
                ⟨self.sim.current_linearization_point.block0,
                  self.sim.current_linearization_point.block1⟩
                self.sim.current_linearization_point
            else ⟨0, 0⟩)).block1
    -- block-wise scaling: any pressure vector, in both orders
    ∧ (∀ p : Vector R np,
        (fun j => (sim.pressure_scaling • p) j / sim.pressure_scaling) = p
        ∧ sim.pressure_scaling • (fun j => p j / sim.pressure_scaling) = p)
    -- the per-index loops of the direct solver path
    ∧ (∀ (melt : Bool) (s_melt s : IndexSet) (v : ℕ → R),
        Simulator.rescale_pressure melt s_melt s sim.pressure_scaling
            (Simulator.undo_pressure_scaling melt s_melt s sim.pressure_scaling v) = v
        ∧ Simulator.undo_pressure_scaling melt s_melt s sim.pressure_scaling
            (Simulator.rescale_pressure melt s_melt s sim.pressure_scaling v) = v
        ∧ (∀ j, j ∉ (if melt = true then s_melt else s) →
            Simulator.undo_pressure_scaling melt s_melt s sim.pressure_scaling v j = v j
            ∧ Simulator.rescale_pressure melt s_melt s sim.pressure_scaling v j = v j)
        ∧ (∀ j, j ∈ (if melt = true then s_melt else s) →
            Simulator.undo_pressure_scaling melt s_melt s sim.pressure_scaling v j
              = v j / sim.pressure_scaling
            ∧ Simulator.rescale_pressure melt s_melt s sim.pressure_scaling v j
              = v j * sim.pressure_scaling)) := by
  refine ⟨?_, ?_, ?_, ?_⟩
  · funext j
    unfold Simulator.linearized_stokes_initial_guess
    simp only [Pi.smul_apply, smul_eq_mul]
    rw [mul_div_cancel₀ _ hps]
  · funext j
    unfold StokesMatrixFreeHandler.linearized_stokes_initial_guess
    simp only [Pi.smul_apply, smul_eq_mul]
    rw [mul_div_cancel₀ _ hself]
  · intro p
    constructor
    · funext j
      simp only [Pi.smul_apply, smul_eq_mul]
      rw [mul_div_cancel_left₀ _ hps]
    · funext j
      simp only [Pi.smul_apply, smul_eq_mul]
      rw [mul_div_cancel₀ _ hps]
  · intro melt s_melt s v
    refine ⟨?_, ?_, ?_, ?_⟩
    · funext j
      rw [rescale_pressure_apply, undo_pressure_scaling_apply]
      by_cases hj : j ∈ (if melt = true then s_melt else s)
      · simp only [hj, if_true]
        rw [div_mul_cancel₀ _ hps]
      · simp only [hj, if_false]
    · funext j
      rw [undo_pressure_scaling_apply, rescale_pressure_apply]
      by_cases hj : j ∈ (if melt = true then s_melt else s)
      · simp only [hj, if_true]
        rw [mul_div_cancel_right₀ _ hps]
      · simp only [hj, if_false]
    · intro j hj
      rw [undo_pressure_scaling_apply, rescale_pressure_apply]
      simp only [hj, if_false, and_self]
    · intro j hj
      rw [undo_pressure_scaling_apply, rescale_pressure_apply]
      simp only [hj, if_true, and_self]

/-- Witness of C19: the small system with pressure scaling 2, the pressure
index set `{1, 3}` and the vector with the entries `v(i) = i`. -/
theorem pressure_scaling_round_trip_witness :
    ({ Examples.sim 1 with pressure_scaling := 2 } : Simulator ℚ 1 1).pressure_scaling ≠ 0
    ∧ Simulator.rescale_pressure false ∅ {1, 3} (2 : ℚ)
        (Simulator.undo_pressure_scaling false ∅ {1, 3} (2 : ℚ) (fun i : ℕ => (i : ℚ)))
      = (fun i : ℕ => (i : ℚ))
    ∧ Simulator.undo_pressure_scaling false ∅ {1, 3} (2 : ℚ) (fun i : ℕ => (i : ℚ)) 3 = 3 / 2
    ∧ Simulator.undo_pressure_scaling false ∅ {1, 3} (2 : ℚ) (fun i : ℕ => (i : ℚ)) 2 = 2 :=
  have h2 : ({ Examples.sim 1 with pressure_scaling := 2 } : Simulator ℚ 1 1).pressure_scaling
      ≠ 0 := by
    show (2 : ℚ) ≠ 0
    norm_num
  have h1 : (Examples.handler 1).sim.pressure_scaling ≠ 0 := by
    show (1 : ℚ) ≠ 0
    norm_num
  have h := (pressure_scaling_round_trip Examples.env
    { Examples.sim 1 with pressure_scaling := 2 } (Examples.handler 1) h2 h1).2.2.2
    false ∅ {1, 3} (fun i : ℕ => (i : ℚ))
  ⟨h2, h.1, by
      have h3 := (h.2.2.2 3 (by decide)).1
      simpa using h3, by
      have h3 := (h.2.2.1 2 (by decide)).1
      simpa using h3⟩

/-! ## `Simulator::normalize_pressure` is idempotent -/

/-- A loop whose body leaves the start value as it is leaves it as it is. -/
theorem foldl_fixed {α β : Type} (g : α → β → α) (a : α) (l : List β)
    (h : ∀ b, g a b = a) : l.foldl g a = a := by
  induction l with
  | nil => rfl
  | cons b t ih => rw [List.foldl_cons, h b, ih]

/-- With the adjustment 0 the last part of `normalize_pressure` leaves the
vector as it is. -/
theorem normalize_pressure_update_zero {R : Type} [LinearOrderedField R]
    (self : PressureNormalization R) (vector : LinearAlgebra.BlockVector R) :
    Simulator.normalize_pressure_update self 0 vector = vector := by
  unfold Simulator.normalize_pressure_update
  simp only []
  split
  · split
    · unfold LinearAlgebra.BlockVector.block_add
      simp
    · apply foldl_fixed
      intro rank
      apply foldl_fixed
      intro cell
      split
      · apply foldl_fixed
        intro j
        unfold LinearAlgebra.BlockVector.set
        simp
      · rfl
  · apply foldl_fixed
    intro rank
    apply foldl_fixed
    intro cell
    split
    · unfold LinearAlgebra.BlockVector.set
      simp
    · rfl

/-- The function `normalize_pressure` for the method `"surface"`. -/
theorem normalize_pressure_of_surface {R : Type} [LinearOrderedField R] (lib : Library R)
    (self : PressureNormalization R) (vector : LinearAlgebra.BlockVector R)
    (h : self.pressure_normalization = "surface") :
    Simulator.normalize_pressure lib self vector
      = Except.ok
          ({ self with pressure_adjustment :=
              -Simulator.averaged_pressure lib self vector + self.surface_pressure },
            Simulator.normalize_pressure_update self
              (-Simulator.averaged_pressure lib self vector + self.surface_pressure) vector) := by
  have hno : ¬ (self.pressure_normalization = "no") := by rw [h]; decide
  unfold Simulator.normalize_pressure Simulator.averaged_pressure
    Simulator.normalize_pressure_temp
  simp only [hno, h, if_true, if_false, neg_div]
  rfl

/-- The function `normalize_pressure` for the method `"volume"`. -/
theorem normalize_pressure_of_volume {R : Type} [LinearOrderedField R] (lib : Library R)
    (self : PressureNormalization R) (vector : LinearAlgebra.BlockVector R)
    (h : self.pressure_normalization = "volume") :
    Simulator.normalize_pressure lib self vector
      = Except.ok
          ({ self with pressure_adjustment := -Simulator.averaged_pressure lib self vector },
            Simulator.normalize_pressure_update self
              (-Simulator.averaged_pressure lib self vector) vector) := by
  have hno : ¬ (self.pressure_normalization = "no") := by rw [h]; decide
  have hsu : ¬ (self.pressure_normalization = "surface") := by rw [h]; decide
  unfold Simulator.normalize_pressure Simulator.averaged_pressure
    Simulator.normalize_pressure_temp
  simp only [hno, hsu, h, if_true, if_false, neg_div]
  rfl

/-- C20: `Simulator::normalize_pressure` of helper_functions.cc. For the method
`"no"` an application leaves the simulator and the vector as they are. For the
methods `"volume"` and `"surface"`, when the averaged pressure of the vector
shifts by `c` if the function's update is done with the adjustment `c`, a
second application computes `pressure_adjustment = 0` and leaves the vector
of the first application as it is. With the pressure in a block of its own
(no locally conservative discretization, no melt transport) the update with
the adjustment `c` is the addition of `c` to every entry of the pressure
block, and the condition reads: the averaged pressure shifts by `c` when `c`
is added to every pressure degree of freedom. -/
theorem Simulator_normalize_pressure_idempotent {R : Type} [LinearOrderedField R]
    (lib : Library R) (self : PressureNormalization R)
    (vector : LinearAlgebra.BlockVector R) :
    (self.pressure_normalization = "no" →
      Simulator.normalize_pressure lib self vector = Except.ok (self, vector))
    ∧ ((self.pressure_normalization = "volume" ∨ self.pressure_normalization = "surface") →
      (∀ c : R, Simulator.averaged_pressure lib self
          (Simulator.normalize_pressure_update self c vector)
        = Simulator.averaged_pressure lib self vector + c) →
      ∃ (s1 : PressureNormalization R) (v1 : LinearAlgebra.BlockVector R),
        Simulator.normalize_pressure lib self vector = Except.ok (s1, v1)
        ∧ Simulator.normalize_pressure lib s1 v1
            = Except.ok ({ s1 with pressure_adjustment := 0 }, v1))
    ∧ (self.use_locally_conservative_discretization = false →
      self.block_indices_velocities ≠ self.block_indices_pressure →
      self.include_melt_transport = false →
      ∀ c : R,
        Simulator.normalize_pressure_update self c vector
          = vector.block_add self.block_indices_pressure c
        ∧ ∀ i, (Simulator.normalize_pressure_update self c vector).values i
          = if vector.block_start self.block_indices_pressure ≤ i
              ∧ i < vector.block_start self.block_indices_pressure
                  + vector.block_sizes.getD self.block_indices_pressure 0
            then vector.values i + c else vector.values i)
    ∧ (self.use_locally_conservative_discretization = false →
      self.block_indices_velocities ≠ self.block_indices_pressure →
      self.include_melt_transport = false →
      (self.pressure_normalization = "volume" ∨ self.pressure_normalization = "surface") →
      (∀ c : R, Simulator.averaged_pressure lib self
          (vector.block_add self.block_indices_pressure c)
        = Simulator.averaged_pressure lib self vector + c) →
      ∃ (s1 : PressureNormalization R) (v1 : LinearAlgebra.BlockVector R),
        Simulator.normalize_pressure lib self vector = Except.ok (s1, v1)
        ∧ Simulator.normalize_pressure lib s1 v1
            = Except.ok ({ s1 with pressure_adjustment := 0 }, v1)) := by
  have hown : self.use_locally_conservative_discretization = false →
      self.block_indices_velocities ≠ self.block_indices_pressure →
      self.include_melt_transport = false →
      ∀ c : R, Simulator.normalize_pressure_update self c vector
        = vector.block_add self.block_indices_pressure c := by
    intro h1 h2 h3 c
    unfold Simulator.normalize_pressure_update
    simp only []
    rw [if_pos h1, if_pos ⟨h2, h3⟩]
  have main : (self.pressure_normalization = "volume"
        ∨ self.pressure_normalization = "surface") →
      (∀ c : R, Simulator.averaged_pressure lib self
          (Simulator.normalize_pressure_update self c vector)
        = Simulator.averaged_pressure lib self vector + c) →
      ∃ (s1 : PressureNormalization R) (v1 : LinearAlgebra.BlockVector R),
        Simulator.normalize_pressure lib self vector = Except.ok (s1, v1)
        ∧ Simulator.normalize_pressure lib s1 v1
            = Except.ok ({ s1 with pressure_adjustment := 0 }, v1) := by
    intro hm H
    rcases hm with h | h
    · have hA : Simulator.averaged_pressure lib self
          (Simulator.normalize_pressure_update self
            (-Simulator.averaged_pressure lib self vector) vector) = 0 := by
        rw [H]
        ring
      refine ⟨_, _, normalize_pressure_of_volume lib self vector h, ?_⟩
      rw [normalize_pressure_of_volume lib
        { self with pressure_adjustment := -Simulator.averaged_pressure lib self vector }
        (Simulator.normalize_pressure_update self
          (-Simulator.averaged_pressure lib self vector) vector) h]
      show Except.ok
          (({ self with pressure_adjustment := (-Simulator.averaged_pressure lib self
              (Simulator.normalize_pressure_update self
                (-Simulator.averaged_pressure lib self vector) vector)) }
              : PressureNormalization R),
            Simulator.normalize_pressure_update self
              (-Simulator.averaged_pressure lib self
                (Simulator.normalize_pressure_update self
                  (-Simulator.averaged_pressure lib self vector) vector))
              (Simulator.normalize_pressure_update self
                (-Simulator.averaged_pressure lib self vector) vector))
        = Except.ok
          (({ self with pressure_adjustment := 0 } : PressureNormalization R),
            Simulator.normalize_pressure_update self
              (-Simulator.averaged_pressure lib self vector) vector)
      rw [hA, neg_zero, normalize_pressure_update_zero]
    · have hA : -Simulator.averaged_pressure lib self
          (Simulator.normalize_pressure_update self
            (-Simulator.averaged_pressure lib self vector + self.surface_pressure) vector)
          + self.surface_pressure = 0 := by
        rw [H]
        ring
      refine ⟨_, _, normalize_pressure_of_surface lib self vector h, ?_⟩
      rw [normalize_pressure_of_surface lib
        { self with pressure_adjustment :=
            -Simulator.averaged_pressure lib self vector + self.surface_pressure }
        (Simulator.normalize_pressure_update self
          (-Simulator.averaged_pressure lib self vector + self.surface_pressure) vector) h]
      show Except.ok
          (({ self with pressure_adjustment := (-Simulator.averaged_pressure lib self
              (Simulator.normalize_pressure_update self
                (-Simulator.averaged_pressure lib self vector + self.surface_pressure) vector)
              + self.surface_pressure) }
              : PressureNormalization R),
            Simulator.normalize_pressure_update self
              (-Simulator.averaged_pressure lib self
                (Simulator.normalize_pressure_update self
                  (-Simulator.averaged_pressure lib self vector + self.surface_pressure) vector)
                + self.surface_pressure)
              (Simulator.normalize_pressure_update self
                (-Simulator.averaged_pressure lib self vector + self.surface_pressure) vector))
        = Except.ok
          (({ self with pressure_adjustment := 0 } : PressureNormalization R),
            Simulator.normalize_pressure_update self
              (-Simulator.averaged_pressure lib self vector + self.surface_pressure) vector)
      rw [hA, normalize_pressure_update_zero]
  refine ⟨?_, main, ?_, ?_⟩
  · intro h
    unfold Simulator.normalize_pressure
    rw [if_pos h]
  · intro h1 h2 h3 c
    exact ⟨hown h1 h2 h3 c, fun i => by rw [hown h1 h2 h3 c]; rfl⟩
  · intro h1 h2 h3 hm H
    exact main hm (fun c => by rw [hown h1 h2 h3 c]; exact H c)

namespace Examples

theorem averaged_pressure_surface (v : LinearAlgebra.BlockVector ℚ) :
    Simulator.averaged_pressure lib (normalization "surface") v = v.values 1 := by
  have hs : lib.sqrt (1 * ((2 : ℕ) : ℚ) - 1) = 1 := by
    have h1 : (1 * ((2 : ℕ) : ℚ) - 1) = 1 := by norm_num
    rw [h1]
    exact sqrt_one
  have hr : List.range 1 = [0] := rfl
  unfold Simulator.averaged_pressure Simulator.normalize_pressure_temp Utilities.MPI.sum
    Simulator.surface_integrals
  simp only [normalization, if_true, hr, List.foldl_cons, List.foldl_nil, hs]
  simp [quadrature_sum, hr]

theorem update_surface_values (c : ℚ) :
    (Simulator.normalize_pressure_update (normalization "surface") c full_vector).values 1
      = full_vector.values 1 + c := by
  unfold Simulator.normalize_pressure_update
  simp [normalization, LinearAlgebra.BlockVector.block_add,
    LinearAlgebra.BlockVector.block_start, full_vector]

end Examples

/-- Witness of C20: the one-cell mesh with the method `"surface"`, surface
pressure 7 and the vector with pressure 3: the averaged pressure is 3, and the
second application of `normalize_pressure` computes the adjustment 0 and
leaves the vector of the first application as it is. -/
theorem Simulator_normalize_pressure_idempotent_witness :
    Simulator.averaged_pressure Examples.lib (Examples.normalization "surface")
        Examples.full_vector = 3
    ∧ ∃ (s1 : PressureNormalization ℚ) (v1 : LinearAlgebra.BlockVector ℚ),
        Simulator.normalize_pressure Examples.lib (Examples.normalization "surface")
          Examples.full_vector = Except.ok (s1, v1)
        ∧ Simulator.normalize_pressure Examples.lib s1 v1
            = Except.ok ({ s1 with pressure_adjustment := 0 }, v1) :=
  ⟨(Examples.averaged_pressure_surface Examples.full_vector).trans (by simp [Examples.full_vector]),
    (Simulator_normalize_pressure_idempotent Examples.lib (Examples.normalization "surface")
      Examples.full_vector).2.1 (Or.inr rfl)
      (fun c => by
        rw [Examples.averaged_pressure_surface, Examples.averaged_pressure_surface,
          Examples.update_surface_values])⟩

/-- Witness of C11: on the small system with one cheap step, an outer solver
that converges in one step leaves no start of the expensive solver in the
record of `Simulator::solve_stokes`, and an outer solver that needs two steps
leaves one. -/
theorem escalation_to_expensive_iff_cheap_NoConvergence_witness :
    (Simulator.solve_stokes Examples.lib Examples.env (Examples.outer_solver _)
        (Examples.sim 1)).events.filter (SolveEvent.is_solver_solve Phase.expensive) = []
    ∧ (Simulator.solve_stokes Examples.lib Examples.env (Examples.two_step_solver _)
        (Examples.sim 1)).events.filter (SolveEvent.is_solver_solve Phase.expensive) ≠ [] :=
  ⟨(escalation_to_expensive_iff_cheap_NoConvergence Examples.lib Examples.env
      (Examples.outer_solver _) (Examples.outer_solver _) (Examples.sim 1)
      (Examples.handler 1) 0).1.2.1 rfl,
    (escalation_to_expensive_iff_cheap_NoConvergence Examples.lib Examples.env
      (Examples.two_step_solver _) (Examples.two_step_solver _) (Examples.sim 1)
      (Examples.handler 1) 0).1.1.mpr ⟨_, Examples.cheap_attempt_two_step.2, rfl⟩⟩

/-! ## `denormalize_pressure` undoes `normalize_pressure` -/

/-- A loop that adds `c` to the entry `f a` for the elements `a` with `p a`
adds a multiple of `c` to every entry, and the multiple does not depend on
`c` or on the start vector. -/
theorem foldl_add_entries {R : Type} [LinearOrderedField R] {α : Type} (p : α → Prop)
    [DecidablePred p] (f : α → ℕ) (l : List α) :
    ∃ K : ℕ → ℕ, ∀ (c : R) (v : LinearAlgebra.BlockVector R),
      (l.foldl (fun v a => if p a then v.set (f a) (v.values (f a) + c) else v) v).block_sizes
          = v.block_sizes
      ∧ ∀ i, (l.foldl (fun v a => if p a then v.set (f a) (v.values (f a) + c) else v)
          v).values i = v.values i + (K i : R) * c := by
  induction l with
  | nil =>
    refine ⟨fun _ => 0, fun c v => ⟨rfl, fun i => ?_⟩⟩
    simp
  | cons a t ih =>
    obtain ⟨K, hK⟩ := ih
    by_cases hp : p a
    · refine ⟨fun i => K i + (if i = f a then 1 else 0), fun c v => ?_⟩
      rw [List.foldl_cons, if_pos hp]
      refine ⟨(hK c _).1, fun i => ?_⟩
      rw [(hK c _).2 i]
      unfold LinearAlgebra.BlockVector.set
      by_cases hi : i = f a
      · subst hi
        simp
        ring
      · simp [Function.update_noteq hi, hi]
    · refine ⟨K, fun c v => ?_⟩
      rw [List.foldl_cons, if_neg hp]
      exact hK c v

/-- A loop over the processes of loops that each add multiples of `c` adds
multiples of `c`. -/
theorem foldl_add_multiples {R : Type} [LinearOrderedField R] {β : Type}
    (g : R → LinearAlgebra.BlockVector R → β → LinearAlgebra.BlockVector R)
    (hg : ∀ b, ∃ K : ℕ → ℕ, ∀ (c : R) (v : LinearAlgebra.BlockVector R),
      (g c v b).block_sizes = v.block_sizes
      ∧ ∀ i, (g c v b).values i = v.values i + (K i : R) * c)
    (l : List β) :
    ∃ K : ℕ → ℕ, ∀ (c : R) (v : LinearAlgebra.BlockVector R),
      (l.foldl (g c) v).block_sizes = v.block_sizes
      ∧ ∀ i, (l.foldl (g c) v).values i = v.values i + (K i : R) * c := by
  induction l with
  | nil =>
    refine ⟨fun _ => 0, fun c v => ⟨rfl, fun i => ?_⟩⟩
    simp
  | cons b t ih =>
    obtain ⟨K, hK⟩ := ih
    obtain ⟨K0, hK0⟩ := hg b
    refine ⟨fun i => K0 i + K i, fun c v => ?_⟩
    rw [List.foldl_cons]
    refine ⟨by rw [(hK c _).1, (hK0 c v).1], fun i => ?_⟩
    rw [(hK c _).2 i, (hK0 c v).2 i]
    push_cast
    ring

/-- A loop that writes `W (f a)` into the entry `f a` leaves `W i` in the
entries it visits and the other entries as they are, and the set of visited
entries does not depend on `W` or on the start vector. -/
theorem foldl_set_entries {R : Type} {α : Type} (f : α → ℕ) (l : List α) :
    ∃ S : ℕ → Bool, ∀ (W : ℕ → R) (v : LinearAlgebra.BlockVector R),
      (l.foldl (fun v a => v.set (f a) (W (f a))) v).block_sizes = v.block_sizes
      ∧ ∀ i, (l.foldl (fun v a => v.set (f a) (W (f a))) v).values i
          = if S i = true then W i else v.values i := by
  induction l with
  | nil =>
    refine ⟨fun _ => false, fun W v => ⟨rfl, fun i => ?_⟩⟩
    simp
  | cons a t ih =>
    obtain ⟨S, hS⟩ := ih
    refine ⟨fun i => S i || decide (i = f a), fun W v => ?_⟩
    rw [List.foldl_cons]
    refine ⟨(hS W _).1, fun i => ?_⟩
    rw [(hS W _).2 i]
    unfold LinearAlgebra.BlockVector.set
    by_cases hi : i = f a
    · subst hi
      simp
    · simp [Function.update_noteq hi, hi]

/-- A loop of loops that each write `W i` into the entries they visit writes
`W i` into the entries it visits. -/
theorem foldl_set_multiples {R : Type} {β : Type}
    (g : (ℕ → R) → LinearAlgebra.BlockVector R → β → LinearAlgebra.BlockVector R)
    (hg : ∀ b, ∃ S : ℕ → Bool, ∀ (W : ℕ → R) (v : LinearAlgebra.BlockVector R),
      (g W v b).block_sizes = v.block_sizes
      ∧ ∀ i, (g W v b).values i = if S i = true then W i else v.values i)
    (l : List β) :
    ∃ S : ℕ → Bool, ∀ (W : ℕ → R) (v : LinearAlgebra.BlockVector R),
      (l.foldl (g W) v).block_sizes = v.block_sizes
      ∧ ∀ i, (l.foldl (g W) v).values i = if S i = true then W i else v.values i := by
  induction l with
  | nil =>
    refine ⟨fun _ => false, fun W v => ⟨rfl, fun i => ?_⟩⟩
    simp
  | cons b t ih =>
    obtain ⟨S, hS⟩ := ih
    obtain ⟨S0, hS0⟩ := hg b
    refine ⟨fun i => S i || S0 i, fun W v => ?_⟩
    rw [List.foldl_cons]
    refine ⟨by rw [(hS W _).1, (hS0 W v).1], fun i => ?_⟩
    rw [(hS W _).2 i, (hS0 W v).2 i]
    cases hSi : S i <;> cases hS0i : S0 i <;> simp [hSi, hS0i]

/-- Two block vectors with the same block sizes and the same entries are
equal. -/
theorem LinearAlgebra_BlockVector_ext {R : Type} (v w : LinearAlgebra.BlockVector R)
    (hs : v.block_sizes = w.block_sizes) (hv : ∀ i, v.values i = w.values i) : v = w := by
  cases v
  cases w
  simp only [LinearAlgebra.BlockVector.mk.injEq]
  exact ⟨hs, funext hv⟩

/-- The manual loops of `normalize_pressure` and `denormalize_pressure` for a
pressure that is not in a block of its own visit the same entries: the second
restores what the first has changed. -/
theorem denormalize_manual_loop {R : Type} [LinearOrderedField R]
    (self : PressureNormalization R) (a : R) (vector : LinearAlgebra.BlockVector R) :
    ∀ n : LinearAlgebra.BlockVector R,
      n = (List.range self.n_mpi_processes).foldl
        (fun distributed_vector rank =>
          self.cells.foldl
            (fun distributed_vector cell =>
              if cell.subdomain_id = rank then
                (List.range self.n_local_pressure_dofs).foldl
                  (fun distributed_vector j =>
                    distributed_vector.set (cell.pressure_dof_index j)
                      (vector.values (cell.pressure_dof_index j) + a))
                  distributed_vector
              else distributed_vector)
            distributed_vector)
        vector →
      (List.range self.n_mpi_processes).foldl
        (fun vector rank =>
          self.cells.foldl
            (fun vector cell =>
              if cell.subdomain_id = rank then
                (List.range self.n_local_pressure_dofs).foldl
                  (fun vector j =>
                    vector.set (cell.pressure_dof_index j)
                      (n.values (cell.pressure_dof_index j) - a))
                  vector
              else vector)
            vector)
        n = vector := by
  obtain ⟨S, hS⟩ := foldl_set_multiples
    (fun (W : ℕ → R) v rank =>
      self.cells.foldl
        (fun v (cell : Cell R) =>
          if cell.subdomain_id = rank then
            (List.range self.n_local_pressure_dofs).foldl
              (fun v j => v.set (cell.pressure_dof_index j) (W (cell.pressure_dof_index j))) v
          else v) v)
    (fun rank => foldl_set_multiples
      (fun (W : ℕ → R) v (cell : Cell R) =>
        if cell.subdomain_id = rank then
          (List.range self.n_local_pressure_dofs).foldl
            (fun v j => v.set (cell.pressure_dof_index j) (W (cell.pressure_dof_index j))) v
        else v)
      (fun cell => by
        by_cases hc : cell.subdomain_id = rank
        · obtain ⟨S, hS⟩ := foldl_set_entries (R := R) cell.pressure_dof_index
            (List.range self.n_local_pressure_dofs)
          refine ⟨S, fun W v => ?_⟩
          simp only [if_pos hc]
          exact hS W v
        · refine ⟨fun _ => false, fun W v => ?_⟩
          simp [if_neg hc])
      self.cells)
    (List.range self.n_mpi_processes)
  intro n hn
  have h1 := hS (fun i => vector.values i + a) vector
  have h2 := hS (fun i => n.values i - a) n
  rw [← hn] at h1
  apply LinearAlgebra_BlockVector_ext
  · exact h2.1.trans h1.1
  · intro i
    refine (h2.2 i).trans ?_
    rw [h1.2 i]
    split <;> simp

/-- In a release build, or when the first pressure index of every cell of
the process lies behind `vector.block(0)`, the loop over the cells of
`denormalize_pressure` for a locally conservative discretization subtracts
the adjustment from the first pressure entry of every cell of the process. -/
theorem denormalize_pressure_cells_ok {R : Type} [LinearOrderedField R] (debug : Bool)
    (self : PressureNormalization R) (rank : ℕ) (l : List (Cell R)) :
    ∀ (v : LinearAlgebra.BlockVector R),
      (debug = false ∨ ∀ cell ∈ l, cell.subdomain_id = rank →
        cell.pressure_dof_index 0 ≥ v.block_sizes.getD 0 0) →
      l.foldl
        (fun (vector : Except (Failure R) (LinearAlgebra.BlockVector R)) (cell : Cell R) =>
          match vector with
          | Except.error failure => Except.error failure
          | Except.ok vector =>
            if cell.subdomain_id = rank then
              if debug = true ∧ ¬ (cell.pressure_dof_index 0 ≥ vector.block_sizes.getD 0 0) then
                Except.error (Failure.assertion
                  "local_dof_indices[first_pressure_dof] >= vector.block(0).size()")
              else
                Except.ok (vector.set (cell.pressure_dof_index 0)
                  (vector.values (cell.pressure_dof_index 0) - self.pressure_adjustment))
            else Except.ok vector)
        (Except.ok v)
      = Except.ok (l.foldl
          (fun v cell =>
            if cell.subdomain_id = rank then
              v.set (cell.pressure_dof_index 0)
                (v.values (cell.pressure_dof_index 0) + -self.pressure_adjustment)
            else v)
          v) := by
  induction l with
  | nil => intro v _; rfl
  | cons cell t ih =>
    intro v h
    rw [List.foldl_cons, List.foldl_cons]
    by_cases hc : cell.subdomain_id = rank
    · have hnot : ¬ (debug = true
          ∧ ¬ (cell.pressure_dof_index 0 ≥ v.block_sizes.getD 0 0)) := by
        rintro ⟨hd, hn⟩
        rcases h with h | h
        · rw [hd] at h
          exact Bool.noConfusion h
        · exact hn (h cell (List.mem_cons_self _ _) hc)
      simp only [if_pos hc, if_neg hnot]
      rw [sub_eq_add_neg (v.values (cell.pressure_dof_index 0))]
      apply ih
      rcases h with h | h
      · exact Or.inl h
      · exact Or.inr (fun c hm hr => h c (List.mem_cons_of_mem _ hm) hr)
    · simp only [if_neg hc]
      apply ih
      rcases h with h | h
      · exact Or.inl h
      · exact Or.inr (fun c hm hr => h c (List.mem_cons_of_mem _ hm) hr)

/-- The loops of `normalize_pressure` and `denormalize_pressure` for a locally
conservative discretization: the second restores what the first has changed. -/
theorem denormalize_first_dof_loop {R : Type} [LinearOrderedField R] (debug : Bool)
    (self : PressureNormalization R) (vector : LinearAlgebra.BlockVector R)
    (h : debug = false ∨ ∀ cell ∈ self.cells, cell.subdomain_id < self.n_mpi_processes →
        cell.pressure_dof_index 0 ≥ vector.block_sizes.getD 0 0) :
    (List.range self.n_mpi_processes).foldl
      (fun vector rank => Simulator.denormalize_pressure_cells debug self rank vector)
      (Except.ok ((List.range self.n_mpi_processes).foldl
        (fun distributed_vector rank =>
          self.cells.foldl
            (fun distributed_vector cell =>
              if cell.subdomain_id = rank then
                distributed_vector.set (cell.pressure_dof_index 0)
                  (distributed_vector.values (cell.pressure_dof_index 0)
                    + self.pressure_adjustment)
              else distributed_vector)
            distributed_vector)
        vector))
    = Except.ok vector := by
  have hinner : ∀ rank, ∃ K : ℕ → ℕ, ∀ (c : R) (v : LinearAlgebra.BlockVector R),
      (self.cells.foldl (fun v (cell : Cell R) =>
          if cell.subdomain_id = rank then
            v.set (cell.pressure_dof_index 0) (v.values (cell.pressure_dof_index 0) + c)
          else v) v).block_sizes = v.block_sizes
      ∧ ∀ i, (self.cells.foldl (fun v (cell : Cell R) =>
          if cell.subdomain_id = rank then
            v.set (cell.pressure_dof_index 0) (v.values (cell.pressure_dof_index 0) + c)
          else v) v).values i = v.values i + (K i : R) * c :=
    fun rank => foldl_add_entries (fun cell : Cell R => cell.subdomain_id = rank)
      (fun cell => cell.pressure_dof_index 0) self.cells
  obtain ⟨K, hK⟩ := foldl_add_multiples
    (fun (c : R) v rank =>
      self.cells.foldl (fun v (cell : Cell R) =>
          if cell.subdomain_id = rank then
            v.set (cell.pressure_dof_index 0) (v.values (cell.pressure_dof_index 0) + c)
          else v) v)
    hinner (List.range self.n_mpi_processes)
  -- the loop over the processes returns, with the plain loop as its value
  have hok : ∀ (l : List ℕ) (v : LinearAlgebra.BlockVector R),
      (∀ rank ∈ l, rank < self.n_mpi_processes) →
      v.block_sizes = vector.block_sizes →
      l.foldl (fun vector rank => Simulator.denormalize_pressure_cells debug self rank vector)
        (Except.ok v)
      = Except.ok (l.foldl
        (fun v rank =>
          self.cells.foldl (fun v (cell : Cell R) =>
            if cell.subdomain_id = rank then
              v.set (cell.pressure_dof_index 0)
                (v.values (cell.pressure_dof_index 0) + -self.pressure_adjustment)
            else v) v) v) := by
    intro l
    induction l with
    | nil => intro v _ _; rfl
    | cons rank t ih =>
      intro v hl hv
      rw [List.foldl_cons, List.foldl_cons]
      have hcells : Simulator.denormalize_pressure_cells debug self rank (Except.ok v)
          = Except.ok (self.cells.foldl (fun v (cell : Cell R) =>
            if cell.subdomain_id = rank then
              v.set (cell.pressure_dof_index 0)
                (v.values (cell.pressure_dof_index 0) + -self.pressure_adjustment)
            else v) v) := by
        unfold Simulator.denormalize_pressure_cells
        apply denormalize_pressure_cells_ok
        rcases h with h | h
        · exact Or.inl h
        · refine Or.inr (fun cell hm hr => ?_)
          rw [hv]
          exact h cell hm (hr ▸ hl rank (List.mem_cons_self _ _))
      rw [hcells]
      apply ih
      · exact fun r hr => hl r (List.mem_cons_of_mem _ hr)
      · rw [((hinner rank).choose_spec _ v).1, hv]
  have h1 := hK self.pressure_adjustment vector
  rw [hok _ _ (fun rank hr => List.mem_range.mp hr) h1.1]
  have h2 := hK (-self.pressure_adjustment)
    ((List.range self.n_mpi_processes).foldl
        (fun distributed_vector rank =>
          self.cells.foldl
            (fun distributed_vector (cell : Cell R) =>
              if cell.subdomain_id = rank then
                distributed_vector.set (cell.pressure_dof_index 0)
                  (distributed_vector.values (cell.pressure_dof_index 0)
                    + self.pressure_adjustment)
              else distributed_vector)
            distributed_vector)
        vector)
  congr 1
  apply LinearAlgebra_BlockVector_ext
  · exact h2.1.trans h1.1
  · intro i
    refine (h2.2 i).trans ?_
    rw [h1.2 i]
    ring

/-- The round trip for given content of `pressure_adjustment`: the function
`denormalize_pressure`, called with the result of the update of
`normalize_pressure` as both arguments, returns the vector from before the
update. -/
theorem denormalize_pressure_of_update {R : Type} [LinearOrderedField R] (debug : Bool)
    (self : PressureNormalization R) (a : R) (vector : LinearAlgebra.BlockVector R)
    (hassert : debug = true → self.use_locally_conservative_discretization = true →
      self.pressure_normalization ≠ "no" →
      self.include_melt_transport = false
      ∧ ∀ cell ∈ self.cells, cell.subdomain_id < self.n_mpi_processes →
          cell.pressure_dof_index 0 ≥ vector.block_sizes.getD 0 0) :
    Simulator.denormalize_pressure debug { self with pressure_adjustment := a }
        (Simulator.normalize_pressure_update self a vector)
        (Simulator.normalize_pressure_update self a vector)
      = Except.ok vector
    ∨ self.pressure_normalization = "no" := by
  by_cases hno : self.pressure_normalization = "no"
  · exact Or.inr hno
  left
  unfold Simulator.denormalize_pressure Simulator.normalize_pressure_update
  simp only [if_neg hno]
  by_cases hl : self.use_locally_conservative_discretization = false
  · simp only [if_pos hl]
    by_cases hb : self.block_indices_velocities ≠ self.block_indices_pressure
        ∧ self.include_melt_transport = false
    · simp only [if_pos hb]
      congr 1
      apply LinearAlgebra_BlockVector_ext
      · rfl
      · intro i
        unfold LinearAlgebra.BlockVector.block_add LinearAlgebra.BlockVector.block_start
        simp only []
        split <;> ring
    · simp only [if_neg hb]
      congr 1
      exact denormalize_manual_loop self a vector _ rfl
  · simp only [if_neg hl]
    have hl1 : self.use_locally_conservative_discretization = true := by
      cases hx : self.use_locally_conservative_discretization
      · exact absurd hx hl
      · rfl
    have hd : ¬ (debug = true ∧ ¬ (self.include_melt_transport = false)) := by
      rintro ⟨hd, hm⟩
      exact hm (hassert hd hl1 hno).1
    simp only [if_neg hd]
    apply denormalize_first_dof_loop debug { self with pressure_adjustment := a } vector
    cases hdb : debug
    · exact Or.inl rfl
    · exact Or.inr (hassert hdb hl1 hno).2

/-- In a debug build the branch of `denormalize_pressure` for a locally
conservative discretization ends at its `Assert` when melt transport is
included. -/
theorem denormalize_pressure_assertion {R : Type} [LinearOrderedField R]
    (self : PressureNormalization R) (vector relevant_vector : LinearAlgebra.BlockVector R)
    (hno : self.pressure_normalization ≠ "no")
    (hl : self.use_locally_conservative_discretization = true)
    (hm : self.include_melt_transport = true) :
    Simulator.denormalize_pressure true self vector relevant_vector
      = Except.error (Failure.assertion "!parameters.include_melt_transport") := by
  unfold Simulator.denormalize_pressure
  simp [hno, hl, hm]

/-- On the one-cell mesh with the method `"surface"` and a locally conservative
discretization the area `temp[1]` of the surface is 1. -/
theorem Examples.surface_area_of_the_one_cell_mesh (v : LinearAlgebra.BlockVector ℚ) :
    (Simulator.normalize_pressure_temp Examples.lib
      { Examples.normalization "surface" with
        use_locally_conservative_discretization := true } v).2 = 1 := by
  have hs : Examples.lib.sqrt (1 * ((2 : ℕ) : ℚ) - 1) = 1 := by
    have h1 : (1 * ((2 : ℕ) : ℚ) - 1) = 1 := by norm_num
    rw [h1]
    exact Examples.sqrt_one
  have hr : List.range 1 = [0] := rfl
  unfold Simulator.normalize_pressure_temp Utilities.MPI.sum Simulator.surface_integrals
  simp only [Examples.normalization, if_true, hr, List.foldl_cons, List.foldl_nil, hs]
  simp [quadrature_sum, hr]

/-- C21: `Simulator::denormalize_pressure` of helper_functions.cc is the inverse
of `normalize_pressure`. When `normalize_pressure` returns for the vector `v`,
with the simulator `s1` (that holds the new `pressure_adjustment`) and the
normalized vector `v1`, then `denormalize_pressure`, called in `s1` with `v1`
as the vector and as the relevant vector, returns with the vector `v`: block
sizes and every entry, pressure or not, are the ones of `v`. This holds in
each of the three paths (pressure in a block of its own, pressure inside a
shared block, locally conservative discretization). The integration domain of
`normalize_pressure` is not empty (`temp[1] != 0`, the area of the surface or
the volume), so that the quotient `temp[0] / temp[1]` it computes is a number;
the hypothesis keeps the statement to the states in which the division of the
field is the division of the source.
In a debug build the `Assert`s of the path for a locally conservative
discretization are taken to hold: no melt transport, and the first pressure
index of every owned cell lies behind `vector.block(0)`. -/
theorem Simulator_denormalize_pressure_inverts_normalize_pressure {R : Type}
    [LinearOrderedField R] (lib : Library R) (debug : Bool) (self : PressureNormalization R)
    (vector : LinearAlgebra.BlockVector R) (s1 : PressureNormalization R)
    (v1 : LinearAlgebra.BlockVector R)
    (hn : Simulator.normalize_pressure lib self vector = Except.ok (s1, v1))
    (_hdomain : self.pressure_normalization ≠ "no" →
      (Simulator.normalize_pressure_temp lib self vector).2 ≠ 0)
    (hassert : debug = true → self.use_locally_conservative_discretization = true →
      self.pressure_normalization ≠ "no" →
      self.include_melt_transport = false
      ∧ ∀ cell ∈ self.cells, cell.subdomain_id < self.n_mpi_processes →
          cell.pressure_dof_index 0 ≥ vector.block_sizes.getD 0 0) :
    Simulator.denormalize_pressure debug s1 v1 v1 = Except.ok vector := by
  by_cases hno : self.pressure_normalization = "no"
  · unfold Simulator.normalize_pressure at hn
    rw [if_pos hno] at hn
    injection hn with hn
    injection hn with hs hv
    subst hs
    subst hv
    unfold Simulator.denormalize_pressure
    rw [if_pos hno]
  · by_cases hsu : self.pressure_normalization = "surface"
    · rw [normalize_pressure_of_surface lib self vector hsu] at hn
      injection hn with hn
      injection hn with hs hv
      subst hs
      subst hv
      exact (denormalize_pressure_of_update debug self _ vector hassert).resolve_right hno
    · by_cases hvo : self.pressure_normalization = "volume"
      · rw [normalize_pressure_of_volume lib self vector hvo] at hn
        injection hn with hn
        injection hn with hs hv
        subst hs
        subst hv
        exact (denormalize_pressure_of_update debug self _ vector hassert).resolve_right hno
      · exfalso
        unfold Simulator.normalize_pressure at hn
        simp only [if_neg hno, if_neg hsu, if_neg hvo] at hn
        exact Except.noConfusion hn

/-- Witness of C21: the one-cell mesh with the method `"surface"` and a locally
conservative discretization in a debug build: the surface has the area 1, the
first pressure index 1 of the cell lies behind the velocity block of size 1,
and `denormalize_pressure` returns the vector with the velocity entry 5 and
the pressure entry 3 from its normalized form. -/
theorem Simulator_denormalize_pressure_inverts_normalize_pressure_witness :
    ∃ (s1 : PressureNormalization ℚ) (v1 : LinearAlgebra.BlockVector ℚ),
      Simulator.normalize_pressure Examples.lib
          { Examples.normalization "surface" with
            use_locally_conservative_discretization := true } Examples.full_vector
        = Except.ok (s1, v1)
      ∧ (Simulator.normalize_pressure_temp Examples.lib
          { Examples.normalization "surface" with
            use_locally_conservative_discretization := true } Examples.full_vector).2 = 1
      ∧ v1.values 1 = 7
      ∧ Simulator.denormalize_pressure true s1 v1 v1 = Except.ok Examples.full_vector :=
  ⟨_, _, normalize_pressure_of_surface Examples.lib _ _ rfl,
    Examples.surface_area_of_the_one_cell_mesh Examples.full_vector,
    by
      have hr : List.range 1 = [0] := rfl
      simp [Simulator.normalize_pressure_update, Simulator.averaged_pressure,
        Simulator.normalize_pressure_temp, Utilities.MPI.sum, Simulator.surface_integrals,
        quadrature_sum, Examples.normalization, Examples.full_vector, Examples.lib,
        LinearAlgebra.BlockVector.set, hr]
      norm_num,
    Simulator_denormalize_pressure_inverts_normalize_pressure Examples.lib true _
      Examples.full_vector _ _ (normalize_pressure_of_surface Examples.lib _ _ rfl)
      (fun _ => by
        rw [Examples.surface_area_of_the_one_cell_mesh]
        exact one_ne_zero)
      (fun _ _ _ => ⟨rfl, fun cell hm _ => by
        have hc : cell.pressure_dof_index 0 = 1 := by
          simp only [Examples.normalization, List.mem_singleton] at hm
          rw [hm]
        rw [hc]
        exact Nat.le_refl 1⟩)⟩

/-! ## `make_pressure_rhs_compatible` makes the pressure right hand side sum to zero -/

/-- A summation loop over `0, ..., n-1` computes the sum. -/
theorem foldl_range_add {R : Type} [LinearOrderedField R] (f : ℕ → R) (n : ℕ) :
    (List.range n).foldl (fun sum k => sum + f k) 0 = ∑ k in Finset.range n, f k := by
  induction n with
  | zero => simp
  | succ n ih =>
    rw [List.range_succ, List.foldl_append, ih, Finset.sum_range_succ]
    rfl

/-- A summation loop over the positions of an index set computes the sum over
its elements. -/
theorem foldl_index_set_add {R : Type} [LinearOrderedField R] (s : IndexSet) (f : ℕ → R) :
    (List.range (IndexSet.n_elements s)).foldl
        (fun sum i => sum + f (IndexSet.nth_index_in_set s i)) 0
      = ∑ idx in s, f idx := by
  have hmap : (List.range (IndexSet.n_elements s)).map (IndexSet.nth_index_in_set s)
      = s.sort (· ≤ ·) := by
    apply List.ext_getElem
    · simp [IndexSet.n_elements]
    · intro i h1 h2
      simp [IndexSet.nth_index_in_set, List.getElem?_eq_getElem h2]
  have h1 : (List.range (IndexSet.n_elements s)).foldl
        (fun sum i => sum + f (IndexSet.nth_index_in_set s i)) 0
      = (s.sort (· ≤ ·)).foldl (fun sum idx => sum + f idx) 0 := by
    rw [← hmap, List.foldl_map]
  rw [h1]
  have h2 : ∀ (l : List ℕ) (a : R), l.foldl (fun sum idx => sum + f idx) a
      = a + (l.map f).sum := by
    intro l
    induction l with
    | nil => intro a; simp
    | cons b t ih => intro a; rw [List.foldl_cons, ih, List.map_cons, List.sum_cons, add_assoc]
  rw [h2, zero_add, ← List.sum_toFinset f (Finset.sort_nodup _ s), Finset.sort_toFinset]

/-- The entries after a loop over an index set that adds `g idx` to the entry
`idx`. -/
theorem index_set_loop_add {R : Type} [LinearOrderedField R] (g : ℕ → R) (s : IndexSet)
    (v : LinearAlgebra.BlockVector R) :
    ((List.range (IndexSet.n_elements s)).foldl
        (fun (vector : LinearAlgebra.BlockVector R) i =>
          vector.set (IndexSet.nth_index_in_set s i)
            (vector.values (IndexSet.nth_index_in_set s i)
              + g (IndexSet.nth_index_in_set s i))) v).block_sizes = v.block_sizes
    ∧ ∀ j, ((List.range (IndexSet.n_elements s)).foldl
        (fun (vector : LinearAlgebra.BlockVector R) i =>
          vector.set (IndexSet.nth_index_in_set s i)
            (vector.values (IndexSet.nth_index_in_set s i)
              + g (IndexSet.nth_index_in_set s i))) v).values j
      = if j ∈ s then v.values j + g j else v.values j := by
  have hmap : (List.range (IndexSet.n_elements s)).map (IndexSet.nth_index_in_set s)
      = s.sort (· ≤ ·) := by
    apply List.ext_getElem
    · simp [IndexSet.n_elements]
    · intro i h1 h2
      simp [IndexSet.nth_index_in_set, List.getElem?_eq_getElem h2]
  have h1 : (List.range (IndexSet.n_elements s)).foldl
        (fun (vector : LinearAlgebra.BlockVector R) i =>
          vector.set (IndexSet.nth_index_in_set s i)
            (vector.values (IndexSet.nth_index_in_set s i)
              + g (IndexSet.nth_index_in_set s i))) v
      = (s.sort (· ≤ ·)).foldl
          (fun (vector : LinearAlgebra.BlockVector R) idx =>
            vector.set idx (vector.values idx + g idx)) v := by
    rw [← hmap, List.foldl_map]
  rw [h1]
  have h2 : ∀ (l : List ℕ), l.Nodup → ∀ (v : LinearAlgebra.BlockVector R),
      (l.foldl (fun (vector : LinearAlgebra.BlockVector R) idx =>
          vector.set idx (vector.values idx + g idx)) v).block_sizes = v.block_sizes
      ∧ ∀ j, (l.foldl (fun (vector : LinearAlgebra.BlockVector R) idx =>
          vector.set idx (vector.values idx + g idx)) v).values j
        = if j ∈ l then v.values j + g j else v.values j := by
    intro l
    induction l with
    | nil => intro _ v; simp
    | cons a t ih =>
      intro hl v
      rw [List.nodup_cons] at hl
      rw [List.foldl_cons]
      refine ⟨(ih hl.2 _).1, fun j => ?_⟩
      rw [(ih hl.2 _).2 j]
      unfold LinearAlgebra.BlockVector.set
      by_cases hja : j = a
      · subst hja
        simp [hl.1]
      · by_cases hjt : j ∈ t
        · simp [hjt, hja, Function.update_noteq hja]
        · simp [hjt, hja, Function.update_noteq hja]
  refine ⟨(h2 _ (Finset.sort_nodup _ s) v).1, fun j => ?_⟩
  rw [(h2 _ (Finset.sort_nodup _ s) v).2 j]
  simp

/-- The entries after the loops of all processes over their index sets, which
have no index in common: `g idx` is added to the entries of the sets. -/
theorem index_sets_loop_add {R : Type} [LinearOrderedField R] (g : ℕ → R)
    (idxset : ℕ → IndexSet) (l : List ℕ) :
    l.Nodup →
    (∀ r1 ∈ l, ∀ r2 ∈ l, r1 ≠ r2 → Disjoint (idxset r1) (idxset r2)) →
    ∀ v : LinearAlgebra.BlockVector R,
      (l.foldl (fun vector rank =>
        (List.range (IndexSet.n_elements (idxset rank))).foldl
          (fun (vector : LinearAlgebra.BlockVector R) i =>
            vector.set (IndexSet.nth_index_in_set (idxset rank) i)
              (vector.values (IndexSet.nth_index_in_set (idxset rank) i)
                + g (IndexSet.nth_index_in_set (idxset rank) i))) vector) v).block_sizes
        = v.block_sizes
      ∧ ∀ j, (l.foldl (fun vector rank =>
        (List.range (IndexSet.n_elements (idxset rank))).foldl
          (fun (vector : LinearAlgebra.BlockVector R) i =>
            vector.set (IndexSet.nth_index_in_set (idxset rank) i)
              (vector.values (IndexSet.nth_index_in_set (idxset rank) i)
                + g (IndexSet.nth_index_in_set (idxset rank) i))) vector) v).values j
        = if ∃ r ∈ l, j ∈ idxset r then v.values j + g j else v.values j := by
  induction l with
  | nil => intro _ _ v; simp
  | cons r t ih =>
    intro hl hd v
    rw [List.nodup_cons] at hl
    rw [List.foldl_cons]
    have iht := ih hl.2
      (fun r1 h1 r2 h2 => hd r1 (List.mem_cons_of_mem _ h1) r2 (List.mem_cons_of_mem _ h2))
    have hr := index_set_loop_add g (idxset r) v
    refine ⟨((iht _).1).trans hr.1, fun j => ?_⟩
    rw [(iht _).2 j, hr.2 j]
    by_cases hjr : j ∈ idxset r
    · have hnot : ¬ ∃ r2 ∈ t, j ∈ idxset r2 := by
        rintro ⟨r2, h2, hj2⟩
        have hne : r ≠ r2 := fun h => hl.1 (h ▸ h2)
        exact Finset.disjoint_left.mp
          (hd r (List.mem_cons_self _ _) r2 (List.mem_cons_of_mem _ h2) hne) hjr hj2
      have hex : ∃ r2 ∈ r :: t, j ∈ idxset r2 := ⟨r, List.mem_cons_self _ _, hjr⟩
      rw [if_neg hnot, if_pos hjr, if_pos hex]
    · by_cases hex : ∃ r2 ∈ t, j ∈ idxset r2
      · have hex2 : ∃ r2 ∈ r :: t, j ∈ idxset r2 := by
          obtain ⟨r2, h2, hj2⟩ := hex
          exact ⟨r2, List.mem_cons_of_mem _ h2, hj2⟩
        rw [if_pos hex, if_neg hjr, if_pos hex2]
      · have hex2 : ¬ ∃ r2 ∈ r :: t, j ∈ idxset r2 := by
          rintro ⟨r2, h2, hj2⟩
          rcases List.mem_cons.mp h2 with h | h
          · exact hjr (h ▸ hj2)
          · exact hex ⟨r2, h, hj2⟩
        rw [if_neg hex, if_neg hjr, if_neg hex2]

/-- C22: `Simulator::make_pressure_rhs_compatible` of helper_functions.cc. With
`use_locally_conservative_discretization` set the call raises
(`ExcNotImplemented`). Otherwise it returns, in both branches the block sizes
and the entries outside the pressure degrees of freedom are unchanged, and
when `global_volume` is not 0 and the entries of
`pressure_shape_function_integrals` over the pressure degrees of freedom sum
to `global_volume`, the pressure entries of the vector sum to zero afterwards.
In the first branch (no melt transport, pressure in a block of its own) the
pressure degrees of freedom are the entries of the pressure block; in the
second branch they are the indices of the index sets of the processes (fluid
pressure with melt transport), which have no index in common. -/
theorem Simulator_make_pressure_rhs_compatible_zero_sum {R : Type} [LinearOrderedField R]
    (self : PressureCompatibility R) (vector : LinearAlgebra.BlockVector R) :
    (self.use_locally_conservative_discretization = true →
      Simulator.make_pressure_rhs_compatible self vector
        = Except.error (Exception.ExcMessage "ExcNotImplemented"))
    ∧ (self.use_locally_conservative_discretization = false →
      self.include_melt_transport = false →
      self.block_indices_velocities ≠ self.block_indices_pressure →
      ∃ result : LinearAlgebra.BlockVector R,
        Simulator.make_pressure_rhs_compatible self vector = Except.ok result
        ∧ result.block_sizes = vector.block_sizes
        ∧ (∀ i, ¬ (vector.block_start self.block_indices_pressure ≤ i
              ∧ i < vector.block_start self.block_indices_pressure
                  + vector.block_sizes.getD self.block_indices_pressure 0) →
            result.values i = vector.values i)
        ∧ (self.global_volume ≠ 0 →
            ∑ k in Finset.range (vector.block_sizes.getD self.block_indices_pressure 0),
              self.pressure_shape_function_integrals.values
                (self.pressure_shape_function_integrals.block_start
                  self.block_indices_pressure + k) = self.global_volume →
            ∑ k in Finset.range (vector.block_sizes.getD self.block_indices_pressure 0),
              result.values (vector.block_start self.block_indices_pressure + k) = 0))
    ∧ (self.use_locally_conservative_discretization = false →
      ¬ (self.include_melt_transport = false
          ∧ self.block_indices_velocities ≠ self.block_indices_pressure) →
      ∃ result : LinearAlgebra.BlockVector R,
        Simulator.make_pressure_rhs_compatible self vector = Except.ok result
        ∧ result.block_sizes = vector.block_sizes
        ∧ (∀ i, (∀ rank, rank < self.n_mpi_processes → i ∉ self.idxset rank) →
            result.values i = vector.values i)
        ∧ (self.global_volume ≠ 0 →
            (∀ r1 r2, r1 < self.n_mpi_processes → r2 < self.n_mpi_processes → r1 ≠ r2 →
              Disjoint (self.idxset r1) (self.idxset r2)) →
            ∑ rank in Finset.range self.n_mpi_processes, ∑ idx in self.idxset rank,
              self.pressure_shape_function_integrals.values idx = self.global_volume →
            ∑ rank in Finset.range self.n_mpi_processes, ∑ idx in self.idxset rank,
              result.values idx = 0)) := by
  refine ⟨fun hl => ?_, fun hl hm hb => ?_, fun hl hb => ?_⟩
  · unfold Simulator.make_pressure_rhs_compatible
    rw [if_pos hl]
  · have hl2 : ¬ (self.use_locally_conservative_discretization = true) := by
      rw [hl]; exact Bool.noConfusion
    unfold Simulator.make_pressure_rhs_compatible
    simp only [if_neg hl2, if_pos (And.intro hm hb)]
    refine ⟨_, rfl, rfl, fun i hi => ?_, fun hg hsum => ?_⟩
    · unfold LinearAlgebra.BlockVector.block_add_scaled
      simp only [if_neg hi]
    · unfold LinearAlgebra.BlockVector.block_add_scaled
        LinearAlgebra.BlockVector.block_mean_value
      simp only [foldl_range_add]
      have hsize : (vector.block_sizes.getD self.block_indices_pressure 0 : R) ≠ 0 := by
        intro h0
        have h0n : vector.block_sizes.getD self.block_indices_pressure 0 = 0 := by
          exact_mod_cast h0
        rw [h0n] at hsum
        simp at hsum
        exact hg hsum.symm
      have hin : ∀ k ∈ Finset.range (vector.block_sizes.getD self.block_indices_pressure 0),
          (if vector.block_start self.block_indices_pressure
                ≤ vector.block_start self.block_indices_pressure + k
              ∧ vector.block_start self.block_indices_pressure + k
                < vector.block_start self.block_indices_pressure
                  + vector.block_sizes.getD self.block_indices_pressure 0
            then vector.values (vector.block_start self.block_indices_pressure + k)
              + (0 - (∑ k in Finset.range (vector.block_sizes.getD
                        self.block_indices_pressure 0),
                      vector.values (vector.block_start self.block_indices_pressure + k))
                    / (vector.block_sizes.getD self.block_indices_pressure 0 : R)
                  * (vector.block_sizes.getD self.block_indices_pressure 0 : R))
                / self.global_volume
                * self.pressure_shape_function_integrals.values
                  (self.pressure_shape_function_integrals.block_start
                      self.block_indices_pressure
                    + (vector.block_start self.block_indices_pressure + k
                      - vector.block_start self.block_indices_pressure))
            else vector.values (vector.block_start self.block_indices_pressure + k))
          = vector.values (vector.block_start self.block_indices_pressure + k)
              + (0 - (∑ k in Finset.range (vector.block_sizes.getD
                        self.block_indices_pressure 0),
                      vector.values (vector.block_start self.block_indices_pressure + k)))
                / self.global_volume
                * self.pressure_shape_function_integrals.values
                  (self.pressure_shape_function_integrals.block_start
                      self.block_indices_pressure + k) := by
        intro k hk
        rw [Finset.mem_range] at hk
        rw [if_pos ⟨Nat.le_add_right _ _, Nat.add_lt_add_left hk _⟩, Nat.add_sub_cancel_left,
          div_mul_cancel₀ _ hsize]
      rw [Finset.sum_congr rfl hin, Finset.sum_add_distrib, ← Finset.mul_sum, hsum]
      field_simp
  · have hl2 : ¬ (self.use_locally_conservative_discretization = true) := by
      rw [hl]; exact Bool.noConfusion
    unfold Simulator.make_pressure_rhs_compatible
    simp only [if_neg hl2, if_neg hb]
    have hloop := index_sets_loop_add
      (fun idx => (0 - Utilities.MPI.sum_of_values self.n_mpi_processes
          (fun rank => (List.range (IndexSet.n_elements (self.idxset rank))).foldl
            (fun pressure_sum i =>
              pressure_sum + vector.values (IndexSet.nth_index_in_set (self.idxset rank) i)) 0))
            / self.global_volume * self.pressure_shape_function_integrals.values idx)
      self.idxset (List.range self.n_mpi_processes) (List.nodup_range _)
    have hsizes : ∀ (g : ℕ → R) (l : List ℕ) (v : LinearAlgebra.BlockVector R),
        (l.foldl (fun vector rank =>
          (List.range (IndexSet.n_elements (self.idxset rank))).foldl
            (fun (vector : LinearAlgebra.BlockVector R) i =>
              vector.set (IndexSet.nth_index_in_set (self.idxset rank) i)
                (vector.values (IndexSet.nth_index_in_set (self.idxset rank) i)
                  + g (IndexSet.nth_index_in_set (self.idxset rank) i))) vector) v).block_sizes
          = v.block_sizes := by
      intro g l
      induction l with
      | nil => intro v; rfl
      | cons r t ih =>
        intro v
        rw [List.foldl_cons, ih, (index_set_loop_add g (self.idxset r) v).1]
    have hvalues : ∀ (g : ℕ → R) (l : List ℕ) (v : LinearAlgebra.BlockVector R) (i : ℕ),
        (∀ rank ∈ l, i ∉ self.idxset rank) →
        (l.foldl (fun vector rank =>
          (List.range (IndexSet.n_elements (self.idxset rank))).foldl
            (fun (vector : LinearAlgebra.BlockVector R) i =>
              vector.set (IndexSet.nth_index_in_set (self.idxset rank) i)
                (vector.values (IndexSet.nth_index_in_set (self.idxset rank) i)
                  + g (IndexSet.nth_index_in_set (self.idxset rank) i))) vector) v).values i
          = v.values i := by
      intro g l
      induction l with
      | nil => intro v i _; rfl
      | cons r t ih =>
        intro v i hi
        rw [List.foldl_cons, ih _ i (fun rank hr => hi rank (List.mem_cons_of_mem _ hr)),
          (index_set_loop_add g (self.idxset r) v).2 i, if_neg (hi r (List.mem_cons_self _ _))]
    refine ⟨_, rfl, hsizes
      (fun idx => (0 - Utilities.MPI.sum_of_values self.n_mpi_processes
          (fun rank => (List.range (IndexSet.n_elements (self.idxset rank))).foldl
            (fun pressure_sum i =>
              pressure_sum + vector.values (IndexSet.nth_index_in_set (self.idxset rank) i)) 0))
            / self.global_volume * self.pressure_shape_function_integrals.values idx)
      _ _, fun i hi => ?_, fun hg hd hsum => ?_⟩
    · exact hvalues
        (fun idx => (0 - Utilities.MPI.sum_of_values self.n_mpi_processes
          (fun rank => (List.range (IndexSet.n_elements (self.idxset rank))).foldl
            (fun pressure_sum i =>
              pressure_sum + vector.values (IndexSet.nth_index_in_set (self.idxset rank) i)) 0))
            / self.global_volume * self.pressure_shape_function_integrals.values idx)
        _ _ i (fun rank hr => hi rank (List.mem_range.mp hr))
    · have hl := hloop
        (fun r1 h1 r2 h2 hne => hd r1 r2 (List.mem_range.mp h1) (List.mem_range.mp h2) hne)
        vector
      have hin : ∀ rank ∈ Finset.range self.n_mpi_processes, ∀ idx ∈ self.idxset rank,
          (List.foldl (fun w rank =>
            (List.range (IndexSet.n_elements (self.idxset rank))).foldl
              (fun (w : LinearAlgebra.BlockVector R) i =>
                w.set (IndexSet.nth_index_in_set (self.idxset rank) i)
                  (w.values (IndexSet.nth_index_in_set (self.idxset rank) i)
                    + (0 - Utilities.MPI.sum_of_values self.n_mpi_processes
                        (fun rank => (List.range (IndexSet.n_elements (self.idxset rank))).foldl
                          (fun pressure_sum i =>
                            pressure_sum
                              + vector.values (IndexSet.nth_index_in_set (self.idxset rank) i))
                          0))
                      / self.global_volume
                      * self.pressure_shape_function_integrals.values
                          (IndexSet.nth_index_in_set (self.idxset rank) i))) w)
            vector (List.range self.n_mpi_processes)).values idx
          = vector.values idx
            + (0 - ∑ rank in Finset.range self.n_mpi_processes, ∑ idx in self.idxset rank,
                vector.values idx) / self.global_volume
              * self.pressure_shape_function_integrals.values idx := by
        intro rank hr idx hidx
        have hex : ∃ r ∈ List.range self.n_mpi_processes, idx ∈ self.idxset r :=
          ⟨rank, List.mem_range.mpr (Finset.mem_range.mp hr), hidx⟩
        have h := hl.2 idx
        rw [if_pos hex] at h
        beta_reduce at h
        rw [h]
        unfold Utilities.MPI.sum_of_values
        rw [foldl_range_add]
        simp only [foldl_index_set_add]
      refine (Finset.sum_congr rfl
        (fun rank hr => Finset.sum_congr rfl (hin rank hr))).trans ?_
      simp only [Finset.sum_add_distrib, ← Finset.mul_sum]
      rw [hsum]
      field_simp

/-- Witness of C22: on one process, with the pressure in block 1, the integral 2
of the one pressure shape function and `global_volume = 2`, the vector with the
velocity entry 5 and the pressure entry 3 gets the pressure entry 0 and keeps
the velocity entry. -/
theorem Simulator_make_pressure_rhs_compatible_zero_sum_witness :
    ∃ result : LinearAlgebra.BlockVector ℚ,
      Simulator.make_pressure_rhs_compatible Examples.compatibility Examples.full_vector
        = Except.ok result
      ∧ result.values 0 = 5 ∧ result.values 1 = 0 := by
  obtain ⟨result, h1, _, h3, h4⟩ :=
    (Simulator_make_pressure_rhs_compatible_zero_sum Examples.compatibility
      Examples.full_vector).2.1 rfl rfl (by decide)
  refine ⟨result, h1, ?_, ?_⟩
  · rw [h3 0 (by decide)]
    rfl
  · have h := h4 (by norm_num [Examples.compatibility])
      (by simp [Examples.compatibility, Examples.full_vector,
        LinearAlgebra.BlockVector.block_start])
    simpa [Examples.compatibility, Examples.full_vector,
      LinearAlgebra.BlockVector.block_start] using h

/-! ## The mesh refinement criteria -/

/-- A loop over the cells with their indices, in which the cell with index `i`
replaces the entry `i` by its image under `F cell`: the entries of the cells
are replaced, the others stay. -/
theorem enum_loop_apply {R : Type} {α : Type} (F : α → R → R) (l : List α) :
    ∀ (k : ℕ) (ind : ℕ → R) (m : ℕ),
      ((l.enumFrom k).foldl
          (fun ind (p : ℕ × α) => Function.update ind p.1 (F p.2 (ind p.1))) ind) m
        = if k ≤ m then
            (match l[m - k]? with
              | some a => F a (ind m)
              | none => ind m)
          else ind m := by
  induction l with
  | nil =>
    intro k ind m
    simp
  | cons a t ih =>
    intro k ind m
    rw [List.enumFrom_cons, List.foldl_cons, ih]
    by_cases hkm : k ≤ m
    · rw [if_pos hkm]
      by_cases hm : m = k
      · subst hm
        simp
      · have h1 : k + 1 ≤ m := by omega
        have h2 : m - k = (m - (k + 1)) + 1 := by omega
        rw [if_pos h1, h2, List.getElem?_cons_succ]
        simp only [Function.update_noteq hm]
    · have h1 : ¬ (k + 1 ≤ m) := by omega
      have hm : m ≠ k := by omega
      rw [if_neg hkm, if_neg h1]
      simp only [Function.update_noteq hm]

/-- A loop over the fields of loops over the cells in which every cell
replaces its own entry: the entry of a cell goes through the steps of that
cell for all fields, the entries behind the last cell stay. -/
theorem fields_loop_apply {R : Type} {α : Type} (F : ℕ → α → R → R) (l : List α)
    (fields : List ℕ) :
    ∀ (ind : ℕ → R) (m : ℕ),
      (fields.foldl
          (fun ind c =>
            l.enum.foldl
              (fun ind (p : ℕ × α) => Function.update ind p.1 (F c p.2 (ind p.1))) ind)
          ind) m
        = (l[m]?).elim (ind m) (fun a => fields.foldl (fun x c => F c a x) (ind m)) := by
  induction fields with
  | nil =>
    intro ind m
    cases l[m]? <;> rfl
  | cons c t ih =>
    intro ind m
    rw [List.foldl_cons, ih]
    unfold List.enum
    rw [enum_loop_apply (F c) l 0 ind m]
    simp only [Nat.zero_le, if_true, Nat.sub_zero]
    cases l[m]? <;> rfl

/-- A loop that adds `g j` to the entry `i` for `j = 0, ..., n-1`. -/
theorem foldl_update_add {R : Type} [LinearOrderedField R] (g : ℕ → R) (i : ℕ) (n : ℕ)
    (ind : ℕ → R) :
    (List.range n).foldl (fun ind j => Function.update ind i (ind i + g j)) ind
      = Function.update ind i (ind i + ∑ j in Finset.range n, g j) := by
  induction n with
  | zero => simp
  | succ n ih =>
    rw [List.range_succ, List.foldl_append, ih, Finset.sum_range_succ]
    simp [add_assoc]

/-- The indicators after `CompositionGradient::execute`: the entry of a locally
owned cell goes, for every field in turn, through the addition of that field's
scaled gradient norms and then the multiplication with the power of the
diameter; all other entries are 0. -/
theorem CompositionGradient_execute_spec {R : Type} [LinearOrderedField R] {dim : ℕ}
    (sqrt : R → R) (pow : R → R → R) (self : MeshRefinement.CompositionGradient R dim)
    (indicators : ℕ → R) (h : self.n_compositional_fields ≥ 1) :
    MeshRefinement.CompositionGradient.execute sqrt pow self indicators
      = Except.ok (fun i =>
          (self.cells[i]?).elim 0 (fun cell =>
            (List.range self.n_compositional_fields).foldl
              (fun x c =>
                if cell.is_locally_owned = true then
                  (x + ∑ j in Finset.range self.dofs_per_cell,
                      Vector.l2_norm sqrt (cell.composition_gradients c j)
                        * self.composition_scaling_factors c)
                    * pow cell.diameter (1 + (dim : R) / 2)
                else x)
              0)) := by
  unfold MeshRefinement.CompositionGradient.execute
  have hn : ¬ ¬ (self.n_compositional_fields ≥ 1) := fun h1 => h1 h
  simp only [if_neg hn]
  congr 1
  funext m
  have hstep : ∀ c : ℕ,
      (fun (indicators : ℕ → R) (cell : ℕ × MeshRefinement.ActiveCell R dim) =>
        if cell.2.is_locally_owned = true then
          Function.update
            ((List.range self.dofs_per_cell).foldl
              (fun indicators j =>
                Function.update indicators cell.1
                  (indicators cell.1
                    + Vector.l2_norm sqrt (cell.2.composition_gradients c j)
                      * self.composition_scaling_factors c))
              indicators)
            cell.1
            (((List.range self.dofs_per_cell).foldl
              (fun indicators j =>
                Function.update indicators cell.1
                  (indicators cell.1
                    + Vector.l2_norm sqrt (cell.2.composition_gradients c j)
                      * self.composition_scaling_factors c))
              indicators) cell.1 * pow cell.2.diameter (1 + (dim : R) / 2))
        else indicators)
      = (fun (ind : ℕ → R) (p : ℕ × MeshRefinement.ActiveCell R dim) =>
          Function.update ind p.1
            ((fun c (cell : MeshRefinement.ActiveCell R dim) x =>
              if cell.is_locally_owned = true then
                (x + ∑ j in Finset.range self.dofs_per_cell,
                    Vector.l2_norm sqrt (cell.composition_gradients c j)
                      * self.composition_scaling_factors c)
                  * pow cell.diameter (1 + (dim : R) / 2)
              else x) c p.2 (ind p.1))) := by
    intro c
    funext ind p
    by_cases ho : p.2.is_locally_owned = true
    · simp only [if_pos ho]
      rw [foldl_update_add (fun j => Vector.l2_norm sqrt (p.2.composition_gradients c j)
          * self.composition_scaling_factors c) p.1 self.dofs_per_cell ind]
      simp
    · simp only [if_neg ho]
      simp
  simp only [hstep]
  exact fields_loop_apply
    (fun c (cell : MeshRefinement.ActiveCell R dim) x =>
      if cell.is_locally_owned = true then
        (x + ∑ j in Finset.range self.dofs_per_cell,
            Vector.l2_norm sqrt (cell.composition_gradients c j)
              * self.composition_scaling_factors c)
          * pow cell.diameter (1 + (dim : R) / 2)
      else x)
    self.cells (List.range self.n_compositional_fields) (fun _ => 0) m

namespace Examples

/-- The exponent `1 + dim/2` for `dim = 2` is 2. -/
theorem pow_exponent_two (x : ℚ) : pow x (1 + ((2 : ℕ) : ℚ) / 2) = x * x := by
  have h : (1 + ((2 : ℕ) : ℚ) / 2) = ((2 : ℤ) : ℚ) := by norm_num
  unfold pow
  rw [h, Int.floor_intCast]
  simp [pow_two]

/-- The power with the exponent 2. -/
theorem pow_exponent (x : ℚ) : pow x 2 = x * x := by
  have h := pow_exponent_two x
  norm_num at h
  exact h

/-- The norm of the gradient `(1, 0)` is 1. -/
theorem gradient_norm_one : Vector.l2_norm lib.sqrt (![1, 0] : Vector ℚ 2) = 1 := by
  unfold Vector.l2_norm Vector.norm_sqr
  rw [Fin.sum_univ_two]
  simp [sqrt_one]

end Examples

/-- C23: `CompositionGradient::execute` of composition_gradient.cc multiplies
the accumulated indicator of a cell with the power of the diameter once for
every field, so that the contributions of earlier fields are scaled again: for
two fields the indicator of a locally owned cell is
`(h^p * s_0 * G_0) * h^p + h^p * s_1 * G_1`, with `p = 1 + dim/2` and `G_c` the
sum of the gradient norms of field `c`. On the mesh with one cell of diameter
2, `dim = 2`, gradient norms 1 and scaling factors 1 the indicator is 20,
whereas the sum of the indicators of the two fields is 4 + 4 = 8. -/
theorem CompositionGradient_execute_rescales_earlier_fields :
    (∀ (R : Type) [LinearOrderedField R] (dim : ℕ) (sqrt : R → R) (pow : R → R → R)
        (self : MeshRefinement.CompositionGradient R dim) (indicators : ℕ → R)
        (i : ℕ) (cell : MeshRefinement.ActiveCell R dim),
      self.n_compositional_fields = 2 → self.cells[i]? = some cell →
      cell.is_locally_owned = true →
      ∃ result : ℕ → R,
        MeshRefinement.CompositionGradient.execute sqrt pow self indicators = Except.ok result
        ∧ result i
          = (pow cell.diameter (1 + (dim : R) / 2) * self.composition_scaling_factors 0
              * ∑ j in Finset.range self.dofs_per_cell,
                  Vector.l2_norm sqrt (cell.composition_gradients 0 j))
              * pow cell.diameter (1 + (dim : R) / 2)
            + pow cell.diameter (1 + (dim : R) / 2) * self.composition_scaling_factors 1
              * ∑ j in Finset.range self.dofs_per_cell,
                  Vector.l2_norm sqrt (cell.composition_gradients 1 j))
    ∧ (∃ result : ℕ → ℚ,
        MeshRefinement.CompositionGradient.execute Examples.lib.sqrt Examples.pow
            Examples.two_fields (fun _ => 0) = Except.ok result
        ∧ result 0 = 20)
    ∧ (∑ c in Finset.range 2,
        Examples.pow 2 (1 + ((2 : ℕ) : ℚ) / 2) * Examples.two_fields.composition_scaling_factors c
          * ∑ _j in Finset.range 1,
              Vector.l2_norm Examples.lib.sqrt ((![1, 0] : Vector ℚ 2))) = 8 := by
  have hr2 : List.range 2 = [0, 1] := rfl
  refine ⟨?_, ?_, ?_⟩
  · intro R _ dim sqrt pow self indicators i cell hn hc ho
    refine ⟨_, CompositionGradient_execute_spec sqrt pow self indicators (by omega), ?_⟩
    simp only [hc, Option.elim, hn, hr2, List.foldl_cons, List.foldl_nil, if_pos ho,
      ← Finset.sum_mul]
    ring
  · refine ⟨_, CompositionGradient_execute_spec Examples.lib.sqrt Examples.pow
      Examples.two_fields (fun _ => 0) (by decide), ?_⟩
    simp [Examples.two_fields, hr2, Examples.gradient_norm_one]
    rw [show (1 + 1 : ℚ) = 2 by norm_num, Examples.pow_exponent]
    norm_num
  · simp [Examples.two_fields, Examples.gradient_norm_one, Finset.sum_range_succ]
    rw [show (1 + 1 : ℚ) = 2 by norm_num, Examples.pow_exponent]
    norm_num

/-- A loop that sets the entry `i` to 1 whenever the condition of the step
holds. -/
theorem foldl_update_mark {R : Type} [LinearOrderedField R] (P : ℕ → Prop) [DecidablePred P]
    (i : ℕ) (n : ℕ) (ind : ℕ → R) :
    (List.range n).foldl (fun ind j => if P j then Function.update ind i 1 else ind) ind
      = Function.update ind i
          ((List.range n).foldl (fun x j => if P j then 1 else x) (ind i)) := by
  induction n with
  | zero => simp
  | succ n ih =>
    rw [List.range_succ, List.foldl_append, List.foldl_append, ih]
    simp only [List.foldl_cons, List.foldl_nil]
    by_cases hp : P n
    · simp [if_pos hp]
    · simp [if_neg hp]

/-- A loop whose steps replace a number by 1 when the condition of the step
holds, and leave it as it is when not, ends with 1 if the condition holds in
some step, and with the start value if it holds in none. -/
theorem foldl_mark_steps {R : Type} [LinearOrderedField R] (Q : ℕ → Prop) (G : ℕ → R → R)
    (hG : ∀ c x, (Q c → G c x = 1) ∧ (¬ Q c → G c x = x)) (l : List ℕ) :
    ∀ x : R, ((∃ c ∈ l, Q c) → l.foldl (fun x c => G c x) x = 1)
      ∧ ((¬ ∃ c ∈ l, Q c) → l.foldl (fun x c => G c x) x = x) := by
  induction l with
  | nil =>
    intro x
    simp
  | cons a t ih =>
    intro x
    rw [List.foldl_cons]
    by_cases hp : Q a
    · rw [(hG a x).1 hp]
      refine ⟨fun _ => ?_, fun h => absurd ⟨a, List.mem_cons_self _ _, hp⟩ h⟩
      by_cases ht : ∃ j ∈ t, Q j
      · exact (ih 1).1 ht
      · exact (ih 1).2 ht
    · rw [(hG a x).2 hp]
      refine ⟨fun h => (ih x).1 ?_, fun h => (ih x).2 ?_⟩
      · obtain ⟨j, hj, hpj⟩ := h
        rcases List.mem_cons.mp hj with h1 | h1
        · exact absurd (h1 ▸ hpj) hp
        · exact ⟨j, h1, hpj⟩
      · rintro ⟨j, hj, hpj⟩
        exact h ⟨j, List.mem_cons_of_mem _ hj, hpj⟩

/-- The indicators after `CompositionThreshold::execute`: the entry of a cell
goes, for every field in turn, through the marking loop over the support
points if the cell is locally owned; all other entries are 0. -/
theorem CompositionThreshold_execute_spec {R : Type} [LinearOrderedField R] {dim : ℕ}
    (self : MeshRefinement.CompositionThreshold R dim) (indicators : ℕ → R)
    (h : self.n_compositional_fields ≥ 1) :
    MeshRefinement.CompositionThreshold.execute self indicators
      = Except.ok (fun i =>
          (self.cells[i]?).elim 0 (fun cell =>
            (List.range self.n_compositional_fields).foldl
              (fun x c =>
                if cell.is_locally_owned = true then
                  (List.range self.dofs_per_cell).foldl
                    (fun x j =>
                      if cell.composition_values c j > self.composition_thresholds c
                      then 1 else x) x
                else x)
              0)) := by
  unfold MeshRefinement.CompositionThreshold.execute
  have hn : ¬ ¬ (self.n_compositional_fields ≥ 1) := fun h1 => h1 h
  simp only [if_neg hn]
  congr 1
  funext m
  have hstep : ∀ c : ℕ,
      (fun (indicators : ℕ → R) (cell : ℕ × MeshRefinement.ActiveCell R dim) =>
        if cell.2.is_locally_owned = true then
          (List.range self.dofs_per_cell).foldl
            (fun indicators j =>
              if cell.2.composition_values c j > self.composition_thresholds c then
                Function.update indicators cell.1 1
              else indicators)
            indicators
        else indicators)
      = (fun (ind : ℕ → R) (p : ℕ × MeshRefinement.ActiveCell R dim) =>
          Function.update ind p.1
            ((fun c (cell : MeshRefinement.ActiveCell R dim) x =>
              if cell.is_locally_owned = true then
                (List.range self.dofs_per_cell).foldl
                  (fun x j =>
                    if cell.composition_values c j > self.composition_thresholds c
                    then 1 else x) x
              else x) c p.2 (ind p.1))) := by
    intro c
    funext ind p
    by_cases ho : p.2.is_locally_owned = true
    · simp only [if_pos ho]
      exact foldl_update_mark
        (fun j => p.2.composition_values c j > self.composition_thresholds c) p.1
        self.dofs_per_cell ind
    · simp only [if_neg ho]
      simp
  simp only [hstep]
  exact fields_loop_apply
    (fun c (cell : MeshRefinement.ActiveCell R dim) x =>
      if cell.is_locally_owned = true then
        (List.range self.dofs_per_cell).foldl
          (fun x j =>
            if cell.composition_values c j > self.composition_thresholds c
            then 1 else x) x
      else x)
    self.cells (List.range self.n_compositional_fields) (fun _ => 0) m

/-- C24: `CompositionThreshold::execute` of composition_threshold.cc. Without
compositional fields the call raises. Otherwise it returns, and afterwards the
indicator of a locally owned cell is 1 if for some compositional field `c` and
some support point `j` of the cell the value of the field is greater than
`composition_thresholds[c]`, and 0 if not; the indicator of a cell that is not
locally owned is 0; and every indicator is 0 or 1. -/
theorem CompositionThreshold_execute_marks_cells {R : Type} [LinearOrderedField R] {dim : ℕ}
    (self : MeshRefinement.CompositionThreshold R dim) (indicators : ℕ → R) :
    (self.n_compositional_fields = 0 →
      MeshRefinement.CompositionThreshold.execute self indicators
        = Except.error (Exception.ExcMessage
            "This refinement criterion can not be used when no compositional fields are active!"))
    ∧ (self.n_compositional_fields ≥ 1 →
      ∃ result : ℕ → R,
        MeshRefinement.CompositionThreshold.execute self indicators = Except.ok result
        ∧ (∀ i cell, self.cells[i]? = some cell → cell.is_locally_owned = true →
            ((∃ c j, c < self.n_compositional_fields ∧ j < self.dofs_per_cell
                ∧ cell.composition_values c j > self.composition_thresholds c) →
              result i = 1)
            ∧ ((¬ ∃ c j, c < self.n_compositional_fields ∧ j < self.dofs_per_cell
                ∧ cell.composition_values c j > self.composition_thresholds c) →
              result i = 0))
        ∧ (∀ i cell, self.cells[i]? = some cell → cell.is_locally_owned = false →
            result i = 0)
        ∧ ∀ i, result i = 0 ∨ result i = 1) := by
  refine ⟨fun h0 => ?_, fun h1 => ?_⟩
  · unfold MeshRefinement.CompositionThreshold.execute
    have hn : ¬ (self.n_compositional_fields ≥ 1) := by omega
    rw [if_pos hn]
    rfl
  · refine ⟨_, CompositionThreshold_execute_spec self indicators h1, ?_, ?_, ?_⟩
    · intro i cell hc ho
      simp only [hc, Option.elim, if_pos ho]
      have hmark : ∀ (c : ℕ) (x : R),
          ((∃ j ∈ List.range self.dofs_per_cell,
              cell.composition_values c j > self.composition_thresholds c) →
            (List.range self.dofs_per_cell).foldl
              (fun x j =>
                if cell.composition_values c j > self.composition_thresholds c
                then 1 else x) x = 1)
          ∧ ((¬ ∃ j ∈ List.range self.dofs_per_cell,
              cell.composition_values c j > self.composition_thresholds c) →
            (List.range self.dofs_per_cell).foldl
              (fun x j =>
                if cell.composition_values c j > self.composition_thresholds c
                then 1 else x) x = x) :=
        fun c x => foldl_mark_steps
          (fun j => cell.composition_values c j > self.composition_thresholds c)
          (fun j x => if cell.composition_values c j > self.composition_thresholds c
            then 1 else x)
          (fun j x => ⟨fun hq => if_pos hq, fun hq => if_neg hq⟩)
          (List.range self.dofs_per_cell) x
      have hfields := foldl_mark_steps
        (fun c => ∃ j ∈ List.range self.dofs_per_cell,
          cell.composition_values c j > self.composition_thresholds c)
        (fun c x => (List.range self.dofs_per_cell).foldl
          (fun x j =>
            if cell.composition_values c j > self.composition_thresholds c
            then 1 else x) x)
        hmark (List.range self.n_compositional_fields) 0
      refine ⟨fun hex => hfields.1 ?_, fun hex => hfields.2 ?_⟩
      · obtain ⟨c, j, hc1, hj1, hv⟩ := hex
        exact ⟨c, List.mem_range.mpr hc1, j, List.mem_range.mpr hj1, hv⟩
      · rintro ⟨c, hc1, j, hj1, hv⟩
        exact hex ⟨c, j, List.mem_range.mp hc1, List.mem_range.mp hj1, hv⟩
    · intro i cell hc ho
      have ho2 : ¬ (cell.is_locally_owned = true) := by
        rw [ho]; exact Bool.noConfusion
      simp only [hc, Option.elim, if_neg ho2]
      exact foldl_fixed _ _ _ (fun _ => rfl)
    · intro i
      cases hc : self.cells[i]? with
      | none =>
        left
        simp only [Option.elim]
      | some cell =>
        simp only [Option.elim]
        by_cases ho : cell.is_locally_owned = true
        · simp only [if_pos ho]
          have hmark : ∀ (c : ℕ) (x : R),
              ((∃ j ∈ List.range self.dofs_per_cell,
                  cell.composition_values c j > self.composition_thresholds c) →
                (List.range self.dofs_per_cell).foldl
                  (fun x j =>
                    if cell.composition_values c j > self.composition_thresholds c
                    then 1 else x) x = 1)
              ∧ ((¬ ∃ j ∈ List.range self.dofs_per_cell,
                  cell.composition_values c j > self.composition_thresholds c) →
                (List.range self.dofs_per_cell).foldl
                  (fun x j =>
                    if cell.composition_values c j > self.composition_thresholds c
                    then 1 else x) x = x) :=
            fun c x => foldl_mark_steps
              (fun j => cell.composition_values c j > self.composition_thresholds c)
              (fun j x => if cell.composition_values c j > self.composition_thresholds c
                then 1 else x)
              (fun j x => ⟨fun hq => if_pos hq, fun hq => if_neg hq⟩)
              (List.range self.dofs_per_cell) x
          have hfields := foldl_mark_steps
            (fun c => ∃ j ∈ List.range self.dofs_per_cell,
              cell.composition_values c j > self.composition_thresholds c)
            (fun c x => (List.range self.dofs_per_cell).foldl
              (fun x j =>
                if cell.composition_values c j > self.composition_thresholds c
                then 1 else x) x)
            hmark (List.range self.n_compositional_fields) 0
          by_cases hex : ∃ c ∈ List.range self.n_compositional_fields,
              ∃ j ∈ List.range self.dofs_per_cell,
                cell.composition_values c j > self.composition_thresholds c
          · exact Or.inr (hfields.1 hex)
          · exact Or.inl (hfields.2 hex)
        · simp only [if_neg ho]
          exact Or.inl (foldl_fixed _ _ _ (fun _ => rfl))

/-- Witness of C24: two fields with the thresholds 1/2 on a mesh with two
cells; the locally owned cell, on which the second field has the value 1, gets
the indicator 1, and the cell of another process, on which both fields have the
value 1, keeps the indicator 0. -/
theorem CompositionThreshold_execute_marks_cells_witness :
    ∃ result : ℕ → ℚ,
      MeshRefinement.CompositionThreshold.execute Examples.two_thresholds (fun _ => 0)
        = Except.ok result
      ∧ result 0 = 1 ∧ result 1 = 0 := by
  obtain ⟨result, h1, h2, h3, _⟩ :=
    (CompositionThreshold_execute_marks_cells Examples.two_thresholds (fun _ => 0)).2
      (by decide)
  refine ⟨result, h1, ?_, ?_⟩
  · exact (h2 0 _ rfl rfl).1 ⟨1, 0, by decide, by decide, by
      simp [Examples.two_thresholds]
      norm_num⟩
  · exact h3 1 _ rfl rfl

/-! ## The iteration counters of `BlockSchurPreconditioner` -/

namespace internal

/-- The inner solves of `vmult` do not read the counters. -/
theorem solves_counters {R : Type} [LinearOrderedField R] {nu np : ℕ}
    (lib : Library R) (self : BlockSchurPreconditioner R nu np) (a s : ℕ) (dst src : BlockVector R nu np) :
    BlockSchurPreconditioner.S_solve lib { self with n_iterations_A_ := a, n_iterations_S_ := s } src
        = self.S_solve lib src
    ∧ BlockSchurPreconditioner.A_solve lib { self with n_iterations_A_ := a, n_iterations_S_ := s } dst src
        = self.A_solve lib dst src := by
  refine ⟨rfl, ?_⟩
  by_cases hgt : Vector.l2_norm lib.sqrt src.block1 > 1e-50
  · cases hS : (self.S_solve lib src).exc with
    | none =>
      have hS1 := hS
      unfold BlockSchurPreconditioner.S_solve BlockSchurPreconditioner.S_solve_control at hS1
      unfold BlockSchurPreconditioner.A_solve BlockSchurPreconditioner.A_solve_control BlockSchurPreconditioner.utmp
      rw [pressure_step_of_gt lib self dst src hgt hS1,
        pressure_step_of_gt lib { self with n_iterations_A_ := a, n_iterations_S_ := s }
          dst src hgt hS1]
      rfl
    | some exc =>
      have hS1 := hS
      unfold BlockSchurPreconditioner.S_solve BlockSchurPreconditioner.S_solve_control at hS1
      unfold BlockSchurPreconditioner.A_solve BlockSchurPreconditioner.A_solve_control BlockSchurPreconditioner.utmp BlockSchurPreconditioner.pressure_step
      simp only [if_pos hgt, hS1]
      split
      · split <;> rfl
      · rfl
  · unfold BlockSchurPreconditioner.A_solve BlockSchurPreconditioner.A_solve_control BlockSchurPreconditioner.utmp
    rw [pressure_step_of_le lib self dst src (not_lt.mp hgt),
      pressure_step_of_le lib { self with n_iterations_A_ := a, n_iterations_S_ := s }
        dst src (not_lt.mp hgt)]
    rfl

/-- The first block of `vmult` does not decrease the counter of S. -/
theorem pressure_step_counter_le {R : Type} [LinearOrderedField R] {nu np : ℕ}
    (lib : Library R) (self : BlockSchurPreconditioner R nu np) (dst src : BlockVector R nu np) :
    self.n_iterations_S_ ≤ (self.pressure_step lib dst src).precond.n_iterations_S_ := by
  by_cases hgt : Vector.l2_norm lib.sqrt src.block1 > 1e-50
  · cases hS : (self.S_solve lib src).exc with
    | none =>
      have hS1 := hS
      unfold BlockSchurPreconditioner.S_solve BlockSchurPreconditioner.S_solve_control at hS1
      rw [pressure_step_of_gt lib self dst src hgt hS1]
      exact Nat.le_add_right _ _
    | some exc =>
      rw [(pressure_step_of_failed lib self dst src hgt exc hS).2]
  · rw [pressure_step_of_le lib self dst src (not_lt.mp hgt)]

/-- The third block of `vmult` changes nothing of the object but the counter
of A, which does not decrease. -/
theorem velocity_step_precond {R : Type} [LinearOrderedField R] {nu np : ℕ}
    (lib : Library R) (self : BlockSchurPreconditioner R nu np) (calls : List (Call R nu np))
    (dst : BlockVector R nu np) (utmp : Vector R nu) :
    ∃ a : ℕ, (self.velocity_step lib calls dst utmp).precond
        = { self with n_iterations_A_ := a }
      ∧ self.n_iterations_A_ ≤ a := by
  by_cases hd : self.do_solve_A = true
  · have hv := (velocity_step_of_solve lib self calls dst utmp hd).2.2
    split at hv
    · exact ⟨_, hv.2, Nat.le_add_right _ _⟩
    · exact ⟨self.n_iterations_A_, hv.2, Nat.le_refl _⟩
  · have hd2 : self.do_solve_A = false := by
      cases hx : self.do_solve_A
      · rfl
      · exact absurd hx hd
    rw [velocity_step_of_not_solve lib self calls dst utmp hd2]
    exact ⟨_, rfl, Nat.le_add_right _ _⟩

/-- A call of `vmult` changes nothing of the object but the two counters, and
the counters do not decrease. -/
theorem vmult_precond {R : Type} [LinearOrderedField R] {nu np : ℕ}
    (lib : Library R) (self : BlockSchurPreconditioner R nu np) (dst src : BlockVector R nu np) :
    ∃ a s : ℕ, (self.vmult lib dst src).precond
        = { self with n_iterations_A_ := a, n_iterations_S_ := s }
      ∧ self.n_iterations_A_ ≤ a ∧ self.n_iterations_S_ ≤ s := by
  have hP := pressure_step_precond lib self dst src
  have hle := pressure_step_counter_le lib self dst src
  by_cases hp : (self.pressure_step lib dst src).raised = none
  · rw [vmult_of_pressure_ok lib self dst src hp]
    obtain ⟨a, ha, hale⟩ := velocity_step_precond lib (self.pressure_step lib dst src).precond
      (self.pressure_step lib dst src).calls (self.pressure_step lib dst src).dst
      ((self.pressure_step lib dst src).precond.top_right_step
        (self.pressure_step lib dst src).dst src)
    refine ⟨a, (self.pressure_step lib dst src).precond.n_iterations_S_, ?_, ?_, hle⟩
    · rw [ha, hP]
    · have h1 : (self.pressure_step lib dst src).precond.n_iterations_A_
          = self.n_iterations_A_ := by
        rw [hP]
      rw [← h1]
      exact hale
  · rw [vmult_of_pressure_raised lib self dst src hp]
    exact ⟨self.n_iterations_A_, (self.pressure_step lib dst src).precond.n_iterations_S_,
      hP, Nat.le_refl _, hle⟩

/-- The counters after a call of `vmult` that has returned. -/
theorem vmult_counters_of_returned {R : Type} [LinearOrderedField R] {nu np : ℕ}
    (lib : Library R) (self : BlockSchurPreconditioner R nu np) (dst src : BlockVector R nu np)
    (h : (self.vmult lib dst src).raised = none) :
    (self.vmult lib dst src).precond.n_iterations_S_
        = self.n_iterations_S_
          + (if Vector.l2_norm lib.sqrt src.block1 > 1e-50
              then (self.S_solve lib src).last_step else 0)
    ∧ (self.vmult lib dst src).precond.n_iterations_A_
        = self.n_iterations_A_
          + (if self.do_solve_A = true then (self.A_solve lib dst src).last_step else 1) := by
  have hp : (self.pressure_step lib dst src).raised = none := by
    by_contra hne
    rw [vmult_of_pressure_raised lib self dst src hne] at h
    exact hne h
  have hP := pressure_step_precond lib self dst src
  have hA0 : (self.pressure_step lib dst src).precond.n_iterations_A_
      = self.n_iterations_A_ := by
    rw [hP]
  have hd0 : (self.pressure_step lib dst src).precond.do_solve_A = self.do_solve_A := by
    rw [hP]
  constructor
  · rw [vmult_n_iterations_S]
    by_cases hgt : Vector.l2_norm lib.sqrt src.block1 > 1e-50
    · have hS : (self.S_solve lib src).exc = none := by
        by_contra hx
        exact (pressure_step_returns_iff lib self dst src).mp hp ⟨hgt, hx⟩
      have hS1 := hS
      unfold BlockSchurPreconditioner.S_solve BlockSchurPreconditioner.S_solve_control at hS1
      rw [pressure_step_of_gt lib self dst src hgt hS1, if_pos hgt]
      rfl
    · rw [pressure_step_of_le lib self dst src (not_lt.mp hgt), if_neg hgt]
      rfl
  · rw [vmult_of_pressure_ok lib self dst src hp] at h ⊢
    by_cases hd : self.do_solve_A = true
    · have hv := (velocity_step_of_solve lib (self.pressure_step lib dst src).precond
        (self.pressure_step lib dst src).calls (self.pressure_step lib dst src).dst
        ((self.pressure_step lib dst src).precond.top_right_step
          (self.pressure_step lib dst src).dst src) (hd0.trans hd)).2.2
      split at hv
      · rw [hv.2, if_pos hd, ← hA0]
        rfl
      · exact absurd h hv.1
    · have hd2 : (self.pressure_step lib dst src).precond.do_solve_A = false := by
        rw [hd0]
        cases hx : self.do_solve_A
        · rfl
        · exact absurd hx hd
      rw [velocity_step_of_not_solve lib _ _ _ _ hd2, if_neg hd, ← hA0]

/-- The inner solves of `vmult` do not read the counters. -/
theorem mf_solves_counters {R : Type} [LinearOrderedField R] {nu np : ℕ}
    (lib : Library R) (self : MatrixFree.BlockSchurPreconditioner R nu np) (a s : ℕ) (dst src : BlockVector R nu np) :
    MatrixFree.BlockSchurPreconditioner.S_solve lib { self with n_iterations_A_ := a, n_iterations_S_ := s } src
        = self.S_solve lib src
    ∧ MatrixFree.BlockSchurPreconditioner.A_solve lib { self with n_iterations_A_ := a, n_iterations_S_ := s } dst src
        = self.A_solve lib dst src := by
  refine ⟨rfl, ?_⟩
  by_cases hgt : Vector.l2_norm lib.sqrt src.block1 > 1e-50
  · cases hS : (self.S_solve lib src).exc with
    | none =>
      have hS1 := hS
      unfold MatrixFree.BlockSchurPreconditioner.S_solve MatrixFree.BlockSchurPreconditioner.S_solve_control at hS1
      unfold MatrixFree.BlockSchurPreconditioner.A_solve MatrixFree.BlockSchurPreconditioner.A_solve_control MatrixFree.BlockSchurPreconditioner.utmp
      rw [mf_pressure_step_of_gt lib self dst src hgt hS1,
        mf_pressure_step_of_gt lib { self with n_iterations_A_ := a, n_iterations_S_ := s }
          dst src hgt hS1]
      rfl
    | some exc =>
      have hS1 := hS
      unfold MatrixFree.BlockSchurPreconditioner.S_solve MatrixFree.BlockSchurPreconditioner.S_solve_control at hS1
      unfold MatrixFree.BlockSchurPreconditioner.A_solve MatrixFree.BlockSchurPreconditioner.A_solve_control MatrixFree.BlockSchurPreconditioner.utmp MatrixFree.BlockSchurPreconditioner.pressure_step
      simp only [if_pos hgt, hS1]
      split
      · split <;> rfl
      · rfl
  · unfold MatrixFree.BlockSchurPreconditioner.A_solve MatrixFree.BlockSchurPreconditioner.A_solve_control MatrixFree.BlockSchurPreconditioner.utmp
    rw [mf_pressure_step_of_le lib self dst src (not_lt.mp hgt),
      mf_pressure_step_of_le lib { self with n_iterations_A_ := a, n_iterations_S_ := s }
        dst src (not_lt.mp hgt)]
    rfl

/-- The first block of `vmult` does not decrease the counter of S. -/
theorem mf_pressure_step_counter_le {R : Type} [LinearOrderedField R] {nu np : ℕ}
    (lib : Library R) (self : MatrixFree.BlockSchurPreconditioner R nu np) (dst src : BlockVector R nu np) :
    self.n_iterations_S_ ≤ (self.pressure_step lib dst src).precond.n_iterations_S_ := by
  by_cases hgt : Vector.l2_norm lib.sqrt src.block1 > 1e-50
  · cases hS : (self.S_solve lib src).exc with
    | none =>
      have hS1 := hS
      unfold MatrixFree.BlockSchurPreconditioner.S_solve MatrixFree.BlockSchurPreconditioner.S_solve_control at hS1
      rw [mf_pressure_step_of_gt lib self dst src hgt hS1]
      exact Nat.le_add_right _ _
    | some exc =>
      rw [(mf_pressure_step_of_failed lib self dst src hgt exc hS).2]
  · rw [mf_pressure_step_of_le lib self dst src (not_lt.mp hgt)]

/-- The third block of `vmult` changes nothing of the object but the counter
of A, which does not decrease. -/
theorem mf_velocity_step_precond {R : Type} [LinearOrderedField R] {nu np : ℕ}
    (lib : Library R) (self : MatrixFree.BlockSchurPreconditioner R nu np) (calls : List (Call R nu np))
    (dst : BlockVector R nu np) (utmp : BlockVector R nu np) :
    ∃ a : ℕ, (self.velocity_step lib calls dst utmp).precond
        = { self with n_iterations_A_ := a }
      ∧ self.n_iterations_A_ ≤ a := by
  by_cases hd : self.do_solve_A = true
  · have hv := (mf_velocity_step_of_solve lib self calls dst utmp hd).2.2
    split at hv
    · exact ⟨_, hv.2, Nat.le_add_right _ _⟩
    · exact ⟨self.n_iterations_A_, hv.2, Nat.le_refl _⟩
  · have hd2 : self.do_solve_A = false := by
      cases hx : self.do_solve_A
      · rfl
      · exact absurd hx hd
    rw [mf_velocity_step_of_not_solve lib self calls dst utmp hd2]
    exact ⟨_, rfl, Nat.le_add_right _ _⟩

/-- A call of `vmult` changes nothing of the object but the two counters, and
the counters do not decrease. -/
theorem mf_vmult_precond {R : Type} [LinearOrderedField R] {nu np : ℕ}
    (lib : Library R) (self : MatrixFree.BlockSchurPreconditioner R nu np) (dst src : BlockVector R nu np) :
    ∃ a s : ℕ, (self.vmult lib dst src).precond
        = { self with n_iterations_A_ := a, n_iterations_S_ := s }
      ∧ self.n_iterations_A_ ≤ a ∧ self.n_iterations_S_ ≤ s := by
  have hP := mf_pressure_step_precond lib self dst src
  have hle := mf_pressure_step_counter_le lib self dst src
  by_cases hp : (self.pressure_step lib dst src).raised = none
  · rw [mf_vmult_of_pressure_ok lib self dst src hp]
    obtain ⟨a, ha, hale⟩ := mf_velocity_step_precond lib (self.pressure_step lib dst src).precond
      (self.pressure_step lib dst src).calls (self.pressure_step lib dst src).dst
      ((self.pressure_step lib dst src).precond.top_right_step
        (self.pressure_step lib dst src).dst src)
    refine ⟨a, (self.pressure_step lib dst src).precond.n_iterations_S_, ?_, ?_, hle⟩
    · rw [ha, hP]
    · have h1 : (self.pressure_step lib dst src).precond.n_iterations_A_
          = self.n_iterations_A_ := by
        rw [hP]
      rw [← h1]
      exact hale
  · rw [mf_vmult_of_pressure_raised lib self dst src hp]
    exact ⟨self.n_iterations_A_, (self.pressure_step lib dst src).precond.n_iterations_S_,
      hP, Nat.le_refl _, hle⟩

/-- The counters after a call of `vmult` that has returned. -/
theorem mf_vmult_counters_of_returned {R : Type} [LinearOrderedField R] {nu np : ℕ}
    (lib : Library R) (self : MatrixFree.BlockSchurPreconditioner R nu np) (dst src : BlockVector R nu np)
    (h : (self.vmult lib dst src).raised = none) :
    (self.vmult lib dst src).precond.n_iterations_S_
        = self.n_iterations_S_
          + (if Vector.l2_norm lib.sqrt src.block1 > 1e-50
              then (self.S_solve lib src).last_step else 0)
    ∧ (self.vmult lib dst src).precond.n_iterations_A_
        = self.n_iterations_A_
          + (if self.do_solve_A = true then (self.A_solve lib dst src).last_step else 1) := by
  have hp : (self.pressure_step lib dst src).raised = none := by
    by_contra hne
    rw [mf_vmult_of_pressure_raised lib self dst src hne] at h
    exact hne h
  have hP := mf_pressure_step_precond lib self dst src
  have hA0 : (self.pressure_step lib dst src).precond.n_iterations_A_
      = self.n_iterations_A_ := by
    rw [hP]
  have hd0 : (self.pressure_step lib dst src).precond.do_solve_A = self.do_solve_A := by
    rw [hP]
  constructor
  · rw [mf_vmult_n_iterations_S]
    by_cases hgt : Vector.l2_norm lib.sqrt src.block1 > 1e-50
    · have hS : (self.S_solve lib src).exc = none := by
        by_contra hx
        exact (mf_pressure_step_returns_iff lib self dst src).mp hp ⟨hgt, hx⟩
      have hS1 := hS
      unfold MatrixFree.BlockSchurPreconditioner.S_solve MatrixFree.BlockSchurPreconditioner.S_solve_control at hS1
      rw [mf_pressure_step_of_gt lib self dst src hgt hS1, if_pos hgt]
      rfl
    · rw [mf_pressure_step_of_le lib self dst src (not_lt.mp hgt), if_neg hgt]
      rfl
  · rw [mf_vmult_of_pressure_ok lib self dst src hp] at h ⊢
    by_cases hd : self.do_solve_A = true
    · have hv := (mf_velocity_step_of_solve lib (self.pressure_step lib dst src).precond
        (self.pressure_step lib dst src).calls (self.pressure_step lib dst src).dst
        ((self.pressure_step lib dst src).precond.top_right_step
          (self.pressure_step lib dst src).dst src) (hd0.trans hd)).2.2
      split at hv
      · rw [hv.2, if_pos hd, ← hA0]
        rfl
      · exact absurd h hv.1
    · have hd2 : (self.pressure_step lib dst src).precond.do_solve_A = false := by
        rw [hd0]
        cases hx : self.do_solve_A
        · rfl
        · exact absurd hx hd
      rw [mf_velocity_step_of_not_solve lib _ _ _ _ hd2, if_neg hd, ← hA0]

end internal

namespace internal

/-- The counters do not decrease over a sequence of calls of `vmult`, whether
the calls return or raise. -/
theorem after_calls_counters_le {R : Type} [LinearOrderedField R] {nu np : ℕ}
    (lib : Library R) (calls : List (BlockVector R nu np × BlockVector R nu np)) :
    ∀ self : BlockSchurPreconditioner R nu np,
      self.n_iterations_A_ ≤ (self.after_calls lib calls).n_iterations_A_
      ∧ self.n_iterations_S_ ≤ (self.after_calls lib calls).n_iterations_S_ := by
  induction calls with
  | nil => intro self; exact ⟨Nat.le_refl _, Nat.le_refl _⟩
  | cons call rest ih =>
    intro self
    obtain ⟨a, s, hP, ha, hs⟩ := vmult_precond lib self call.1 call.2
    have h := ih (self.vmult lib call.1 call.2).precond
    have hA : (self.vmult lib call.1 call.2).precond.n_iterations_A_ = a := by rw [hP]
    have hS : (self.vmult lib call.1 call.2).precond.n_iterations_S_ = s := by rw [hP]
    rw [hA, hS] at h
    exact ⟨Nat.le_trans ha h.1, Nat.le_trans hs h.2⟩

/-- The counters after a sequence of calls of `vmult` that have all
returned. -/
theorem after_calls_of_returned {R : Type} [LinearOrderedField R] {nu np : ℕ}
    (lib : Library R) (calls : List (BlockVector R nu np × BlockVector R nu np)) :
    ∀ self : BlockSchurPreconditioner R nu np,
      (∀ r ∈ BlockSchurPreconditioner.vmult_calls lib self calls, r.raised = none) →
      (self.after_calls lib calls).n_iterations_S_
          = self.n_iterations_S_
            + (calls.map (fun call =>
                if Vector.l2_norm lib.sqrt call.2.block1 > 1e-50
                then (self.S_solve lib call.2).last_step else 0)).sum
      ∧ (self.after_calls lib calls).n_iterations_A_
          = self.n_iterations_A_
            + (calls.map (fun call =>
                if self.do_solve_A = true
                then (self.A_solve lib call.1 call.2).last_step else 1)).sum := by
  induction calls with
  | nil => intro self _; exact ⟨rfl, rfl⟩
  | cons call rest ih =>
    intro self h
    obtain ⟨dst, src⟩ := call
    have h0 : (self.vmult lib dst src).raised = none :=
      h _ (List.mem_cons_self _ _)
    have hrest : ∀ r ∈ BlockSchurPreconditioner.vmult_calls lib (self.vmult lib dst src).precond rest,
        r.raised = none := fun r hr => h r (List.mem_cons_of_mem _ hr)
    obtain ⟨a, s, hP, _, _⟩ := vmult_precond lib self dst src
    have hc := vmult_counters_of_returned lib self dst src h0
    have hi := ih (self.vmult lib dst src).precond hrest
    have hS : ∀ src2, BlockSchurPreconditioner.S_solve lib (self.vmult lib dst src).precond src2
        = self.S_solve lib src2 := by
      intro src2
      rw [hP]
      exact (solves_counters lib self a s src2 src2).1
    have hA : ∀ dst2 src2, BlockSchurPreconditioner.A_solve lib (self.vmult lib dst src).precond dst2 src2
        = self.A_solve lib dst2 src2 := by
      intro dst2 src2
      rw [hP]
      exact (solves_counters lib self a s dst2 src2).2
    have hd : (self.vmult lib dst src).precond.do_solve_A = self.do_solve_A := by
      rw [hP]
    simp only [hS, hA, hd, hc.1, hc.2] at hi
    show (BlockSchurPreconditioner.after_calls lib (self.vmult lib dst src).precond rest).n_iterations_S_ = _
      ∧ (BlockSchurPreconditioner.after_calls lib (self.vmult lib dst src).precond rest).n_iterations_A_ = _
    rw [hi.1, hi.2, List.map_cons, List.map_cons, List.sum_cons, List.sum_cons]
    exact ⟨by ring, by ring⟩

/-- The counters do not decrease over a sequence of calls of `vmult`, whether
the calls return or raise. -/
theorem mf_after_calls_counters_le {R : Type} [LinearOrderedField R] {nu np : ℕ}
    (lib : Library R) (calls : List (BlockVector R nu np × BlockVector R nu np)) :
    ∀ self : MatrixFree.BlockSchurPreconditioner R nu np,
      self.n_iterations_A_ ≤ (self.after_calls lib calls).n_iterations_A_
      ∧ self.n_iterations_S_ ≤ (self.after_calls lib calls).n_iterations_S_ := by
  induction calls with
  | nil => intro self; exact ⟨Nat.le_refl _, Nat.le_refl _⟩
  | cons call rest ih =>
    intro self
    obtain ⟨a, s, hP, ha, hs⟩ := mf_vmult_precond lib self call.1 call.2
    have h := ih (self.vmult lib call.1 call.2).precond
    have hA : (self.vmult lib call.1 call.2).precond.n_iterations_A_ = a := by rw [hP]
    have hS : (self.vmult lib call.1 call.2).precond.n_iterations_S_ = s := by rw [hP]
    rw [hA, hS] at h
    exact ⟨Nat.le_trans ha h.1, Nat.le_trans hs h.2⟩

/-- The counters after a sequence of calls of `vmult` that have all
returned. -/
theorem mf_after_calls_of_returned {R : Type} [LinearOrderedField R] {nu np : ℕ}
    (lib : Library R) (calls : List (BlockVector R nu np × BlockVector R nu np)) :
    ∀ self : MatrixFree.BlockSchurPreconditioner R nu np,
      (∀ r ∈ MatrixFree.BlockSchurPreconditioner.vmult_calls lib self calls, r.raised = none) →
      (self.after_calls lib calls).n_iterations_S_
          = self.n_iterations_S_
            + (calls.map (fun call =>
                if Vector.l2_norm lib.sqrt call.2.block1 > 1e-50
                then (self.S_solve lib call.2).last_step else 0)).sum
      ∧ (self.after_calls lib calls).n_iterations_A_
          = self.n_iterations_A_
            + (calls.map (fun call =>
                if self.do_solve_A = true
                then (self.A_solve lib call.1 call.2).last_step else 1)).sum := by
  induction calls with
  | nil => intro self _; exact ⟨rfl, rfl⟩
  | cons call rest ih =>
    intro self h
    obtain ⟨dst, src⟩ := call
    have h0 : (self.vmult lib dst src).raised = none :=
      h _ (List.mem_cons_self _ _)
    have hrest : ∀ r ∈ MatrixFree.BlockSchurPreconditioner.vmult_calls lib (self.vmult lib dst src).precond rest,
        r.raised = none := fun r hr => h r (List.mem_cons_of_mem _ hr)
    obtain ⟨a, s, hP, _, _⟩ := mf_vmult_precond lib self dst src
    have hc := mf_vmult_counters_of_returned lib self dst src h0
    have hi := ih (self.vmult lib dst src).precond hrest
    have hS : ∀ src2, MatrixFree.BlockSchurPreconditioner.S_solve lib (self.vmult lib dst src).precond src2
        = self.S_solve lib src2 := by
      intro src2
      rw [hP]
      exact (mf_solves_counters lib self a s src2 src2).1
    have hA : ∀ dst2 src2, MatrixFree.BlockSchurPreconditioner.A_solve lib (self.vmult lib dst src).precond dst2 src2
        = self.A_solve lib dst2 src2 := by
      intro dst2 src2
      rw [hP]
      exact (mf_solves_counters lib self a s dst2 src2).2
    have hd : (self.vmult lib dst src).precond.do_solve_A = self.do_solve_A := by
      rw [hP]
    simp only [hS, hA, hd, hc.1, hc.2] at hi
    show (MatrixFree.BlockSchurPreconditioner.after_calls lib (self.vmult lib dst src).precond rest).n_iterations_S_ = _
      ∧ (MatrixFree.BlockSchurPreconditioner.after_calls lib (self.vmult lib dst src).precond rest).n_iterations_A_ = _
    rw [hi.1, hi.2, List.map_cons, List.map_cons, List.sum_cons, List.sum_cons]
    exact ⟨by ring, by ring⟩

end internal

/-- C25: the counters behind `n_iterations_A()` and `n_iterations_S()` of
`BlockSchurPreconditioner`, for the class of solver.cc (`P`) and the matrix-free
class (`Q`). They are 0 after construction. No call of `vmult` and no sequence
of calls decreases them. After a sequence of calls of `vmult` that have all
returned, `n_iterations_S()` has grown by the sum of the step counts of the
Schur solves performed (a call with `src.block(1).l2_norm() <= 1e-50` performs
none), and `n_iterations_A()` by the sum over the calls of 1 (`do_solve_A`
false) or of the step count of the velocity solve (`do_solve_A` true); on a
freshly constructed object the counters are these sums. -/
theorem BlockSchurPreconditioner_counters_are_sums_of_steps {R : Type}
    [LinearOrderedField R] {nu np : ℕ} (lib : Library R)
    (P : internal.BlockSchurPreconditioner R nu np)
    (Q : internal.MatrixFree.BlockSchurPreconditioner R nu np)
    (calls : List (BlockVector R nu np × BlockVector R nu np)) :
    (∀ (S Spre : BlockSparseMatrix R nu np) (Mp : Preconditioner R np)
        (Ap : Preconditioner R nu) (do_solve_A : Bool) (A_tol S_tol : R),
      (internal.BlockSchurPreconditioner.new S Spre Mp Ap do_solve_A A_tol
          S_tol).n_iterations_A = 0
      ∧ (internal.BlockSchurPreconditioner.new S Spre Mp Ap do_solve_A A_tol
          S_tol).n_iterations_S = 0)
    ∧ (∀ (S : internal.MatrixFree.StokesOperator R nu np) (A : SparseMatrix R nu nu)
        (M : SparseMatrix R np np) (Mp : Preconditioner R np) (Ap : Preconditioner R nu)
        (do_solve_A : Bool) (A_tol S_tol : R),
      (internal.MatrixFree.BlockSchurPreconditioner.new S A M Mp Ap do_solve_A A_tol
          S_tol).n_iterations_A = 0
      ∧ (internal.MatrixFree.BlockSchurPreconditioner.new S A M Mp Ap do_solve_A A_tol
          S_tol).n_iterations_S = 0)
    ∧ (∀ dst src : BlockVector R nu np,
      P.n_iterations_A ≤ (P.vmult lib dst src).precond.n_iterations_A
      ∧ P.n_iterations_S ≤ (P.vmult lib dst src).precond.n_iterations_S
      ∧ Q.n_iterations_A ≤ (Q.vmult lib dst src).precond.n_iterations_A
      ∧ Q.n_iterations_S ≤ (Q.vmult lib dst src).precond.n_iterations_S)
    ∧ (P.n_iterations_A ≤ (P.after_calls lib calls).n_iterations_A
      ∧ P.n_iterations_S ≤ (P.after_calls lib calls).n_iterations_S
      ∧ Q.n_iterations_A ≤ (Q.after_calls lib calls).n_iterations_A
      ∧ Q.n_iterations_S ≤ (Q.after_calls lib calls).n_iterations_S)
    ∧ ((∀ r ∈ internal.BlockSchurPreconditioner.vmult_calls lib P calls, r.raised = none) →
      (P.after_calls lib calls).n_iterations_S
          = P.n_iterations_S
            + (calls.map (fun call =>
                if Vector.l2_norm lib.sqrt call.2.block1 > 1e-50
                then (P.S_solve lib call.2).last_step else 0)).sum
      ∧ (P.after_calls lib calls).n_iterations_A
          = P.n_iterations_A
            + (calls.map (fun call =>
                if P.do_solve_A = true
                then (P.A_solve lib call.1 call.2).last_step else 1)).sum)
    ∧ ((∀ r ∈ internal.MatrixFree.BlockSchurPreconditioner.vmult_calls lib Q calls,
          r.raised = none) →
      (Q.after_calls lib calls).n_iterations_S
          = Q.n_iterations_S
            + (calls.map (fun call =>
                if Vector.l2_norm lib.sqrt call.2.block1 > 1e-50
                then (Q.S_solve lib call.2).last_step else 0)).sum
      ∧ (Q.after_calls lib calls).n_iterations_A
          = Q.n_iterations_A
            + (calls.map (fun call =>
                if Q.do_solve_A = true
                then (Q.A_solve lib call.1 call.2).last_step else 1)).sum) := by
  refine ⟨fun _ _ _ _ _ _ _ => ⟨rfl, rfl⟩, fun _ _ _ _ _ _ _ _ => ⟨rfl, rfl⟩,
    fun dst src => ?_, ?_, ?_, ?_⟩
  · have hP := internal.after_calls_counters_le lib [(dst, src)] P
    have hQ := internal.mf_after_calls_counters_le lib [(dst, src)] Q
    exact ⟨hP.1, hP.2, hQ.1, hQ.2⟩
  · have hP := internal.after_calls_counters_le lib calls P
    have hQ := internal.mf_after_calls_counters_le lib calls Q
    exact ⟨hP.1, hP.2, hQ.1, hQ.2⟩
  · exact internal.after_calls_of_returned lib calls P
  · exact internal.mf_after_calls_of_returned lib calls Q

namespace Examples

/-- With the library of the small system, whose solvers always converge, every
call of `vmult` of solver.cc returns. -/
theorem vmult_returns (P : internal.BlockSchurPreconditioner ℚ 1 1)
    (calls : List (BlockVector ℚ 1 1 × BlockVector ℚ 1 1)) :
    ∀ r ∈ internal.BlockSchurPreconditioner.vmult_calls lib P calls, r.raised = none := by
  induction calls generalizing P with
  | nil => intro r hr; cases hr
  | cons call rest ih =>
    intro r hr
    obtain ⟨dst, src⟩ := call
    rcases List.mem_cons.mp hr with h | h
    · rw [h]
      by_contra hne
      rcases (internal.vmult_error_spec lib P dst src).1.mp hne with ⟨_, hS⟩ | ⟨_, _, hA⟩
      · exact hS rfl
      · exact hA rfl
    · exact ih _ r h

end Examples

/-- Witness of C25: on the small system, whose solvers need one step, two calls
of `vmult` with pressure right hand side 1 on a freshly constructed object of
solver.cc with `do_solve_A = true` return and leave both counters at 2. -/
theorem BlockSchurPreconditioner_counters_are_sums_of_steps_witness :
    (∀ r ∈ internal.BlockSchurPreconditioner.vmult_calls Examples.lib
        (Examples.preconditioner true)
        [(Examples.vec 0 0, Examples.vec 1 1), (Examples.vec 0 0, Examples.vec 1 1)],
      r.raised = none)
    ∧ ((Examples.preconditioner true).after_calls Examples.lib
        [(Examples.vec 0 0, Examples.vec 1 1),
          (Examples.vec 0 0, Examples.vec 1 1)]).n_iterations_S = 2
    ∧ ((Examples.preconditioner true).after_calls Examples.lib
        [(Examples.vec 0 0, Examples.vec 1 1),
          (Examples.vec 0 0, Examples.vec 1 1)]).n_iterations_A = 2 := by
  have h := (BlockSchurPreconditioner_counters_are_sums_of_steps Examples.lib
    (Examples.preconditioner true) (Examples.mf_preconditioner true)
    [(Examples.vec 0 0, Examples.vec 1 1), (Examples.vec 0 0, Examples.vec 1 1)]).2.2.2.2.1
    (Examples.vmult_returns _ _)
  have hn : Vector.l2_norm Examples.lib.sqrt (Examples.vec 1 1).block1 > 1e-50 := by
    have h1 : Vector.l2_norm Examples.lib.sqrt (Examples.vec 1 1).block1 = 1 :=
      Examples.l2_norm_const_one
    rw [h1]
    norm_num
  refine ⟨Examples.vmult_returns _ _, ?_, ?_⟩
  · rw [h.1]
    simp only [List.map_cons, List.map_nil, if_pos hn]
    rfl
  · rw [h.2]
    rfl

/-! ## The block layout check -/

/-- C26, counterexample: a release build does not check the block layout. With
the velocity in block 1 and the pressure in block 0, `Simulator::solve_stokes`
passes the place of its `Assert`s without a failure, the constructor of
`StokesMatrixFreeHandler` returns, and `StokesMatrixFreeHandler::solve` builds
the multigrid objects and the preconditioners `prec_A` and `prec_S`, copies
block 1 and block 0 of the right hand side and passes the place of its
`Assert`s without a failure. -/
theorem release_build_does_not_check_the_block_layout :
    Examples.swapped_introspection.block_vel = 1
    ∧ Examples.swapped_introspection.block_p
        (Examples.sim 1).parameters.include_melt_transport = 0
    ∧ Simulator.solve_stokes_with_layout false Examples.swapped_introspection Examples.lib
        Examples.env (Examples.outer_solver _) (Examples.sim 1)
      = ⟨[SetupEvent.constructed SolverObject.distributed_stokes_solution],
          LayoutOutcome.unchecked⟩
    ∧ StokesMatrixFreeHandler.constructor false Examples.swapped_introspection
        Examples.requirements (Examples.handler 1).sim = Except.ok ()
    ∧ StokesMatrixFreeHandler.solve_with_layout false Examples.swapped_introspection
        Examples.lib Examples.env (Examples.outer_solver _) (Examples.handler 1) 0
      = ⟨[ SetupEvent.constructed SolverObject.mg_smoother,
           SetupEvent.constructed SolverObject.mg_coarse,
           SetupEvent.constructed SolverObject.mg_interface_matrices,
           SetupEvent.constructed SolverObject.mg_interface,
           SetupEvent.constructed SolverObject.mg_matrix,
           SetupEvent.constructed SolverObject.mg,
           SetupEvent.constructed SolverObject.prec_A,
           SetupEvent.constructed SolverObject.prec_S,
           SetupEvent.constructed SolverObject.distributed_stokes_solution,
           SetupEvent.constructed SolverObject.distributed_stokes_rhs,
           SetupEvent.block_assigned SolverObject.distributed_stokes_rhs 1
             SolverObject.system_rhs 1,
           SetupEvent.block_assigned SolverObject.distributed_stokes_rhs 0
             SolverObject.system_rhs 0 ],
          LayoutOutcome.unchecked⟩ := by
  refine ⟨rfl, rfl, rfl, rfl, rfl⟩

/-- The constructor of `StokesMatrixFreeHandler` returns in a debug build only
if every condition it asserts holds. -/
theorem constructor_returns_iff {R : Type} {nu np : ℕ} (introspection : Introspection)
    (requirements : MatrixFreeRequirements) (sim : Simulator R nu np) :
    StokesMatrixFreeHandler.constructor true introspection requirements sim = Except.ok ()
      ↔ (requirements.free_surface_enabled = false
        ∧ sim.parameters.include_melt_transport = false
        ∧ requirements.use_locally_conservative_discretization = false
        ∧ requirements.stokes_velocity_degree = 2
        ∧ introspection.variable_block_index "velocity" = 0
        ∧ introspection.variable_block_index "pressure" = 1
        ∧ requirements.n_periodic_boundary_pairs = 0
        ∧ requirements.material_averaging_gives_a_constant = true) := by
  unfold StokesMatrixFreeHandler.constructor
  constructor
  · intro h
    by_cases h1 : requirements.free_surface_enabled = false
    · by_cases h2 : sim.parameters.include_melt_transport = false
      · by_cases h3 : requirements.use_locally_conservative_discretization = false
        · by_cases h4 : requirements.stokes_velocity_degree = 2
          · by_cases h5 : introspection.variable_block_index "velocity" = 0
            · by_cases h6 : introspection.variable_block_index "pressure" = 1
              · by_cases h7 : requirements.n_periodic_boundary_pairs = 0
                · by_cases h8 : requirements.material_averaging_gives_a_constant = true
                  · exact ⟨h1, h2, h3, h4, h5, h6, h7, h8⟩
                  · simp [h1, h2, h3, h4, h5, h6, h7, h8] at h
                · simp [h1, h2, h3, h4, h5, h6, h7] at h
              · simp [h1, h2, h3, h4, h5, h6] at h
            · simp [h1, h2, h3, h4, h5] at h
          · simp [h1, h2, h3, h4] at h
        · simp [h1, h2, h3] at h
      · simp [h1, h2] at h
    · simp [h1] at h
  · rintro ⟨h1, h2, h3, h4, h5, h6, h7, h8⟩
    simp [h1, h2, h3, h4, h5, h6, h7, h8]

/-- In a debug build the constructor of `StokesMatrixFreeHandler` ends either
with a violated `Assert` or by returning. -/
theorem constructor_fails_an_assertion {R : Type} {nu np : ℕ} (introspection : Introspection)
    (requirements : MatrixFreeRequirements) (sim : Simulator R nu np)
    (h : StokesMatrixFreeHandler.constructor true introspection requirements sim
      ≠ Except.ok ()) :
    ∃ condition : String,
      StokesMatrixFreeHandler.constructor true introspection requirements sim
        = Except.error (Failure.assertion condition) := by
  unfold StokesMatrixFreeHandler.constructor at h ⊢
  split_ifs at h ⊢
  all_goals first
    | exact ⟨_, rfl⟩
    | exact absurd rfl h

/-- C26, amended: the checks of the block layout velocity = 0, pressure = 1;
the two views of `introspection` (`block_indices` and `variable (...)`) give
the same blocks for the velocity and the pressure. Debug build: if the
velocity block index is not 0 or the pressure block index is not 1,
`Simulator::solve_stokes` fails one of the assertions `block_vel == 0`,
`block_p == 1` when it has constructed nothing but the vector
`distributed_stokes_solution` (no block has been addressed through the
indices, no preconditioner or multigrid object built), and the constructor of
`StokesMatrixFreeHandler` fails an assertion, so that no handler exists whose
`solve` could be called; once the constructor has returned, the `Assert`s in
`StokesMatrixFreeHandler::solve` hold, and they are executed after the
multigrid objects and the preconditioners are built and the two blocks of the
right hand side are copied; the function then goes on as embedded. With the
asserted layout `Simulator::solve_stokes` goes on as embedded. Release build:
the constructor returns and no assertion fails in either solver. -/
theorem block_layout_checks_of_the_Stokes_solvers {R : Type} [LinearOrderedField R]
    {nu np : ℕ} (introspection : Introspection) (requirements : MatrixFreeRequirements)
    (lib : Library R) (env : Collaborators R nu np)
    (solver : OuterSolver (internal.BlockSchurPreconditioner R nu np) R nu np)
    (mf_solver : OuterSolver (internal.MatrixFree.BlockSchurPreconditioner R nu np) R nu np)
    (sim : Simulator R nu np) (self : StokesMatrixFreeHandler R nu np) (i : ℕ)
    (hviews : introspection.block_indices_velocities
        = introspection.variable_block_index "velocity"
      ∧ introspection.block_indices_pressure
        = introspection.variable_block_index "pressure") :
    ((introspection.block_vel ≠ 0
        ∨ introspection.block_p sim.parameters.include_melt_transport ≠ 1) →
      ∃ condition : String,
        Simulator.solve_stokes_with_layout true introspection lib env solver sim
          = ⟨[SetupEvent.constructed SolverObject.distributed_stokes_solution],
              LayoutOutcome.assertion condition⟩
        ∧ (condition = "block_vel == 0" ∨ condition = "block_p == 1")
        ∧ ∀ e ∈ (Simulator.solve_stokes_with_layout true introspection lib env solver
              sim).events,
            e.is_block_access = false ∧ e.builds_preconditioner_or_multigrid = false)
    ∧ (∀ debug : Bool, introspection.block_vel = 0 →
      introspection.block_p sim.parameters.include_melt_transport = 1 →
      introspection.compaction_pressure_in_block_1 sim.parameters.include_melt_transport
        = true →
      (Simulator.solve_stokes_with_layout debug introspection lib env solver sim).outcome
        = LayoutOutcome.continues (Simulator.solve_stokes lib env solver sim))
    ∧ ((introspection.block_vel ≠ 0
        ∨ introspection.block_p self.sim.parameters.include_melt_transport ≠ 1) →
      ∃ condition : String,
        StokesMatrixFreeHandler.constructor true introspection requirements self.sim
          = Except.error (Failure.assertion condition))
    ∧ (StokesMatrixFreeHandler.constructor true introspection requirements self.sim
        = Except.ok () →
      StokesMatrixFreeHandler.solve_with_layout true introspection lib env mf_solver self i
        = ⟨[ SetupEvent.constructed SolverObject.mg_smoother,
             SetupEvent.constructed SolverObject.mg_coarse,
             SetupEvent.constructed SolverObject.mg_interface_matrices,
             SetupEvent.constructed SolverObject.mg_interface,
             SetupEvent.constructed SolverObject.mg_matrix,
             SetupEvent.constructed SolverObject.mg,
             SetupEvent.constructed SolverObject.prec_A,
             SetupEvent.constructed SolverObject.prec_S,
             SetupEvent.constructed SolverObject.distributed_stokes_solution,
             SetupEvent.constructed SolverObject.distributed_stokes_rhs,
             SetupEvent.block_assigned SolverObject.distributed_stokes_rhs 0
               SolverObject.system_rhs 0,
             SetupEvent.block_assigned SolverObject.distributed_stokes_rhs 1
               SolverObject.system_rhs 1,
             SetupEvent.checked "block_vel == 0",
             SetupEvent.checked "block_p == 1",
             SetupEvent.checked
               "!sim.parameters.include_melt_transport || compaction pressure block_index == 1" ],
            LayoutOutcome.continues
              (StokesMatrixFreeHandler.solve lib env mf_solver self i)⟩)
    ∧ StokesMatrixFreeHandler.constructor false introspection requirements self.sim
        = Except.ok ()
    ∧ (∀ condition : String,
      (Simulator.solve_stokes_with_layout false introspection lib env solver sim).outcome
        ≠ LayoutOutcome.assertion condition)
    ∧ (∀ condition : String,
      (StokesMatrixFreeHandler.solve_with_layout false introspection lib env mf_solver
          self i).outcome
        ≠ LayoutOutcome.assertion condition) := by
  refine ⟨fun h => ?_, fun debug hv hp hc => ?_, fun h => ?_, fun h => ?_, ?_, ?_, ?_⟩
  · by_cases hv : introspection.block_vel = 0
    · have hp : ¬ (introspection.block_p sim.parameters.include_melt_transport = 1) := by
        rcases h with h | h
        · exact absurd hv h
        · exact h
      refine ⟨"block_p == 1", ?_, Or.inr rfl, ?_⟩
      · simp [Simulator.solve_stokes_with_layout, hv, hp]
      · simp [Simulator.solve_stokes_with_layout, hv, hp, SetupEvent.is_block_access,
          SetupEvent.builds_preconditioner_or_multigrid,
          SolverObject.is_preconditioner_or_multigrid]
    · refine ⟨"block_vel == 0", ?_, Or.inl rfl, ?_⟩
      · simp [Simulator.solve_stokes_with_layout, hv]
      · simp [Simulator.solve_stokes_with_layout, hv, SetupEvent.is_block_access,
          SetupEvent.builds_preconditioner_or_multigrid,
          SolverObject.is_preconditioner_or_multigrid]
  · cases debug <;> simp [Simulator.solve_stokes_with_layout, hv, hp, hc]
  · apply constructor_fails_an_assertion
    intro hok
    have hc := (constructor_returns_iff introspection requirements self.sim).1 hok
    have hm := hc.2.1
    rcases h with h | h
    · apply h
      unfold Introspection.block_vel
      rw [hviews.1]
      exact hc.2.2.2.2.1
    · apply h
      unfold Introspection.block_p
      rw [hm]
      simp only [Bool.false_eq_true, if_false]
      rw [hviews.2]
      exact hc.2.2.2.2.2.1
  · have hc := (constructor_returns_iff introspection requirements self.sim).1 h
    have hm := hc.2.1
    have hv : introspection.block_vel = 0 := by
      unfold Introspection.block_vel
      rw [hviews.1]
      exact hc.2.2.2.2.1
    have hp : introspection.block_p self.sim.parameters.include_melt_transport = 1 := by
      unfold Introspection.block_p
      rw [hm]
      simp only [Bool.false_eq_true, if_false]
      rw [hviews.2]
      exact hc.2.2.2.2.2.1
    have hcp : introspection.compaction_pressure_in_block_1
        self.sim.parameters.include_melt_transport = true := by
      unfold Introspection.compaction_pressure_in_block_1
      rw [hm]
      rfl
    simp [StokesMatrixFreeHandler.solve_with_layout, hv, hp, hcp]
  · simp [StokesMatrixFreeHandler.constructor]
  · intro condition
    unfold Simulator.solve_stokes_with_layout
    simp only [Bool.false_eq_true, false_and, if_false]
    split_ifs <;> simp
  · intro condition
    unfold StokesMatrixFreeHandler.solve_with_layout
    simp only [Bool.false_eq_true, false_and, if_false]
    split_ifs <;> simp

/-- Witness of C26: on the small system, with the velocity in block 1 and the
pressure in block 0 a debug build of `Simulator::solve_stokes` fails the
assertion `block_vel == 0` at once and the constructor of the matrix-free
handler fails its assertion on the velocity block; with the velocity in block
0 and the pressure in block 1, in both views of `introspection`, the
constructor returns and `StokesMatrixFreeHandler::solve` goes on as embedded. -/
theorem block_layout_checks_of_the_Stokes_solvers_witness :
    (Examples.standard_introspection.block_indices_velocities
        = Examples.standard_introspection.variable_block_index "velocity"
      ∧ Examples.standard_introspection.block_indices_pressure
        = Examples.standard_introspection.variable_block_index "pressure")
    ∧ Simulator.solve_stokes_with_layout true Examples.swapped_introspection Examples.lib
        Examples.env (Examples.outer_solver _) (Examples.sim 1)
      = ⟨[SetupEvent.constructed SolverObject.distributed_stokes_solution],
          LayoutOutcome.assertion "block_vel == 0"⟩
    ∧ StokesMatrixFreeHandler.constructor true Examples.swapped_introspection
        Examples.requirements (Examples.handler 1).sim
      = Except.error (Failure.assertion "velocity block_index==0")
    ∧ StokesMatrixFreeHandler.constructor true Examples.standard_introspection
        Examples.requirements (Examples.handler 1).sim = Except.ok ()
    ∧ (StokesMatrixFreeHandler.solve_with_layout true Examples.standard_introspection
        Examples.lib Examples.env (Examples.outer_solver _) (Examples.handler 1) 0).outcome
      = LayoutOutcome.continues
          (StokesMatrixFreeHandler.solve Examples.lib Examples.env (Examples.outer_solver _)
            (Examples.handler 1) 0) :=
  ⟨⟨rfl, rfl⟩, rfl, rfl, rfl,
    congrArg LayoutChecked.outcome
      ((block_layout_checks_of_the_Stokes_solvers Examples.standard_introspection
        Examples.requirements Examples.lib Examples.env (Examples.outer_solver _)
        (Examples.outer_solver _) (Examples.sim 1) (Examples.handler 1) 0
        ⟨rfl, rfl⟩).2.2.2.1 rfl)⟩

/-! ## The residuals returned by the Stokes solvers -/

/-- A value returned by the `try`/`catch` statement of `Simulator::solve_stokes`
and the rest of the function is the initial residual handed to it. -/
theorem solve_stokes_try_result {R : Type} [LinearOrderedField R] {nu np : ℕ}
    (lib : Library R) (env : Collaborators R nu np)
    (solver : OuterSolver (internal.BlockSchurPreconditioner R nu np) R nu np)
    (sim : Simulator R nu np) (initial_residual : R)
    (stokes_block : internal.StokesBlock R nu np) (x0 rhs : BlockVector R nu np)
    (control_cheap control_expensive : SolverControl R)
    (pc_cheap pc_expensive : internal.BlockSchurPreconditioner R nu np) (r : R)
    (h : (Simulator.solve_stokes_try lib env solver sim initial_residual stokes_block x0 rhs
      control_cheap control_expensive pc_cheap pc_expensive).result = Except.ok r) :
    r = initial_residual := by
  unfold Simulator.solve_stokes_try at h
  simp only [] at h
  split at h
  · exact (Except.ok.inj h).symm
  · split at h
    · split at h
      · exact (Except.ok.inj h).symm
      · split at h
        · split at h
          · exact Except.noConfusion h
          · exact Except.noConfusion h
        · exact Except.noConfusion h
    · exact Except.noConfusion h

/-- A pair returned by the part of `StokesMatrixFreeHandler::solve` after the
construction of the preconditioners has the initial residual handed to it as
its first component. -/
theorem solve_outer_result {R : Type} [LinearOrderedField R] {nu np : ℕ}
    (lib : Library R) (env : Collaborators R nu np)
    (solver : OuterSolver (internal.MatrixFree.BlockSchurPreconditioner R nu np) R nu np)
    (sim : Simulator R nu np) (stokes_matrix : internal.MatrixFree.StokesOperator R nu np)
    (initial_nonlinear_residual : R) (x0 rhs : BlockVector R nu np)
    (control_cheap control_expensive : SolverControl R)
    (pc_cheap pc_expensive : internal.MatrixFree.BlockSchurPreconditioner R nu np)
    (r : R) (f : Option R)
    (h : (StokesMatrixFreeHandler.solve_outer lib env solver sim stokes_matrix
      initial_nonlinear_residual x0 rhs control_cheap control_expensive pc_cheap
      pc_expensive).result = Except.ok (r, f)) :
    r = initial_nonlinear_residual := by
  unfold StokesMatrixFreeHandler.solve_outer at h
  simp only [] at h
  split at h
  · exact Except.noConfusion h
  · split at h
    · exact (congrArg Prod.fst (Except.ok.inj h)).symm
    · split at h
      · split at h
        · exact (congrArg Prod.fst (Except.ok.inj h)).symm
        · split at h
          · exact (congrArg Prod.fst (Except.ok.inj h)).symm
          · exact Except.noConfusion h
      · exact Except.noConfusion h

/-- C27: the second number returned by `StokesMatrixFreeHandler::solve` need
not be finite. On the small system with one cheap step and an outer solver
that never converges both outer solves end with `NoConvergence`, `solve`
returns all the same (the handler at stokes_matrix_free.cc 1010-1020 only
prints a banner, its abort is commented out), and the second component of the
returned pair is the NaN with which `final_linear_residual` was created, not
the last residual of a phase that converged. -/
theorem StokesMatrixFreeHandler_solve_returns_NaN_as_final_residual :
    (StokesMatrixFreeHandler.cheap_attempt Examples.lib Examples.env
        (Examples.stalled_solver _) (Examples.handler 1)).exc
      = some (Exception.NoConvergence 1 1)
    ∧ (StokesMatrixFreeHandler.expensive_attempt Examples.lib Examples.env
        (Examples.stalled_solver _) (Examples.handler 1)).exc
      = some (Exception.NoConvergence 10 1)
    ∧ ∃ r : ℚ, (StokesMatrixFreeHandler.solve Examples.lib Examples.env
        (Examples.stalled_solver _) (Examples.handler 1) 0).result = Except.ok (r, none) := by
  have hc : (StokesMatrixFreeHandler.cheap_attempt Examples.lib Examples.env
        (Examples.stalled_solver _) (Examples.handler 1)).exc
      = some (Exception.NoConvergence 1 1) := rfl
  have he : (StokesMatrixFreeHandler.expensive_attempt Examples.lib Examples.env
        (Examples.stalled_solver _) (Examples.handler 1)).exc
      = some (Exception.NoConvergence 10 1) := rfl
  refine ⟨hc, he, ?_⟩
  rw [solve_of_both_failed Examples.lib Examples.env (Examples.stalled_solver _)
    (Examples.handler 1) 0 _ _ (Examples.handler_timing_returns 1) hc rfl he rfl]
  exact ⟨_, rfl⟩

/-- The numbers returned by the two iterative Stokes solvers, as the code
computes them. `Simulator::solve_stokes` returns, whenever it returns, the norm of `b - A*x0`
for the vector `x0` that is the linearization point after denormalization,
zeroing of the constrained entries and division of the pressure by
`pressure_scaling`; the number does not depend on the outer solver.
`StokesMatrixFreeHandler::solve` returns, whenever it returns, as first
component the same quantity for its operator (no Newton system) or
`sqrt (|f|^2 + |g|^2)` for the blocks `f`, `g` of the Stokes right hand side
(Newton system), which is the norm of the right hand side when `sqrt` is the
square root. The second component is the last residual of the cheap solve if
it converged, the last residual of the expensive solve if the cheap solve
ended with `NoConvergence` and the expensive solve converged, and the NaN
(`none`) if both ended with `NoConvergence`, in which case the function
returns too. -/
theorem returned_residuals_of_the_Stokes_solvers {R : Type} [LinearOrderedField R]
    {nu np : ℕ} (lib : Library R) (env : Collaborators R nu np)
    (solver : OuterSolver (internal.BlockSchurPreconditioner R nu np) R nu np)
    (mf_solver : OuterSolver (internal.MatrixFree.BlockSchurPreconditioner R nu np) R nu np)
    (sim : Simulator R nu np) (self : StokesMatrixFreeHandler R nu np) (i : ℕ) :
    (Simulator.linearized_stokes_initial_guess env sim
      = { block0 := (env.set_zero (env.denormalize_pressure
            sim.last_pressure_normalization_adjustment
            ⟨sim.current_linearization_point.block0, sim.current_linearization_point.block1⟩
            sim.current_linearization_point)).block0
          block1 := fun j => (env.set_zero (env.denormalize_pressure
            sim.last_pressure_normalization_adjustment
            ⟨sim.current_linearization_point.block0, sim.current_linearization_point.block1⟩
            sim.current_linearization_point)).block1 j / sim.pressure_scaling })
    ∧ (∀ r : R, (Simulator.solve_stokes lib env solver sim).result = Except.ok r →
      r = BlockVector.l2_norm lib.sqrt
        ⟨sim.system_rhs.block0
          - (Matrix.mulVec sim.system_matrix.block00
                (Simulator.linearized_stokes_initial_guess env sim).block0
              + Matrix.mulVec sim.system_matrix.block01
                (Simulator.linearized_stokes_initial_guess env sim).block1),
          sim.system_rhs.block1
          - (Matrix.mulVec sim.system_matrix.block10
                (Simulator.linearized_stokes_initial_guess env sim).block0
              + Matrix.mulVec sim.system_matrix.block11
                (Simulator.linearized_stokes_initial_guess env sim).block1)⟩)
    ∧ (∀ (r : R) (f : Option R),
      (StokesMatrixFreeHandler.solve lib env mf_solver self i).result = Except.ok (r, f) →
      (self.sim.assemble_newton_stokes_system = false →
        r = BlockVector.l2_norm lib.sqrt
          ⟨self.sim.system_rhs.block0
            - (Matrix.mulVec self.stokes_matrix.blocks.block00
                  (StokesMatrixFreeHandler.linearized_stokes_initial_guess env self).block0
                + Matrix.mulVec self.stokes_matrix.blocks.block01
                  (StokesMatrixFreeHandler.linearized_stokes_initial_guess env self).block1),
            self.sim.system_rhs.block1
            - (Matrix.mulVec self.stokes_matrix.blocks.block10
                  (StokesMatrixFreeHandler.linearized_stokes_initial_guess env self).block0
                + Matrix.mulVec self.stokes_matrix.blocks.block11
                  (StokesMatrixFreeHandler.linearized_stokes_initial_guess env self).block1)⟩)
      ∧ (self.sim.assemble_newton_stokes_system = true →
        r = lib.sqrt
            (Vector.l2_norm lib.sqrt self.sim.system_rhs.block0
                * Vector.l2_norm lib.sqrt self.sim.system_rhs.block0
              + Vector.l2_norm lib.sqrt self.sim.system_rhs.block1
                * Vector.l2_norm lib.sqrt self.sim.system_rhs.block1)
        ∧ ((∀ x : R, 0 ≤ x → lib.sqrt x * lib.sqrt x = x) →
          r = BlockVector.l2_norm lib.sqrt self.sim.system_rhs)))
    ∧ ((StokesMatrixFreeHandler.timing lib env self).raised = none →
      (StokesMatrixFreeHandler.cheap_attempt lib env mf_solver self).exc = none →
      ∃ r : R, (StokesMatrixFreeHandler.solve lib env mf_solver self i).result
        = Except.ok (r,
            some (StokesMatrixFreeHandler.cheap_attempt lib env mf_solver self).last_value))
    ∧ (∀ e : Exception R, (StokesMatrixFreeHandler.timing lib env self).raised = none →
      (StokesMatrixFreeHandler.cheap_attempt lib env mf_solver self).exc = some e →
      e.is_NoConvergence = true →
      (StokesMatrixFreeHandler.expensive_attempt lib env mf_solver self).exc = none →
      ∃ r : R, (StokesMatrixFreeHandler.solve lib env mf_solver self i).result
        = Except.ok (r,
            some (StokesMatrixFreeHandler.expensive_attempt lib env mf_solver self).last_value))
    ∧ (∀ e exc : Exception R, (StokesMatrixFreeHandler.timing lib env self).raised = none →
      (StokesMatrixFreeHandler.cheap_attempt lib env mf_solver self).exc = some e →
      e.is_NoConvergence = true →
      (StokesMatrixFreeHandler.expensive_attempt lib env mf_solver self).exc = some exc →
      exc.is_NoConvergence = true →
      ∃ r : R, (StokesMatrixFreeHandler.solve lib env mf_solver self i).result
        = Except.ok (r, none)) := by
  refine ⟨rfl, fun r h => ?_, fun r f h => ⟨fun hn => ?_, fun hn => ?_⟩,
    fun ht hc => ?_, fun e ht hc he hx => ?_, fun e exc ht hc he hx hn => ?_⟩
  · rw [solve_stokes_eq_try] at h
    rw [solve_stokes_try_result lib env solver sim _ _ _ _ _ _ _ _ r h]
    unfold internal.StokesBlock.residual BlockVector.l2_norm
    simp only [internal.StokesBlock.vmult, Vector.sadd, SparseMatrix.vmult,
      SparseMatrix.vmult_add]
    rw [neg_one_smul, one_smul, neg_one_smul, one_smul, neg_add_eq_sub, neg_add_eq_sub]
  · rw [solve_eq_solve_outer] at h
    rw [solve_outer_result lib env mf_solver self.sim _ _ _ _ _ _ _ _ r f h]
    unfold StokesMatrixFreeHandler.tolerance_and_residual BlockVector.l2_norm
    simp only [if_pos hn, internal.MatrixFree.StokesOperator.vmult, BlockVector.sadd,
      Vector.sadd, Simulator.distributed_stokes_rhs]
    rw [neg_one_smul, one_smul, neg_one_smul, one_smul, neg_add_eq_sub, neg_add_eq_sub]
  · rw [solve_eq_solve_outer] at h
    rw [solve_outer_result lib env mf_solver self.sim _ _ _ _ _ _ _ _ r f h]
    have hn2 : ¬ (self.sim.assemble_newton_stokes_system = false) := by
      rw [hn]; exact Bool.noConfusion
    unfold StokesMatrixFreeHandler.tolerance_and_residual
    simp only [if_neg hn2, Simulator.distributed_stokes_rhs]
    refine ⟨trivial, fun hsqrt => ?_⟩
    unfold BlockVector.l2_norm Vector.l2_norm
    have h0 : ∀ {n : ℕ} (v : Vector R n), 0 ≤ Vector.norm_sqr v := by
      intro n v
      unfold Vector.norm_sqr
      exact Finset.sum_nonneg (fun j _ => mul_self_nonneg (v j))
    rw [hsqrt _ (h0 _), hsqrt _ (h0 _)]
  · rw [solve_of_cheap_converged lib env mf_solver self i ht hc]
    exact ⟨_, rfl⟩
  · rw [solve_of_expensive_converged lib env mf_solver self i e ht hc he hx]
    exact ⟨_, rfl⟩
  · rw [solve_of_both_failed lib env mf_solver self i e exc ht hc he hx hn]
    exact ⟨_, rfl⟩

/-- On the small system with one cheap step and an outer solver that converges
in one step with the last residual 0, the matrix-free solve returns a pair
with the second component 0. -/
theorem returned_residuals_of_the_Stokes_solvers_witness :
    ∃ r : ℚ, (StokesMatrixFreeHandler.solve Examples.lib Examples.env
        (Examples.outer_solver _) (Examples.handler 1) 0).result = Except.ok (r, some 0) :=
  (returned_residuals_of_the_Stokes_solvers Examples.lib Examples.env
    (Examples.outer_solver _) (Examples.outer_solver _) (Examples.sim 1)
    (Examples.handler 1) 0).2.2.2.1 (Examples.handler_timing_returns 1) rfl

/-! ## `vmult` with exact inner solves -/

namespace internal

/-- The result of `vmult` when the Schur solve is started and both inner
solves return: the pressure block is minus the result of the Schur solve, the
velocity block is the result of the velocity solve, whose right hand side is
`src.block(0) - B^T * dst.block(1)`. -/
theorem vmult_of_both_solved {R : Type} [LinearOrderedField R] {nu np : ℕ}
    (lib : Library R) (self : BlockSchurPreconditioner R nu np) (dst src : BlockVector R nu np)
    (hgt : Vector.l2_norm lib.sqrt src.block1 > 1e-50) (hd : self.do_solve_A = true)
    (hS : (self.S_solve lib src).exc = none) (hA : (self.A_solve lib dst src).exc = none) :
    (self.vmult lib dst src).raised = none
    ∧ (self.vmult lib dst src).dst.block1 = -(self.S_solve lib src).x
    ∧ (self.vmult lib dst src).dst.block0 = (self.A_solve lib dst src).x
    ∧ self.utmp lib dst src
        = src.block0 - Matrix.mulVec self.stokes_matrix.block01 (-(self.S_solve lib src).x) := by
  have hS1 := hS
  unfold BlockSchurPreconditioner.S_solve BlockSchurPreconditioner.S_solve_control at hS1
  have hp := pressure_step_of_gt lib self dst src hgt hS1
  have hp1 : (self.pressure_step lib dst src).dst.block1 = -(self.S_solve lib src).x := by
    rw [hp]
    show (-1 : R) • (self.S_solve lib src).x = -(self.S_solve lib src).x
    rw [neg_one_smul]
  have hraised : (self.pressure_step lib dst src).raised = none := by
    rw [hp]
  have hP := pressure_step_precond lib self dst src
  have hd0 : (self.pressure_step lib dst src).precond.do_solve_A = true := by
    rw [hP]
    exact hd
  have hv := velocity_step_of_solve lib (self.pressure_step lib dst src).precond
    (self.pressure_step lib dst src).calls (self.pressure_step lib dst src).dst
    ((self.pressure_step lib dst src).precond.top_right_step
      (self.pressure_step lib dst src).dst src) hd0
  have hA1 := hA
  unfold BlockSchurPreconditioner.A_solve BlockSchurPreconditioner.A_solve_control BlockSchurPreconditioner.utmp at hA1
  have hv3 := hv.2.2
  simp only [hA1] at hv3
  refine ⟨?_, ?_, ?_, ?_⟩
  · rw [vmult_of_pressure_ok lib self dst src hraised]
    exact hv3.1
  · rw [vmult_dst_block1, hp1]
  · rw [vmult_of_pressure_ok lib self dst src hraised, hv.2.1]
    rfl
  · unfold BlockSchurPreconditioner.utmp
    rw [top_right_step_eq, hp1]
    congr 2
    rw [hP]

/-- The result of `vmult` when the Schur solve is started and both inner
solves return: the pressure block is minus the result of the Schur solve, the
velocity block is the result of the velocity solve, whose right hand side is
`src.block(0) - B^T * dst.block(1)`. -/
theorem mf_vmult_of_both_solved {R : Type} [LinearOrderedField R] {nu np : ℕ}
    (lib : Library R) (self : MatrixFree.BlockSchurPreconditioner R nu np) (dst src : BlockVector R nu np)
    (hgt : Vector.l2_norm lib.sqrt src.block1 > 1e-50) (hd : self.do_solve_A = true)
    (hS : (self.S_solve lib src).exc = none) (hA : (self.A_solve lib dst src).exc = none) :
    (self.vmult lib dst src).raised = none
    ∧ (self.vmult lib dst src).dst.block1 = -(self.S_solve lib src).x
    ∧ (self.vmult lib dst src).dst.block0 = (self.A_solve lib dst src).x
    ∧ (self.utmp lib dst src).block0
        = src.block0 - Matrix.mulVec self.stokes_matrix.blocks.block01 (-(self.S_solve lib src).x) := by
  have hS1 := hS
  unfold MatrixFree.BlockSchurPreconditioner.S_solve MatrixFree.BlockSchurPreconditioner.S_solve_control at hS1
  have hp := mf_pressure_step_of_gt lib self dst src hgt hS1
  have hp1 : (self.pressure_step lib dst src).dst.block1 = -(self.S_solve lib src).x := by
    rw [hp]
    show (-1 : R) • (self.S_solve lib src).x = -(self.S_solve lib src).x
    rw [neg_one_smul]
  have hraised : (self.pressure_step lib dst src).raised = none := by
    rw [hp]
  have hP := mf_pressure_step_precond lib self dst src
  have hd0 : (self.pressure_step lib dst src).precond.do_solve_A = true := by
    rw [hP]
    exact hd
  have hv := mf_velocity_step_of_solve lib (self.pressure_step lib dst src).precond
    (self.pressure_step lib dst src).calls (self.pressure_step lib dst src).dst
    ((self.pressure_step lib dst src).precond.top_right_step
      (self.pressure_step lib dst src).dst src) hd0
  have hA1 := hA
  unfold MatrixFree.BlockSchurPreconditioner.A_solve MatrixFree.BlockSchurPreconditioner.A_solve_control MatrixFree.BlockSchurPreconditioner.utmp at hA1
  have hv3 := hv.2.2
  simp only [hA1] at hv3
  refine ⟨?_, ?_, ?_, ?_⟩
  · rw [mf_vmult_of_pressure_ok lib self dst src hraised]
    exact hv3.1
  · rw [mf_vmult_dst_block1, hp1]
  · rw [mf_vmult_of_pressure_ok lib self dst src hraised, hv.2.1]
    rfl
  · unfold MatrixFree.BlockSchurPreconditioner.utmp
    rw [mf_top_right_step_block0, hp1]
    congr 2
    rw [hP]

end internal

/-- C28: one step of the block triangular factorization. For a right hand side
with `src.block(1).l2_norm() > 1e-50` and `do_solve_A == true`, when both inner
solves return and are exact (the Schur solve returns `y` with
`M * y = src.block(1)`, the velocity solve returns `x` with `A00 * x` equal to
its right hand side), `BlockSchurPreconditioner::vmult` returns and its result
satisfies `A00 * dst.block(0) + B^T * dst.block(1) = src.block(0)` and
`-M * dst.block(1) = src.block(1)`. In solver.cc (`P`) `M` is block (1,1) of
the preconditioner matrix and `A00`, `B^T` are blocks of the Stokes matrix;
in the matrix-free class (`Q`) `M` is the mass matrix, `A00` the velocity
operator and `B^T` the block of the Stokes operator. -/
theorem BlockSchurPreconditioner_vmult_solves_block_triangular_system {R : Type}
    [LinearOrderedField R] {nu np : ℕ} (lib : Library R)
    (P : internal.BlockSchurPreconditioner R nu np)
    (Q : internal.MatrixFree.BlockSchurPreconditioner R nu np)
    (dst src : BlockVector R nu np)
    (hgt : Vector.l2_norm lib.sqrt src.block1 > 1e-50) :
    (P.do_solve_A = true →
      (P.S_solve lib src).exc = none →
      Matrix.mulVec P.stokes_preconditioner_matrix.block11 (P.S_solve lib src).x
        = src.block1 →
      (P.A_solve lib dst src).exc = none →
      Matrix.mulVec P.stokes_matrix.block00 (P.A_solve lib dst src).x = P.utmp lib dst src →
      (P.vmult lib dst src).raised = none
      ∧ Matrix.mulVec P.stokes_matrix.block00 (P.vmult lib dst src).dst.block0
          + Matrix.mulVec P.stokes_matrix.block01 (P.vmult lib dst src).dst.block1
        = src.block0
      ∧ -(Matrix.mulVec P.stokes_preconditioner_matrix.block11
            (P.vmult lib dst src).dst.block1) = src.block1)
    ∧ (Q.do_solve_A = true →
      (Q.S_solve lib src).exc = none →
      Matrix.mulVec Q.mass_matrix (Q.S_solve lib src).x = src.block1 →
      (Q.A_solve lib dst src).exc = none →
      Matrix.mulVec Q.velocity_matrix (Q.A_solve lib dst src).x
        = (Q.utmp lib dst src).block0 →
      (Q.vmult lib dst src).raised = none
      ∧ Matrix.mulVec Q.velocity_matrix (Q.vmult lib dst src).dst.block0
          + Matrix.mulVec Q.stokes_matrix.blocks.block01 (Q.vmult lib dst src).dst.block1
        = src.block0
      ∧ -(Matrix.mulVec Q.mass_matrix (Q.vmult lib dst src).dst.block1) = src.block1) := by
  constructor
  · intro hd hS hM hA hA00
    obtain ⟨h1, h2, h3, h4⟩ := internal.vmult_of_both_solved lib P dst src hgt hd hS hA
    refine ⟨h1, ?_, ?_⟩
    · rw [h2, h3, hA00, h4]
      abel
    · rw [h2, Matrix.mulVec_neg, neg_neg, hM]
  · intro hd hS hM hA hA00
    obtain ⟨h1, h2, h3, h4⟩ := internal.mf_vmult_of_both_solved lib Q dst src hgt hd hS hA
    refine ⟨h1, ?_, ?_⟩
    · rw [h2, h3, hA00, h4]
      abel
    · rw [h2, Matrix.mulVec_neg, neg_neg, hM]

/-- Witness of C28: the small system, whose inner solvers solve the systems with
the identity matrix exactly, with the right hand side `(1, 1)`: the result of
`vmult` of solver.cc solves the block triangular system. -/
theorem BlockSchurPreconditioner_vmult_solves_block_triangular_system_witness :
    Vector.l2_norm Examples.lib.sqrt (Examples.vec 1 1).block1 > 1e-50
    ∧ ((Examples.preconditioner true).vmult Examples.lib (Examples.vec 0 0)
        (Examples.vec 1 1)).raised = none
    ∧ Matrix.mulVec (Examples.preconditioner true).stokes_matrix.block00
          ((Examples.preconditioner true).vmult Examples.lib (Examples.vec 0 0)
            (Examples.vec 1 1)).dst.block0
        + Matrix.mulVec (Examples.preconditioner true).stokes_matrix.block01
          ((Examples.preconditioner true).vmult Examples.lib (Examples.vec 0 0)
            (Examples.vec 1 1)).dst.block1
      = (Examples.vec 1 1).block0
    ∧ -(Matrix.mulVec (Examples.preconditioner true).stokes_preconditioner_matrix.block11
          ((Examples.preconditioner true).vmult Examples.lib (Examples.vec 0 0)
            (Examples.vec 1 1)).dst.block1) = (Examples.vec 1 1).block1 := by
  have hn : Vector.l2_norm Examples.lib.sqrt (Examples.vec 1 1).block1 > 1e-50 := by
    have h1 : Vector.l2_norm Examples.lib.sqrt (Examples.vec 1 1).block1 = 1 :=
      Examples.l2_norm_const_one
    rw [h1]
    norm_num
  exact ⟨hn, (BlockSchurPreconditioner_vmult_solves_block_triangular_system Examples.lib
    (Examples.preconditioner true) (Examples.mf_preconditioner true) (Examples.vec 0 0)
    (Examples.vec 1 1) hn).1 rfl rfl (Matrix.one_mulVec _) rfl (Matrix.one_mulVec _)⟩

/-! ## The workload imbalance of the multigrid hierarchy -/

/-- The maximum over the processes is the supremum over the ranks. -/
theorem MPI_max_of_counts_eq (n : ℕ) (value : ℕ → ℕ) :
    Utilities.MPI.max_of_counts n value = (Finset.range n).sup value := by
  unfold Utilities.MPI.max_of_counts
  induction n with
  | zero => rfl
  | succ n ih =>
    rw [List.range_succ, List.foldl_append, ih, Finset.range_succ, Finset.sup_insert]
    simp only [List.foldl_cons, List.foldl_nil]
    exact max_comm _ _

/-- The sum over the processes is the sum over the ranks. -/
theorem MPI_sum_of_counts_eq (n : ℕ) (value : ℕ → ℕ) :
    Utilities.MPI.sum_of_counts n value = ∑ rank in Finset.range n, value rank := by
  unfold Utilities.MPI.sum_of_counts
  induction n with
  | zero => rfl
  | succ n ih =>
    rw [List.range_succ, List.foldl_append, ih, Finset.sum_range_succ]
    rfl

/-- The sum of a list of values over `0, ..., n-1`. -/
theorem list_sum_map_range (f : ℕ → ℕ) (n : ℕ) :
    ((List.range n).map f).sum = ∑ i in Finset.range n, f i := by
  induction n with
  | zero => rfl
  | succ n ih =>
    rw [List.range_succ, List.map_append, List.sum_append, ih, Finset.sum_range_succ]
    simp

/-- A loop that adds to two sums. -/
theorem foldl_two_sums (w t : ℕ → ℕ) (l : List ℕ) :
    ∀ init : ℕ × ℕ,
      l.foldl (fun (estimates : ℕ × ℕ) lvl => (estimates.1 + w lvl, estimates.2 + t lvl)) init
        = (init.1 + (l.map w).sum, init.2 + (l.map t).sum) := by
  induction l with
  | nil => intro init; rfl
  | cons a rest ih =>
    intro init
    rw [List.foldl_cons, ih]
    simp only [List.map_cons, List.sum_cons, add_assoc]

/-- The two sums of `get_workload_imbalance` after the loop over the levels. -/
theorem work_estimates_eq (triangulation : Triangulation) :
    StokesMatrixFreeHandler.work_estimates triangulation
      = (∑ lvl in Finset.range triangulation.n_global_levels,
            (Finset.range triangulation.n_mpi_processes).sup
              (fun rank => triangulation.n_owned_cells_on_lvl rank lvl),
          ∑ lvl in Finset.range triangulation.n_global_levels,
            ∑ rank in Finset.range triangulation.n_mpi_processes,
              triangulation.n_owned_cells_on_lvl rank lvl) := by
  unfold StokesMatrixFreeHandler.work_estimates
  simp only [MPI_max_of_counts_eq, MPI_sum_of_counts_eq]
  rw [foldl_two_sums
    (fun lvl => (Finset.range triangulation.n_mpi_processes).sup
      (fun rank => triangulation.n_owned_cells_on_lvl rank lvl))
    (fun lvl => ∑ rank in Finset.range triangulation.n_mpi_processes,
      triangulation.n_owned_cells_on_lvl rank lvl)]
  rw [List.map_reverse, List.map_reverse, List.sum_reverse, List.sum_reverse,
    list_sum_map_range, list_sum_map_range, zero_add, zero_add]

/-- On one level: the sum of the counts is at most the number of processes
times the maximum, with equality exactly when all counts are the same. -/
theorem level_counts (n : ℕ) (c : ℕ → ℕ) :
    ∑ rank in Finset.range n, c rank ≤ n * (Finset.range n).sup c
    ∧ (∑ rank in Finset.range n, c rank = n * (Finset.range n).sup c
        ↔ ∀ r1, r1 < n → ∀ r2, r2 < n → c r1 = c r2) := by
  have hle : ∀ rank ∈ Finset.range n, c rank ≤ (Finset.range n).sup c :=
    fun rank hr => Finset.le_sup hr
  have hconst : ∑ _rank in Finset.range n, (Finset.range n).sup c
      = n * (Finset.range n).sup c := by
    rw [Finset.sum_const, Finset.card_range, smul_eq_mul]
  constructor
  · rw [← hconst]
    exact Finset.sum_le_sum hle
  · rw [← hconst, Finset.sum_eq_sum_iff_of_le hle]
    constructor
    · intro h r1 h1 r2 h2
      rw [h r1 (Finset.mem_range.mpr h1), h r2 (Finset.mem_range.mpr h2)]
    · intro h rank hr
      apply le_antisymm (hle rank hr)
      apply Finset.sup_le
      intro r2 h2
      rw [h r2 (Finset.mem_range.mp h2) rank (Finset.mem_range.mp hr)]

/-- The loop over the cells of a level counts the cells of the process. -/
theorem n_owned_cells_on_lvl_eq_count (triangulation : Triangulation) (rank lvl : ℕ) :
    triangulation.n_owned_cells_on_lvl rank lvl
      = ((triangulation.level_subdomain_ids lvl).filter (fun id => id = rank)).length := by
  unfold Triangulation.n_owned_cells_on_lvl
  have h : ∀ (l : List ℕ) (k : ℕ),
      l.foldl (fun n id => if id = rank then n + 1 else n) k
        = k + (l.filter (fun id => id = rank)).length := by
    intro l
    induction l with
    | nil => intro k; rfl
    | cons a t ih =>
      intro k
      rw [List.foldl_cons, ih]
      by_cases ha : a = rank
      · simp [ha]
        omega
      · simp [ha]
  rw [h, zero_add]

/-- C29: `StokesMatrixFreeHandler::get_workload_imbalance` of
stokes_matrix_free.cc, in exact arithmetic. With at least one process and at
least one cell in the hierarchy the returned ratio is the number of processes
times the sum over the levels of the maximal number of cells that a process
owns on the level, divided by the total number of cells of all levels; it is
at least 1; and it is 1 exactly when on every level all processes own the
same number of cells. The number of cells that a process owns on a level is
the number of cells of the level with its rank. -/
theorem StokesMatrixFreeHandler_get_workload_imbalance_spec {R : Type} [LinearOrderedField R]
    (triangulation : Triangulation) (hn : triangulation.n_mpi_processes ≥ 1)
    (hcells : 0 < ∑ lvl in Finset.range triangulation.n_global_levels,
      ∑ rank in Finset.range triangulation.n_mpi_processes,
        triangulation.n_owned_cells_on_lvl rank lvl) :
    (StokesMatrixFreeHandler.get_workload_imbalance triangulation : R)
      = (triangulation.n_mpi_processes : R)
        * ((∑ lvl in Finset.range triangulation.n_global_levels,
              (Finset.range triangulation.n_mpi_processes).sup
                (fun rank => triangulation.n_owned_cells_on_lvl rank lvl) : ℕ) : R)
        / ((∑ lvl in Finset.range triangulation.n_global_levels,
              ∑ rank in Finset.range triangulation.n_mpi_processes,
                triangulation.n_owned_cells_on_lvl rank lvl : ℕ) : R)
    ∧ (1 : R) ≤ StokesMatrixFreeHandler.get_workload_imbalance triangulation
    ∧ ((StokesMatrixFreeHandler.get_workload_imbalance triangulation : R) = 1
        ↔ ∀ lvl, lvl < triangulation.n_global_levels →
            ∀ r1, r1 < triangulation.n_mpi_processes →
            ∀ r2, r2 < triangulation.n_mpi_processes →
              triangulation.n_owned_cells_on_lvl r1 lvl
                = triangulation.n_owned_cells_on_lvl r2 lvl)
    ∧ ∀ rank lvl, triangulation.n_owned_cells_on_lvl rank lvl
        = ((triangulation.level_subdomain_ids lvl).filter (fun id => id = rank)).length := by
  have hnR : (triangulation.n_mpi_processes : R) ≠ 0 := by
    have : 0 < triangulation.n_mpi_processes := hn
    exact_mod_cast this.ne'
  have hTR : (0 : R) < ((∑ lvl in Finset.range triangulation.n_global_levels,
      ∑ rank in Finset.range triangulation.n_mpi_processes,
        triangulation.n_owned_cells_on_lvl rank lvl : ℕ) : R) := by
    exact_mod_cast hcells
  have hratio : (StokesMatrixFreeHandler.get_workload_imbalance triangulation : R)
      = (triangulation.n_mpi_processes : R)
        * ((∑ lvl in Finset.range triangulation.n_global_levels,
              (Finset.range triangulation.n_mpi_processes).sup
                (fun rank => triangulation.n_owned_cells_on_lvl rank lvl) : ℕ) : R)
        / ((∑ lvl in Finset.range triangulation.n_global_levels,
              ∑ rank in Finset.range triangulation.n_mpi_processes,
                triangulation.n_owned_cells_on_lvl rank lvl : ℕ) : R) := by
    unfold StokesMatrixFreeHandler.get_workload_imbalance
    rw [work_estimates_eq]
    simp only []
    rw [div_div_eq_mul_div, mul_comm]
  have hlevels : ∀ lvl ∈ Finset.range triangulation.n_global_levels,
      ∑ rank in Finset.range triangulation.n_mpi_processes,
          triangulation.n_owned_cells_on_lvl rank lvl
        ≤ triangulation.n_mpi_processes
          * (Finset.range triangulation.n_mpi_processes).sup
              (fun rank => triangulation.n_owned_cells_on_lvl rank lvl) :=
    fun lvl _ => (level_counts _ _).1
  have hle : ∑ lvl in Finset.range triangulation.n_global_levels,
        ∑ rank in Finset.range triangulation.n_mpi_processes,
          triangulation.n_owned_cells_on_lvl rank lvl
      ≤ triangulation.n_mpi_processes
        * ∑ lvl in Finset.range triangulation.n_global_levels,
            (Finset.range triangulation.n_mpi_processes).sup
              (fun rank => triangulation.n_owned_cells_on_lvl rank lvl) := by
    rw [Finset.mul_sum]
    exact Finset.sum_le_sum hlevels
  refine ⟨hratio, ?_, ?_, n_owned_cells_on_lvl_eq_count triangulation⟩
  · rw [hratio, le_div_iff₀ hTR, one_mul]
    exact_mod_cast hle
  · rw [hratio, div_eq_one_iff_eq hTR.ne']
    have hcast : ((triangulation.n_mpi_processes : R)
          * ((∑ lvl in Finset.range triangulation.n_global_levels,
              (Finset.range triangulation.n_mpi_processes).sup
                (fun rank => triangulation.n_owned_cells_on_lvl rank lvl) : ℕ) : R)
          = ((∑ lvl in Finset.range triangulation.n_global_levels,
              ∑ rank in Finset.range triangulation.n_mpi_processes,
                triangulation.n_owned_cells_on_lvl rank lvl : ℕ) : R))
        ↔ (∑ lvl in Finset.range triangulation.n_global_levels,
              ∑ rank in Finset.range triangulation.n_mpi_processes,
                triangulation.n_owned_cells_on_lvl rank lvl
            = ∑ lvl in Finset.range triangulation.n_global_levels,
              triangulation.n_mpi_processes
                * (Finset.range triangulation.n_mpi_processes).sup
                    (fun rank => triangulation.n_owned_cells_on_lvl rank lvl)) := by
      rw [← Finset.mul_sum]
      constructor
      · intro h
        have h2 : triangulation.n_mpi_processes
              * ∑ lvl in Finset.range triangulation.n_global_levels,
                (Finset.range triangulation.n_mpi_processes).sup
                  (fun rank => triangulation.n_owned_cells_on_lvl rank lvl)
            = ∑ lvl in Finset.range triangulation.n_global_levels,
              ∑ rank in Finset.range triangulation.n_mpi_processes,
                triangulation.n_owned_cells_on_lvl rank lvl := by
          exact_mod_cast h
        exact h2.symm
      · intro h
        rw [h]
        push_cast
        rfl
    rw [hcast, Finset.sum_eq_sum_iff_of_le hlevels]
    constructor
    · intro h lvl hl
      exact (level_counts _ _).2.mp (h lvl (Finset.mem_range.mpr hl))
    · intro h lvl hl
      exact (level_counts _ _).2.mpr (h lvl (Finset.mem_range.mp hl))

/-- Witness of C29: two processes and two levels, with one cell on level 0 and
two cells on level 1, one for each process: the maxima are 1 and 1, there are
3 cells, and the ratio is 2 * 2 / 3. -/
theorem StokesMatrixFreeHandler_get_workload_imbalance_spec_witness :
    (1 : ℚ) ≤ StokesMatrixFreeHandler.get_workload_imbalance Examples.triangulation
    ∧ (StokesMatrixFreeHandler.get_workload_imbalance Examples.triangulation : ℚ) = 4 / 3 := by
  have h := StokesMatrixFreeHandler_get_workload_imbalance_spec (R := ℚ)
    Examples.triangulation (by decide) (by decide)
  refine ⟨h.2.1, ?_⟩
  have hW : (∑ lvl in Finset.range Examples.triangulation.n_global_levels,
      (Finset.range Examples.triangulation.n_mpi_processes).sup
        (fun rank => Examples.triangulation.n_owned_cells_on_lvl rank lvl)) = 2 := by decide
  have hT : (∑ lvl in Finset.range Examples.triangulation.n_global_levels,
      ∑ rank in Finset.range Examples.triangulation.n_mpi_processes,
        Examples.triangulation.n_owned_cells_on_lvl rank lvl) = 3 := by decide
  rw [h.1, hW, hT]
  have hn : Examples.triangulation.n_mpi_processes = 2 := rfl
  rw [hn]
  norm_num

/-! ## The round trip of `convert_pressure_blocks` -/

/-- A loop of loops with a common step is the loop over the concatenation. -/
theorem foldl_bind_eq {σ α β : Type} (f : σ → β → σ) (g : α → List β) (l : List α) :
    ∀ s : σ, l.foldl (fun s a => (g a).foldl f s) s = (l.flatMap g).foldl f s := by
  induction l with
  | nil => intro s; rfl
  | cons a t ih =>
    intro s
    rw [List.foldl_cons, ih, List.flatMap_cons, List.foldl_append]

/-- A sequence of assignments to entries that does not assign to the entry `k`
leaves it as it is. -/
theorem writes_untouched {R : Type} (T : List (ℕ × R)) (k : ℕ) :
    ∀ start : LinearAlgebra.BlockVector R, (∀ w ∈ T, w.1 ≠ k) →
      (T.foldl (fun v w => v.set w.1 w.2) start).values k = start.values k := by
  induction T with
  | nil => intro start _; rfl
  | cons w rest ih =>
    intro start h
    rw [List.foldl_cons, ih _ (fun w2 h2 => h w2 (List.mem_cons_of_mem _ h2))]
    unfold LinearAlgebra.BlockVector.set
    exact Function.update_noteq (h w (List.mem_cons_self _ _)).symm _ _

/-- A sequence of assignments to entries that assigns to the entry `k`, and
always the value `x`, leaves `x` in it. -/
theorem writes_agree {R : Type} (T : List (ℕ × R)) (k : ℕ) (x : R) :
    ∀ start : LinearAlgebra.BlockVector R, (∃ w ∈ T, w.1 = k) →
      (∀ w ∈ T, w.1 = k → w.2 = x) →
      (T.foldl (fun v w => v.set w.1 w.2) start).values k = x := by
  induction T with
  | nil =>
    intro start h
    obtain ⟨w, hw, _⟩ := h
    cases hw
  | cons w rest ih =>
    intro start hex hall
    rw [List.foldl_cons]
    by_cases hrest : ∃ w2 ∈ rest, w2.1 = k
    · exact ih _ hrest (fun w2 h2 => hall w2 (List.mem_cons_of_mem _ h2))
    · have hno : ∀ w2 ∈ rest, w2.1 ≠ k := fun w2 h2 h3 => hrest ⟨w2, h2, h3⟩
      rw [writes_untouched rest k _ hno]
      obtain ⟨w2, hw2, hk⟩ := hex
      rcases List.mem_cons.mp hw2 with h | h
      · subst h
        unfold LinearAlgebra.BlockVector.set
        rw [← hk]
        simp only [Function.update_same]
        exact hall w2 (List.mem_cons_self _ _) hk
      · exact absurd hk (hno w2 h)

/-- A sequence of assignments to entries leaves the block sizes as they
are. -/
theorem writes_block_sizes {R : Type} (T : List (ℕ × R)) :
    ∀ start : LinearAlgebra.BlockVector R,
      (T.foldl (fun v w => v.set w.1 w.2) start).block_sizes = start.block_sizes := by
  induction T with
  | nil => intro start; rfl
  | cons w rest ih =>
    intro start
    rw [List.foldl_cons, ih]
    rfl

/-- The loops of `convert_pressure_blocks`, writing the pair `P cell j` for the
`j`-th pressure degree of freedom of a cell, are a sequence of assignments to
entries. -/
theorem convert_loops_eq_writes {R : Type} [LinearOrderedField R]
    (self : PressureConversion R) (P : MeltCell R → ℕ → R × R)
    (start : LinearAlgebra.BlockVector R) :
    (List.range self.n_mpi_processes).foldl
        (fun output_solution rank =>
          self.cells.foldl
            (fun output_solution cell =>
              if cell.subdomain_id = rank then
                (List.range self.dofs_per_cell).foldl
                  (fun output_solution j =>
                    if ¬ (cell.pressure_dof_index j ∈ self.locally_owned_dofs rank) then
                      output_solution
                    else
                      (output_solution.set (cell.pressure_dof_index j) (P cell j).1).set
                        (cell.p_c_dof_index j) (P cell j).2)
                  output_solution
              else output_solution)
            output_solution)
        start
      = ((List.range self.n_mpi_processes).flatMap (fun rank =>
          self.cells.flatMap (fun cell =>
            if cell.subdomain_id = rank then
              (List.range self.dofs_per_cell).flatMap (fun j =>
                if ¬ (cell.pressure_dof_index j ∈ self.locally_owned_dofs rank) then []
                else [(cell.pressure_dof_index j, (P cell j).1),
                  (cell.p_c_dof_index j, (P cell j).2)])
            else []))).foldl (fun v w => v.set w.1 w.2) start := by
  have h1 : ∀ (rank : ℕ) (cell : MeltCell R),
      (fun (output_solution : LinearAlgebra.BlockVector R) (j : ℕ) =>
        if ¬ (cell.pressure_dof_index j ∈ self.locally_owned_dofs rank) then
          output_solution
        else
          (output_solution.set (cell.pressure_dof_index j) (P cell j).1).set
            (cell.p_c_dof_index j) (P cell j).2)
      = (fun output_solution j =>
          ((fun j => if ¬ (cell.pressure_dof_index j ∈ self.locally_owned_dofs rank)
            then ([] : List (ℕ × R))
            else [(cell.pressure_dof_index j, (P cell j).1),
              (cell.p_c_dof_index j, (P cell j).2)]) j).foldl
            (fun v w => v.set w.1 w.2) output_solution) := by
    intro rank cell
    funext v j
    by_cases ho : cell.pressure_dof_index j ∈ self.locally_owned_dofs rank
    · simp [ho]
    · simp [ho]
  have h2 : ∀ (rank : ℕ),
      (fun (output_solution : LinearAlgebra.BlockVector R) (cell : MeltCell R) =>
        if cell.subdomain_id = rank then
          (List.range self.dofs_per_cell).foldl
            (fun output_solution j =>
              if ¬ (cell.pressure_dof_index j ∈ self.locally_owned_dofs rank) then
                output_solution
              else
                (output_solution.set (cell.pressure_dof_index j) (P cell j).1).set
                  (cell.p_c_dof_index j) (P cell j).2)
            output_solution
        else output_solution)
      = (fun output_solution cell =>
          ((fun cell : MeltCell R => if cell.subdomain_id = rank then
              (List.range self.dofs_per_cell).flatMap (fun j =>
                if ¬ (cell.pressure_dof_index j ∈ self.locally_owned_dofs rank) then []
                else [(cell.pressure_dof_index j, (P cell j).1),
                  (cell.p_c_dof_index j, (P cell j).2)])
            else []) cell).foldl (fun v w => v.set w.1 w.2) output_solution) := by
    intro rank
    funext v cell
    by_cases hs : cell.subdomain_id = rank
    · simp only [if_pos hs]
      rw [h1 rank cell, foldl_bind_eq]
    · simp only [if_neg hs, List.foldl_nil]
  have h3 : (fun (output_solution : LinearAlgebra.BlockVector R) (rank : ℕ) =>
        self.cells.foldl
          (fun output_solution cell =>
            if cell.subdomain_id = rank then
              (List.range self.dofs_per_cell).foldl
                (fun output_solution j =>
                  if ¬ (cell.pressure_dof_index j ∈ self.locally_owned_dofs rank) then
                    output_solution
                  else
                    (output_solution.set (cell.pressure_dof_index j) (P cell j).1).set
                      (cell.p_c_dof_index j) (P cell j).2)
                output_solution
            else output_solution)
          output_solution)
      = (fun output_solution rank =>
          ((fun rank => self.cells.flatMap (fun cell : MeltCell R =>
            if cell.subdomain_id = rank then
              (List.range self.dofs_per_cell).flatMap (fun j =>
                if ¬ (cell.pressure_dof_index j ∈ self.locally_owned_dofs rank) then []
                else [(cell.pressure_dof_index j, (P cell j).1),
                  (cell.p_c_dof_index j, (P cell j).2)])
            else [])) rank).foldl (fun v w => v.set w.1 w.2) output_solution) := by
    funext v rank
    rw [h2 rank, foldl_bind_eq]
  rw [h3, foldl_bind_eq]

/-- The assignments of `convert_pressure_blocks` are made for the degrees of
freedom `j` of the cells of a process whose pressure index the process owns:
every assignment is one of the two of such a pair (cell, `j`), and both
assignments of such a pair are made. -/
theorem convert_writes_mem {R : Type} [LinearOrderedField R]
    (self : PressureConversion R) (P : MeltCell R → ℕ → R × R) (w : ℕ × R) :
    w ∈ ((List.range self.n_mpi_processes).flatMap (fun rank =>
          self.cells.flatMap (fun cell =>
            if cell.subdomain_id = rank then
              (List.range self.dofs_per_cell).flatMap (fun j =>
                if ¬ (cell.pressure_dof_index j ∈ self.locally_owned_dofs rank) then []
                else [(cell.pressure_dof_index j, (P cell j).1),
                  (cell.p_c_dof_index j, (P cell j).2)])
            else [])))
      ↔ ∃ cell ∈ self.cells, ∃ j, j < self.dofs_per_cell
          ∧ cell.subdomain_id < self.n_mpi_processes
          ∧ cell.pressure_dof_index j ∈ self.locally_owned_dofs cell.subdomain_id
          ∧ (w = (cell.pressure_dof_index j, (P cell j).1)
              ∨ w = (cell.p_c_dof_index j, (P cell j).2)) := by
  constructor
  · intro hw
    obtain ⟨rank, hr, hw⟩ := List.mem_flatMap.mp hw
    obtain ⟨cell, hc, hw⟩ := List.mem_flatMap.mp hw
    by_cases hs : cell.subdomain_id = rank
    · rw [if_pos hs] at hw
      obtain ⟨j, hj, hw⟩ := List.mem_flatMap.mp hw
      by_cases ho : cell.pressure_dof_index j ∈ self.locally_owned_dofs rank
      · rw [if_neg (not_not.mpr ho)] at hw
        refine ⟨cell, hc, j, List.mem_range.mp hj, hs ▸ List.mem_range.mp hr, hs ▸ ho, ?_⟩
        rcases List.mem_cons.mp hw with h | h
        · exact Or.inl h
        · exact Or.inr (List.mem_singleton.mp h)
      · rw [if_pos ho] at hw
        cases hw
    · rw [if_neg hs] at hw
      cases hw
  · rintro ⟨cell, hc, j, hj, hr, ho, hw⟩
    refine List.mem_flatMap.mpr ⟨cell.subdomain_id, List.mem_range.mpr hr, ?_⟩
    refine List.mem_flatMap.mpr ⟨cell, hc, ?_⟩
    rw [if_pos rfl]
    refine List.mem_flatMap.mpr ⟨j, List.mem_range.mpr hj, ?_⟩
    rw [if_neg (not_not.mpr ho)]
    rcases hw with h | h
    · rw [h]
      exact List.mem_cons_self _ _
    · rw [h]
      exact List.mem_cons_of_mem _ (List.mem_singleton.mpr rfl)

/-- The entries after the assignments of `convert_pressure_blocks` at the two
indices of a visited pressure degree of freedom, when the pressure and the
compaction pressure indices are paired consistently over the cells and the
pair written depends only on the two indices and the porosity. -/
theorem convert_writes_values {R : Type} [LinearOrderedField R]
    (self : PressureConversion R) (P : MeltCell R → ℕ → R × R)
    (start : LinearAlgebra.BlockVector R)
    (hP : ∀ c1 ∈ self.cells, ∀ c2 ∈ self.cells, ∀ j1 j2,
      j1 < self.dofs_per_cell → j2 < self.dofs_per_cell →
      c1.pressure_dof_index j1 = c2.pressure_dof_index j2 →
      c1.p_c_dof_index j1 = c2.p_c_dof_index j2 →
      c1.porosity_values j1 = c2.porosity_values j2 → P c1 j1 = P c2 j2)
    (hdofs : ∀ c1 ∈ self.cells, ∀ c2 ∈ self.cells, ∀ j1 j2,
      j1 < self.dofs_per_cell → j2 < self.dofs_per_cell →
      c1.pressure_dof_index j1 ≠ c2.p_c_dof_index j2
      ∧ (c1.pressure_dof_index j1 = c2.pressure_dof_index j2
          ↔ c1.p_c_dof_index j1 = c2.p_c_dof_index j2)
      ∧ (c1.pressure_dof_index j1 = c2.pressure_dof_index j2 →
          c1.porosity_values j1 = c2.porosity_values j2))
    (cell : MeltCell R) (hc : cell ∈ self.cells) (j : ℕ) (hj : j < self.dofs_per_cell)
    (hr : cell.subdomain_id < self.n_mpi_processes)
    (ho : cell.pressure_dof_index j ∈ self.locally_owned_dofs cell.subdomain_id) :
    ((((List.range self.n_mpi_processes).flatMap (fun rank =>
          self.cells.flatMap (fun cell =>
            if cell.subdomain_id = rank then
              (List.range self.dofs_per_cell).flatMap (fun j =>
                if ¬ (cell.pressure_dof_index j ∈ self.locally_owned_dofs rank) then []
                else [(cell.pressure_dof_index j, (P cell j).1),
                  (cell.p_c_dof_index j, (P cell j).2)])
            else []))).foldl (fun v w => v.set w.1 w.2) start).values
        (cell.pressure_dof_index j) = (P cell j).1)
    ∧ ((((List.range self.n_mpi_processes).flatMap (fun rank =>
          self.cells.flatMap (fun cell =>
            if cell.subdomain_id = rank then
              (List.range self.dofs_per_cell).flatMap (fun j =>
                if ¬ (cell.pressure_dof_index j ∈ self.locally_owned_dofs rank) then []
                else [(cell.pressure_dof_index j, (P cell j).1),
                  (cell.p_c_dof_index j, (P cell j).2)])
            else []))).foldl (fun v w => v.set w.1 w.2) start).values
        (cell.p_c_dof_index j) = (P cell j).2) := by
  constructor
  · apply writes_agree
    · exact ⟨_, (convert_writes_mem self P _).mpr ⟨cell, hc, j, hj, hr, ho, Or.inl rfl⟩, rfl⟩
    · intro w hw hk
      obtain ⟨c2, hc2, j2, hj2, _, _, h | h⟩ := (convert_writes_mem self P w).mp hw
      · rw [h] at hk ⊢
        have hd := hdofs c2 hc2 cell hc j2 j hj2 hj
        rw [hP c2 hc2 cell hc j2 j hj2 hj hk (hd.2.1.mp hk) (hd.2.2 hk)]
      · rw [h] at hk
        exact absurd hk.symm (hdofs cell hc c2 hc2 j j2 hj hj2).1
  · apply writes_agree
    · exact ⟨_, (convert_writes_mem self P _).mpr ⟨cell, hc, j, hj, hr, ho, Or.inr rfl⟩, rfl⟩
    · intro w hw hk
      obtain ⟨c2, hc2, j2, hj2, _, _, h | h⟩ := (convert_writes_mem self P w).mp hw
      · rw [h] at hk
        exact absurd hk (hdofs c2 hc2 cell hc j2 j hj2 hj).1
      · rw [h] at hk ⊢
        have hd := hdofs c2 hc2 cell hc j2 j hj2 hj
        have hp := hd.2.1.mpr hk
        rw [hP c2 hc2 cell hc j2 j hj2 hj hp hk (hd.2.2 hp)]

/-- The pair written by `convert_pressure_blocks` depends on the cell and the
degree of freedom only through the two indices and the porosity. -/
theorem converted_pressures_congr {R : Type} [LinearOrderedField R]
    (self : PressureConversion R) (input_solution : LinearAlgebra.BlockVector R)
    (solid_to_fluid_pressure : Bool) (c1 c2 : MeltCell R) (j1 j2 : ℕ)
    (h1 : c1.pressure_dof_index j1 = c2.pressure_dof_index j2)
    (h2 : c1.p_c_dof_index j1 = c2.p_c_dof_index j2)
    (h3 : c1.porosity_values j1 = c2.porosity_values j2) :
    Simulator.converted_pressures self input_solution solid_to_fluid_pressure c1 j1
      = Simulator.converted_pressures self input_solution solid_to_fluid_pressure c2 j2 := by
  unfold Simulator.converted_pressures
  rw [h1, h2, h3]

/-- C30: `Simulator::convert_pressure_blocks` of helper_functions.cc. With melt
transport disabled the function returns `output_solution` as it is. With melt
transport enabled (and, in a debug build, without a locally conservative
discretization, as asserted), when the pressure and the compaction pressure
indices are different indices that are paired consistently over the cells and
the porosity at a degree of freedom is the same in all cells that share it:
the conversion of `input_solution` with `solid_to_fluid_pressure == true`
returns a vector whose conversion with `solid_to_fluid_pressure == false`
returns a vector that has, at every pressure degree of freedom visited by the
loops whose porosity `phi` satisfies `0 < phi <= 1 - melt_transport_threshold`
and `phi < 1`, the entries of `input_solution` at the pressure index and at
the compaction pressure index: the original `(p_s, p_f)`. -/
theorem Simulator_convert_pressure_blocks_round_trip {R : Type} [LinearOrderedField R]
    (debug : Bool) (self : PressureConversion R)
    (input_solution output_solution output_solution2 : LinearAlgebra.BlockVector R) :
    (self.include_melt_transport = false →
      ∀ solid_to_fluid_pressure : Bool,
        Simulator.convert_pressure_blocks debug self input_solution solid_to_fluid_pressure
          output_solution = Except.ok output_solution)
    ∧ (self.include_melt_transport = true →
      (debug = true → self.use_locally_conservative_discretization = false) →
      (∀ c1 ∈ self.cells, ∀ c2 ∈ self.cells, ∀ j1 j2,
        j1 < self.dofs_per_cell → j2 < self.dofs_per_cell →
        c1.pressure_dof_index j1 ≠ c2.p_c_dof_index j2
        ∧ (c1.pressure_dof_index j1 = c2.pressure_dof_index j2
            ↔ c1.p_c_dof_index j1 = c2.p_c_dof_index j2)
        ∧ (c1.pressure_dof_index j1 = c2.pressure_dof_index j2 →
            c1.porosity_values j1 = c2.porosity_values j2)) →
      ∃ fluid back : LinearAlgebra.BlockVector R,
        Simulator.convert_pressure_blocks debug self input_solution true output_solution
          = Except.ok fluid
        ∧ Simulator.convert_pressure_blocks debug self fluid false output_solution2
          = Except.ok back
        ∧ ∀ cell ∈ self.cells, ∀ j, j < self.dofs_per_cell →
            cell.subdomain_id < self.n_mpi_processes →
            cell.pressure_dof_index j ∈ self.locally_owned_dofs cell.subdomain_id →
            0 < cell.porosity_values j →
            cell.porosity_values j ≤ 1 - self.melt_transport_threshold →
            cell.porosity_values j < 1 →
            (fluid.values (cell.pressure_dof_index j)
                = input_solution.values (cell.p_c_dof_index j)
              ∧ fluid.values (cell.p_c_dof_index j)
                = (1 - cell.porosity_values j)
                  * (input_solution.values (cell.pressure_dof_index j)
                    - input_solution.values (cell.p_c_dof_index j)))
            ∧ back.values (cell.pressure_dof_index j)
                = input_solution.values (cell.pressure_dof_index j)
            ∧ back.values (cell.p_c_dof_index j)
                = input_solution.values (cell.p_c_dof_index j)) := by
  constructor
  · intro hm s
    unfold Simulator.convert_pressure_blocks
    rw [if_pos hm]
  · intro hm hassert hdofs
    have hm2 : ¬ (self.include_melt_transport = false) := by
      rw [hm]; exact Bool.noConfusion
    have hd : ¬ (debug = true ∧ ¬ (self.use_locally_conservative_discretization = false)) :=
      fun h => h.2 (hassert h.1)
    have hconv : ∀ (inp out : LinearAlgebra.BlockVector R) (s : Bool),
        Simulator.convert_pressure_blocks debug self inp s out
          = Except.ok (((List.range self.n_mpi_processes).flatMap (fun rank =>
              self.cells.flatMap (fun cell =>
                if cell.subdomain_id = rank then
                  (List.range self.dofs_per_cell).flatMap (fun j =>
                    if ¬ (cell.pressure_dof_index j ∈ self.locally_owned_dofs rank) then []
                    else [(cell.pressure_dof_index j,
                        (Simulator.converted_pressures self inp s cell j).1),
                      (cell.p_c_dof_index j,
                        (Simulator.converted_pressures self inp s cell j).2)])
                else []))).foldl (fun v w => v.set w.1 w.2)
              (out.block_assign self.block_indices_pressure inp)) := by
      intro inp out s
      unfold Simulator.convert_pressure_blocks
      simp only [if_neg hm2, if_neg hd]
      rw [convert_loops_eq_writes self (Simulator.converted_pressures self inp s)]
    have hex : ∃ fluid : LinearAlgebra.BlockVector R,
        Simulator.convert_pressure_blocks debug self input_solution true output_solution
          = Except.ok fluid
        ∧ ∀ cell ∈ self.cells, ∀ j, j < self.dofs_per_cell →
            cell.subdomain_id < self.n_mpi_processes →
            cell.pressure_dof_index j ∈ self.locally_owned_dofs cell.subdomain_id →
            fluid.values (cell.pressure_dof_index j)
                = input_solution.values (cell.p_c_dof_index j)
              ∧ fluid.values (cell.p_c_dof_index j)
                = (1 - cell.porosity_values j)
                  * (input_solution.values (cell.pressure_dof_index j)
                    - input_solution.values (cell.p_c_dof_index j)) := by
      refine ⟨_, hconv input_solution output_solution true, ?_⟩
      intro cell hc j hj hr ho
      have hv1 := convert_writes_values self
        (Simulator.converted_pressures self input_solution true)
        (output_solution.block_assign self.block_indices_pressure input_solution)
        (fun c1 _ c2 _ j1 j2 _ _ h1 h2 h3 =>
          converted_pressures_congr self input_solution true c1 c2 j1 j2 h1 h2 h3)
        hdofs cell hc j hj hr ho
      have hf1 : (Simulator.converted_pressures self input_solution true cell j).1
          = input_solution.values (cell.p_c_dof_index j) := by
        unfold Simulator.converted_pressures
        simp
      have hf2 : (Simulator.converted_pressures self input_solution true cell j).2
          = (1 - cell.porosity_values j)
              * (input_solution.values (cell.pressure_dof_index j)
                - input_solution.values (cell.p_c_dof_index j)) := by
        unfold Simulator.converted_pressures
        simp
      rw [hf1, hf2] at hv1
      exact hv1
    obtain ⟨fluid, hfl, hfv⟩ := hex
    refine ⟨fluid, _, hfl, hconv fluid output_solution2 false, ?_⟩
    intro cell hc j hj hr ho hpos hthr hlt
    have hv1 := hfv cell hc j hj hr ho
    refine ⟨hv1, ?_⟩
    have hv2 := convert_writes_values self
      (Simulator.converted_pressures self fluid false)
      (output_solution2.block_assign self.block_indices_pressure fluid)
      (fun c1 _ c2 _ j1 j2 _ _ h1 h2 h3 =>
        converted_pressures_congr self fluid false c1 c2 j1 j2 h1 h2 h3)
      hdofs cell hc j hj hr ho
    rw [hv2.1, hv2.2]
    unfold Simulator.converted_pressures
    have hnot : ¬ (cell.porosity_values j > 1 - self.melt_transport_threshold
        ∨ cell.porosity_values j ≤ 0) := by
      rintro (h | h)
      · exact absurd hthr (not_le.mpr h)
      · exact absurd hpos (not_lt.mpr h)
    have hne : (1 - cell.porosity_values j) ≠ 0 := by
      intro h
      have : cell.porosity_values j = 1 := by linarith
      exact absurd this hlt.ne
    simp only [Bool.false_eq_true, if_false, if_neg hnot]
    rw [hv1.1, hv1.2]
    refine ⟨?_, rfl⟩
    field_simp
    ring

/-- Witness of C30: one cell with the pressure index 1, the compaction pressure
index 2 and the porosity 1/2, in a debug build: `(p_s, p_f) = (3, 1)` is
converted to `(p_f, p_c) = (1, 1)` and back to `(3, 1)`. -/
theorem Simulator_convert_pressure_blocks_round_trip_witness :
    ∃ fluid back : LinearAlgebra.BlockVector ℚ,
      Simulator.convert_pressure_blocks true Examples.conversion Examples.melt_vector true
        Examples.melt_vector = Except.ok fluid
      ∧ Simulator.convert_pressure_blocks true Examples.conversion fluid false
        Examples.melt_vector = Except.ok back
      ∧ (fluid.values 1 = 1 ∧ fluid.values 2 = 1)
      ∧ back.values 1 = 3 ∧ back.values 2 = 1 := by
  obtain ⟨fluid, back, h1, h2, h3⟩ :=
    (Simulator_convert_pressure_blocks_round_trip true Examples.conversion
      Examples.melt_vector Examples.melt_vector Examples.melt_vector).2 rfl (fun _ => rfl)
      (by
        intro c1 h1 c2 h2 j1 j2 _ _
        simp only [Examples.conversion, List.mem_singleton] at h1 h2
        subst h1
        subst h2
        simp)
  have h := h3 _ (List.mem_singleton.mpr rfl) 0 (by decide) (by decide) (by decide)
    (by norm_num [Examples.conversion]) (by norm_num [Examples.conversion])
    (by norm_num [Examples.conversion])
  refine ⟨fluid, back, h1, h2, ?_, ?_, ?_⟩
  · have h4 := h.1
    simp only [Examples.conversion, Examples.melt_vector] at h4
    norm_num at h4
    exact h4
  · exact h.2.1.trans rfl
  · exact h.2.2.trans rfl

end aspect
